import Mathlib

/-!
# WISE FWI module: shallow embedding and checked properties

The numeric engine of `src/cpp/fwi.cpp` and the adapter of
`src/cpp/CWFGM_FWI.cpp`, embedded in Lean.

Conventions of the embedding
* a C++ `double` is a real number (`ℝ`): the embedding describes the
  arithmetic the formulas denote, without rounding, NaN or infinities;
  `exp`, `log`, `pow`, `sqrt`, `floor`, `fabs` are `Real.exp`, `Real.log`,
  real powers, `Real.sqrt`, `Int.floor` and the absolute value;
* a `WTimeSpan` is its total number of seconds, an integer;
* an output parameter `double *p` is an `Option ℝ`: `none` is the null
  pointer, `some v` a destination that currently holds `v`;
* a read outside a row of a table is `none` (the C++ behaviour is undefined
  there), and it makes the routine that reads `none`; the Lawson routines
  have a second embedding on the tables as stored, row after row, in which
  such a read is the read of the place it addresses.
-/

noncomputable section

namespace WISE

/-! ## Time spans (`WTimeSpan` of the external `WTime.h`) -/

/-- A `WTimeSpan`, held as its total number of seconds (the adapter builds
every span from a whole number of seconds). The class itself lives in the
external times library; its accessors below follow the usual `CTimeSpan`
contract the callers in `fwi.cpp` rely on. -/
abbrev WTimeSpan := ℤ

/-- The constructor `WTimeSpan(days, hours, minutes, seconds)`. -/
def WTimeSpan.mk4 (days hours mins secs : ℤ) : WTimeSpan :=
  days * 86400 + hours * 3600 + mins * 60 + secs

/-- The accessor `GetTotalSeconds()`. -/
def GetTotalSeconds (ts : WTimeSpan) : ℤ := ts

/-- The accessor `GetHours()`: the hour component, with C++ truncating division. -/
def GetHours (ts : WTimeSpan) : ℤ := (Int.tdiv ts 3600).tmod 24

/-- The accessor `GetMinutes()`: the minute component, with C++ truncating division. -/
def GetMinutes (ts : WTimeSpan) : ℤ := (Int.tdiv ts 60).tmod 60

/-- The mutator `PurgeToHour()`: drops minutes and seconds. -/
def PurgeToHour (ts : WTimeSpan) : WTimeSpan := ts - Int.tmod ts 3600

/-! ## Forward Van Wagner FFMC (`fwi.cpp`, lines 32-120) -/

/-- The constant `TOLERANCE` of `fwi.cpp`. -/
def TOLERANCE : ℝ := 0.0000001

/-- The time-discretisation constant chosen at the top of
`calc_subdaily_ffmc_vanwagner` and of `calc_ff`. -/
def factor (ts : WTimeSpan) : ℝ :=
  let hour_frac : ℝ := ((GetTotalSeconds ts : ℤ) : ℝ) / 60 / 60
  let hour_frac2 : ℝ := hour_frac - ((⌊hour_frac⌋ : ℤ) : ℝ)
  if hour_frac2 > 1e-4 then 147.27723 else 147.2

/-- Drying equilibrium moisture, equation 8a, on the percent humidity `rhp`. -/
def calc_ed (rhp temperature : ℝ) : ℝ :=
  0.942 * rhp ^ (0.679 : ℝ)
    + (11 * Real.exp ((rhp - 100) / 10))
    + 0.18 * (21.1 - temperature) * (1 - Real.exp (-0.115 * rhp))

/-- Wetting equilibrium moisture, equation 8b, on the percent humidity `rhp`. -/
def calc_ew (rhp temperature : ℝ) : ℝ :=
  0.618 * rhp ^ (0.753 : ℝ)
    + (10 * Real.exp ((rhp - 100) / 10))
    + 0.18 * (21.1 - temperature) * (1 - Real.exp (-0.115 * rhp))

/-- The forward sub-daily step `calc_subdaily_ffmc_vanwagner` of `fwi.cpp`. -/
def calc_subdaily_ffmc_vanwagner (ts : WTimeSpan) (in_ffmc rain temperature rh ws : ℝ) : ℝ :=
  if in_ffmc < 0 ∨ in_ffmc > 101 ∨ rain < 0 ∨ rain > 300 then -98
  else
    let temperature : ℝ :=
      if temperature < -50 then -50 else if temperature > 60 then 60 else temperature
    let rh : ℝ := if rh < 0 then 0 else if rh > 1 then 1 else rh
    let ws : ℝ := if ws > 200 then 200 else if ws < 0 then 0 else ws
    let hour_frac : ℝ := ((GetTotalSeconds ts : ℤ) : ℝ) / 60 / 60
    let factor : ℝ := factor ts
    let rhp : ℝ := rh * 100
    let mo0 : ℝ := factor * (101 - in_ffmc) / (59.5 + in_ffmc)
    let mo1 : ℝ :=
      if rain ≠ 0 then
        mo0 + rain * 42.5 * Real.exp (-100 / (251 - mo0)) * (1 - Real.exp (-6.93 / rain))
      else mo0
    let mo : ℝ := if mo1 > 250 then 250 else mo1
    let ed : ℝ := calc_ed rhp temperature
    let moed : ℝ := mo - ed
    let ew : ℝ := calc_ew rhp temperature
    let moew : ℝ := mo - ew
    let xm : ℝ :=
      if moed = 0 ∨ (moew ≥ 0 ∧ moed < 0) then mo
      else
        let a1 : ℝ := if moed > 0 then rh else 1 - rh
        let e : ℝ := if moed > 0 then ed else ew
        let moe : ℝ := if moed > 0 then moed else moew
        let xkd0 : ℝ :=
          0.424 * (1 - a1 ^ (1.7 : ℝ)) + (0.0694 * Real.sqrt ws * (1 - a1 ^ (8 : ℝ)))
        let xkd : ℝ := xkd0 * 0.0579 * Real.exp (0.0365 * temperature)
        e + moe * (10 : ℝ) ^ (-xkd * hour_frac)
    let c_f : ℝ := 59.5 * (250 - xm) / (factor + xm)
    if c_f > 101 then 101 else if c_f < 0 then 0 else c_f

/-! ## Backward Van Wagner FFMC (`fwi.cpp`, lines 129-189) -/

/-- The `while (diff_mc > TOLERANCE)` loop of
`calc_previous_hourly_ffmc_vanwagner`, from the loop head in the state
`(in_ffmc, out_ffmc, diff_mc)`. The source loop has no iteration bound, so the
embedding counts iterations: `fuel` is the number of loop bodies that may
still run, and `none` means the loop is still running when they are used up. -/
def previous_loop (current_ffmc rain temperature rh ws : ℝ) :
    ℕ → ℝ → ℝ → ℝ → Option ℝ
  | fuel, in_ffmc, out_ffmc, diff_mc =>
    if diff_mc > TOLERANCE then
      match fuel with
      | 0 => none
      | fuel + 1 =>
        let in_ffmc : ℝ :=
          if out_ffmc > current_ffmc then in_ffmc - diff_mc / 2 else in_ffmc + diff_mc / 2
        let out_ffmc_prior : ℝ := out_ffmc
        let out_ffmc : ℝ :=
          calc_subdaily_ffmc_vanwagner (WTimeSpan.mk4 0 1 0 0) in_ffmc rain temperature rh ws
        let diff_mc : ℝ := |out_ffmc - current_ffmc|
        if out_ffmc < 0 ∨ out_ffmc > 101 then some current_ffmc
        else if |out_ffmc - out_ffmc_prior| < TOLERANCE then some in_ffmc
        else previous_loop current_ffmc rain temperature rh ws fuel in_ffmc out_ffmc diff_mc
    else some in_ffmc

/-- The inversion `calc_previous_hourly_ffmc_vanwagner` of `fwi.cpp`, with the
iteration count `fuel` of `previous_loop`. -/
def calc_previous_hourly_ffmc_vanwagner (fuel : ℕ)
    (current_ffmc rain temperature rh ws : ℝ) : Option ℝ :=
  if current_ffmc < 0 ∨ current_ffmc > 101 ∨ rain < 0 ∨ rain > 300 then some (-98)
  else
    let temperature : ℝ :=
      if temperature < -50 then -50 else if temperature > 60 then 60 else temperature
    let rh : ℝ := if rh < 0 then 0 else if rh > 1 then 1 else rh
    let ws : ℝ := if ws > 200 then 200 else if ws < 0 then 0 else ws
    let in_ffmc : ℝ := current_ffmc
    let out_ffmc : ℝ :=
      calc_subdaily_ffmc_vanwagner (WTimeSpan.mk4 0 1 0 0) in_ffmc rain temperature rh ws
    let diff_mc : ℝ := |out_ffmc - current_ffmc|
    previous_loop current_ffmc rain temperature rh ws fuel in_ffmc out_ffmc diff_mc

/-! ## Daily Van Wagner FFMC (`fwi.cpp`, lines 192-261) -/

/-- The daily step `calc_daily_ffmc_vanwagner` of `fwi.cpp`. -/
def calc_daily_ffmc_vanwagner (in_ffmc rain temperature rh ws : ℝ) : ℝ :=
  if in_ffmc < 0 ∨ in_ffmc > 101 ∨ rain < 0 ∨ rain > 600 then -98
  else
    let temperature : ℝ :=
      if temperature < -50 then -50 else if temperature > 60 then 60 else temperature
    let rh : ℝ := if rh < 0 then 0 else if rh > 1 then 1 else rh
    let ws : ℝ := if ws > 200 then 200 else if ws < 0 then 0 else ws
    let rhp : ℝ := rh * 100
    let fo : ℝ := in_ffmc
    let wmo0 : ℝ := (147.2 * (101 - fo)) / (59.5 + fo)
    let wmo1 : ℝ :=
      if rain > 0.5 then
        let rf : ℝ := rain - 0.5
        if wmo0 > 150 then
          let tmp : ℝ := wmo0 - 150
          let tmp : ℝ := tmp * tmp
          wmo0 + 42.5 * rf * (Real.exp (-100 / (251 - wmo0))) * (1 - Real.exp (-6.93 / rf))
            + 0.0015 * tmp * Real.sqrt rf
        else
          wmo0 + 42.5 * rf * (Real.exp (-100 / (251 - wmo0))) * (1 - Real.exp (-6.93 / rf))
      else wmo0
    let wmo : ℝ := if wmo1 > 250 then 250 else wmo1
    let ed : ℝ := calc_ed rhp temperature
    let ew : ℝ := calc_ew rhp temperature
    let wm : ℝ :=
      if wmo < ed ∧ wmo < ew then
        let k1 : ℝ :=
          0.424 * (1 - ((100 - rhp) / 100) ^ (1.7 : ℝ))
            + 0.0694 * Real.sqrt ws * (1 - (1 - rh) ^ (8 : ℝ))
        let kw : ℝ := k1 * 0.581 * Real.exp (0.0365 * temperature)
        ew - (ew - wmo) / (10 : ℝ) ^ kw
      else if wmo > ed then
        let ko : ℝ :=
          0.424 * (1 - rh ^ (1.7 : ℝ)) + 0.0694 * Real.sqrt ws * (1 - rh ^ (8 : ℝ))
        let kd : ℝ := ko * 0.581 * Real.exp (0.0365 * temperature)
        ed + (wmo - ed) / (10 : ℝ) ^ kd
      else wmo
    let c_f : ℝ := 59.5 * (250 - wm) / (147.2 + wm)
    if c_f > 101 then 101 else if c_f < 0 then 0 else c_f

/-! ## Lawson table data (`fwi.cpp`, lines 282-354) -/

/-- Morning table for low relative humidity, `L` of `fwi.cpp`: row 0 is the FFMC axis, column 0 the time of day. -/
def L : List (List ℚ) := [
  [9999, 17.5, 30.0, 40.0, 50.0, 55.0, 60.0, 65.0, 70.0, 72.0, 74.0, 75.0, 76.0, 77.0, 78.0, 79.0, 80.0, 81.0, 82.0, 83.0, 84.0, 85.0, 86.0, 87.0, 88.0, 89.0, 90.0, 91.0, 92.0, 93.0, 94.0, 95.0, 96.0, 97.0, 98.0, 99.0, 100.0, 100.9, 101.0],
  [600, 48.3, 49.4, 51.1, 53.5, 55.1, 56.9, 59.1, 61.7, 62.9, 64.1, 64.8, 65.5, 66.2, 66.9, 67.7, 68.5, 69.4, 70.2, 71.1, 72.1, 73.1, 74.1, 75.2, 76.3, 77.5, 78.7, 80.0, 81.3, 82.7, 84.1, 85.7, 87.2, 88.8, 90.4, 91.9, 93.2, 93.8, 93.8],
  [700, 50.7, 52.1, 53.9, 56.3, 57.9, 59.7, 61.8, 64.3, 65.4, 66.6, 67.2, 67.9, 68.6, 69.3, 70.0, 70.7, 71.5, 72.3, 73.2, 74.0, 75.0, 75.9, 76.9, 77.9, 79.0, 80.2, 81.4, 82.6, 83.9, 85.2, 86.6, 88.1, 89.6, 91.1, 92.6, 93.9, 94.5, 94.5],
  [800, 53.3, 54.9, 56.8, 59.3, 60.9, 62.6, 64.7, 67.0, 68.1, 69.2, 69.8, 70.4, 71.0, 71.6, 72.3, 73.0, 73.7, 74.5, 75.3, 76.1, 76.9, 77.8, 78.7, 79.7, 80.6, 81.7, 82.8, 83.9, 85.1, 86.3, 87.7, 89.0, 90.4, 91.9, 93.3, 94.6, 95.3, 95.3],
  [900, 59.6, 60.7, 62.2, 64.4, 65.7, 67.3, 69.1, 71.2, 72.1, 73.2, 73.7, 74.2, 74.8, 75.4, 76.0, 76.7, 77.3, 78.0, 78.7, 79.5, 80.3, 81.1, 81.9, 82.8, 83.7, 84.7, 85.7, 86.7, 87.8, 89.0, 90.1, 91.4, 92.6, 93.9, 95.2, 96.3, 96.8, 96.8],
  [1000, 66.8, 67.2, 68.2, 69.9, 70.9, 72.2, 73.8, 75.6, 76.5, 77.4, 77.9, 78.4, 78.9, 79.4, 80.0, 80.5, 81.1, 81.8, 82.4, 83.1, 83.8, 84.5, 85.3, 86.1, 86.9, 87.8, 88.7, 89.7, 90.6, 91.7, 92.7, 93.8, 94.9, 96.0, 97.1, 97.9, 98.4, 98.4],
  [1100, 74.5, 74.5, 74.9, 75.9, 76.6, 77.6, 78.8, 80.3, 81.0, 81.9, 82.4, 83.0, 83.6, 84.1, 84.7, 85.2, 85.8, 86.3, 86.9, 87.4, 88.0, 88.5, 89.0, 89.6, 90.1, 90.6, 91.1, 91.6, 92.1, 92.6, 93.1, 93.8, 94.9, 96.0, 97.1, 97.9, 98.4, 98.4],
  [1159, 83.0, 82.5, 82.3, 82.4, 82.7, 83.2, 84.1, 85.2, 85.8, 86.5, 86.8, 87.2, 87.6, 87.9, 88.2, 88.6, 88.9, 89.2, 89.6, 89.9, 90.2, 90.5, 90.9, 91.2, 91.5, 91.8, 92.1, 92.4, 92.7, 93.0, 93.3, 93.8, 94.9, 96.0, 97.1, 97.9, 98.4, 98.4],
  [1200, 83.0, 82.5, 82.3, 82.4, 82.7, 83.2, 84.1, 85.2, 85.8, 86.5, 86.8, 87.2, 87.6, 87.9, 88.2, 88.6, 88.9, 89.2, 89.6, 89.9, 90.2, 90.5, 90.9, 91.2, 91.5, 91.8, 92.1, 92.4, 92.7, 93.0, 93.3, 93.8, 94.9, 96.0, 97.1, 97.9, 98.4, 98.4]
]

/-- Morning table for medium relative humidity, `M` of `fwi.cpp`. -/
def M : List (List ℚ) := [
  [9999, 17.5, 30.0, 40.0, 50.0, 55.0, 60.0, 65.0, 70.0, 72.0, 74.0, 75.0, 76.0, 77.0, 78.0, 79.0, 80.0, 81.0, 82.0, 83.0, 84.0, 85.0, 86.0, 87.0, 88.0, 89.0, 90.0, 91.0, 92.0, 93.0, 94.0, 95.0, 96.0, 97.0, 98.0, 99.0, 100.0, 100.9, 101.0],
  [600, 34.8, 39.2, 43.2, 47.6, 50.0, 52.6, 55.4, 58.4, 59.7, 61.1, 61.8, 62.5, 63.3, 64.0, 64.8, 65.6, 66.4, 67.2, 68.1, 68.9, 69.8, 70.8, 71.7, 72.7, 73.8, 74.8, 75.9, 77.1, 78.3, 79.5, 80.8, 82.2, 83.6, 85.0, 86.5, 88.0, 89.1, 89.1],
  [700, 36.3, 40.5, 44.3, 48.7, 51.2, 53.8, 56.7, 59.9, 61.3, 62.7, 63.4, 64.2, 64.9, 65.7, 66.5, 67.4, 68.2, 69.1, 70.0, 70.9, 71.9, 72.8, 73.9, 74.9, 75.9, 77.0, 78.2, 79.3, 80.5, 81.8, 83.1, 84.4, 85.7, 87.0, 88.3, 89.5, 90.2, 90.2],
  [800, 37.8, 41.7, 45.5, 49.8, 52.3, 55.1, 58.1, 61.4, 62.8, 64.3, 65.1, 65.9, 66.7, 67.5, 68.4, 69.3, 70.1, 71.1, 72.0, 73.0, 74.0, 75.0, 76.0, 77.1, 78.2, 79.3, 80.5, 81.7, 82.9, 84.1, 85.4, 86.6, 87.9, 89.1, 90.2, 91.2, 91.6, 91.6],
  [900, 44.6, 48.2, 51.6, 55.6, 57.8, 60.3, 63.0, 66.0, 67.3, 68.6, 69.3, 70.1, 70.8, 71.6, 72.3, 73.1, 73.9, 74.8, 75.6, 76.5, 77.4, 78.3, 79.3, 80.3, 81.3, 82.3, 83.4, 84.5, 85.7, 86.8, 88.0, 89.2, 90.5, 91.7, 92.8, 93.8, 94.4, 94.4],
  [1000, 52.5, 55.5, 58.5, 61.9, 63.9, 66.0, 68.4, 71.0, 72.1, 73.3, 73.9, 74.5, 75.2, 75.9, 76.5, 77.2, 77.9, 78.7, 79.4, 80.2, 81.0, 81.9, 82.7, 83.6, 84.5, 85.5, 86.5, 87.5, 88.5, 89.6, 90.8, 91.9, 93.1, 94.3, 95.5, 96.7, 97.3, 97.3],
  [1100, 61.6, 64.0, 66.3, 69.0, 70.6, 72.3, 74.2, 76.4, 77.3, 78.3, 79.0, 79.6, 80.3, 80.9, 81.5, 82.2, 82.8, 83.4, 84.0, 84.6, 85.3, 85.9, 86.5, 87.1, 87.7, 88.3, 88.9, 89.4, 90.0, 90.6, 91.2, 91.9, 93.1, 94.3, 95.5, 96.7, 97.3, 97.3],
  [1159, 72.1, 73.5, 75.0, 76.9, 77.9, 79.2, 80.6, 82.2, 82.9, 83.6, 84.0, 84.4, 84.8, 85.2, 85.6, 86.0, 86.4, 86.7, 87.1, 87.5, 87.9, 88.2, 88.6, 88.9, 89.3, 89.7, 90.0, 90.3, 90.7, 91.0, 91.4, 91.9, 93.1, 94.3, 95.5, 96.7, 97.3, 97.3],
  [1200, 72.1, 73.5, 75.0, 76.9, 77.9, 79.2, 80.6, 82.2, 82.9, 83.6, 84.0, 84.4, 84.8, 85.2, 85.6, 86.0, 86.4, 86.7, 87.1, 87.5, 87.9, 88.2, 88.6, 88.9, 89.3, 89.7, 90.0, 90.3, 90.7, 91.0, 91.4, 91.9, 93.1, 94.3, 95.5, 96.7, 97.3, 97.3]
]

/-- Morning table for high relative humidity, `H` of `fwi.cpp`. -/
def H : List (List ℚ) := [
  [9999, 17.5, 30.0, 40.0, 50.0, 55.0, 60.0, 65.0, 70.0, 72.0, 74.0, 75.0, 76.0, 77.0, 78.0, 79.0, 80.0, 81.0, 82.0, 83.0, 84.0, 85.0, 86.0, 87.0, 88.0, 89.0, 90.0, 91.0, 92.0, 93.0, 94.0, 95.0, 96.0, 97.0, 98.0, 99.0, 100.0, 100.9, 101.0],
  [600, 28.2, 33.4, 37.9, 42.9, 45.6, 48.5, 51.7, 55.1, 56.5, 58.0, 58.8, 59.5, 60.3, 61.2, 62.0, 62.9, 63.7, 64.6, 65.5, 66.5, 67.4, 68.4, 69.4, 70.5, 71.6, 72.7, 73.8, 75.0, 76.2, 77.4, 78.7, 80.0, 81.4, 82.7, 84.1, 85.4, 86.3, 86.3],
  [700, 30.0, 34.8, 39.0, 43.8, 46.5, 49.4, 52.5, 55.9, 57.3, 58.8, 59.6, 60.4, 61.2, 62.1, 62.9, 63.8, 64.7, 65.7, 66.6, 67.6, 68.6, 69.6, 70.7, 71.8, 72.9, 74.1, 75.3, 76.5, 77.8, 79.1, 80.5, 81.9, 83.3, 84.8, 86.2, 87.6, 88.4, 88.4],
  [800, 31.9, 36.2, 40.2, 44.8, 47.4, 50.2, 53.3, 56.7, 58.2, 59.7, 60.5, 61.3, 62.2, 63.0, 63.9, 64.8, 65.7, 66.7, 67.7, 68.7, 69.8, 70.8, 71.9, 73.1, 74.3, 75.5, 76.8, 78.1, 79.4, 80.8, 82.3, 83.8, 85.3, 86.9, 88.4, 89.8, 90.6, 90.6],
  [900, 37.7, 42.1, 46.1, 50.5, 52.9, 55.5, 58.4, 61.5, 62.8, 64.2, 64.9, 65.6, 66.4, 67.1, 67.9, 68.7, 69.5, 70.4, 71.3, 72.1, 73.1, 74.0, 75.0, 76.0, 77.0, 78.1, 79.2, 80.3, 81.5, 82.7, 84.0, 85.3, 86.7, 88.1, 89.5, 90.8, 91.7, 91.7],
  [1000, 44.4, 48.9, 52.7, 56.8, 59.1, 61.4, 63.9, 66.7, 67.8, 69.0, 69.6, 70.2, 70.9, 71.5, 72.2, 72.9, 73.6, 74.3, 75.0, 75.8, 76.6, 77.3, 78.2, 79.0, 79.9, 80.8, 81.7, 82.6, 83.6, 84.7, 85.8, 86.9, 88.0, 89.3, 90.5, 91.8, 92.8, 92.8],
  [1100, 52.1, 56.5, 60.2, 63.9, 65.9, 67.9, 70.1, 72.3, 73.3, 74.3, 74.9, 75.5, 76.1, 76.6, 77.2, 77.8, 78.4, 79.0, 79.5, 80.1, 80.7, 81.2, 81.8, 82.4, 82.9, 83.5, 84.0, 84.6, 85.1, 85.6, 86.2, 86.9, 88.0, 89.3, 90.5, 91.8, 92.8, 92.8],
  [1159, 60.9, 65.2, 68.6, 71.8, 73.5, 75.1, 76.7, 78.4, 79.1, 79.8, 80.2, 80.5, 80.8, 81.2, 81.5, 81.8, 82.1, 82.5, 82.8, 83.1, 83.4, 83.7, 84.0, 84.3, 84.6, 84.9, 85.2, 85.5, 85.8, 86.1, 86.4, 86.9, 88.0, 89.3, 90.5, 91.8, 92.8, 92.8],
  [1200, 60.9, 65.2, 68.6, 71.8, 73.5, 75.1, 76.7, 78.4, 79.1, 79.8, 80.2, 80.5, 80.8, 81.2, 81.5, 81.8, 82.1, 82.5, 82.8, 83.1, 83.4, 83.7, 84.0, 84.3, 84.6, 84.9, 85.2, 85.5, 85.8, 86.1, 86.4, 86.9, 88.0, 89.3, 90.5, 91.8, 92.8, 92.8]
]

/-- Table for the hours outside the morning window, `MAIN` of `fwi.cpp`. -/
def MAIN : List (List ℚ) := [
  [9999, 17.5, 30.0, 40.0, 50.0, 55.0, 60.0, 65.0, 70.0, 72.0, 74.0, 75.0, 76.0, 77.0, 78.0, 79.0, 80.0, 81.0, 82.0, 83.0, 84.0, 85.0, 86.0, 87.0, 88.0, 89.0, 90.0, 91.0, 92.0, 93.0, 94.0, 95.0, 96.0, 97.0, 98.0, 99.0, 100.0, 100.9, 101.0],
  [100, 23.4, 32.9, 40.5, 47.8, 51.4, 54.9, 58.3, 61.8, 63.3, 64.8, 65.5, 66.3, 67.1, 67.9, 68.8, 69.6, 70.5, 71.4, 72.3, 73.2, 74.1, 75.1, 76.1, 77.1, 78.1, 79.1, 80.2, 81.3, 82.4, 83.5, 84.7, 85.9, 87.1, 88.3, 89.5, 90.7, 91.6, 91.6],
  [200, 24.3, 33.0, 39.9, 46.8, 50.2, 53.6, 56.9, 60.4, 61.8, 63.4, 64.1, 64.9, 65.7, 66.5, 67.4, 68.2, 69.1, 70.0, 70.9, 71.8, 72.7, 73.7, 74.7, 75.7, 76.7, 77.8, 78.9, 80.0, 81.1, 82.3, 83.4, 84.7, 85.9, 87.2, 88.4, 89.6, 90.5, 90.5],
  [300, 25.2, 33.1, 39.4, 45.8, 49.0, 52.3, 55.6, 59.0, 60.5, 62.0, 62.7, 63.5, 64.3, 65.1, 66.0, 66.8, 67.7, 68.6, 69.5, 70.4, 71.4, 72.3, 73.3, 74.4, 75.4, 76.5, 77.6, 78.7, 79.8, 81.0, 82.2, 83.5, 84.7, 86.0, 87.3, 88.5, 89.4, 89.4],
  [400, 26.2, 33.2, 38.9, 44.8, 47.9, 51.0, 54.3, 57.7, 59.1, 60.6, 61.4, 62.2, 63.0, 63.8, 64.6, 65.5, 66.3, 67.2, 68.1, 69.1, 70.0, 71.0, 72.0, 73.0, 74.1, 75.2, 76.3, 77.4, 78.6, 79.8, 81.0, 82.3, 83.6, 84.9, 86.2, 87.5, 88.4, 88.4],
  [500, 27.2, 33.3, 38.4, 43.9, 46.7, 49.8, 52.9, 56.4, 57.8, 59.3, 60.1, 60.8, 61.6, 62.5, 63.3, 64.2, 65.0, 65.9, 66.8, 67.8, 68.7, 69.7, 70.7, 71.7, 72.8, 73.9, 75.0, 76.2, 77.4, 78.6, 79.8, 81.1, 82.5, 83.8, 85.2, 86.4, 87.3, 87.3],
  [559, 28.2, 33.4, 37.9, 42.9, 45.7, 48.6, 51.7, 55.1, 56.5, 58.0, 58.8, 59.6, 60.4, 61.2, 62.0, 62.9, 63.8, 64.6, 65.6, 66.5, 67.5, 68.4, 69.5, 70.5, 71.6, 72.7, 73.8, 75.0, 76.2, 77.4, 78.7, 80.0, 81.4, 82.7, 84.1, 85.4, 86.3, 86.3],
  [600, 28.2, 33.4, 37.9, 42.9, 45.7, 48.6, 51.7, 55.1, 56.5, 58.0, 58.8, 59.6, 60.4, 61.2, 62.0, 62.9, 63.8, 64.6, 65.6, 66.5, 67.5, 68.4, 69.5, 70.5, 71.6, 72.7, 73.8, 75.0, 76.2, 77.4, 78.7, 80.0, 81.4, 82.7, 84.1, 85.4, 86.3, 86.3],
  [1200, 17.5, 27.7, 34.4, 40.9, 44.5, 48.2, 52.5, 57.3, 59.4, 61.7, 62.9, 64.2, 65.5, 66.9, 68.5, 70.5, 73.8, 76.4, 78.4, 80.0, 81.5, 82.8, 84.0, 85.2, 86.3, 87.5, 88.6, 89.7, 90.8, 91.9, 92.9, 94.0, 95.0, 96.0, 97.0, 97.9, 98.7, 98.7],
  [1300, 17.5, 28.3, 35.8, 43.2, 47.2, 51.5, 56.0, 61.0, 63.2, 65.5, 66.7, 67.9, 69.3, 70.7, 72.2, 73.9, 76.3, 78.2, 79.8, 81.1, 82.4, 83.7, 84.8, 86.0, 87.1, 88.2, 89.3, 90.4, 91.4, 92.5, 93.5, 94.6, 95.6, 96.6, 97.6, 98.5, 99.3, 99.3],
  [1400, 17.5, 29.0, 37.2, 45.6, 50.1, 54.8, 59.8, 65.1, 67.3, 69.6, 70.8, 72.0, 73.3, 74.6, 76.1, 77.4, 78.7, 79.9, 81.1, 82.3, 83.4, 84.6, 85.7, 86.8, 87.9, 88.9, 90.0, 91.0, 92.1, 93.1, 94.1, 95.1, 96.1, 97.1, 98.1, 99.1, 100.0, 100.0],
  [1500, 17.5, 29.5, 38.6, 47.8, 52.5, 57.4, 62.4, 67.5, 69.6, 71.8, 72.9, 74.0, 75.1, 76.3, 77.5, 78.7, 79.9, 81.0, 82.1, 83.2, 84.2, 85.3, 86.4, 87.4, 88.5, 89.5, 90.5, 91.5, 92.6, 93.6, 94.6, 95.6, 96.6, 97.6, 98.6, 99.6, 100.4, 100.4],
  [1600, 17.5, 30.0, 40.0, 50.0, 55.0, 60.0, 65.0, 70.0, 72.0, 74.0, 75.0, 76.0, 77.0, 78.0, 79.0, 80.0, 81.0, 82.0, 83.0, 84.0, 85.0, 86.0, 87.0, 88.0, 89.0, 90.0, 91.0, 92.1, 93.1, 94.1, 95.1, 96.1, 97.1, 98.1, 99.1, 100.1, 101.0, 101.0],
  [1700, 17.8, 30.6, 40.8, 51.0, 56.1, 61.0, 65.8, 70.4, 72.2, 74.0, 75.0, 75.9, 76.8, 77.8, 78.7, 79.7, 80.6, 81.6, 82.6, 83.5, 84.5, 85.5, 86.5, 87.5, 88.5, 89.5, 90.5, 91.5, 92.5, 93.5, 94.5, 95.5, 96.5, 97.6, 98.6, 99.6, 100.4, 100.4],
  [1800, 18.0, 31.1, 41.6, 52.0, 57.1, 62.0, 66.6, 70.7, 72.3, 74.0, 74.9, 75.7, 76.6, 77.5, 78.4, 79.3, 80.2, 81.2, 82.1, 83.0, 84.0, 84.9, 85.9, 86.9, 87.9, 88.9, 89.9, 90.9, 91.9, 92.9, 93.9, 95.0, 96.0, 97.1, 98.1, 99.1, 99.9, 99.9],
  [1900, 18.5, 31.8, 42.4, 52.6, 57.5, 62.0, 66.2, 70.0, 71.6, 73.2, 74.0, 74.8, 75.7, 76.5, 77.4, 78.2, 79.1, 80.0, 80.9, 81.8, 82.8, 83.7, 84.6, 85.6, 86.6, 87.5, 88.5, 89.5, 90.5, 91.5, 92.6, 93.6, 94.6, 95.7, 96.7, 97.8, 98.6, 98.6],
  [2000, 19.1, 32.5, 43.2, 53.3, 57.9, 62.0, 65.9, 69.4, 70.9, 72.4, 73.1, 73.9, 74.7, 75.5, 76.3, 77.2, 78.0, 78.9, 79.8, 80.6, 81.5, 82.5, 83.4, 84.3, 85.3, 86.2, 87.2, 88.2, 89.2, 90.2, 91.2, 92.3, 93.3, 94.3, 95.4, 96.4, 97.4, 97.4],
  [2100, 19.9, 32.5, 42.6, 52.1, 56.5, 60.5, 64.3, 67.8, 69.3, 70.8, 71.5, 72.3, 73.1, 73.9, 74.8, 75.6, 76.5, 77.3, 78.2, 79.1, 80.0, 80.9, 81.9, 82.8, 83.8, 84.8, 85.8, 86.8, 87.8, 88.8, 89.9, 90.9, 92.0, 93.1, 94.2, 95.2, 96.2, 96.2],
  [2200, 20.7, 32.6, 42.1, 51.0, 55.2, 59.1, 62.7, 66.2, 67.7, 69.2, 70.0, 70.8, 71.6, 72.4, 73.2, 74.1, 74.9, 75.8, 76.7, 77.6, 78.5, 79.4, 80.4, 81.3, 82.3, 83.3, 84.3, 85.4, 86.4, 87.5, 88.6, 89.6, 90.8, 91.9, 93.0, 94.1, 95.0, 95.0],
  [2300, 21.6, 32.7, 41.5, 50.0, 53.9, 57.6, 61.2, 64.7, 66.2, 67.7, 68.5, 69.3, 70.1, 70.9, 71.7, 72.5, 73.4, 74.3, 75.2, 76.1, 77.0, 77.9, 78.9, 79.9, 80.9, 81.9, 82.9, 84.0, 85.0, 86.1, 87.2, 88.4, 89.5, 90.7, 91.8, 92.9, 93.9, 93.9],
  [2400, 22.5, 32.8, 41.0, 48.9, 52.7, 56.3, 59.8, 63.3, 64.7, 66.2, 67.0, 67.8, 68.6, 69.4, 70.2, 71.1, 71.9, 72.8, 73.7, 74.6, 75.5, 76.5, 77.5, 78.5, 79.5, 80.5, 81.5, 82.6, 83.7, 84.8, 86.0, 87.1, 88.3, 89.5, 90.7, 91.8, 92.7, 92.7],
  [2500, 23.4, 32.9, 40.5, 47.8, 51.4, 54.9, 58.3, 61.8, 63.3, 64.8, 65.5, 66.3, 67.1, 67.9, 68.8, 69.6, 70.5, 71.4, 72.3, 73.2, 74.1, 75.1, 76.1, 77.1, 78.1, 79.1, 80.2, 81.3, 82.4, 83.5, 84.7, 85.9, 87.1, 88.3, 89.5, 90.7, 91.6, 91.6]
]

/-- The humidity class thresholds `RHCLASS` of `fwi.cpp`. -/
def RHCLASS : List (List (List ℚ)) := [
  [[600, 630], [700, 730], [800, 830], [900, 930], [1000, 1030], [1100, 1130], [1159, 1200], [1200, 1200]],
  [[87, 3], [77, 3], [67, 3], [62, 3], [57, 3], [54.5, 3], [52, 3], [52, 3]],
  [[87, 2], [77, 2], [67, 2], [62, 2], [57, 2], [54.5, 2], [52, 2], [52, 2]],
  [[68, 1], [58, 1], [48, 1], [43, 1], [38, 1], [35.5, 1], [33, 1], [33, 1]]
]

/-! ## Lawson diurnal tables (`fwi.cpp`, lines 277-456) -/

/-- The element `T[r][c]` of a two-dimensional table; `none` when `r` is not
one of its rows or `c` is not a column of that row. -/
def tbl (T : List (List ℚ)) (r c : ℕ) : Option ℝ :=
  match T.get? r with
  | none => none
  | some row =>
    match row.get? c with
    | none => none
    | some q => some (q : ℝ)

/-- The element `RHCLASS[a][b][c]`; `none` outside the array. -/
def rhclass (a b c : ℕ) : Option ℝ :=
  match RHCLASS.get? a with
  | none => none
  | some plane => tbl plane b c

/-- Bilinear interpolation `intrp` of `fwi.cpp`. -/
def intrp (I1 I2 I3 I4 fraction : ℝ) (ts : WTimeSpan) : ℝ :=
  let minutes : ℝ := ((GetMinutes ts : ℤ) : ℝ)
  let I12 : ℝ := I1 + ((I2 - I1) * fraction)
  let I34 : ℝ := I3 + ((I4 - I3) * fraction)
  if GetHours ts = 11 then I12 + ((I34 - I12) / 59) * minutes
  else I12 + ((I34 - I12) / 60) * minutes

/-- The ascending scan `while (x >= axis[i]) i++` over the axis entries not yet
read, where `i` is the index of the first of them. The result is the index at
which the loop stops; `none` when the loop reads past the last entry. -/
def scan (x : ℝ) : List ℚ → ℕ → Option ℕ
  | [], _ => none
  | a :: rest, i => if x ≥ (a : ℝ) then scan x rest (i + 1) else some i

/-- The column scan `i = 1; while (ff_ffmc >= T[0][i]) i++;` of the four table
routines. -/
def colScan (T : List (List ℚ)) (ff_ffmc : ℝ) : Option ℕ :=
  scan ff_ffmc ((T.headD []).drop 1) 1

/-- The shared body of `LOWRH`, `MEDRH`, `HIGHRH` and of the second half of
`MAINTBL`: column scan on row 0, `i--`, column fraction, and `intrp` on the
four neighbours in rows `tindex` and `tindex + 1`. -/
def lookup (T : List (List ℚ)) (ts : WTimeSpan) (ff_ffmc : ℝ) (tindex : ℕ) : Option ℝ :=
  (colScan T ff_ffmc).bind fun i0 =>
  let i : ℕ := i0 - 1
  (tbl T 0 i).bind fun a0 =>
  (tbl T 0 (i + 1)).bind fun a1 =>
  let fraction : ℝ := (ff_ffmc - a0) / (a1 - a0)
  (tbl T tindex i).bind fun I1 =>
  (tbl T tindex (i + 1)).bind fun I2 =>
  (tbl T (tindex + 1) i).bind fun I3 =>
  (tbl T (tindex + 1) (i + 1)).bind fun I4 =>
  some (intrp I1 I2 I3 I4 fraction ts)

/-- The routine `LOWRH` of `fwi.cpp`. -/
def LOWRH (ts : WTimeSpan) (ff_ffmc : ℝ) (tindex : ℕ) : Option ℝ := lookup L ts ff_ffmc tindex

/-- The routine `MEDRH` of `fwi.cpp`. -/
def MEDRH (ts : WTimeSpan) (ff_ffmc : ℝ) (tindex : ℕ) : Option ℝ := lookup M ts ff_ffmc tindex

/-- The routine `HIGHRH` of `fwi.cpp`. -/
def HIGHRH (ts : WTimeSpan) (ff_ffmc : ℝ) (tindex : ℕ) : Option ℝ := lookup H ts ff_ffmc tindex

/-- The routine `MAINTBL` of `fwi.cpp`: the row scan
`i = 1; while (hour >= MAIN[i][0]) i++; tindex = --i;` and then the lookup. -/
def MAINTBL (ts : WTimeSpan) (ff_ffmc : ℝ) : Option ℝ :=
  let hour : ℤ := GetHours ts * 100 + GetMinutes ts
  let hour : ℤ := if hour < 100 then hour + 2400 else hour
  (scan ((hour : ℤ) : ℝ) ((MAIN.map fun row => row.headD 0).drop 1) 1).bind fun i =>
  let tindex : ℕ := i - 1
  lookup MAIN ts ff_ffmc tindex

/-! ## Lawson diurnal model (`fwi.cpp`, lines 478-583) -/

/-- The loop `while (ts.GetTotalSeconds() < 0) ts += WTimeSpan(1, 0, 0, 0);`. -/
def normalizeTs (ts : WTimeSpan) : WTimeSpan :=
  if _h : ts < 0 then normalizeTs (ts + WTimeSpan.mk4 1 0 0 0) else ts
termination_by (-ts).toNat
decreasing_by
  have h : @LT.lt ℤ _ ts 0 := _h
  simp only [WTimeSpan.mk4]
  omega

/-- The class choice inside the `RHCLASS` loop, on the threshold row `j`:
`3` above `RHCLASS[1][j][0]`, `1` below `RHCLASS[3][j][0]`, else `2`. -/
def rhClassOf (rh : ℝ) (j : ℕ) : Option ℕ :=
  (rhclass 1 j 0).bind fun hi =>
  if rh > hi then some 3
  else (rhclass 3 j 0).bind fun lo => if rh < lo then some 1 else some 2

/-- The loop `for (i = 0; i <= 7; i++)` of `calc_hourly_ffmc_lawson`, from
index `i` with `n` indices left; the result is `(tindex, classidx)`, which is
`(0, 0)` when no index is selected. -/
def rhClassLoop (hour minutes : ℤ) (rh : ℝ) : ℕ → ℕ → Option (ℕ × ℕ)
  | 0, _ => some (0, 0)
  | n + 1, i =>
    (rhclass 0 i 0).bind fun t =>
    if 100 * ((hour : ℤ) : ℝ) ≥ t then rhClassLoop hour minutes rh n (i + 1)
    else
      let tindex : ℕ := i
      if minutes ≤ 30 then
        if tindex = 0 then none
        else (rhClassOf rh (tindex - 1)).bind fun classidx => some (tindex, classidx)
      else (rhClassOf rh tindex).bind fun classidx => some (tindex, classidx)

/-- The routine `calc_hourly_ffmc_lawson` of `fwi.cpp`. -/
def calc_hourly_ffmc_lawson (ff_ffmc : ℝ) (ts : WTimeSpan) (rh : ℝ) : Option ℝ :=
  let ts : WTimeSpan := normalizeTs ts
  let hour : ℤ := GetHours ts
  if ff_ffmc < 0 ∨ ff_ffmc > 101 then some (-98)
  else
    let minutes : ℤ := GetMinutes ts
    let ff_ffmc : ℝ := if ff_ffmc < 17.5 then 17.5 else ff_ffmc
    let rh : ℝ := if rh < 0 then 0 else if rh > 100 then 100 else rh
    let rh : ℝ := rh * 100
    let rh : ℝ := ((⌊rh + 0.5⌋ : ℤ) : ℝ)
    let rh : ℝ := rh * 0.01
    let rh : ℝ := if rh < 1 then 95 else rh
    if hour ≥ 6 ∧ hour ≤ 11 then
      (rhClassLoop hour minutes rh 8 0).bind fun sel =>
      match sel.2 with
      | 1 => LOWRH ts ff_ffmc sel.1
      | 2 => MEDRH ts ff_ffmc sel.1
      | _ => HIGHRH ts ff_ffmc sel.1
    else
      (MAINTBL ts ff_ffmc).bind fun adjffmc =>
      some (if adjffmc < 0 then 0 else if adjffmc > 101 then 101 else adjffmc)

/-- The routine `calc_hourly_ffmc_lawson_contiguous` of `fwi.cpp`. -/
def calc_hourly_ffmc_lawson_contiguous (ff_ffmc_prev ff_ffmc_curr : ℝ) (ts : WTimeSpan)
    (rh_0 rh_t rh_1 : ℝ) (contiguous : Bool) : Option ℝ :=
  if ff_ffmc_prev < 0 ∨ ff_ffmc_prev > 101 ∨ ff_ffmc_curr < 0 ∨ ff_ffmc_curr > 101 ∨
      ts < WTimeSpan.mk4 0 (-12) 0 0 ∨ ts ≥ WTimeSpan.mk4 1 11 0 0 then some (-98)
  else if ts ≥ WTimeSpan.mk4 0 12 0 0 then calc_hourly_ffmc_lawson ff_ffmc_curr ts rh_t
  else if ts ≤ WTimeSpan.mk4 0 5 0 0 ∨ contiguous = false then
    calc_hourly_ffmc_lawson ff_ffmc_prev ts rh_t
  else
    let h0 : WTimeSpan := PurgeToHour ts
    if h0 = ts then calc_hourly_ffmc_lawson ff_ffmc_prev h0 rh_0
    else
      let h1 : WTimeSpan := h0 + (60 * 60 : ℤ)
      (calc_hourly_ffmc_lawson ff_ffmc_prev h0 rh_0).bind fun ffmc1 =>
      (if h1 = (12 * 60 * 60 : ℤ) then calc_hourly_ffmc_lawson ff_ffmc_curr h1 rh_1
        else calc_hourly_ffmc_lawson ff_ffmc_prev h1 rh_1).bind fun ffmc2 =>
      let sec : ℤ := Int.tmod (GetTotalSeconds ts) (60 * 60)
      some (((ffmc2 * ((sec : ℤ) : ℝ)) + (ffmc1 * (60 * 60 - ((sec : ℤ) : ℝ)))) / (60 * 60))

/-! ## DMC and DC (`fwi.cpp`, lines 586-695) -/

/-- Modelled from the spec: the macro `DEGREE_TO_RADIAN` of `angles.h`, which is
not among the sources; latitudes are radians and the bands are given in
degrees, so the macro is the conversion `x * π / 180`. -/
def DEGREE_TO_RADIAN (x : ℝ) : ℝ := x * Real.pi / 180

/-- Day-length table `EL` of `calc_dmc` (latitude at or above 30 degrees). -/
def EL : Fin 12 → ℝ := ![6.5, 7.5, 9, 12.8, 13.9, 13.9, 12.4, 10.9, 9.4, 8, 7, 6]

/-- Day-length table `EL_N20` of `calc_dmc`. -/
def EL_N20 : Fin 12 → ℝ := ![7.9, 8.4, 8.9, 9.5, 9.9, 10.2, 10.1, 9.7, 9.1, 8.6, 8.1, 7.8]

/-- Day-length table `EL_EQ` of `calc_dmc`. -/
def EL_EQ : Fin 12 → ℝ := ![9, 9, 9, 9, 9, 9, 9, 9, 9, 9, 9, 9]

/-- Day-length table `EL_S20` of `calc_dmc`. -/
def EL_S20 : Fin 12 → ℝ := ![10.1, 9.6, 9.1, 8.5, 8.1, 7.8, 7.9, 8.3, 8.9, 9.4, 9.9, 10.2]

/-- Day-length table `EL_NZ` of `calc_dmc`. -/
def EL_NZ : Fin 12 → ℝ := ![11.5, 10.5, 9.2, 7.9, 6.8, 6.2, 6.5, 7.4, 8.7, 10, 11.2, 11.8]

/-- The routine `calc_dmc` of `fwi.cpp`. The month `mm` indexes arrays of twelve
entries (`0..11`), so it is a `Fin 12`; the longitude is unused. -/
def calc_dmc (in_dmc rain temperature latitude _longitude : ℝ) (mm : Fin 12) (rh : ℝ) : ℝ :=
  if in_dmc < 0 ∨ temperature > 60 ∨ rain < 0 ∨ rain > 600 then -98
  else
    let temperature : ℝ :=
      if temperature < -50 then -50 else if temperature > 60 then 60 else temperature
    let rh : ℝ := if rh < 0 then 0 else if rh > 1 then 1 else rh
    let el : Fin 12 → ℝ :=
      if latitude ≥ DEGREE_TO_RADIAN 30 then EL
      else if latitude ≤ DEGREE_TO_RADIAN (-30) then EL_NZ
      else if latitude ≥ DEGREE_TO_RADIAN 10 then EL_N20
      else if latitude ≤ DEGREE_TO_RADIAN (-10) then EL_S20
      else EL_EQ
    let po : ℝ := in_dmc
    let rk : ℝ :=
      if temperature < -1.1 then 0
      else 1.894 * (temperature + 1.1) * (1 - rh) * el mm * 0.01
    let pr : ℝ :=
      if rain > 1.5 then
        let rw : ℝ := 0.92 * rain - 1.27
        let wmi : ℝ := 20 + (Real.exp (5.6348 - (po / 43.43)))
        let b : ℝ :=
          if po ≤ 33 then 100 / (0.5 + (0.3 * po))
          else if po > 65 then 6.2 * Real.log po - 17.2
          else 14 - 1.3 * Real.log po
        let wmr : ℝ := wmi + (1000 * rw) / (48.77 + b * rw)
        43.43 * (5.6348 - Real.log (wmr - 20))
      else po
    let pr : ℝ := if pr < 0 then 0 else pr
    let c_d : ℝ := pr + rk
    if c_d < 0 then 0 else c_d

/-- Day-length table `FL` of `calc_dc` (latitude at or above 10 degrees). -/
def FL : Fin 12 → ℝ := ![-1.6, -1.6, -1.6, 0.9, 3.8, 5.8, 6.4, 5, 2.4, 0.4, -1.6, -1.6]

/-- Day-length table `FL_EQ` of `calc_dc`. -/
def FL_EQ : Fin 12 → ℝ := ![1.4, 1.4, 1.4, 1.4, 1.4, 1.4, 1.4, 1.4, 1.4, 1.4, 1.4, 1.4]

/-- Day-length table `FL_NZ` of `calc_dc` (latitude at or below -10 degrees). -/
def FL_NZ : Fin 12 → ℝ := ![6.4, 5, 2.4, 0.4, -1.6, -1.6, -1.6, -1.6, -1.6, 0.9, 3.8, 5.8]

/-- The routine `calc_dc` of `fwi.cpp`. The month `mm` indexes arrays of twelve
entries (`0..11`), so it is a `Fin 12`; the longitude is unused. -/
def calc_dc (in_dc rain temperature latitude _longitude : ℝ) (mm : Fin 12) : ℝ :=
  if in_dc < 0 ∨ rain < 0 ∨ rain > 600 then -98
  else
    let temperature : ℝ :=
      if temperature < -50 then -50 else if temperature > 60 then 60 else temperature
    let fl : Fin 12 → ℝ :=
      if latitude ≥ DEGREE_TO_RADIAN 10 then FL
      else if latitude ≤ DEGREE_TO_RADIAN (-10) then FL_NZ
      else FL_EQ
    let temperature : ℝ := if temperature < -2.8 then -2.8 else temperature
    let pe : ℝ := (0.36 * (temperature + 2.8) + fl mm) / 2
    let dr : ℝ :=
      if rain ≤ 2.8 then in_dc
      else
        let rain : ℝ := 0.83 * rain - 1.27
        let smi : ℝ := 800 * Real.exp (-in_dc / 400)
        let dr : ℝ := in_dc - 400 * Real.log (1 + ((3.937 * rain) / smi))
        if dr < 0 then 0 else dr
    let c_d : ℝ := dr + pe
    if c_d < 0 then 0 else c_d

/-! ## Derived index algebra (`fwi.cpp`, lines 698-786) -/

/-- The routine `calc_ff` of `fwi.cpp`. -/
def calc_ff (ts : WTimeSpan) (ffmc : ℝ) : ℝ :=
  let factor : ℝ := factor ts
  let fm : ℝ := factor * (101 - ffmc) / (59.5 + ffmc)
  91.9 * Real.exp (fm * (-0.1386)) * (1 + fm ^ (5.31 : ℝ) / 49300000)

/-- The routine `calc_isi` of `fwi.cpp`: the pair of the returned index and of
the value stored through `sf`. -/
def calc_isi (ts : WTimeSpan) (ffmc ws : ℝ) : ℝ × ℝ :=
  let sf : ℝ := calc_ff ts ffmc
  (0.208 * sf * Real.exp (0.05039 * ws), sf)

/-- The routine `calc_isi1` of `fwi.cpp`. -/
def calc_isi1 (ws sf : ℝ) : ℝ := 0.208 * sf * Real.exp (0.05039 * ws)

/-- The wind multiplier `fW` of `calc_isi_fbp` and `calc_isi_fbp1`. -/
def fW (ws : ℝ) : ℝ :=
  if ws ≤ 40 then Real.exp (0.05039 * ws)
  else 12 * (1 - Real.exp (-0.0818 * (ws - 28)))

/-- The routine `calc_isi_fbp` of `fwi.cpp`: the pair of the returned index and
of the value stored through `sf`. -/
def calc_isi_fbp (ts : WTimeSpan) (ffmc ws : ℝ) : ℝ × ℝ :=
  let sf : ℝ := calc_ff ts ffmc
  (0.208 * fW ws * sf, sf)

/-- The routine `calc_isi_fbp1` of `fwi.cpp`. -/
def calc_isi_fbp1 (ws sf : ℝ) : ℝ := 0.208 * fW ws * sf

/-- Buildup index, `calc_bui` of `fwi.cpp`: the guarded quotient, then the
correction branch taken whenever the first value is below `dmc`. -/
def calc_bui (dc dmc : ℝ) : ℝ :=
  let bui : ℝ := if dmc = 0 ∨ dc = 0 then 0 else (0.8 * dc * dmc) / (dmc + 0.4 * dc)
  if bui < dmc then
    let p : ℝ := (dmc - bui) / dmc
    let cc : ℝ := 0.92 + (0.0114 * dmc) ^ (1.7 : ℝ)
    let bui2 : ℝ := dmc - cc * p
    if bui2 < 0 then 0 else bui2
  else bui

/-- The routine `calc_fwi` of `fwi.cpp`. -/
def calc_fwi (isi bui : ℝ) : ℝ :=
  let bb : ℝ :=
    if bui > 80 then 0.1 * isi * (1000 / (25 + 108.64 / Real.exp (0.023 * bui)))
    else 0.1 * isi * (0.626 * bui ^ (0.809 : ℝ) + 2)
  if bb ≤ 1 then bb else Real.exp (2.72 * (0.434 * Real.log bb) ^ (0.647 : ℝ))

/-- The routine `calc_dsr` of `fwi.cpp`. -/
def calc_dsr (fwi : ℝ) : ℝ := 0.0272 * fwi ^ (1.77 : ℝ)

/-! ## Adapter (`CWFGM_FWI.cpp`)

Every operation takes the output destination last and yields the status
together with the content of the destination after the call. The `catch`
blocks of the source are not embedded: the engine routines are plain
arithmetic and raise no exception. The debug-only `weak_assert` lines have no
effect on the result. -/

/-- The status codes the adapter returns. -/
inductive HRESULT
  | S_OK
  | E_POINTER
  | E_INVALIDARG
  deriving DecidableEq

namespace CCWFGM_FWI

/-- The conversion `(std::int64_t)(std::int32_t)seconds_into_day`: the low 32
bits read as a signed number. -/
def toInt32 (n : ℕ) : ℤ :=
  let m : ℕ := n % 2 ^ 32
  if m < 2 ^ 31 then (m : ℤ) else (m : ℤ) - 2 ^ 32

/-- The test `(*out = v) < 0` shared by the operations that can fail: the
value is stored, and a negative value fails the call. -/
def store (v : ℝ) : HRESULT × Option ℝ :=
  if v < 0 then (HRESULT.E_INVALIDARG, some v) else (HRESULT.S_OK, some v)

/-- The operation `HourlyFFMC_VanWagner`. -/
def HourlyFFMC_VanWagner (in_ffmc rain temperature rh ws : ℝ) (seconds_since_ffmc : ℕ)
    (ffmc : Option ℝ) : HRESULT × Option ℝ :=
  match ffmc with
  | none => (HRESULT.E_POINTER, none)
  | some old =>
    if seconds_since_ffmc > 2 * 60 * 60 then (HRESULT.E_INVALIDARG, some old)
    else
      let duration : WTimeSpan := (seconds_since_ffmc : ℤ)
      store (calc_subdaily_ffmc_vanwagner duration in_ffmc rain temperature rh ws)

/-- The operation `HourlyFFMC_Lawson`; `none` when the engine reads outside a
table. -/
def HourlyFFMC_Lawson (in_prev_std_ffmc in_curr_std_ffmc _rain _temperature rh _ws : ℝ)
    (seconds_into_day : ℕ) (ffmc : Option ℝ) : Option (HRESULT × Option ℝ) :=
  match ffmc with
  | none => some (HRESULT.E_POINTER, none)
  | some _ =>
    let ts : WTimeSpan := toInt32 seconds_into_day
    (calc_hourly_ffmc_lawson_contiguous in_prev_std_ffmc in_curr_std_ffmc ts
      (rh * 100) (rh * 100) (rh * 100) false).bind fun v => some (store v)

/-- The operation `HourlyFFMC_VanWagner_Previous`, with the iteration count
`fuel` of the solver loop; `none` when the loop is still running after `fuel`
iterations. -/
def HourlyFFMC_VanWagner_Previous (fuel : ℕ) (in_ffmc rain temperature rh ws : ℝ)
    (ffmc : Option ℝ) : Option (HRESULT × Option ℝ) :=
  match ffmc with
  | none => some (HRESULT.E_POINTER, none)
  | some _ =>
    (calc_previous_hourly_ffmc_vanwagner fuel in_ffmc rain temperature rh ws).bind fun v =>
      some (store v)

/-- The operation `HourlyFFMC_Lawson_Contiguous`; `none` when the engine reads
outside a table. -/
def HourlyFFMC_Lawson_Contiguous (in_ffmc_prevday in_ffmc_currday _rain _temperature
    rh_0 rh_t rh_1 _ws : ℝ) (seconds_into_day : ℕ) (ffmc : Option ℝ) :
    Option (HRESULT × Option ℝ) :=
  match ffmc with
  | none => some (HRESULT.E_POINTER, none)
  | some _ =>
    let ts : WTimeSpan := toInt32 seconds_into_day
    (calc_hourly_ffmc_lawson_contiguous in_ffmc_prevday in_ffmc_currday ts
      (rh_0 * 100) (rh_t * 100) (rh_1 * 100) true).bind fun v => some (store v)

/-- The operation `DailyFFMC_VanWagner`. -/
def DailyFFMC_VanWagner (in_ffmc rain temperature rh ws : ℝ) (ffmc : Option ℝ) :
    HRESULT × Option ℝ :=
  match ffmc with
  | none => (HRESULT.E_POINTER, none)
  | some _ => store (calc_daily_ffmc_vanwagner in_ffmc rain temperature rh ws)

/-- The operation `DMC`. -/
def DMC (in_dmc rain temperature latitude longitude : ℝ) (month : ℕ) (rh : ℝ)
    (dmc : Option ℝ) : HRESULT × Option ℝ :=
  match dmc with
  | none => (HRESULT.E_POINTER, none)
  | some old =>
    if h : month > 11 then (HRESULT.E_INVALIDARG, some old)
    else
      store (calc_dmc in_dmc rain temperature latitude longitude ⟨month, by omega⟩ rh)

/-- The operation `DC`. -/
def DC (in_dc rain temperature latitude longitude : ℝ) (month : ℕ)
    (dc : Option ℝ) : HRESULT × Option ℝ :=
  match dc with
  | none => (HRESULT.E_POINTER, none)
  | some old =>
    if h : month > 11 then (HRESULT.E_INVALIDARG, some old)
    else store (calc_dc in_dc rain temperature latitude longitude ⟨month, by omega⟩)

/-- The operation `FF`. -/
def FF (ffmc : ℝ) (seconds_since_ffmc : ℕ) (ff : Option ℝ) : HRESULT × Option ℝ :=
  match ff with
  | none => (HRESULT.E_POINTER, none)
  | some _ => (HRESULT.S_OK, some (calc_ff (seconds_since_ffmc : ℤ) ffmc))

/-- The operation `ISI_FWI`. -/
def ISI_FWI (ffmc ws : ℝ) (seconds_since_ffmc : ℕ) (isi : Option ℝ) : HRESULT × Option ℝ :=
  match isi with
  | none => (HRESULT.E_POINTER, none)
  | some _ => (HRESULT.S_OK, some (calc_isi (seconds_since_ffmc : ℤ) ffmc ws).1)

/-- The operation `ISI_FBP`. -/
def ISI_FBP (ffmc ws : ℝ) (seconds_since_ffmc : ℕ) (isi : Option ℝ) : HRESULT × Option ℝ :=
  match isi with
  | none => (HRESULT.E_POINTER, none)
  | some _ => (HRESULT.S_OK, some (calc_isi_fbp (seconds_since_ffmc : ℤ) ffmc ws).1)

/-- The operation `BUI`. -/
def BUI (dc dmc : ℝ) (bui : Option ℝ) : HRESULT × Option ℝ :=
  match bui with
  | none => (HRESULT.E_POINTER, none)
  | some _ => (HRESULT.S_OK, some (calc_bui dc dmc))

/-- The operation `FWI`. -/
def FWI (isi bui : ℝ) (fwi : Option ℝ) : HRESULT × Option ℝ :=
  match fwi with
  | none => (HRESULT.E_POINTER, none)
  | some _ => (HRESULT.S_OK, some (calc_fwi isi bui))

/-- The operation `DSR`. -/
def DSR (fwi : ℝ) (dsr : Option ℝ) : HRESULT × Option ℝ :=
  match dsr with
  | none => (HRESULT.E_POINTER, none)
  | some _ => (HRESULT.S_OK, some (calc_dsr fwi))

end CCWFGM_FWI

/-! ## Vocabulary of the specification -/

/-- The status an operation returns, when the embedded call has a result. -/
def status (r : Option (HRESULT × Option ℝ)) : Option HRESULT := r.map Prod.fst

/-- The clamp of a value to the interval `[lo, hi]`, as the specification uses
the word: values below `lo` become `lo`, values above `hi` become `hi`. -/
def clamp (x lo hi : ℝ) : ℝ := max lo (min x hi)

/-! ## Axes of the Lawson tables -/

/-- The FFMC axis of the four Lawson tables: row 0 without its first entry. -/
def ffmcAxis : List ℚ :=
  [17.5, 30.0, 40.0, 50.0, 55.0, 60.0, 65.0, 70.0, 72.0, 74.0, 75.0, 76.0, 77.0, 78.0, 79.0,
   80.0, 81.0, 82.0, 83.0, 84.0, 85.0, 86.0, 87.0, 88.0, 89.0, 90.0, 91.0, 92.0, 93.0, 94.0,
   95.0, 96.0, 97.0, 98.0, 99.0, 100.0, 100.9, 101.0]

/-- The time axis of `MAIN`: column 0 of the rows `1..21`. -/
def mainHours : List ℚ :=
  [100, 200, 300, 400, 500, 559, 600, 1200, 1300, 1400, 1500, 1600, 1700, 1800, 1900, 2000,
   2100, 2200, 2300, 2400, 2500]

/-! ## Decomposition of the one-hour forward step

Names for the intermediate quantities of `calc_subdaily_ffmc_vanwagner`, used
to state the properties of the step that the inversion relies on. -/

/-- The moisture content of a code at the factor `147.2` (equation 2a). -/
def moistureOf (x : ℝ) : ℝ := 147.2 * (101 - x) / (59.5 + x)

/-- The moisture after the rain step of `calc_subdaily_ffmc_vanwagner`
(equation 12 and the cap at `250`). -/
def afterRain (rain mo : ℝ) : ℝ :=
  let mo1 : ℝ :=
    if rain ≠ 0 then
      mo + rain * 42.5 * Real.exp (-100 / (251 - mo)) * (1 - Real.exp (-6.93 / rain))
    else mo
  if mo1 > 250 then 250 else mo1

/-- The log rate `xkd` of `calc_subdaily_ffmc_vanwagner` (equations 4 and 6)
for the humidity argument `a1`. -/
def xkdOf (a1 ws temperature : ℝ) : ℝ :=
  (0.424 * (1 - a1 ^ (1.7 : ℝ)) + (0.0694 * Real.sqrt ws * (1 - a1 ^ (8 : ℝ)))) * 0.0579 *
    Real.exp (0.0365 * temperature)

/-- The moisture after the relaxation step of `calc_subdaily_ffmc_vanwagner`
(its local `xm`), as a function of the moisture `mo` before the step, the two
equilibria and the two relaxation factors `10 ^ (-xkd * hour_frac)`. -/
def xmOf (mo ed ew kd kw : ℝ) : ℝ :=
  if mo - ed = 0 ∨ (mo - ew ≥ 0 ∧ mo - ed < 0) then mo
  else if mo - ed > 0 then ed + (mo - ed) * kd
  else ew + (mo - ew) * kw

/-- The code of the moisture `xm` at the factor `147.2`, with the final range
check of `calc_subdaily_ffmc_vanwagner`. -/
def ffmcOf (xm : ℝ) : ℝ :=
  let c_f : ℝ := 59.5 * (250 - xm) / (147.2 + xm)
  if c_f > 101 then 101 else if c_f < 0 then 0 else c_f

/-! ## Lawson tables as stored (`fwi.cpp`, lines 282-456)

The tables are declared `static const double T[R][39]`. C++ stores the rows of
such an array one after the other without gaps, so the compiled read
`T[r][c]` is the read of the double `39 * r + c` places after the first
element of the table, also when `c` is `39` or more: the read `T[0][39]` of
the column scan is the read of `T[1][0]`. The definitions of this section
follow the routines of `fwi.cpp` with this reading of the table accesses;
`tbl`, `lookup` and `calc_hourly_ffmc_lawson` above treat a read outside the
row as having no value. -/

/-- The read `T[r][c]` as the double `39 * r + c` places after the first
element of the stored table. A place after the last element is outside the
table, and the source does not determine what the build keeps there: `past j`
stands for the double `j` places after the table. -/
def cell (past : ℕ → ℝ) (T : List (List ℚ)) (r c : ℕ) : ℝ :=
  match T.flatten.get? (39 * r + c) with
  | some q => (q : ℝ)
  | none => past (39 * r + c - T.flatten.length)

/-- The ascending scan `while (x >= a[i]) i++` over stored doubles `a`, from
the index `i`, followed for at most `n` reads; `none` when the loop has not
stopped by then. -/
def scanStored (x : ℝ) (a : ℕ → ℝ) : ℕ → ℕ → Option ℕ
  | 0, _ => none
  | n + 1, i => if x ≥ a i then scanStored x a n (i + 1) else some i

/-- The shared body of `LOWRH`, `MEDRH`, `HIGHRH` and of the second half of
`MAINTBL` on the stored table: column scan `i = 1; while (ff_ffmc >= T[0][i])
i++;` (followed over the doubles of the table), `i--`, column fraction, and
`intrp` on the four neighbours in rows `tindex` and `tindex + 1`. -/
def lookupStored (past : ℕ → ℝ) (T : List (List ℚ)) (ts : WTimeSpan) (ff_ffmc : ℝ)
    (tindex : ℕ) : Option ℝ :=
  (scanStored ff_ffmc (cell past T 0) (T.flatten.length - 1) 1).bind fun i0 =>
  let i : ℕ := i0 - 1
  let fraction : ℝ := (ff_ffmc - cell past T 0 i) / (cell past T 0 (i + 1) - cell past T 0 i)
  some (intrp (cell past T tindex i) (cell past T tindex (i + 1)) (cell past T (tindex + 1) i)
    (cell past T (tindex + 1) (i + 1)) fraction ts)

/-- The routine `MAINTBL` of `fwi.cpp` on the stored table: the row scan
`i = 1; while (hour >= MAIN[i][0]) i++; tindex = --i;` (followed over the rows
of the table) and then the lookup. -/
def MAINTBL_stored (past : ℕ → ℝ) (ts : WTimeSpan) (ff_ffmc : ℝ) : Option ℝ :=
  let hour : ℤ := GetHours ts * 100 + GetMinutes ts
  let hour : ℤ := if hour < 100 then hour + 2400 else hour
  (scanStored ((hour : ℤ) : ℝ) (fun i => cell past MAIN i 0) (MAIN.length - 1) 1).bind fun i =>
  let tindex : ℕ := i - 1
  lookupStored past MAIN ts ff_ffmc tindex

/-- The routine `calc_hourly_ffmc_lawson` of `fwi.cpp` on the stored tables. -/
def calc_hourly_ffmc_lawson_stored (past : ℕ → ℝ) (ff_ffmc : ℝ) (ts : WTimeSpan) (rh : ℝ) :
    Option ℝ :=
  let ts : WTimeSpan := normalizeTs ts
  let hour : ℤ := GetHours ts
  if ff_ffmc < 0 ∨ ff_ffmc > 101 then some (-98)
  else
    let minutes : ℤ := GetMinutes ts
    let ff_ffmc : ℝ := if ff_ffmc < 17.5 then 17.5 else ff_ffmc
    let rh : ℝ := if rh < 0 then 0 else if rh > 100 then 100 else rh
    let rh : ℝ := rh * 100
    let rh : ℝ := ((⌊rh + 0.5⌋ : ℤ) : ℝ)
    let rh : ℝ := rh * 0.01
    let rh : ℝ := if rh < 1 then 95 else rh
    if hour ≥ 6 ∧ hour ≤ 11 then
      (rhClassLoop hour minutes rh 8 0).bind fun sel =>
      match sel.2 with
      | 1 => lookupStored past L ts ff_ffmc sel.1
      | 2 => lookupStored past M ts ff_ffmc sel.1
      | _ => lookupStored past H ts ff_ffmc sel.1
    else
      (MAINTBL_stored past ts ff_ffmc).bind fun adjffmc =>
      some (if adjffmc < 0 then 0 else if adjffmc > 101 then 101 else adjffmc)

/-! ## Checked properties -/

/-- C1 (as stated, refuted): with `dc = 0` and `dmc = 1` the buildup index is
not `0`; the correction branch turns the first value `0` into
`1 - (0.92 + 0.0114 ^ 1.7)`, which is positive. -/
theorem calc_bui_dc_zero_counterexample : calc_bui 0 1 ≠ 0 := by
  -- Helper: a base in `(0, 1]` raised to the power `1.7` is at most the base.
  have rpow_17_le_self (x : ℝ) (h0 : 0 < x) (h1 : x ≤ 1) : x ^ (1.7 : ℝ) ≤ x := by
    have h := Real.rpow_le_rpow_of_exponent_ge h0 h1 (show (1 : ℝ) ≤ 1.7 by norm_num)
    simpa using h
  have h := rpow_17_le_self 0.0114 (by norm_num) (by norm_num)
  unfold calc_bui
  simp only []
  norm_num at h ⊢
  constructor
  · linarith
  · intro h0
    linarith

/-- C1 (amended): `calc_bui 0 dmc` is `0` for `dmc ≤ 0`, and for `dmc > 0` it
is the correction branch applied to the first value `0`, that is
`max 0 (dmc - (0.92 + (0.0114 * dmc) ^ 1.7))`. -/
theorem calc_bui_dc_zero (dmc : ℝ) :
    calc_bui 0 dmc =
      if 0 < dmc then max 0 (dmc - (0.92 + (0.0114 * dmc) ^ (1.7 : ℝ))) else 0 := by
  by_cases h : 0 < dmc
  · have hne : dmc ≠ 0 := ne_of_gt h
    unfold calc_bui
    simp only [or_true, if_true, h, sub_zero, div_self hne, mul_one]
    by_cases h2 : dmc - (0.92 + (0.0114 * dmc) ^ (1.7 : ℝ)) < 0
    · rw [if_pos h2, max_eq_left (le_of_lt h2)]
    · rw [if_neg h2, max_eq_right (not_lt.mp h2)]
  · unfold calc_bui
    simp [h]

/-- C2: for every `dc`, `calc_bui dc 0 = 0`. -/
theorem calc_bui_dmc_zero (dc : ℝ) : calc_bui dc 0 = 0 := by
  unfold calc_bui
  simp

/-- Helper: the final range check `c_f > 101 → 101`, `c_f < 0 → 0` of the FFMC
routines leaves a value in `[0, 101]`. -/
theorem range_check_bounds (c : ℝ) :
    0 ≤ (if c > 101 then (101 : ℝ) else if c < 0 then 0 else c) ∧
      (if c > 101 then (101 : ℝ) else if c < 0 then 0 else c) ≤ 101 := by
  by_cases h1 : c > 101
  · simp [h1]
  · by_cases h2 : c < 0
    · simp [h1, h2]
    · simp only [h1, h2, if_false]
      exact ⟨not_lt.mp h2, not_lt.mp h1⟩

/-- Helper: inputs that pass the domain check of the forward step give a
result in `[0, 101]`. -/
theorem subdaily_in_range (ts : ℤ) (in_ffmc rain temperature rh ws : ℝ)
    (h : ¬ (in_ffmc < 0 ∨ in_ffmc > 101 ∨ rain < 0 ∨ rain > 300)) :
    0 ≤ calc_subdaily_ffmc_vanwagner ts in_ffmc rain temperature rh ws ∧
      calc_subdaily_ffmc_vanwagner ts in_ffmc rain temperature rh ws ≤ 101 := by
  unfold calc_subdaily_ffmc_vanwagner
  rw [if_neg h]
  exact range_check_bounds _

/-- Helper: the forward step returns `-98` exactly on inputs that fail its
domain check. -/
theorem subdaily_sentinel_iff (ts : ℤ) (in_ffmc rain temperature rh ws : ℝ) :
    calc_subdaily_ffmc_vanwagner ts in_ffmc rain temperature rh ws = -98 ↔
      (in_ffmc < 0 ∨ in_ffmc > 101 ∨ rain < 0 ∨ rain > 300) := by
  constructor
  · intro hr
    by_contra h
    have hb := (subdaily_in_range ts in_ffmc rain temperature rh ws h).1
    rw [hr] at hb
    norm_num at hb
  · intro h
    unfold calc_subdaily_ffmc_vanwagner
    rw [if_pos h]

/-- C3: `calc_subdaily_ffmc_vanwagner` returns the sentinel `-98` if and only
if `in_ffmc` is outside `[0, 101]` or `rain` is outside `[0, 300]`; on every
other input (any elapsed time, temperature, humidity and wind) the result lies
in `[0, 101]`. -/
theorem calc_subdaily_ffmc_vanwagner_domain (ts : ℤ)
    (in_ffmc rain temperature rh ws : ℝ) :
    (calc_subdaily_ffmc_vanwagner ts in_ffmc rain temperature rh ws = -98 ↔
      (in_ffmc < 0 ∨ in_ffmc > 101 ∨ rain < 0 ∨ rain > 300)) ∧
    ((in_ffmc < 0 ∨ in_ffmc > 101 ∨ rain < 0 ∨ rain > 300) ∨
      (0 ≤ calc_subdaily_ffmc_vanwagner ts in_ffmc rain temperature rh ws ∧
        calc_subdaily_ffmc_vanwagner ts in_ffmc rain temperature rh ws ≤ 101)) := by
  refine ⟨subdaily_sentinel_iff ts in_ffmc rain temperature rh ws, ?_⟩
  by_cases h : in_ffmc < 0 ∨ in_ffmc > 101 ∨ rain < 0 ∨ rain > 300
  · exact Or.inl h
  · exact Or.inr (subdaily_in_range ts in_ffmc rain temperature rh ws h)

/-- C4: the forward step on `temperature`, `rh`, `ws` equals the forward step
on the values clamped to `[-50, 60]`, `[0, 1]`, `[0, 200]`, and the failure
sentinel `-98` depends on `in_ffmc` and `rain` alone, so an out-of-range
temperature, humidity or wind never produces it. -/
theorem calc_subdaily_ffmc_vanwagner_soft_clamps (ts : ℤ)
    (in_ffmc rain temperature rh ws : ℝ) :
    calc_subdaily_ffmc_vanwagner ts in_ffmc rain temperature rh ws =
      calc_subdaily_ffmc_vanwagner ts in_ffmc rain
        (clamp temperature (-50) 60) (clamp rh 0 1) (clamp ws 0 200) ∧
    (calc_subdaily_ffmc_vanwagner ts in_ffmc rain temperature rh ws = -98 ↔
      (in_ffmc < 0 ∨ in_ffmc > 101 ∨ rain < 0 ∨ rain > 300)) := by
  -- Helper: the temperature clamp of the source applied to a clamped value.
  have temperature_clamp_idem (t : ℝ) :
      (if clamp t (-50) 60 < -50 then (-50 : ℝ)
        else if clamp t (-50) 60 > 60 then 60 else clamp t (-50) 60) =
      (if t < -50 then (-50 : ℝ) else if t > 60 then 60 else t) := by
    unfold clamp
    by_cases h1 : t < -50
    · have : min t 60 = t := min_eq_left (by linarith)
      rw [this, max_eq_left (le_of_lt h1)]
      norm_num [h1]
    · by_cases h2 : t > 60
      · have : min t 60 = 60 := min_eq_right (le_of_lt h2)
        rw [this]
        norm_num [h1, h2]
      · have : min t 60 = t := min_eq_left (not_lt.mp h2)
        rw [this, max_eq_right (not_lt.mp h1)]
  -- Helper: the humidity clamp of the source applied to a clamped value.
  have rh_clamp_idem (r : ℝ) :
      (if clamp r 0 1 < 0 then (0 : ℝ) else if clamp r 0 1 > 1 then 1 else clamp r 0 1) =
      (if r < 0 then (0 : ℝ) else if r > 1 then 1 else r) := by
    unfold clamp
    by_cases h1 : r < 0
    · have : min r 1 = r := min_eq_left (by linarith)
      rw [this, max_eq_left (le_of_lt h1)]
      norm_num [h1]
    · by_cases h2 : r > 1
      · have : min r 1 = 1 := min_eq_right (le_of_lt h2)
        rw [this]
        norm_num [h1, h2]
      · have : min r 1 = r := min_eq_left (not_lt.mp h2)
        rw [this, max_eq_right (not_lt.mp h1)]
  -- Helper: the wind clamp of the source applied to a clamped value.
  have ws_clamp_idem (w : ℝ) :
      (if clamp w 0 200 > 200 then (200 : ℝ)
        else if clamp w 0 200 < 0 then 0 else clamp w 0 200) =
      (if w > 200 then (200 : ℝ) else if w < 0 then 0 else w) := by
    unfold clamp
    by_cases h1 : w < 0
    · have : min w 200 = w := min_eq_left (by linarith)
      have h3 : ¬ w > 200 := by linarith
      rw [this, max_eq_left (le_of_lt h1)]
      norm_num [h1, h3]
    · by_cases h2 : w > 200
      · have : min w 200 = 200 := min_eq_right (le_of_lt h2)
        rw [this]
        norm_num [h1, h2]
      · have : min w 200 = w := min_eq_left (not_lt.mp h2)
        rw [this, max_eq_right (not_lt.mp h1)]
  refine ⟨?_, subdaily_sentinel_iff ts in_ffmc rain temperature rh ws⟩
  unfold calc_subdaily_ffmc_vanwagner
  simp only []
  rw [temperature_clamp_idem, rh_clamp_idem, ws_clamp_idem]

/-- Helper: the final floor `c_d < 0 → 0` of the daily accumulators leaves a
non-negative value. -/
theorem floor_check_nonneg (c : ℝ) : 0 ≤ (if c < 0 then (0 : ℝ) else c) := by
  by_cases h : c < 0
  · simp [h]
  · simp only [h, if_false]
    exact not_lt.mp h

/-- C5 (the code at the failing input): with `in_dmc = 10`, `rain = 0` and the
temperature `61`, `calc_dmc` returns the sentinel `-98` for every latitude,
longitude, month and humidity, although the same call with the temperature
clamped to `[-50, 60]` is accepted and gives a non-negative code. -/
theorem calc_dmc_rejects_temperature_above_60 (latitude longitude rh : ℝ) (mm : Fin 12) :
    calc_dmc 10 0 61 latitude longitude mm rh = -98 ∧
      0 ≤ calc_dmc 10 0 (clamp 61 (-50) 60) latitude longitude mm rh := by
  -- Helper: inputs that pass the domain check of `calc_dmc` give a
  -- non-negative code.
  have calc_dmc_nonneg (in_dmc rain temperature latitude longitude rh : ℝ) (mm : Fin 12)
      (h : ¬ (in_dmc < 0 ∨ temperature > 60 ∨ rain < 0 ∨ rain > 600)) :
      0 ≤ calc_dmc in_dmc rain temperature latitude longitude mm rh := by
    unfold calc_dmc
    rw [if_neg h]
    exact floor_check_nonneg _
  constructor
  · unfold calc_dmc
    rw [if_pos (by norm_num)]
  · apply calc_dmc_nonneg
    unfold clamp
    norm_num

/-- Helper: storing the sentinel `-98` fails the call. -/
theorem store_sentinel : CCWFGM_FWI.store (-98) = (HRESULT.E_INVALIDARG, some (-98)) := by
  unfold CCWFGM_FWI.store
  rw [if_pos (by norm_num)]

/-- C6: for a month in `0..11` and a non-null output, a negative previous code
or a rain outside `[0, 600]` makes `calc_dmc` and `calc_dc` return `-98`, and
the `DMC` and `DC` operations return `E_INVALIDARG` with `-98` left in the
output. -/
theorem dmc_dc_reject_out_of_domain (code rain temperature latitude longitude rh old : ℝ)
    (month : ℕ) (hm : month ≤ 11) (h : code < 0 ∨ rain < 0 ∨ rain > 600) :
    calc_dmc code rain temperature latitude longitude ⟨month, by omega⟩ rh = -98 ∧
    calc_dc code rain temperature latitude longitude ⟨month, by omega⟩ = -98 ∧
    CCWFGM_FWI.DMC code rain temperature latitude longitude month rh (some old) =
      (HRESULT.E_INVALIDARG, some (-98)) ∧
    CCWFGM_FWI.DC code rain temperature latitude longitude month (some old) =
      (HRESULT.E_INVALIDARG, some (-98)) := by
  -- Helper: `calc_dmc` returns `-98` when its domain check fails.
  have calc_dmc_sentinel (in_dmc rain temperature latitude longitude rh : ℝ) (mm : Fin 12)
      (h : in_dmc < 0 ∨ temperature > 60 ∨ rain < 0 ∨ rain > 600) :
      calc_dmc in_dmc rain temperature latitude longitude mm rh = -98 := by
    unfold calc_dmc
    rw [if_pos h]
  -- Helper: `calc_dc` returns `-98` when its domain check fails.
  have calc_dc_sentinel (in_dc rain temperature latitude longitude : ℝ) (mm : Fin 12)
      (h : in_dc < 0 ∨ rain < 0 ∨ rain > 600) :
      calc_dc in_dc rain temperature latitude longitude mm = -98 := by
    unfold calc_dc
    rw [if_pos h]
  have h1 : code < 0 ∨ temperature > 60 ∨ rain < 0 ∨ rain > 600 := by
    rcases h with h | h | h
    · exact Or.inl h
    · exact Or.inr (Or.inr (Or.inl h))
    · exact Or.inr (Or.inr (Or.inr h))
  have hm2 : ¬ month > 11 := by omega
  refine ⟨calc_dmc_sentinel _ _ _ _ _ _ _ h1, calc_dc_sentinel _ _ _ _ _ _ h, ?_, ?_⟩
  · unfold CCWFGM_FWI.DMC
    simp only [dif_neg hm2]
    rw [calc_dmc_sentinel _ _ _ _ _ _ _ h1, store_sentinel]
  · unfold CCWFGM_FWI.DC
    simp only [dif_neg hm2]
    rw [calc_dc_sentinel _ _ _ _ _ _ h, store_sentinel]

/-- C6 (witness): previous code `-1` in April. -/
theorem dmc_dc_reject_out_of_domain_witness :
    calc_dmc (-1) 0 20 1 0 ⟨3, by omega⟩ 0.5 = -98 ∧
    calc_dc (-1) 0 20 1 0 ⟨3, by omega⟩ = -98 ∧
    CCWFGM_FWI.DMC (-1) 0 20 1 0 3 0.5 (some 7) = (HRESULT.E_INVALIDARG, some (-98)) ∧
    CCWFGM_FWI.DC (-1) 0 20 1 0 3 (some 7) = (HRESULT.E_INVALIDARG, some (-98)) :=
  dmc_dc_reject_out_of_domain (-1) 0 20 1 0 0.5 7 3 (by decide) (Or.inl (by norm_num))

/-- C7 (as stated, refuted): a `DMC` call with month `12` on an output that
holds `5` fails and leaves `5`, not the sentinel `-98`, in the output. -/
theorem dmc_month_out_of_range_counterexample :
    CCWFGM_FWI.DMC 10 0 20 1 0 12 0.5 (some 5) = (HRESULT.E_INVALIDARG, some 5) ∧
      (CCWFGM_FWI.DMC 10 0 20 1 0 12 0.5 (some 5)).2 ≠ some (-98) := by
  have h : CCWFGM_FWI.DMC 10 0 20 1 0 12 0.5 (some 5) = (HRESULT.E_INVALIDARG, some 5) := by
    unfold CCWFGM_FWI.DMC
    simp
  refine ⟨h, ?_⟩
  rw [h]
  norm_num

/-- C7 (amended): with a non-null output and `month > 11` the `DMC` and `DC`
operations fail with `E_INVALIDARG` and leave the output as it was before the
call. -/
theorem dmc_dc_month_out_of_range (a rain temperature latitude longitude rh old : ℝ)
    (month : ℕ) (hm : month > 11) :
    CCWFGM_FWI.DMC a rain temperature latitude longitude month rh (some old) =
      (HRESULT.E_INVALIDARG, some old) ∧
    CCWFGM_FWI.DC a rain temperature latitude longitude month (some old) =
      (HRESULT.E_INVALIDARG, some old) := by
  constructor
  · unfold CCWFGM_FWI.DMC
    simp only [dif_pos hm]
  · unfold CCWFGM_FWI.DC
    simp only [dif_pos hm]

/-- C7 (amended, witness): month `12`, output holding `5`. -/
theorem dmc_dc_month_out_of_range_witness :
    CCWFGM_FWI.DMC 10 0 20 1 0 12 0.5 (some 5) = (HRESULT.E_INVALIDARG, some 5) ∧
    CCWFGM_FWI.DC 10 0 20 1 0 12 (some 5) = (HRESULT.E_INVALIDARG, some 5) :=
  dmc_dc_month_out_of_range 10 0 20 1 0 0.5 5 12 (by decide)

/-- Helper: the row scan of `MAIN` runs over `mainHours`. -/
theorem MAIN_hours : (MAIN.map fun row => row.headD 0).drop 1 = mainHours := rfl

/-- C8 (the code at the failing input): with `seconds_into_day = 90000`, which
is greater than `86400`, and both reference codes `85`, the operations
`HourlyFFMC_Lawson` and `HourlyFFMC_Lawson_Contiguous` succeed with `S_OK`
and store `74.1`, the `MAIN`-table value for 01:00. -/
theorem lawson_accepts_seconds_into_day_90000 (old : ℝ) :
    CCWFGM_FWI.HourlyFFMC_Lawson 85 85 0 20 0.5 10 90000 (some old) =
      some (HRESULT.S_OK, some 74.1) ∧
    CCWFGM_FWI.HourlyFFMC_Lawson_Contiguous 85 85 0 20 0.5 0.5 0.5 10 90000 (some old) =
      some (HRESULT.S_OK, some 74.1) := by
  -- Helper: the column scan of `MAIN` runs over `ffmcAxis`.
  have MAIN_axis : (MAIN.headD []).drop 1 = ffmcAxis := rfl
  -- Helper: the column scan for the code `85` stops at column `22`.
  have colScan_MAIN_85 : colScan MAIN 85 = some 22 := by
    unfold colScan
    rw [MAIN_axis]
    norm_num [scan, ffmcAxis]
  -- Helper: the row scan for the clock value `100` stops at row `2`.
  have rowScan_MAIN_100 :
      scan (((100 : ℤ) : ℤ) : ℝ) ((MAIN.map fun row => row.headD 0).drop 1) 1 = some 2 := by
    rw [MAIN_hours]
    norm_num [scan, mainHours]
  -- Helper: the `MAIN` lookup at 01:00 for the code `85`.
  have lookup_MAIN_85 : lookup MAIN 90000 85 1 = some 74.1 := by
    have hh : GetHours 90000 = 1 := by decide
    have hm : GetMinutes 90000 = 0 := by decide
    have e1 : tbl MAIN 0 21 = some ((85.0 : ℚ) : ℝ) := rfl
    have e2 : tbl MAIN 0 22 = some ((86.0 : ℚ) : ℝ) := rfl
    have e3 : tbl MAIN 1 21 = some ((74.1 : ℚ) : ℝ) := rfl
    have e4 : tbl MAIN 1 22 = some ((75.1 : ℚ) : ℝ) := rfl
    have e5 : tbl MAIN 2 21 = some ((72.7 : ℚ) : ℝ) := rfl
    have e6 : tbl MAIN 2 22 = some ((73.7 : ℚ) : ℝ) := rfl
    unfold lookup
    rw [colScan_MAIN_85]
    unfold intrp
    simp only [Option.some_bind, Nat.add_one_sub_one, Nat.reduceAdd, Nat.reduceSub, e1, e2, e3, e4,
      e5, e6, hh, hm]
    norm_num
  -- Helper: at 01:00 of the following day (`ts = 90000`) and reference code
  -- `85`, the Lawson routine reads the `MAIN` table and returns `74.1`.
  have lawson_85_at_90000 (rh : ℝ) : calc_hourly_ffmc_lawson 85 90000 rh = some 74.1 := by
    have hn : normalizeTs 90000 = 90000 := by
      rw [normalizeTs]
      simp
    have hh : GetHours 90000 = 1 := by decide
    have hm : GetMinutes 90000 = 0 := by decide
    have hmain : MAINTBL 90000 85 = some 74.1 := by
      unfold MAINTBL
      simp only [hh, hm]
      have h100 : (if (1 : ℤ) * 100 + 0 < 100 then (1 : ℤ) * 100 + 0 + 2400 else 1 * 100 + 0) = 100 := by
        decide
      rw [h100, rowScan_MAIN_100]
      simp only [Option.some_bind, Nat.add_one_sub_one, Nat.reduceSub]
      exact lookup_MAIN_85
    unfold calc_hourly_ffmc_lawson
    simp only [hn, hh, hm]
    have h85 : (if (85 : ℝ) < 17.5 then (17.5 : ℝ) else 85) = 85 := by norm_num
    rw [h85, hmain, if_neg (by norm_num), if_neg (by norm_num)]
    norm_num
  have hts : CCWFGM_FWI.toInt32 90000 = 90000 := by decide
  have hc : ∀ (rh_0 rh_t rh_1 : ℝ) (c : Bool),
      calc_hourly_ffmc_lawson_contiguous 85 85 90000 rh_0 rh_t rh_1 c = some 74.1 := by
    intro rh_0 rh_t rh_1 c
    unfold calc_hourly_ffmc_lawson_contiguous
    rw [if_neg (by norm_num [WTimeSpan.mk4]), if_pos (by norm_num [WTimeSpan.mk4])]
    exact lawson_85_at_90000 rh_t
  have hs : CCWFGM_FWI.store 74.1 = (HRESULT.S_OK, some 74.1) := by
    unfold CCWFGM_FWI.store
    rw [if_neg (by norm_num)]
  constructor
  · unfold CCWFGM_FWI.HourlyFFMC_Lawson
    simp only [hts, hc, Option.some_bind, hs]
  · unfold CCWFGM_FWI.HourlyFFMC_Lawson_Contiguous
    simp only [hts, hc, Option.some_bind, hs]

/-- Helper: the status of `store` on a non-negative value. -/
theorem store_nonneg (v : ℝ) (h : 0 ≤ v) : CCWFGM_FWI.store v = (HRESULT.S_OK, some v) := by
  unfold CCWFGM_FWI.store
  rw [if_neg (not_lt.mpr h)]

/-- C9: with a non-null output, `HourlyFFMC_VanWagner` returns `S_OK` if and
only if `seconds_since_ffmc ≤ 7200`, `in_ffmc ∈ [0, 101]` and
`rain ∈ [0, 300]`; otherwise it returns `E_INVALIDARG`; and on success the
output holds `calc_subdaily_ffmc_vanwagner` of the arguments. -/
theorem hourly_vanwagner_status (in_ffmc rain temperature rh ws old : ℝ) (secs : ℕ) :
    ((CCWFGM_FWI.HourlyFFMC_VanWagner in_ffmc rain temperature rh ws secs (some old)).1 =
        HRESULT.S_OK ↔
      (secs ≤ 7200 ∧ 0 ≤ in_ffmc ∧ in_ffmc ≤ 101 ∧ 0 ≤ rain ∧ rain ≤ 300)) ∧
    ((CCWFGM_FWI.HourlyFFMC_VanWagner in_ffmc rain temperature rh ws secs (some old)).1 =
        HRESULT.E_INVALIDARG ↔
      ¬ (secs ≤ 7200 ∧ 0 ≤ in_ffmc ∧ in_ffmc ≤ 101 ∧ 0 ≤ rain ∧ rain ≤ 300)) ∧
    ((CCWFGM_FWI.HourlyFFMC_VanWagner in_ffmc rain temperature rh ws secs (some old)).1 =
        HRESULT.S_OK →
      (CCWFGM_FWI.HourlyFFMC_VanWagner in_ffmc rain temperature rh ws secs (some old)).2 =
        some (calc_subdaily_ffmc_vanwagner (secs : ℤ) in_ffmc rain temperature rh ws)) := by
  by_cases hs : secs > 2 * 60 * 60
  · have hr : CCWFGM_FWI.HourlyFFMC_VanWagner in_ffmc rain temperature rh ws secs (some old) =
        (HRESULT.E_INVALIDARG, some old) := by
      unfold CCWFGM_FWI.HourlyFFMC_VanWagner
      simp only [if_pos hs]
    have hn : ¬ secs ≤ 7200 := by omega
    rw [hr]
    simp [hn]
  · have hr : CCWFGM_FWI.HourlyFFMC_VanWagner in_ffmc rain temperature rh ws secs (some old) =
        CCWFGM_FWI.store
          (calc_subdaily_ffmc_vanwagner (secs : ℤ) in_ffmc rain temperature rh ws) := by
      unfold CCWFGM_FWI.HourlyFFMC_VanWagner
      simp only [if_neg hs]
    have hle : secs ≤ 7200 := by omega
    rw [hr]
    by_cases hb : in_ffmc < 0 ∨ in_ffmc > 101 ∨ rain < 0 ∨ rain > 300
    · have hv := (subdaily_sentinel_iff (secs : ℤ) in_ffmc rain temperature rh ws).2 hb
      have hc : ¬ (secs ≤ 7200 ∧ 0 ≤ in_ffmc ∧ in_ffmc ≤ 101 ∧ 0 ≤ rain ∧ rain ≤ 300) := by
        rintro ⟨_, h1, h2, h3, h4⟩
        rcases hb with h | h | h | h <;> linarith
      rw [hv, store_sentinel]
      simp [hc]
    · have hv := (subdaily_in_range (secs : ℤ) in_ffmc rain temperature rh ws hb).1
      have hc : secs ≤ 7200 ∧ 0 ≤ in_ffmc ∧ in_ffmc ≤ 101 ∧ 0 ≤ rain ∧ rain ≤ 300 := by
        simp only [not_or, not_lt, gt_iff_lt] at hb
        exact ⟨hle, hb.1, hb.2.1, hb.2.2.1, hb.2.2.2⟩
      rw [store_nonneg _ hv]
      simp [hc]

/-- C9 (witness): one hour after an observed code of `85`, without rain. -/
theorem hourly_vanwagner_status_witness :
    (CCWFGM_FWI.HourlyFFMC_VanWagner 85 0 20 0.45 10 3600 (some 0)).2 =
      some (calc_subdaily_ffmc_vanwagner ((3600 : ℕ) : ℤ) 85 0 20 0.45 10) :=
  (hourly_vanwagner_status 85 0 20 0.45 10 0 3600).2.2
    ((hourly_vanwagner_status 85 0 20 0.45 10 0 3600).1.2
      ⟨by decide, by norm_num, by norm_num, by norm_num, by norm_num⟩)

/-- Helper: an operation that stores an engine value has a result exactly
when the engine value exists. -/
theorem isSome_store (r : Option ℝ) :
    (r.bind fun v => some (CCWFGM_FWI.store v)).isSome = r.isSome := by
  cases r <;> rfl

/-- Helper: when the first entry of the axis is at most `x`, the scan goes past it. -/
theorem scan_skips_head (x : ℝ) (b : ℚ) (rest : List ℚ) (i : ℕ) (hb : ((b : ℚ) : ℝ) ≤ x)
    (h : ∃ a ∈ rest, x < ((a : ℚ) : ℝ)) :
    ∃ j, scan x (b :: rest) i = some j ∧ i + 1 ≤ j ∧ j < i + 1 + rest.length := by
  -- Helper: a scan over an axis that holds an entry above `x` stops inside
  -- the axis.
  have scan_stops (x : ℝ) :
      ∀ (l : List ℚ) (i : ℕ), (∃ a ∈ l, x < ((a : ℚ) : ℝ)) →
        ∃ j, scan x l i = some j ∧ i ≤ j ∧ j < i + l.length := by
    intro l
    induction l with
    | nil =>
      intro i h
      obtain ⟨a, ha, _⟩ := h
      simp at ha
    | cons b rest ih =>
      intro i h
      by_cases hb : x ≥ ((b : ℚ) : ℝ)
      · have hrest : ∃ a ∈ rest, x < ((a : ℚ) : ℝ) := by
          obtain ⟨a, ha, hlt⟩ := h
          rcases List.mem_cons.mp ha with rfl | hmem
          · exact absurd hlt (not_lt.mpr hb)
          · exact ⟨a, hmem, hlt⟩
        obtain ⟨j, hj, h1, h2⟩ := ih (i + 1) hrest
        refine ⟨j, ?_, by omega, ?_⟩
        · simp only [scan, if_pos hb]
          exact hj
        · simp only [List.length_cons]
          omega
      · refine ⟨i, ?_, le_refl i, ?_⟩
        · simp only [scan, if_neg hb]
        · simp only [List.length_cons]
          omega
  obtain ⟨j, hj, h1, h2⟩ := scan_stops x rest (i + 1) h
  refine ⟨j, ?_, h1, h2⟩
  have hb2 : x ≥ ((b : ℚ) : ℝ) := hb
  simp only [scan, if_pos hb2]
  exact hj

/-- Helper: an entry inside a rectangular table exists. -/
theorem tbl_isSome (T : List (List ℚ)) (rows cols : ℕ)
    (hlen : T.map List.length = List.replicate rows cols) (r c : ℕ) (hr : r < rows)
    (hc : c < cols) : ∃ v, tbl T r c = some v := by
  have hT : T.length = rows := by
    have := congrArg List.length hlen
    simpa using this
  have hr2 : r < T.length := by omega
  have hrow : (T.get ⟨r, hr2⟩).length = cols := by
    have h1 : (T.map List.length)[r]? = some (T.get ⟨r, hr2⟩).length := by
      simp [List.getElem?_map, List.getElem?_eq_getElem hr2]
    rw [hlen] at h1
    simp [List.getElem?_replicate, hr] at h1
    exact h1.symm
  have hc2 : c < (T.get ⟨r, hr2⟩).length := by omega
  refine ⟨(((T.get ⟨r, hr2⟩).get ⟨c, hc2⟩ : ℚ) : ℝ), ?_⟩
  unfold tbl
  rw [List.get?_eq_get hr2]
  simp only []
  rw [List.get?_eq_get hc2]

/-- Helper: a column scan for a code in `[17.5, 101)` stops at a column in
`2..38`. -/
theorem colScan_stops (T : List (List ℚ)) (hax : (T.headD []).drop 1 = ffmcAxis) (ff : ℝ)
    (h1 : 17.5 ≤ ff) (h2 : ff < 101) : ∃ j, colScan T ff = some j ∧ 2 ≤ j ∧ j ≤ 38 := by
  have hmem : ∃ a ∈ ffmcAxis.tail, ff < ((a : ℚ) : ℝ) := by
    refine ⟨101.0, by simp [ffmcAxis], ?_⟩
    norm_num
    exact h2
  have hhead : (((17.5 : ℚ) : ℚ) : ℝ) ≤ ff := by
    norm_num
    norm_num at h1
    exact h1
  obtain ⟨j, hj, hj1, hj2⟩ := scan_skips_head ff 17.5 ffmcAxis.tail 1 hhead hmem
  refine ⟨j, ?_, by omega, ?_⟩
  · unfold colScan
    rw [hax]
    exact hj
  · have hl : ffmcAxis.tail.length = 37 := by decide
    omega

/-- Helper: in a rectangular table with 39 columns and the shared FFMC axis,
the lookup of a code in `[17.5, 101)` between two existing rows reads only
entries of the table. -/
theorem lookup_isSome (T : List (List ℚ)) (rows : ℕ)
    (hax : (T.headD []).drop 1 = ffmcAxis)
    (hlen : T.map List.length = List.replicate rows 39) (ts : ℤ) (ff : ℝ)
    (h1 : 17.5 ≤ ff) (h2 : ff < 101) (tindex : ℕ) (ht : tindex + 1 < rows) :
    ∃ v, lookup T ts ff tindex = some v := by
  obtain ⟨j, hj, hj1, hj2⟩ := colScan_stops T hax ff h1 h2
  obtain ⟨a0, ha0⟩ := tbl_isSome T rows 39 hlen 0 (j - 1) (by omega) (by omega)
  obtain ⟨a1, ha1⟩ := tbl_isSome T rows 39 hlen 0 (j - 1 + 1) (by omega) (by omega)
  obtain ⟨v1, hv1⟩ := tbl_isSome T rows 39 hlen tindex (j - 1) (by omega) (by omega)
  obtain ⟨v2, hv2⟩ := tbl_isSome T rows 39 hlen tindex (j - 1 + 1) (by omega) (by omega)
  obtain ⟨v3, hv3⟩ := tbl_isSome T rows 39 hlen (tindex + 1) (j - 1) (by omega) (by omega)
  obtain ⟨v4, hv4⟩ := tbl_isSome T rows 39 hlen (tindex + 1) (j - 1 + 1) (by omega) (by omega)
  refine ⟨intrp v1 v2 v3 v4 ((ff - a0) / (a1 - a0)) ts, ?_⟩
  unfold lookup
  rw [hj]
  simp only [Option.some_bind, ha0, ha1, hv1, hv2, hv3, hv4]

/-- Helper: the normalised time of day is not negative. -/
theorem normalizeTs_nonneg (ts : ℤ) : 0 ≤ normalizeTs ts := by
  induction ts using normalizeTs.induct with
  | case1 ts h ih =>
    rw [normalizeTs, dif_pos h]
    exact ih
  | case2 ts h =>
    rw [normalizeTs, dif_neg h]
    exact not_lt.mp h

/-- Helper: the hour component of a non-negative span is in `0..23`. -/
theorem GetHours_range (ts : ℤ) (h : 0 ≤ ts) : 0 ≤ GetHours ts ∧ GetHours ts ≤ 23 := by
  unfold GetHours
  rw [Int.tdiv_eq_ediv h (by norm_num), Int.tmod_eq_emod (by omega) (by norm_num)]
  omega

/-- Helper: the minute component of a non-negative span is in `0..59`. -/
theorem GetMinutes_range (ts : ℤ) (h : 0 ≤ ts) : 0 ≤ GetMinutes ts ∧ GetMinutes ts ≤ 59 := by
  unfold GetMinutes
  rw [Int.tdiv_eq_ediv h (by norm_num), Int.tmod_eq_emod (by omega) (by norm_num)]
  omega

/-- Helper: the entries `RHCLASS[0][i][0]`. -/
theorem rhclass_times :
    rhclass 0 0 0 = some ((600 : ℚ) : ℝ) ∧ rhclass 0 1 0 = some ((700 : ℚ) : ℝ) ∧
    rhclass 0 2 0 = some ((800 : ℚ) : ℝ) ∧ rhclass 0 3 0 = some ((900 : ℚ) : ℝ) ∧
    rhclass 0 4 0 = some ((1000 : ℚ) : ℝ) ∧ rhclass 0 5 0 = some ((1100 : ℚ) : ℝ) ∧
    rhclass 0 6 0 = some ((1159 : ℚ) : ℝ) ∧ rhclass 0 7 0 = some ((1200 : ℚ) : ℝ) :=
  ⟨rfl, rfl, rfl, rfl, rfl, rfl, rfl, rfl⟩

/-- Helper: in the morning window the `RHCLASS` loop selects the row
`tindex = hour - 5` and one of the classes `1`, `2`, `3`. -/
theorem rhClassLoop_morning (hour minutes : ℤ) (rh : ℝ) (h6 : 6 ≤ hour) (h11 : hour ≤ 11) :
    ∃ c, rhClassLoop hour minutes rh 8 0 = some ((hour - 5).toNat, c) ∧ 1 ≤ c ∧ c ≤ 3 := by
  -- Helper: the class choice exists on each of the eight threshold rows.
  have rhClassOf_isSome (rh : ℝ) (j : ℕ) (hj : j ≤ 7) :
      ∃ c, rhClassOf rh j = some c ∧ 1 ≤ c ∧ c ≤ 3 := by
    have h1 : ∃ hi, rhclass 1 j 0 = some hi := by
      interval_cases j <;> exact ⟨_, rfl⟩
    have h3 : ∃ lo, rhclass 3 j 0 = some lo := by
      interval_cases j <;> exact ⟨_, rfl⟩
    obtain ⟨hi, hhi⟩ := h1
    obtain ⟨lo, hlo⟩ := h3
    unfold rhClassOf
    rw [hhi, hlo]
    simp only [Option.some_bind]
    by_cases c1 : rh > hi
    · exact ⟨3, by rw [if_pos c1], by omega, by omega⟩
    · by_cases c2 : rh < lo
      · exact ⟨1, by rw [if_neg c1, if_pos c2], by omega, by omega⟩
      · exact ⟨2, by rw [if_neg c1, if_neg c2], by omega, by omega⟩
  obtain ⟨t0, t1, t2, t3, t4, t5, t6, t7⟩ := rhclass_times
  have key : ∀ (t : ℕ), 1 ≤ t → t ≤ 7 →
      ∃ c, (if minutes ≤ 30 then
          if t = 0 then none
          else (rhClassOf rh (t - 1)).bind fun classidx => some (t, classidx)
        else (rhClassOf rh t).bind fun classidx => some (t, classidx)) = some (t, c) ∧
        1 ≤ c ∧ c ≤ 3 := by
    intro t ht1 ht7
    by_cases hm : minutes ≤ 30
    · obtain ⟨c, hc, hc1, hc3⟩ := rhClassOf_isSome rh (t - 1) (by omega)
      refine ⟨c, ?_, hc1, hc3⟩
      rw [if_pos hm, if_neg (by omega), hc]
      rfl
    · obtain ⟨c, hc, hc1, hc3⟩ := rhClassOf_isSome rh t ht7
      refine ⟨c, ?_, hc1, hc3⟩
      rw [if_neg hm, hc]
      rfl
  interval_cases hour
  · simp only [rhClassLoop, t0, t1, Option.some_bind]
    norm_num
    exact key 1 (by omega) (by omega)
  · simp only [rhClassLoop, t0, t1, t2, Option.some_bind]
    norm_num
    exact key 2 (by omega) (by omega)
  · simp only [rhClassLoop, t0, t1, t2, t3, Option.some_bind]
    norm_num
    exact key 3 (by omega) (by omega)
  · simp only [rhClassLoop, t0, t1, t2, t3, t4, Option.some_bind]
    norm_num
    exact key 4 (by omega) (by omega)
  · simp only [rhClassLoop, t0, t1, t2, t3, t4, t5, Option.some_bind]
    norm_num
    exact key 5 (by omega) (by omega)
  · simp only [rhClassLoop, t0, t1, t2, t3, t4, t5, t6, Option.some_bind]
    norm_num
    exact key 6 (by omega) (by omega)

/-- Helper: the shapes of the four tables. -/
theorem table_shapes :
    L.map List.length = List.replicate 9 39 ∧ M.map List.length = List.replicate 9 39 ∧
    H.map List.length = List.replicate 9 39 ∧ MAIN.map List.length = List.replicate 22 39 :=
  ⟨rfl, rfl, rfl, rfl⟩

/-- Helper: the four tables share the FFMC axis. -/
theorem table_axes :
    (L.headD []).drop 1 = ffmcAxis ∧ (M.headD []).drop 1 = ffmcAxis ∧
    (H.headD []).drop 1 = ffmcAxis ∧ (MAIN.headD []).drop 1 = ffmcAxis :=
  ⟨rfl, rfl, rfl, rfl⟩

/-- Helper: `MAINTBL` reads only entries of `MAIN` for a code in `[17.5, 101)`
and a non-negative time. -/
theorem MAINTBL_isSome (ts : ℤ) (hts : 0 ≤ ts) (ff : ℝ) (h1 : 17.5 ≤ ff) (h2 : ff < 101) :
    ∃ v, MAINTBL ts ff = some v := by
  obtain ⟨hh0, hh23⟩ := GetHours_range ts hts
  obtain ⟨hm0, hm59⟩ := GetMinutes_range ts hts
  have hv : ∀ hv : ℤ, 100 ≤ hv → hv ≤ 2459 →
      ∃ j, scan ((hv : ℤ) : ℝ) ((MAIN.map fun row => row.headD 0).drop 1) 1 = some j ∧
        2 ≤ j ∧ j ≤ 21 := by
    intro hv hlo hhi
    have hmem : ∃ a ∈ mainHours.tail, ((hv : ℤ) : ℝ) < ((a : ℚ) : ℝ) := by
      refine ⟨2500, by simp [mainHours], ?_⟩
      have : ((hv : ℤ) : ℝ) < 2500 := by exact_mod_cast (by omega : hv < 2500)
      simpa using this
    have hhead : (((100 : ℚ) : ℚ) : ℝ) ≤ ((hv : ℤ) : ℝ) := by
      have : (100 : ℝ) ≤ ((hv : ℤ) : ℝ) := by exact_mod_cast hlo
      simpa using this
    obtain ⟨j, hj, hj1, hj2⟩ := scan_skips_head ((hv : ℤ) : ℝ) 100 mainHours.tail 1 hhead hmem
    have hl : mainHours.tail.length = 20 := by decide
    exact ⟨j, by rw [MAIN_hours]; exact hj, by omega, by omega⟩
  unfold MAINTBL
  by_cases hlt : GetHours ts * 100 + GetMinutes ts < 100
  · obtain ⟨j, hj, hj1, hj2⟩ := hv (GetHours ts * 100 + GetMinutes ts + 2400) (by omega) (by omega)
    obtain ⟨v, hv⟩ := lookup_isSome MAIN 22 table_axes.2.2.2 table_shapes.2.2.2 ts ff h1 h2
      (j - 1) (by omega)
    refine ⟨v, ?_⟩
    simp only [if_pos hlt, hj, Option.some_bind]
    exact hv
  · obtain ⟨j, hj, hj1, hj2⟩ := hv (GetHours ts * 100 + GetMinutes ts) (by omega) (by omega)
    obtain ⟨v, hv⟩ := lookup_isSome MAIN 22 table_axes.2.2.2 table_shapes.2.2.2 ts ff h1 h2
      (j - 1) (by omega)
    refine ⟨v, ?_⟩
    simp only [if_neg hlt, hj, Option.some_bind]
    exact hv

/-- Helper: `calc_hourly_ffmc_lawson` has a result for every reference code
other than `101`, at every time and humidity. -/
theorem calc_hourly_ffmc_lawson_isSome (ff : ℝ) (ts : ℤ) (rh : ℝ) (h : ff ≠ 101) :
    ∃ v, calc_hourly_ffmc_lawson ff ts rh = some v := by
  by_cases hbad : ff < 0 ∨ ff > 101
  · refine ⟨-98, ?_⟩
    unfold calc_hourly_ffmc_lawson
    simp only []
    rw [if_pos hbad]
  · have hff : 0 ≤ ff ∧ ff < 101 := by
      simp only [not_or, not_lt, gt_iff_lt] at hbad
      exact ⟨hbad.1, lt_of_le_of_ne hbad.2 h⟩
    have hts := normalizeTs_nonneg ts
    obtain ⟨hh0, hh23⟩ := GetHours_range (normalizeTs ts) hts
    have hf : 17.5 ≤ (if ff < 17.5 then (17.5 : ℝ) else ff) ∧
        (if ff < 17.5 then (17.5 : ℝ) else ff) < 101 := by
      by_cases c : ff < 17.5
      · rw [if_pos c]
        norm_num
      · rw [if_neg c]
        exact ⟨not_lt.mp c, hff.2⟩
    unfold calc_hourly_ffmc_lawson
    simp only []
    rw [if_neg hbad]
    by_cases hmorn : GetHours (normalizeTs ts) ≥ 6 ∧ GetHours (normalizeTs ts) ≤ 11
    · rw [if_pos hmorn]
      obtain ⟨c, hc, hc1, hc3⟩ := rhClassLoop_morning (GetHours (normalizeTs ts))
        (GetMinutes (normalizeTs ts))
        (if ((⌊(if rh < 0 then 0 else if rh > 100 then 100 else rh) * 100 + 0.5⌋ : ℤ) : ℝ) * 0.01 < 1
          then 95
          else ((⌊(if rh < 0 then 0 else if rh > 100 then 100 else rh) * 100 + 0.5⌋ : ℤ) : ℝ) * 0.01)
        hmorn.1 hmorn.2
      rw [hc]
      simp only [Option.some_bind]
      have ht : (GetHours (normalizeTs ts) - 5).toNat + 1 < 9 := by omega
      interval_cases c
      · exact lookup_isSome L 9 table_axes.1 table_shapes.1 _ _ hf.1 hf.2 _ ht
      · exact lookup_isSome M 9 table_axes.2.1 table_shapes.2.1 _ _ hf.1 hf.2 _ ht
      · exact lookup_isSome H 9 table_axes.2.2.1 table_shapes.2.2.1 _ _ hf.1 hf.2 _ ht
    · rw [if_neg hmorn]
      obtain ⟨v, hv⟩ := MAINTBL_isSome (normalizeTs ts) hts _ hf.1 hf.2
      rw [hv]
      exact ⟨_, rfl⟩

/-- Helper: for the code `101` the column scan reads past the last entry of
the FFMC axis. -/
theorem scan_axis_101 : scan (101 : ℝ) ffmcAxis 1 = none := by
  norm_num [scan, ffmcAxis]

/-- Helper: for the reference code `101` the Lawson routine reads past the
FFMC axis, at every time and humidity. -/
theorem calc_hourly_ffmc_lawson_101 (ts : ℤ) (rh : ℝ) :
    calc_hourly_ffmc_lawson 101 ts rh = none := by
  -- Helper: for the code `101` the lookup has no result in any of the four
  -- tables.
  have lookup_101 (T : List (List ℚ)) (hax : (T.headD []).drop 1 = ffmcAxis) (ts : ℤ)
      (tindex : ℕ) : lookup T ts 101 tindex = none := by
    unfold lookup colScan
    rw [hax, scan_axis_101]
    rfl
  have hf : (if (101 : ℝ) < 17.5 then (17.5 : ℝ) else 101) = 101 := by norm_num
  have hsel : ∀ (t : ℤ) (r : Option (ℕ × ℕ)),
      (r.bind fun sel =>
        match sel.2 with
        | 1 => LOWRH t 101 sel.1
        | 2 => MEDRH t 101 sel.1
        | _ => HIGHRH t 101 sel.1) = none := by
    intro t r
    cases r with
    | none => rfl
    | some sel =>
      simp only [Option.some_bind]
      split
      · exact lookup_101 L table_axes.1 t sel.1
      · exact lookup_101 M table_axes.2.1 t sel.1
      · exact lookup_101 H table_axes.2.2.1 t sel.1
  have hmain : ∀ t : ℤ, MAINTBL t 101 = none := by
    intro t
    unfold MAINTBL
    simp only [lookup_101 MAIN table_axes.2.2.2]
    cases scan _ _ _ <;> rfl
  unfold calc_hourly_ffmc_lawson
  simp only []
  rw [if_neg (by norm_num), hf]
  by_cases hmorn : GetHours (normalizeTs ts) ≥ 6 ∧ GetHours (normalizeTs ts) ≤ 11
  · rw [if_pos hmorn]
    exact hsel _ _
  · rw [if_neg hmorn, hmain]
    rfl

/-! ### The one-hour forward step and the end of the inversion loop -/

/-- Helper: `xmOf` below the wetting equilibrium. -/
theorem xmOf_wet (t ed ew kd kw : ℝ) (hew : ew ≤ ed) (h : t ≤ ew) :
    xmOf t ed ew kd kw = ew + (t - ew) * kw := by
  unfold xmOf
  rcases eq_or_lt_of_le h with h1 | h1
  · by_cases h2 : t - ed = 0
    · rw [if_pos (Or.inl h2), h1]
      ring
    · have h3 : t - ed < 0 := by
        rcases lt_or_eq_of_le (show t ≤ ed by linarith) with h4 | h4
        · linarith
        · exact absurd (by linarith) h2
      rw [if_pos (Or.inr ⟨by linarith, h3⟩), h1]
      ring
  · have c1 : ¬ (t - ed = 0 ∨ (t - ew ≥ 0 ∧ t - ed < 0)) := by
      rintro (h2 | ⟨h2, _⟩) <;> linarith
    have c2 : ¬ (t - ed > 0) := by
      intro h2
      linarith
    rw [if_neg c1, if_neg c2]

/-- Helper: `xmOf` between the two equilibria. -/
theorem xmOf_id (t ed ew kd kw : ℝ) (h1 : ew ≤ t) (h2 : t ≤ ed) : xmOf t ed ew kd kw = t := by
  unfold xmOf
  rcases eq_or_lt_of_le h2 with h3 | h3
  · rw [if_pos (Or.inl (by linarith))]
  · rw [if_pos (Or.inr ⟨by linarith, by linarith⟩)]

/-- Helper: `xmOf` above the drying equilibrium. -/
theorem xmOf_dry (t ed ew kd kw : ℝ) (h : ed ≤ t) :
    xmOf t ed ew kd kw = ed + (t - ed) * kd := by
  unfold xmOf
  rcases eq_or_lt_of_le h with h1 | h1
  · rw [if_pos (Or.inl (by linarith)), ← h1]
    ring
  · have c1 : ¬ (t - ed = 0 ∨ (t - ew ≥ 0 ∧ t - ed < 0)) := by
      rintro (h2 | ⟨_, h2⟩) <;> linarith
    rw [if_neg c1, if_pos (by linarith)]

/-- Helper: the wetting equilibrium is at most the drying equilibrium for a
humidity in `[0, 100]` percent. -/
theorem calc_ew_le_calc_ed (rhp temperature : ℝ) (h0 : 0 ≤ rhp) (h1 : rhp ≤ 100) :
    calc_ew rhp temperature ≤ calc_ed rhp temperature := by
  -- Helper: `100 ^ 0.074 ≤ 1.5`.
  have rpow_100_bound : (100 : ℝ) ^ (0.074 : ℝ) ≤ 1.5 := by
    have h1 : (100 : ℝ) ^ (0.074 : ℝ) ≤ (100 : ℝ) ^ ((3 : ℝ) * ((40 : ℕ) : ℝ)⁻¹) :=
      Real.rpow_le_rpow_of_exponent_le (by norm_num) (by norm_num)
    have h2 : (100 : ℝ) ^ ((3 : ℝ) * ((40 : ℕ) : ℝ)⁻¹) = ((100 : ℝ) ^ (3 : ℕ)) ^ (((40 : ℕ) : ℝ)⁻¹) := by
      rw [Real.rpow_mul (by norm_num), ← Real.rpow_natCast]
      norm_num
    have h3 : ((100 : ℝ) ^ (3 : ℕ)) ^ (((40 : ℕ) : ℝ)⁻¹) ≤ ((1.5 : ℝ) ^ (40 : ℕ)) ^ (((40 : ℕ) : ℝ)⁻¹) :=
      Real.rpow_le_rpow (by norm_num) (by norm_num) (by norm_num)
    have h4 : ((1.5 : ℝ) ^ (40 : ℕ)) ^ (((40 : ℕ) : ℝ)⁻¹) = 1.5 :=
      Real.pow_rpow_inv_natCast (by norm_num) (by norm_num)
    rw [h2] at h1
    linarith
  unfold calc_ew calc_ed
  have hexp : 0 ≤ Real.exp ((rhp - 100) / 10) := (Real.exp_pos _).le
  have hpow : 0.618 * rhp ^ (0.753 : ℝ) ≤ 0.942 * rhp ^ (0.679 : ℝ) := by
    rcases eq_or_lt_of_le h0 with h | h
    · rw [← h, Real.zero_rpow (by norm_num), Real.zero_rpow (by norm_num)]
      norm_num
    · have e : rhp ^ (0.753 : ℝ) = rhp ^ (0.679 : ℝ) * rhp ^ (0.074 : ℝ) := by
        rw [← Real.rpow_add h]
        norm_num
      have b1 : rhp ^ (0.074 : ℝ) ≤ 1.5 :=
        le_trans (Real.rpow_le_rpow h0 h1 (by norm_num)) rpow_100_bound
      have b2 : 0 ≤ rhp ^ (0.679 : ℝ) := Real.rpow_nonneg h0 _
      rw [e]
      nlinarith
  linarith

/-- Helper: the drying equilibrium is at least `-7.2` for a temperature of at
most `60` and a non-negative humidity. -/
theorem calc_ed_lower (rhp temperature : ℝ) (h0 : 0 ≤ rhp) (ht : temperature ≤ 60) :
    -7.2 ≤ calc_ed rhp temperature := by
  unfold calc_ed
  have hexp : 0 ≤ Real.exp ((rhp - 100) / 10) := (Real.exp_pos _).le
  have hpow : 0 ≤ rhp ^ (0.679 : ℝ) := Real.rpow_nonneg h0 _
  have he1 : 0 ≤ 1 - Real.exp (-0.115 * rhp) := by
    have : Real.exp (-0.115 * rhp) ≤ 1 := Real.exp_le_one_iff.mpr (by nlinarith)
    linarith
  have he2 : 1 - Real.exp (-0.115 * rhp) ≤ 1 := by
    have := Real.exp_pos (-0.115 * rhp)
    linarith
  have h3 : -7.002 ≤ 0.18 * (21.1 - temperature) * (1 - Real.exp (-0.115 * rhp)) := by
    by_cases hc : 21.1 - temperature ≤ 0
    · have : (21.1 - temperature) * 1 ≤ (21.1 - temperature) * (1 - Real.exp (-0.115 * rhp)) :=
        mul_le_mul_of_nonpos_left he2 hc
      nlinarith
    · push_neg at hc
      have := mul_nonneg hc.le he1
      nlinarith
  nlinarith

/-- Helper: the log rate `xkd` is non-negative for a humidity argument in `[0, 1]`. -/
theorem xkdOf_nonneg (a1 ws temperature : ℝ) (h0 : 0 ≤ a1) (h1 : a1 ≤ 1) :
    0 ≤ xkdOf a1 ws temperature := by
  unfold xkdOf
  have p1 : a1 ^ (1.7 : ℝ) ≤ 1 := Real.rpow_le_one h0 h1 (by norm_num)
  have p2 : a1 ^ (8 : ℝ) ≤ 1 := Real.rpow_le_one h0 h1 (by norm_num)
  have s : 0 ≤ Real.sqrt ws := Real.sqrt_nonneg _
  have e : 0 ≤ Real.exp (0.0365 * temperature) := (Real.exp_pos _).le
  have t1 : 0 ≤ 0.424 * (1 - a1 ^ (1.7 : ℝ)) := by nlinarith
  have t2 : 0 ≤ 0.0694 * Real.sqrt ws * (1 - a1 ^ (8 : ℝ)) :=
    mul_nonneg (mul_nonneg (by norm_num) s) (by linarith)
  exact mul_nonneg (mul_nonneg (add_nonneg t1 t2) (by norm_num)) e

/-- Helper: the relaxation factor `10 ^ (-xkd * 1)` is in `[0, 1]`. -/
theorem relax_factor_bounds (a1 ws temperature : ℝ) (h0 : 0 ≤ a1) (h1 : a1 ≤ 1) :
    0 ≤ (10 : ℝ) ^ (-xkdOf a1 ws temperature * 1) ∧
      (10 : ℝ) ^ (-xkdOf a1 ws temperature * 1) ≤ 1 := by
  constructor
  · exact Real.rpow_nonneg (by norm_num) _
  · apply Real.rpow_le_one_of_one_le_of_nonpos (by norm_num)
    have := xkdOf_nonneg a1 ws temperature h0 h1
    linarith

/-- Helper: the one-hour forward step on inputs inside all the ranges, written
with `moistureOf`, `afterRain`, `xkdOf`, `xmOf` and `ffmcOf`. -/
theorem subdaily_one_hour_eq (x rain temperature rh ws : ℝ) (hx0 : 0 ≤ x) (hx1 : x ≤ 101)
    (hr0 : 0 ≤ rain) (hr1 : rain ≤ 300) (ht0 : -50 ≤ temperature) (ht1 : temperature ≤ 60)
    (hh0 : 0 ≤ rh) (hh1 : rh ≤ 1) (hw0 : 0 ≤ ws) (hw1 : ws ≤ 200) :
    calc_subdaily_ffmc_vanwagner (WTimeSpan.mk4 0 1 0 0) x rain temperature rh ws =
      ffmcOf (xmOf (afterRain rain (moistureOf x)) (calc_ed (rh * 100) temperature)
        (calc_ew (rh * 100) temperature) ((10 : ℝ) ^ (-xkdOf rh ws temperature * 1))
        ((10 : ℝ) ^ (-xkdOf (1 - rh) ws temperature * 1))) := by
  -- Helper: one hour is an exact multiple of an hour, so the factor is `147.2`.
  have factor_one_hour : factor (WTimeSpan.mk4 0 1 0 0) = 147.2 := by
    unfold factor GetTotalSeconds WTimeSpan.mk4
    norm_num
  -- Helper: the hour fraction of one hour.
  have hour_frac_one_hour :
      ((GetTotalSeconds (WTimeSpan.mk4 0 1 0 0) : ℤ) : ℝ) / 60 / 60 = 1 := by
    unfold GetTotalSeconds WTimeSpan.mk4
    norm_num
  have hbad : ¬ (x < 0 ∨ x > 101 ∨ rain < 0 ∨ rain > 300) := by
    rintro (h | h | h | h) <;> linarith
  have hT : (if temperature < -50 then (-50 : ℝ) else if temperature > 60 then 60
      else temperature) = temperature := by
    rw [if_neg (by linarith), if_neg (by linarith)]
  have hR : (if rh < 0 then (0 : ℝ) else if rh > 1 then 1 else rh) = rh := by
    rw [if_neg (by linarith), if_neg (by linarith)]
  have hW : (if ws > 200 then (200 : ℝ) else if ws < 0 then 0 else ws) = ws := by
    rw [if_neg (by linarith), if_neg (by linarith)]
  unfold calc_subdaily_ffmc_vanwagner ffmcOf
  simp only []
  rw [if_neg hbad, hT, hR, hW, factor_one_hour, hour_frac_one_hour]
  have hxm : (if afterRain rain (moistureOf x) - calc_ed (rh * 100) temperature = 0 ∨
        (afterRain rain (moistureOf x) - calc_ew (rh * 100) temperature ≥ 0 ∧
          afterRain rain (moistureOf x) - calc_ed (rh * 100) temperature < 0) then
        afterRain rain (moistureOf x)
      else
        (if afterRain rain (moistureOf x) - calc_ed (rh * 100) temperature > 0 then
            calc_ed (rh * 100) temperature else calc_ew (rh * 100) temperature) +
          (if afterRain rain (moistureOf x) - calc_ed (rh * 100) temperature > 0 then
              afterRain rain (moistureOf x) - calc_ed (rh * 100) temperature
            else afterRain rain (moistureOf x) - calc_ew (rh * 100) temperature) *
            (10 : ℝ) ^ (-((0.424 * (1 - (if afterRain rain (moistureOf x) -
                calc_ed (rh * 100) temperature > 0 then rh else 1 - rh) ^ (1.7 : ℝ)) +
              0.0694 * Real.sqrt ws * (1 - (if afterRain rain (moistureOf x) -
                calc_ed (rh * 100) temperature > 0 then rh else 1 - rh) ^ (8 : ℝ))) * 0.0579 *
              Real.exp (0.0365 * temperature)) * 1)) =
      xmOf (afterRain rain (moistureOf x)) (calc_ed (rh * 100) temperature)
        (calc_ew (rh * 100) temperature) ((10 : ℝ) ^ (-xkdOf rh ws temperature * 1))
        ((10 : ℝ) ^ (-xkdOf (1 - rh) ws temperature * 1)) := by
    unfold xmOf xkdOf
    by_cases c1 : afterRain rain (moistureOf x) - calc_ed (rh * 100) temperature = 0 ∨
        (afterRain rain (moistureOf x) - calc_ew (rh * 100) temperature ≥ 0 ∧
          afterRain rain (moistureOf x) - calc_ed (rh * 100) temperature < 0)
    · rw [if_pos c1, if_pos c1]
    · rw [if_neg c1, if_neg c1]
      by_cases c2 : afterRain rain (moistureOf x) - calc_ed (rh * 100) temperature > 0
      · simp only [if_pos c2]
      · simp only [if_neg c2]
  unfold afterRain moistureOf at hxm ⊢
  simp only [] at hxm ⊢
  rw [hxm]

/-- Helper: the moisture of a code in `[0, 101]` is in `[0, 249.9]`, and the
reciprocal of `147.2 + moisture` is linear in the code. -/
theorem moistureOf_facts (x : ℝ) (hx0 : 0 ≤ x) (hx1 : x ≤ 101) :
    0 ≤ moistureOf x ∧ moistureOf x ≤ 249.9 ∧
      1 / (147.2 + moistureOf x) = (59.5 + x) / 23625.6 := by
  unfold moistureOf
  have hpos : (0 : ℝ) < 59.5 + x := by linarith
  refine ⟨?_, ?_, ?_⟩
  · exact div_nonneg (mul_nonneg (by norm_num) (by linarith)) hpos.le
  · rw [div_le_iff₀ hpos]
    nlinarith
  · have e : 147.2 + 147.2 * (101 - x) / (59.5 + x) = 23625.6 / (59.5 + x) := by
      field_simp
      ring
    rw [e, one_div_div]

/-- Helper: the rain gain of equation 12 is not negative. -/
theorem rain_gain_nonneg (rain mo : ℝ) (hr : 0 ≤ rain) :
    0 ≤ rain * 42.5 * Real.exp (-100 / (251 - mo)) * (1 - Real.exp (-6.93 / rain)) := by
  have h1 : Real.exp (-6.93 / rain) ≤ 1 := by
    apply Real.exp_le_one_iff.mpr
    exact div_nonpos_of_nonpos_of_nonneg (by norm_num) hr
  have h2 : 0 ≤ Real.exp (-100 / (251 - mo)) := (Real.exp_pos _).le
  exact mul_nonneg (mul_nonneg (mul_nonneg hr (by norm_num)) h2) (by linarith)

/-- Helper: the rain step does not lower a moisture of at most `250` and
stays at most `250`. -/
theorem afterRain_bounds (rain mo : ℝ) (hr : 0 ≤ rain) (hm : mo ≤ 250) :
    mo ≤ afterRain rain mo ∧ afterRain rain mo ≤ 250 := by
  have hg := rain_gain_nonneg rain mo hr
  unfold afterRain
  simp only []
  by_cases h0 : rain ≠ 0
  · rw [if_pos h0]
    by_cases h1 : mo + rain * 42.5 * Real.exp (-100 / (251 - mo)) *
        (1 - Real.exp (-6.93 / rain)) > 250
    · rw [if_pos h1]
      exact ⟨hm, le_refl _⟩
    · rw [if_neg h1]
      exact ⟨by linarith, not_lt.mp h1⟩
  · rw [if_neg h0, if_neg (by linarith)]
    exact ⟨le_refl _, hm⟩

/-- Helper: the relaxed moisture `xm` is at least `-7.2`. -/
theorem xmOf_lower (t ed ew kd kw : ℝ) (hew : ew ≤ ed) (hed : -7.2 ≤ ed) (hkd0 : 0 ≤ kd)
    (hkw1 : kw ≤ 1) (ht : 0 ≤ t) : -7.2 ≤ xmOf t ed ew kd kw := by
  by_cases c1 : t ≤ ew
  · rw [xmOf_wet t ed ew kd kw hew c1]
    have := mul_nonneg (sub_nonneg.mpr c1) (sub_nonneg.mpr hkw1)
    nlinarith
  · push_neg at c1
    by_cases c2 : t ≤ ed
    · rw [xmOf_id t ed ew kd kw c1.le c2]
      linarith
    · push_neg at c2
      rw [xmOf_dry t ed ew kd kw c2.le]
      have := mul_nonneg (sub_nonneg.mpr c2.le) hkd0
      linarith

/-- Helper: the final range check is monotone and does not enlarge gaps. -/
theorem ffmcOf_gap (x1 x2 d : ℝ) (h1 : -7.2 ≤ x1) (h2 : -7.2 ≤ x2) (hd : 0 ≤ d)
    (h : 1 / (147.2 + x2) - 1 / (147.2 + x1) ≤ d / 23633.4) :
    ffmcOf x2 ≤ ffmcOf x1 + d := by
  have p1 : (0 : ℝ) < 147.2 + x1 := by linarith only [h1]
  have p2 : (0 : ℝ) < 147.2 + x2 := by linarith only [h2]
  have e1 : 59.5 * (250 - x1) / (147.2 + x1) = 23633.4 * (1 / (147.2 + x1)) - 59.5 := by
    field_simp
    ring
  have e2 : 59.5 * (250 - x2) / (147.2 + x2) = 23633.4 * (1 / (147.2 + x2)) - 59.5 := by
    field_simp
    ring
  have hc : 59.5 * (250 - x2) / (147.2 + x2) ≤ 59.5 * (250 - x1) / (147.2 + x1) + d := by
    rw [e1, e2]
    have h3 := mul_le_mul_of_nonneg_left h (by norm_num : (0 : ℝ) ≤ 23633.4)
    have e3 : 23633.4 * (d / 23633.4) = d := by
      field_simp
    rw [e3, mul_sub] at h3
    linarith only [h3]
  have r2 := range_check_bounds (59.5 * (250 - x2) / (147.2 + x2))
  unfold ffmcOf
  simp only []
  clear e1 e2 h p1 p2 h1 h2
  generalize 59.5 * (250 - x1) / (147.2 + x1) = A at hc ⊢
  generalize 59.5 * (250 - x2) / (147.2 + x2) = B at hc r2 ⊢
  obtain ⟨r2a, r2b⟩ := r2
  by_cases a1 : A > 101
  · rw [if_pos a1]
    linarith only [r2b, hd]
  · rw [if_neg a1]
    by_cases b1 : A < 0
    · rw [if_pos b1]
      by_cases a2 : B > 101
      · rw [if_pos a2]
        linarith only [hc, a2, b1, hd, a1]
      · rw [if_neg a2]
        by_cases b2 : B < 0
        · rw [if_pos b2]
          linarith only [hd]
        · rw [if_neg b2]
          linarith only [hc, b1]
    · rw [if_neg b1]
      by_cases a2 : B > 101
      · rw [if_pos a2]
        linarith only [hc, a2, a1, hd]
      · rw [if_neg a2]
        by_cases b2 : B < 0
        · rw [if_pos b2]
          linarith only [b1, hd]
        · rw [if_neg b2]
          linarith only [hc]

set_option maxHeartbeats 1000000 in
/-- Helper: the one-hour forward step rises at most twice as fast as the
starting code: for `0 ≤ x ≤ y ≤ 101` and a rain in `[0, 300]`, whatever the
temperature, humidity and wind. -/
theorem forward_one_sided (x y rain temperature rh ws : ℝ) (hx0 : 0 ≤ x) (hxy : x ≤ y)
    (hy1 : y ≤ 101) (hr0 : 0 ≤ rain) (hr1 : rain ≤ 300) :
    calc_subdaily_ffmc_vanwagner (WTimeSpan.mk4 0 1 0 0) y rain temperature rh ws ≤
      calc_subdaily_ffmc_vanwagner (WTimeSpan.mk4 0 1 0 0) x rain temperature rh ws +
        2 * (y - x) := by
  -- Helper: the key polynomial bound of the drying piece.
  have drying_key (k A E : ℝ) (hk0 : 0 ≤ k) (hk1 : k ≤ 1) (hE : 140 ≤ E) (hA0 : 0 ≤ A)
      (hA : A ≤ 397.2) : k * A ^ 2 ≤ 1.5 * ((1 - k) * E + k * A) ^ 2 := by
    have hs0 : 0 ≤ (1 - k) * 140 + k * A := by
      have h1 := mul_nonneg (sub_nonneg.mpr hk1) (by norm_num : (0 : ℝ) ≤ 140)
      have h2 := mul_nonneg hk0 hA0
      linarith only [h1, h2]
    have hs : (1 - k) * 140 + k * A ≤ (1 - k) * E + k * A := by
      have h1 := mul_le_mul_of_nonneg_left hE (sub_nonneg.mpr hk1)
      linarith only [h1]
    have hsq : ((1 - k) * 140 + k * A) ^ 2 ≤ ((1 - k) * E + k * A) ^ 2 :=
      pow_le_pow_left₀ hs0 hs 2
    suffices h : k * A ^ 2 ≤ 1.5 * ((1 - k) * 140 + k * A) ^ 2 by linarith only [h, hsq]
    by_cases hk : 2 / 3 ≤ k
    · have h1 : k * A ≤ (1 - k) * 140 + k * A := by
        have h0 := mul_nonneg (sub_nonneg.mpr hk1) (by norm_num : (0 : ℝ) ≤ 140)
        linarith only [h0]
      have h2 : (k * A) ^ 2 ≤ ((1 - k) * 140 + k * A) ^ 2 :=
        pow_le_pow_left₀ (mul_nonneg hk0 hA0) h1 2
      have h3 : k * A ^ 2 ≤ 1.5 * (k * A) ^ 2 := by
        have h5 : 0 ≤ k * A ^ 2 * (1.5 * k - 1) := by
          apply mul_nonneg (mul_nonneg hk0 (sq_nonneg A))
          linarith only [hk]
        linarith only [h5]
      linarith only [h3, h2]
    · push_neg at hk
      have hp1 : 0 ≤ 29400 - 49743.84 * k + 99227.76 * k ^ 2 := by
        linarith only [sq_nonneg (k - 0.25), hk1]
      have hc : 0 ≤ k * (1 - 1.5 * k) * (A * (397.2 - A)) := by
        apply mul_nonneg
        · apply mul_nonneg hk0
          linarith only [hk]
        · apply mul_nonneg hA0
          linarith only [hA]
      have hp0 : 0 ≤ 1.5 * 140 ^ 2 * (1 - k) ^ 2 * (397.2 - A) := by
        apply mul_nonneg
        · positivity
        · linarith only [hA]
      have hpA : 0 ≤ (29400 - 49743.84 * k + 99227.76 * k ^ 2) * A := mul_nonneg hp1 hA0
      have hid : (1.5 * ((1 - k) * 140 + k * A) ^ 2 - k * A ^ 2) * 397.2 =
          1.5 * 140 ^ 2 * (1 - k) ^ 2 * (397.2 - A) +
            (29400 - 49743.84 * k + 99227.76 * k ^ 2) * A +
            k * (1 - 1.5 * k) * (A * (397.2 - A)) * 397.2 := by
        ring
      have h8 : 0 ≤ (1.5 * ((1 - k) * 140 + k * A) ^ 2 - k * A ^ 2) * 397.2 := by
        rw [hid]
        have h6 := mul_nonneg hc (by norm_num : (0 : ℝ) ≤ 397.2)
        linarith only [h6, hp0, hpA]
      have h4 : 0 ≤ 1.5 * ((1 - k) * 140 + k * A) ^ 2 - k * A ^ 2 := by
        by_contra hneg
        push_neg at hneg
        have h7 := mul_neg_of_neg_of_pos hneg (by norm_num : (0 : ℝ) < 397.2)
        linarith only [h7, h8]
      linarith only [h4]
  -- Helper: from the bounds on the squares to the bound on the product.
  have prod_bound (k A B sA sB : ℝ) (hk0 : 0 ≤ k) (hsA : 0 ≤ sA) (hsB : 0 ≤ sB) (kA : k * A ^ 2 ≤ 1.5 * sA ^ 2) (kB : k * B ^ 2 ≤ 1.5 * sB ^ 2) :
      k * (A * B) ≤ 1.5 * (sA * sB) := by
    have h1 : 0 ≤ k * A ^ 2 := mul_nonneg hk0 (sq_nonneg _)
    have h2 : 0 ≤ k * B ^ 2 := mul_nonneg hk0 (sq_nonneg _)
    have h3 := mul_le_mul kA kB h2 (le_trans h1 kA)
    have e1 : (k * (A * B)) ^ 2 = k * A ^ 2 * (k * B ^ 2) := by ring
    have e2 : (1.5 * (sA * sB)) ^ 2 = 1.5 * sA ^ 2 * (1.5 * sB ^ 2) := by ring
    have hr : 0 ≤ 1.5 * (sA * sB) := mul_nonneg (by norm_num) (mul_nonneg hsA hsB)
    have hsq : (k * (A * B)) ^ 2 ≤ (1.5 * (sA * sB)) ^ 2 := by
      rw [e1, e2]
      exact h3
    exact le_of_pow_le_pow_left₀ two_ne_zero hr hsq
  -- Helper: the reciprocal bounds of one piece, from the product bound. Here
  -- `A`, `B` are `147.2 + mo` and `sA`, `sB` are `147.2 + xm` at the two points.
  have recip_piece (k A B sA sB d : ℝ) (hk0 : 0 ≤ k) (hA : 0 < A) (hB : 0 < B)
      (hsA : 0 < sA) (hsB : 0 < sB) (hd : 0 ≤ d) (hs : sA - sB = k * d) (hAB : A - B = d)
      (hprod : k * (A * B) ≤ 1.5 * (sA * sB)) :
      0 ≤ 1 / sB - 1 / sA ∧ 1 / sB - 1 / sA ≤ 1.5 * (1 / B - 1 / A) := by
    have e1 : 1 / sB - 1 / sA = k * d / (sA * sB) := by
      rw [← hs, div_sub_div _ _ hsB.ne' hsA.ne']
      congr 1 <;> ring
    have e2 : 1.5 * (1 / B - 1 / A) = 1.5 * d / (A * B) := by
      rw [← hAB, div_sub_div _ _ hB.ne' hA.ne', mul_div_assoc]
      congr 2 <;> ring
    rw [e1, e2]
    constructor
    · exact div_nonneg (mul_nonneg hk0 hd) (mul_pos hsA hsB).le
    · rw [div_le_div_iff₀ (mul_pos hsA hsB) (mul_pos hA hB)]
      have h := mul_le_mul_of_nonneg_left hprod hd
      have e3 : k * d * (A * B) = d * (k * (A * B)) := by ring
      have e4 : 1.5 * d * (sA * sB) = d * (1.5 * (sA * sB)) := by ring
      rw [e3, e4]
      exact h
  -- Helper: on the drying piece (`e ≤ b ≤ a`) the reciprocal of `147.2 + xm`
  -- moves in the direction of, and at most `1.5` times as much as, the reciprocal
  -- of `147.2 + mo`.
  have drying_piece (k e a b : ℝ) (hk0 : 0 ≤ k) (hk1 : k ≤ 1) (he : -7.2 ≤ e) (heb : e ≤ b)
      (hba : b ≤ a) (ha : a ≤ 250) :
      0 ≤ 1 / (147.2 + (e + (b - e) * k)) - 1 / (147.2 + (e + (a - e) * k)) ∧
      1 / (147.2 + (e + (b - e) * k)) - 1 / (147.2 + (e + (a - e) * k)) ≤
        1.5 * (1 / (147.2 + b) - 1 / (147.2 + a)) := by
    have hE : (140 : ℝ) ≤ 147.2 + e := by linarith only [he]
    have hB : (140 : ℝ) ≤ 147.2 + b := by linarith only [he, heb]
    have hA : (140 : ℝ) ≤ 147.2 + a := by linarith only [he, heb, hba]
    have hsB : 147.2 + (e + (b - e) * k) = (1 - k) * (147.2 + e) + k * (147.2 + b) := by ring
    have hsA : 147.2 + (e + (a - e) * k) = (1 - k) * (147.2 + e) + k * (147.2 + a) := by ring
    have hsBpos : 0 < (1 - k) * (147.2 + e) + k * (147.2 + b) := by
      have h1 := mul_le_mul_of_nonneg_left hE (sub_nonneg.mpr hk1)
      have h2 := mul_le_mul_of_nonneg_left hB hk0
      linarith only [h1, h2]
    have hsApos : 0 < (1 - k) * (147.2 + e) + k * (147.2 + a) := by
      have h1 := mul_le_mul_of_nonneg_left hE (sub_nonneg.mpr hk1)
      have h2 := mul_le_mul_of_nonneg_left hA hk0
      linarith only [h1, h2]
    have hBpos : (0 : ℝ) < 147.2 + b := by linarith only [hB]
    have hApos : (0 : ℝ) < 147.2 + a := by linarith only [hA]
    have kA := drying_key k (147.2 + a) (147.2 + e) hk0 hk1 hE hApos.le (by linarith only [ha])
    have kB := drying_key k (147.2 + b) (147.2 + e) hk0 hk1 hE hBpos.le (by linarith only [ha, hba])
    have hprod := prod_bound k (147.2 + a) (147.2 + b) _ _ hk0 hsApos.le hsBpos.le kA kB
    rw [hsB, hsA]
    exact recip_piece k (147.2 + a) (147.2 + b) _ _ (a - b) hk0 hApos hBpos hsApos hsBpos
      (sub_nonneg.mpr hba) (by ring) (by ring) hprod
  -- Helper: on the wetting piece (`b ≤ a ≤ e`) the same bounds hold.
  have wetting_piece (k e a b : ℝ) (hk0 : 0 ≤ k) (hk1 : k ≤ 1) (hb0 : 0 ≤ b) (hba : b ≤ a)
      (hae : a ≤ e) :
      0 ≤ 1 / (147.2 + (e + (b - e) * k)) - 1 / (147.2 + (e + (a - e) * k)) ∧
      1 / (147.2 + (e + (b - e) * k)) - 1 / (147.2 + (e + (a - e) * k)) ≤
        1.5 * (1 / (147.2 + b) - 1 / (147.2 + a)) := by
    have hBpos : (0 : ℝ) < 147.2 + b := by linarith only [hb0]
    have hApos : (0 : ℝ) < 147.2 + a := by linarith only [hb0, hba]
    have hgeA : 147.2 + a ≤ 147.2 + (e + (a - e) * k) := by
      have h1 := mul_nonneg (sub_nonneg.mpr hae) (sub_nonneg.mpr hk1)
      linarith only [h1]
    have hgeB : 147.2 + b ≤ 147.2 + (e + (b - e) * k) := by
      have h1 := mul_nonneg (sub_nonneg.mpr (le_trans hba hae)) (sub_nonneg.mpr hk1)
      linarith only [h1]
    have hsApos : 0 < 147.2 + (e + (a - e) * k) := lt_of_lt_of_le hApos hgeA
    have hsBpos : 0 < 147.2 + (e + (b - e) * k) := lt_of_lt_of_le hBpos hgeB
    have hprod : k * ((147.2 + a) * (147.2 + b)) ≤
        1.5 * ((147.2 + (e + (a - e) * k)) * (147.2 + (e + (b - e) * k))) := by
      have h1 : (147.2 + a) * (147.2 + b) ≤
          (147.2 + (e + (a - e) * k)) * (147.2 + (e + (b - e) * k)) :=
        mul_le_mul hgeA hgeB hBpos.le hsApos.le
      have h2 : 0 ≤ (147.2 + a) * (147.2 + b) := (mul_pos hApos hBpos).le
      have h3 : k * ((147.2 + a) * (147.2 + b)) ≤ (147.2 + a) * (147.2 + b) := by
        have h4 := mul_le_mul_of_nonneg_right hk1 h2
        linarith only [h4]
      linarith only [h1, h2, h3]
    exact recip_piece k (147.2 + a) (147.2 + b) _ _ (a - b) hk0 hApos hBpos hsApos hsBpos
      (sub_nonneg.mpr hba) (by ring) (by ring) hprod
  -- Helper: on the piece where the moisture is kept (`xm = mo`) the same
  -- bounds hold.
  have identity_piece (a b : ℝ) (hb0 : 0 ≤ b) (hba : b ≤ a) :
      0 ≤ 1 / (147.2 + b) - 1 / (147.2 + a) ∧
      1 / (147.2 + b) - 1 / (147.2 + a) ≤ 1.5 * (1 / (147.2 + b) - 1 / (147.2 + a)) := by
    have hBpos : (0 : ℝ) < 147.2 + b := by linarith only [hb0]
    have hApos : (0 : ℝ) < 147.2 + a := by linarith only [hb0, hba]
    have h : 0 ≤ 1 / (147.2 + b) - 1 / (147.2 + a) := by
      rw [sub_nonneg]
      exact one_div_le_one_div_of_le hBpos (by linarith only [hba])
    exact ⟨h, by linarith only [h]⟩
  -- Helper: over the whole moisture range `[0, 250]` the reciprocal of
  -- `147.2 + xm` moves in the direction of, and at most `1.5` times as much as,
  -- the reciprocal of `147.2 + mo`.
  have xmOf_recip (ed ew kd kw a b : ℝ) (hew : ew ≤ ed) (hed : -7.2 ≤ ed) (hkd0 : 0 ≤ kd)
      (hkd1 : kd ≤ 1) (hkw0 : 0 ≤ kw) (hkw1 : kw ≤ 1) (hb0 : 0 ≤ b) (hba : b ≤ a)
      (ha : a ≤ 250) :
      0 ≤ 1 / (147.2 + xmOf b ed ew kd kw) - 1 / (147.2 + xmOf a ed ew kd kw) ∧
      1 / (147.2 + xmOf b ed ew kd kw) - 1 / (147.2 + xmOf a ed ew kd kw) ≤
        1.5 * (1 / (147.2 + b) - 1 / (147.2 + a)) := by
    have wet : ∀ p q : ℝ, 0 ≤ q → q ≤ p → p ≤ ew →
        0 ≤ 1 / (147.2 + xmOf q ed ew kd kw) - 1 / (147.2 + xmOf p ed ew kd kw) ∧
        1 / (147.2 + xmOf q ed ew kd kw) - 1 / (147.2 + xmOf p ed ew kd kw) ≤
          1.5 * (1 / (147.2 + q) - 1 / (147.2 + p)) := by
      intro p q hq hqp hp
      rw [xmOf_wet q ed ew kd kw hew (le_trans hqp hp), xmOf_wet p ed ew kd kw hew hp]
      exact wetting_piece kw ew p q hkw0 hkw1 hq hqp hp
    have idn : ∀ p q : ℝ, 0 ≤ q → q ≤ p → ew ≤ q → p ≤ ed →
        0 ≤ 1 / (147.2 + xmOf q ed ew kd kw) - 1 / (147.2 + xmOf p ed ew kd kw) ∧
        1 / (147.2 + xmOf q ed ew kd kw) - 1 / (147.2 + xmOf p ed ew kd kw) ≤
          1.5 * (1 / (147.2 + q) - 1 / (147.2 + p)) := by
      intro p q hq hqp hq1 hp
      rw [xmOf_id q ed ew kd kw hq1 (le_trans hqp hp), xmOf_id p ed ew kd kw (le_trans hq1 hqp) hp]
      exact identity_piece p q hq hqp
    have dry : ∀ p q : ℝ, ed ≤ q → q ≤ p → p ≤ 250 →
        0 ≤ 1 / (147.2 + xmOf q ed ew kd kw) - 1 / (147.2 + xmOf p ed ew kd kw) ∧
        1 / (147.2 + xmOf q ed ew kd kw) - 1 / (147.2 + xmOf p ed ew kd kw) ≤
          1.5 * (1 / (147.2 + q) - 1 / (147.2 + p)) := by
      intro p q hq hqp hp
      rw [xmOf_dry q ed ew kd kw hq, xmOf_dry p ed ew kd kw (le_trans hq hqp)]
      exact drying_piece kd ed p q hkd0 hkd1 hed hq hqp hp
    by_cases c1 : a ≤ ew
    · exact wet a b hb0 hba c1
    · push_neg at c1
      by_cases c2 : a ≤ ed
      · by_cases c3 : b ≤ ew
        · obtain ⟨l1, u1⟩ := wet ew b hb0 c3 (le_refl ew)
          obtain ⟨l2, u2⟩ := idn a ew (le_trans hb0 c3) c1.le (le_refl ew) c2
          exact ⟨by linarith only [l1, l2], by linarith only [u1, u2]⟩
        · push_neg at c3
          exact idn a b hb0 hba c3.le c2
      · push_neg at c2
        by_cases c4 : ed ≤ b
        · exact dry a b c4 hba ha
        · push_neg at c4
          obtain ⟨l3, u3⟩ := dry a ed (le_refl ed) c2.le ha
          by_cases c3 : b ≤ ew
          · obtain ⟨l1, u1⟩ := wet ew b hb0 c3 (le_refl ew)
            obtain ⟨l2, u2⟩ := idn ed ew (le_trans hb0 c3) hew (le_refl ew) (le_refl ed)
            exact ⟨by linarith only [l1, l2, l3], by linarith only [u1, u2, u3]⟩
          · push_neg at c3
            obtain ⟨l2, u2⟩ := idn ed b hb0 c4.le c3.le (le_refl ed)
            exact ⟨by linarith only [l2, l3], by linarith only [u2, u3]⟩
  -- Helper: the moisture falls as the code rises.
  have moistureOf_antitone (x y : ℝ) (hx0 : 0 ≤ x) (hxy : x ≤ y) :
      moistureOf y ≤ moistureOf x := by
    unfold moistureOf
    have hx : (0 : ℝ) < 59.5 + x := by linarith only [hx0]
    have hy : (0 : ℝ) < 59.5 + y := by linarith only [hx0, hxy]
    rw [div_le_div_iff₀ hy hx]
    linarith only [hxy]
  -- Helper: the rain step never spreads two moistures apart.
  have afterRain_gap (rain m1 m2 : ℝ) (hr : 0 ≤ rain) (h12 : m1 ≤ m2) (h2 : m2 ≤ 250) :
      afterRain rain m2 - afterRain rain m1 ≤ m2 - m1 := by
    have hexp : Real.exp (-100 / (251 - m2)) ≤ Real.exp (-100 / (251 - m1)) := by
      apply Real.exp_le_exp.mpr
      have p2 : (0 : ℝ) < 251 - m2 := by linarith only [h2]
      have p1 : (0 : ℝ) < 251 - m1 := by linarith only [h12, h2]
      have hdiv : 100 / (251 - m1) ≤ 100 / (251 - m2) :=
        div_le_div_of_nonneg_left (by norm_num) p2 (by linarith only [h12])
      have e1 : -100 / (251 - m2) = -(100 / (251 - m2)) := by ring
      have e2 : -100 / (251 - m1) = -(100 / (251 - m1)) := by ring
      rw [e1, e2]
      linarith only [hdiv]
    have hc : 0 ≤ rain * 42.5 * (1 - Real.exp (-6.93 / rain)) := by
      have h1 : Real.exp (-6.93 / rain) ≤ 1 := by
        apply Real.exp_le_one_iff.mpr
        exact div_nonpos_of_nonpos_of_nonneg (by norm_num) hr
      exact mul_nonneg (mul_nonneg hr (by norm_num)) (by linarith only [h1])
    have hgain : rain * 42.5 * Real.exp (-100 / (251 - m2)) * (1 - Real.exp (-6.93 / rain)) ≤
        rain * 42.5 * Real.exp (-100 / (251 - m1)) * (1 - Real.exp (-6.93 / rain)) := by
      have h3 := mul_le_mul_of_nonneg_left hexp hc
      linarith only [h3]
    have hg1 := rain_gain_nonneg rain m1 hr
    have hg2 := rain_gain_nonneg rain m2 hr
    unfold afterRain
    simp only []
    by_cases h0 : rain ≠ 0
    · simp only [if_pos h0]
      by_cases c2 : m2 + rain * 42.5 * Real.exp (-100 / (251 - m2)) *
          (1 - Real.exp (-6.93 / rain)) > 250
      · rw [if_pos c2]
        by_cases c1 : m1 + rain * 42.5 * Real.exp (-100 / (251 - m1)) *
            (1 - Real.exp (-6.93 / rain)) > 250
        · rw [if_pos c1]
          linarith only [h12]
        · rw [if_neg c1]
          linarith only [c2, hgain]
      · rw [if_neg c2]
        by_cases c1 : m1 + rain * 42.5 * Real.exp (-100 / (251 - m1)) *
            (1 - Real.exp (-6.93 / rain)) > 250
        · rw [if_pos c1]
          linarith only [c2, h12]
        · rw [if_neg c1]
          linarith only [hgain]
    · simp only [if_neg h0]
      rw [if_neg (by linarith only [h12, h2]), if_neg (by linarith only [h12, h2])]
  -- Helper: moistures that moved up and closer have reciprocals that are
  -- closer.
  have recip_gap (a b mx my : ℝ) (hmy : 0 ≤ my) (hmyb : my ≤ b) (hmxa : mx ≤ a)
      (hmyx : my ≤ mx) (hgap : a - b ≤ mx - my) :
      1 / (147.2 + b) - 1 / (147.2 + a) ≤ 1 / (147.2 + my) - 1 / (147.2 + mx) := by
    have pa : (0 : ℝ) < 147.2 + a := by linarith only [hmy, hmyx, hmxa]
    have pb : (0 : ℝ) < 147.2 + b := by linarith only [hmy, hmyb]
    have px : (0 : ℝ) < 147.2 + mx := by linarith only [hmy, hmyx]
    have py : (0 : ℝ) < 147.2 + my := by linarith only [hmy]
    have e1 : 1 / (147.2 + b) - 1 / (147.2 + a) = (a - b) / ((147.2 + b) * (147.2 + a)) := by
      rw [div_sub_div _ _ pb.ne' pa.ne']
      congr 1
      ring
    have e2 : 1 / (147.2 + my) - 1 / (147.2 + mx) = (mx - my) / ((147.2 + my) * (147.2 + mx)) := by
      rw [div_sub_div _ _ py.ne' px.ne']
      congr 1
      ring
    rw [e1, e2]
    apply div_le_div₀ (by linarith only [hmyx]) hgap (mul_pos py px)
    exact mul_le_mul (by linarith only [hmyb]) (by linarith only [hmxa]) px.le pb.le
  -- Helper: on inputs inside all the ranges the one-hour forward step rises
  -- at most twice as fast as the starting code.
  have forward_one_sided_inrange (x y rain temperature rh ws : ℝ) (hx0 : 0 ≤ x)
      (hxy : x ≤ y) (hy1 : y ≤ 101) (hr0 : 0 ≤ rain) (hr1 : rain ≤ 300)
      (ht0 : -50 ≤ temperature) (ht1 : temperature ≤ 60) (hh0 : 0 ≤ rh) (hh1 : rh ≤ 1)
      (hw0 : 0 ≤ ws) (hw1 : ws ≤ 200) :
      calc_subdaily_ffmc_vanwagner (WTimeSpan.mk4 0 1 0 0) y rain temperature rh ws ≤
        calc_subdaily_ffmc_vanwagner (WTimeSpan.mk4 0 1 0 0) x rain temperature rh ws +
          2 * (y - x) := by
    rw [subdaily_one_hour_eq x rain temperature rh ws hx0 (le_trans hxy hy1) hr0 hr1 ht0 ht1
        hh0 hh1 hw0 hw1,
      subdaily_one_hour_eq y rain temperature rh ws (le_trans hx0 hxy) hy1 hr0 hr1 ht0 ht1
        hh0 hh1 hw0 hw1]
    have hew := calc_ew_le_calc_ed (rh * 100) temperature (by linarith only [hh0]) (by linarith only [hh1])
    have hed := calc_ed_lower (rh * 100) temperature (by linarith only [hh0]) ht1
    obtain ⟨hkd0, hkd1⟩ := relax_factor_bounds rh ws temperature hh0 hh1
    obtain ⟨hkw0, hkw1⟩ := relax_factor_bounds (1 - rh) ws temperature (by linarith only [hh1]) (by linarith only [hh0])
    obtain ⟨hmx0, hmx1, hmxr⟩ := moistureOf_facts x hx0 (le_trans hxy hy1)
    obtain ⟨hmy0, hmy1, hmyr⟩ := moistureOf_facts y (le_trans hx0 hxy) hy1
    have hmyx := moistureOf_antitone x y hx0 hxy
    obtain ⟨ha0, ha1⟩ := afterRain_bounds rain (moistureOf x) hr0 (by linarith only [hmx1])
    obtain ⟨hb0, hb1⟩ := afterRain_bounds rain (moistureOf y) hr0 (by linarith only [hmy1])
    have hgap := afterRain_gap rain (moistureOf y) (moistureOf x) hr0 hmyx (by linarith only [hmx1])
    have hla := xmOf_lower (afterRain rain (moistureOf x)) _ _ _ _ hew hed hkd0 hkw1
      (le_trans hmx0 ha0)
    have hlb := xmOf_lower (afterRain rain (moistureOf y)) _ _ _ _ hew hed hkd0 hkw1
      (le_trans hmy0 hb0)
    apply ffmcOf_gap _ _ (2 * (y - x)) hla hlb (by linarith only [hxy])
    have hyx : 0 ≤ y - x := by linarith only [hxy]
    by_cases hc : afterRain rain (moistureOf y) ≤ afterRain rain (moistureOf x)
    · obtain ⟨_, hu⟩ := xmOf_recip _ _ _ _ _ _ hew hed hkd0 hkd1 hkw0 hkw1 (le_trans hmy0 hb0) hc ha1
      have hv := recip_gap _ _ _ _ hmy0 hb0 ha0 hmyx hgap
      rw [hmyr, hmxr] at hv
      have e : (59.5 + y) / 23625.6 - (59.5 + x) / 23625.6 = (y - x) / 23625.6 := by ring
      rw [e] at hv
      have hfin : 1.5 * ((y - x) / 23625.6) ≤ 2 * (y - x) / 23633.4 := by
        have e3 : 2 * (y - x) / 23633.4 - 1.5 * ((y - x) / 23625.6) =
            (y - x) * (2 / 23633.4 - 1.5 / 23625.6) := by ring
        have pos : (0 : ℝ) ≤ 2 / 23633.4 - 1.5 / 23625.6 := by norm_num
        have h9 := mul_nonneg hyx pos
        linarith only [h9, e3]
      linarith only [hu, hv, hfin]
    · push_neg at hc
      obtain ⟨hl, _⟩ := xmOf_recip _ _ _ _ _ _ hew hed hkd0 hkd1 hkw0 hkw1 (le_trans hmx0 ha0)
        hc.le hb1
      have h10 : 0 ≤ 2 * (y - x) / 23633.4 := div_nonneg (by linarith only [hxy]) (by norm_num)
      linarith only [hl, h10]
  -- Helper: the forward step sees the temperature, humidity and wind only
  -- through the clamps it applies to them.
  have subdaily_source_clamps (ts : ℤ) (x rain temperature rh ws : ℝ) :
      calc_subdaily_ffmc_vanwagner ts x rain temperature rh ws =
        calc_subdaily_ffmc_vanwagner ts x rain
          (if temperature < -50 then -50 else if temperature > 60 then 60 else temperature)
          (if rh < 0 then 0 else if rh > 1 then 1 else rh)
          (if ws > 200 then 200 else if ws < 0 then 0 else ws) := by
    have hT : (if (if temperature < -50 then (-50 : ℝ) else if temperature > 60 then 60
          else temperature) < -50 then (-50 : ℝ)
        else if (if temperature < -50 then (-50 : ℝ) else if temperature > 60 then 60
          else temperature) > 60 then 60
        else (if temperature < -50 then (-50 : ℝ) else if temperature > 60 then 60
          else temperature)) =
        (if temperature < -50 then (-50 : ℝ) else if temperature > 60 then 60
          else temperature) := by
      split_ifs <;> first | rfl | linarith
    have hR : (if (if rh < 0 then (0 : ℝ) else if rh > 1 then 1 else rh) < 0 then (0 : ℝ)
        else if (if rh < 0 then (0 : ℝ) else if rh > 1 then 1 else rh) > 1 then 1
        else (if rh < 0 then (0 : ℝ) else if rh > 1 then 1 else rh)) =
        (if rh < 0 then (0 : ℝ) else if rh > 1 then 1 else rh) := by
      split_ifs <;> first | rfl | linarith
    have hW : (if (if ws > 200 then (200 : ℝ) else if ws < 0 then 0 else ws) > 200 then (200 : ℝ)
        else if (if ws > 200 then (200 : ℝ) else if ws < 0 then 0 else ws) < 0 then 0
        else (if ws > 200 then (200 : ℝ) else if ws < 0 then 0 else ws)) =
        (if ws > 200 then (200 : ℝ) else if ws < 0 then 0 else ws) := by
      split_ifs <;> first | rfl | linarith
    unfold calc_subdaily_ffmc_vanwagner
    simp only []
    rw [hT, hR, hW]
  rw [subdaily_source_clamps _ x, subdaily_source_clamps _ y]
  apply forward_one_sided_inrange x y rain _ _ _ hx0 hxy hy1 hr0 hr1
  · split_ifs <;> linarith
  · split_ifs <;> linarith
  · split_ifs <;> linarith
  · split_ifs <;> linarith
  · split_ifs <;> linarith
  · split_ifs <;> linarith

/-- Helper: the tolerance is positive. -/
theorem TOLERANCE_pos : 0 < TOLERANCE := by
  unfold TOLERANCE
  norm_num

/-- Helper: the inversion ends within `2020000001` iterations of its loop, on
every input: with that many iterations or more it has a result. -/
theorem calc_previous_terminates (n : ℕ) (hn : 2020000001 ≤ n)
    (cur rain temperature rh ws : ℝ) :
    ∃ v, calc_previous_hourly_ffmc_vanwagner n cur rain temperature rh ws = some v := by
  -- Helper: while the forward value is at or above the target, the solver
  -- loop walks the guess down in steps of more than half the tolerance, so it
  -- ends within `n` iterations when the guess is below `n * (TOLERANCE / 2)`.
  have previous_loop_down (cur rain temperature rh ws : ℝ) (hr0 : 0 ≤ rain)
      (hr1 : rain ≤ 300) :
      ∀ (n : ℕ) (x : ℝ), 0 ≤ x → x ≤ 101 →
        cur ≤ calc_subdaily_ffmc_vanwagner (WTimeSpan.mk4 0 1 0 0) x rain temperature rh ws →
        x < (n : ℝ) * (TOLERANCE / 2) →
        ∃ v, previous_loop cur rain temperature rh ws n x
          (calc_subdaily_ffmc_vanwagner (WTimeSpan.mk4 0 1 0 0) x rain temperature rh ws)
          |calc_subdaily_ffmc_vanwagner (WTimeSpan.mk4 0 1 0 0) x rain temperature rh ws - cur| =
            some v := by
    intro n
    induction n with
    | zero =>
      intro x hx0 _ _ hlt
      simp only [Nat.cast_zero, zero_mul] at hlt
      exact absurd hx0 (not_le.mpr hlt)
    | succ n ih =>
      intro x hx0 hx1 hF hlt
      have habs : |calc_subdaily_ffmc_vanwagner (WTimeSpan.mk4 0 1 0 0) x rain temperature rh ws -
          cur| = calc_subdaily_ffmc_vanwagner (WTimeSpan.mk4 0 1 0 0) x rain temperature rh ws -
          cur := abs_of_nonneg (by linarith)
      rw [previous_loop]
      by_cases hd : |calc_subdaily_ffmc_vanwagner (WTimeSpan.mk4 0 1 0 0) x rain temperature rh
          ws - cur| > TOLERANCE
      · rw [if_pos hd]
        simp only []
        have hpos := TOLERANCE_pos
        have hgt : calc_subdaily_ffmc_vanwagner (WTimeSpan.mk4 0 1 0 0) x rain temperature rh ws >
            cur := by
          rw [habs] at hd
          linarith
        rw [if_pos hgt]
        by_cases hb : calc_subdaily_ffmc_vanwagner (WTimeSpan.mk4 0 1 0 0)
            (x - |calc_subdaily_ffmc_vanwagner (WTimeSpan.mk4 0 1 0 0) x rain temperature rh ws -
              cur| / 2) rain temperature rh ws < 0 ∨
            calc_subdaily_ffmc_vanwagner (WTimeSpan.mk4 0 1 0 0)
            (x - |calc_subdaily_ffmc_vanwagner (WTimeSpan.mk4 0 1 0 0) x rain temperature rh ws -
              cur| / 2) rain temperature rh ws > 101
        · rw [if_pos hb]
          exact ⟨_, rfl⟩
        · rw [if_neg hb]
          by_cases hs : |calc_subdaily_ffmc_vanwagner (WTimeSpan.mk4 0 1 0 0)
              (x - |calc_subdaily_ffmc_vanwagner (WTimeSpan.mk4 0 1 0 0) x rain temperature rh
                ws - cur| / 2) rain temperature rh ws -
              calc_subdaily_ffmc_vanwagner (WTimeSpan.mk4 0 1 0 0) x rain temperature rh ws| <
              TOLERANCE
          · rw [if_pos hs]
            exact ⟨_, rfl⟩
          · rw [if_neg hs]
            have hin : ¬ (x - |calc_subdaily_ffmc_vanwagner (WTimeSpan.mk4 0 1 0 0) x rain
                temperature rh ws - cur| / 2 < 0 ∨
                x - |calc_subdaily_ffmc_vanwagner (WTimeSpan.mk4 0 1 0 0) x rain
                temperature rh ws - cur| / 2 > 101 ∨ rain < 0 ∨ rain > 300) := by
              intro hbad
              have h98 := (subdaily_sentinel_iff (WTimeSpan.mk4 0 1 0 0) _ rain temperature rh
                ws).2 hbad
              apply hb
              left
              rw [h98]
              norm_num
            simp only [not_or, not_lt, gt_iff_lt] at hin
            have hx'0 := hin.1
            have hx'le : x - |calc_subdaily_ffmc_vanwagner (WTimeSpan.mk4 0 1 0 0) x rain
                temperature rh ws - cur| / 2 ≤ x := by
              rw [habs]
              linarith
            have hP := forward_one_sided
              (x - |calc_subdaily_ffmc_vanwagner (WTimeSpan.mk4 0 1 0 0) x rain
                temperature rh ws - cur| / 2) x rain temperature rh ws hx'0 hx'le hx1 hr0 hr1
            apply ih _ hx'0 (le_trans hx'le hx1)
            · rw [habs] at hP ⊢
              linarith
            · rw [habs] at hd ⊢
              push_cast at hlt
              linarith
      · rw [if_neg hd]
        exact ⟨_, rfl⟩
  -- Helper: while the forward value is at or below the target, the solver
  -- loop walks the guess up in steps of more than half the tolerance, so it ends
  -- within `n` iterations when `101 - guess` is below `n * (TOLERANCE / 2)`.
  have previous_loop_up (cur rain temperature rh ws : ℝ) (hr0 : 0 ≤ rain)
      (hr1 : rain ≤ 300) :
      ∀ (n : ℕ) (x : ℝ), 0 ≤ x → x ≤ 101 →
        calc_subdaily_ffmc_vanwagner (WTimeSpan.mk4 0 1 0 0) x rain temperature rh ws ≤ cur →
        101 - x < (n : ℝ) * (TOLERANCE / 2) →
        ∃ v, previous_loop cur rain temperature rh ws n x
          (calc_subdaily_ffmc_vanwagner (WTimeSpan.mk4 0 1 0 0) x rain temperature rh ws)
          |calc_subdaily_ffmc_vanwagner (WTimeSpan.mk4 0 1 0 0) x rain temperature rh ws - cur| =
            some v := by
    intro n
    induction n with
    | zero =>
      intro x _ hx1 _ hlt
      simp only [Nat.cast_zero, zero_mul] at hlt
      linarith
    | succ n ih =>
      intro x hx0 hx1 hF hlt
      have habs : |calc_subdaily_ffmc_vanwagner (WTimeSpan.mk4 0 1 0 0) x rain temperature rh ws -
          cur| = cur - calc_subdaily_ffmc_vanwagner (WTimeSpan.mk4 0 1 0 0) x rain temperature rh
          ws := by
        rw [abs_of_nonpos (by linarith)]
        ring
      rw [previous_loop]
      by_cases hd : |calc_subdaily_ffmc_vanwagner (WTimeSpan.mk4 0 1 0 0) x rain temperature rh
          ws - cur| > TOLERANCE
      · rw [if_pos hd]
        simp only []
        have hpos := TOLERANCE_pos
        have hgt : ¬ calc_subdaily_ffmc_vanwagner (WTimeSpan.mk4 0 1 0 0) x rain temperature rh
            ws > cur := not_lt.mpr hF
        rw [if_neg hgt]
        by_cases hb : calc_subdaily_ffmc_vanwagner (WTimeSpan.mk4 0 1 0 0)
            (x + |calc_subdaily_ffmc_vanwagner (WTimeSpan.mk4 0 1 0 0) x rain temperature rh ws -
              cur| / 2) rain temperature rh ws < 0 ∨
            calc_subdaily_ffmc_vanwagner (WTimeSpan.mk4 0 1 0 0)
            (x + |calc_subdaily_ffmc_vanwagner (WTimeSpan.mk4 0 1 0 0) x rain temperature rh ws -
              cur| / 2) rain temperature rh ws > 101
        · rw [if_pos hb]
          exact ⟨_, rfl⟩
        · rw [if_neg hb]
          by_cases hs : |calc_subdaily_ffmc_vanwagner (WTimeSpan.mk4 0 1 0 0)
              (x + |calc_subdaily_ffmc_vanwagner (WTimeSpan.mk4 0 1 0 0) x rain temperature rh
                ws - cur| / 2) rain temperature rh ws -
              calc_subdaily_ffmc_vanwagner (WTimeSpan.mk4 0 1 0 0) x rain temperature rh ws| <
              TOLERANCE
          · rw [if_pos hs]
            exact ⟨_, rfl⟩
          · rw [if_neg hs]
            have hin : ¬ (x + |calc_subdaily_ffmc_vanwagner (WTimeSpan.mk4 0 1 0 0) x rain
                temperature rh ws - cur| / 2 < 0 ∨
                x + |calc_subdaily_ffmc_vanwagner (WTimeSpan.mk4 0 1 0 0) x rain
                temperature rh ws - cur| / 2 > 101 ∨ rain < 0 ∨ rain > 300) := by
              intro hbad
              have h98 := (subdaily_sentinel_iff (WTimeSpan.mk4 0 1 0 0) _ rain temperature rh
                ws).2 hbad
              apply hb
              left
              rw [h98]
              norm_num
            simp only [not_or, not_lt, gt_iff_lt] at hin
            have hx'1 := hin.2.1
            have hx'ge : x ≤ x + |calc_subdaily_ffmc_vanwagner (WTimeSpan.mk4 0 1 0 0) x rain
                temperature rh ws - cur| / 2 := by
              rw [habs]
              linarith
            have hP := forward_one_sided x
              (x + |calc_subdaily_ffmc_vanwagner (WTimeSpan.mk4 0 1 0 0) x rain
                temperature rh ws - cur| / 2) rain temperature rh ws hx0 hx'ge hx'1 hr0 hr1
            apply ih _ (le_trans hx0 hx'ge) hx'1
            · rw [habs] at hP ⊢
              linarith
            · rw [habs] at hd ⊢
              push_cast at hlt
              linarith
      · rw [if_neg hd]
        exact ⟨_, rfl⟩
  unfold calc_previous_hourly_ffmc_vanwagner
  by_cases hbad : cur < 0 ∨ cur > 101 ∨ rain < 0 ∨ rain > 300
  · rw [if_pos hbad]
    exact ⟨_, rfl⟩
  · rw [if_neg hbad]
    simp only [not_or, not_lt, gt_iff_lt] at hbad
    obtain ⟨hc0, hc1, hr0, hr1⟩ := hbad
    have hN : (101 : ℝ) < (n : ℝ) * (TOLERANCE / 2) := by
      have h1 : ((2020000001 : ℕ) : ℝ) ≤ (n : ℝ) := by exact_mod_cast hn
      unfold TOLERANCE
      push_cast at h1
      linarith
    simp only []
    rcases le_total cur (calc_subdaily_ffmc_vanwagner (WTimeSpan.mk4 0 1 0 0) cur rain
        (if temperature < -50 then -50 else if temperature > 60 then 60 else temperature)
        (if rh < 0 then 0 else if rh > 1 then 1 else rh)
        (if ws > 200 then 200 else if ws < 0 then 0 else ws)) with h | h
    · exact previous_loop_down cur rain _ _ _ hr0 hr1 n cur hc0 hc1 h (by linarith)
    · exact previous_loop_up cur rain _ _ _ hr0 hr1 n cur hc0 hc1 h (by linarith)

/-- C10: every adapter operation returns `E_POINTER` when the output
destination is absent, whatever the other arguments are, and no operation
returns `E_POINTER` when it is present. The ten operations without a table
read or a solver loop always return a status. The two Lawson operations
return a status whenever neither reference code is exactly `101` (the value
at which the engine reads past the FFMC axis). `HourlyFFMC_VanWagner_Previous`
returns a status as soon as its solver loop is given `2020000001` iterations,
which it never needs more than. -/
theorem null_output_iff_pointer_error (a b c d e f g h : ℝ) (n fuel : ℕ) :
    (CCWFGM_FWI.HourlyFFMC_VanWagner a b c d e n none = (HRESULT.E_POINTER, none) ∧
      ∀ old, (CCWFGM_FWI.HourlyFFMC_VanWagner a b c d e n (some old)).1 ≠ HRESULT.E_POINTER) ∧
    (CCWFGM_FWI.HourlyFFMC_Lawson a b c d e f n none = some (HRESULT.E_POINTER, none) ∧
      ∀ old, status (CCWFGM_FWI.HourlyFFMC_Lawson a b c d e f n (some old)) ≠
          some HRESULT.E_POINTER ∧
        (a ≠ 101 → b ≠ 101 →
          ∃ s, status (CCWFGM_FWI.HourlyFFMC_Lawson a b c d e f n (some old)) = some s)) ∧
    (CCWFGM_FWI.HourlyFFMC_VanWagner_Previous fuel a b c d e none =
        some (HRESULT.E_POINTER, none) ∧
      ∀ old, status (CCWFGM_FWI.HourlyFFMC_VanWagner_Previous fuel a b c d e (some old)) ≠
          some HRESULT.E_POINTER ∧
        (2020000001 ≤ fuel →
          ∃ s, status (CCWFGM_FWI.HourlyFFMC_VanWagner_Previous fuel a b c d e (some old)) =
            some s)) ∧
    (CCWFGM_FWI.HourlyFFMC_Lawson_Contiguous a b c d e f g h n none =
        some (HRESULT.E_POINTER, none) ∧
      ∀ old, status (CCWFGM_FWI.HourlyFFMC_Lawson_Contiguous a b c d e f g h n (some old)) ≠
          some HRESULT.E_POINTER ∧
        (a ≠ 101 → b ≠ 101 →
          ∃ s, status (CCWFGM_FWI.HourlyFFMC_Lawson_Contiguous a b c d e f g h n (some old)) =
            some s)) ∧
    (CCWFGM_FWI.DailyFFMC_VanWagner a b c d e none = (HRESULT.E_POINTER, none) ∧
      ∀ old, (CCWFGM_FWI.DailyFFMC_VanWagner a b c d e (some old)).1 ≠ HRESULT.E_POINTER) ∧
    (CCWFGM_FWI.DMC a b c d e n f none = (HRESULT.E_POINTER, none) ∧
      ∀ old, (CCWFGM_FWI.DMC a b c d e n f (some old)).1 ≠ HRESULT.E_POINTER) ∧
    (CCWFGM_FWI.DC a b c d e n none = (HRESULT.E_POINTER, none) ∧
      ∀ old, (CCWFGM_FWI.DC a b c d e n (some old)).1 ≠ HRESULT.E_POINTER) ∧
    (CCWFGM_FWI.FF a n none = (HRESULT.E_POINTER, none) ∧
      ∀ old, (CCWFGM_FWI.FF a n (some old)).1 ≠ HRESULT.E_POINTER) ∧
    (CCWFGM_FWI.ISI_FWI a b n none = (HRESULT.E_POINTER, none) ∧
      ∀ old, (CCWFGM_FWI.ISI_FWI a b n (some old)).1 ≠ HRESULT.E_POINTER) ∧
    (CCWFGM_FWI.ISI_FBP a b n none = (HRESULT.E_POINTER, none) ∧
      ∀ old, (CCWFGM_FWI.ISI_FBP a b n (some old)).1 ≠ HRESULT.E_POINTER) ∧
    (CCWFGM_FWI.BUI a b none = (HRESULT.E_POINTER, none) ∧
      ∀ old, (CCWFGM_FWI.BUI a b (some old)).1 ≠ HRESULT.E_POINTER) ∧
    (CCWFGM_FWI.FWI a b none = (HRESULT.E_POINTER, none) ∧
      ∀ old, (CCWFGM_FWI.FWI a b (some old)).1 ≠ HRESULT.E_POINTER) ∧
    (CCWFGM_FWI.DSR a none = (HRESULT.E_POINTER, none) ∧
      ∀ old, (CCWFGM_FWI.DSR a (some old)).1 ≠ HRESULT.E_POINTER) := by
  -- Helper: the status of `store` on a negative value.
  have store_neg (v : ℝ) (h : v < 0) :
      CCWFGM_FWI.store v = (HRESULT.E_INVALIDARG, some v) := by
    unfold CCWFGM_FWI.store
    rw [if_pos h]
  -- Helper: `store` never yields `E_POINTER`.
  have store_ne_pointer (v : ℝ) : (CCWFGM_FWI.store v).1 ≠ HRESULT.E_POINTER := by
    by_cases h : v < 0
    · rw [store_neg v h]
      simp
    · rw [store_nonneg v (not_lt.mp h)]
      simp
  -- Helper: an operation that stores an engine value never yields `E_POINTER`,
  -- whether or not the engine value exists.
  have status_store_ne_pointer (r : Option ℝ) :
      status (r.bind fun v => some (CCWFGM_FWI.store v)) ≠ some HRESULT.E_POINTER := by
    cases r with
    | none =>
      unfold status
      simp
    | some v =>
      unfold status
      simp only [Option.some_bind, Option.map_some', ne_eq, Option.some.injEq]
      exact store_ne_pointer v
  -- Helper: `calc_hourly_ffmc_lawson_contiguous` has a result whenever neither
  -- reference code is exactly `101`.
  have calc_hourly_ffmc_lawson_contiguous_isSome (prev curr : ℝ) (ts : ℤ)
      (rh_0 rh_t rh_1 : ℝ) (contiguous : Bool) (hp : prev ≠ 101) (hc : curr ≠ 101) :
      ∃ v, calc_hourly_ffmc_lawson_contiguous prev curr ts rh_0 rh_t rh_1 contiguous = some v := by
    unfold calc_hourly_ffmc_lawson_contiguous
    simp only []
    split_ifs
    · exact ⟨_, rfl⟩
    · exact calc_hourly_ffmc_lawson_isSome curr ts rh_t hc
    · exact calc_hourly_ffmc_lawson_isSome prev ts rh_t hp
    · exact calc_hourly_ffmc_lawson_isSome prev _ rh_0 hp
    · obtain ⟨v1, hv1⟩ := calc_hourly_ffmc_lawson_isSome prev (PurgeToHour ts) rh_0 hp
      obtain ⟨v2, hv2⟩ := calc_hourly_ffmc_lawson_isSome curr (PurgeToHour ts + 60 * 60) rh_1 hc
      rw [hv1, hv2]
      exact ⟨_, rfl⟩
    · obtain ⟨v1, hv1⟩ := calc_hourly_ffmc_lawson_isSome prev (PurgeToHour ts) rh_0 hp
      obtain ⟨v2, hv2⟩ := calc_hourly_ffmc_lawson_isSome prev (PurgeToHour ts + 60 * 60) rh_1 hp
      rw [hv1, hv2]
      exact ⟨_, rfl⟩
  -- Helper: the status of an operation that stores an existing engine value.
  have status_store_some (r : Option ℝ) (h : ∃ v, r = some v) :
      ∃ s, status (r.bind fun v => some (CCWFGM_FWI.store v)) = some s := by
    obtain ⟨v, hv⟩ := h
    rw [hv]
    exact ⟨_, rfl⟩
  refine ⟨⟨rfl, ?_⟩, ⟨rfl, ?_⟩, ⟨rfl, ?_⟩, ⟨rfl, ?_⟩, ⟨rfl, ?_⟩, ⟨rfl, ?_⟩, ⟨rfl, ?_⟩,
    ⟨rfl, ?_⟩, ⟨rfl, ?_⟩, ⟨rfl, ?_⟩, ⟨rfl, ?_⟩, ⟨rfl, ?_⟩, ⟨rfl, ?_⟩⟩
  · intro old
    unfold CCWFGM_FWI.HourlyFFMC_VanWagner
    by_cases hs : n > 2 * 60 * 60
    · simp only [if_pos hs]
      simp
    · simp only [if_neg hs]
      exact store_ne_pointer _
  · intro old
    unfold CCWFGM_FWI.HourlyFFMC_Lawson
    refine ⟨status_store_ne_pointer _, ?_⟩
    intro ha hb
    exact status_store_some _
      (calc_hourly_ffmc_lawson_contiguous_isSome a b _ _ _ _ false ha hb)
  · intro old
    unfold CCWFGM_FWI.HourlyFFMC_VanWagner_Previous
    refine ⟨status_store_ne_pointer _, ?_⟩
    intro hfuel
    exact status_store_some _ (calc_previous_terminates fuel hfuel a b c d e)
  · intro old
    unfold CCWFGM_FWI.HourlyFFMC_Lawson_Contiguous
    refine ⟨status_store_ne_pointer _, ?_⟩
    intro ha hb
    exact status_store_some _
      (calc_hourly_ffmc_lawson_contiguous_isSome a b _ _ _ _ true ha hb)
  · intro old
    exact store_ne_pointer _
  · intro old
    unfold CCWFGM_FWI.DMC
    by_cases hm : n > 11
    · simp only [dif_pos hm]
      simp
    · simp only [dif_neg hm]
      exact store_ne_pointer _
  · intro old
    unfold CCWFGM_FWI.DC
    by_cases hm : n > 11
    · simp only [dif_pos hm]
      simp
    · simp only [dif_neg hm]
      exact store_ne_pointer _
  · intro old
    show HRESULT.S_OK ≠ HRESULT.E_POINTER
    decide
  · intro old
    show HRESULT.S_OK ≠ HRESULT.E_POINTER
    decide
  · intro old
    show HRESULT.S_OK ≠ HRESULT.E_POINTER
    decide
  · intro old
    show HRESULT.S_OK ≠ HRESULT.E_POINTER
    decide
  · intro old
    show HRESULT.S_OK ≠ HRESULT.E_POINTER
    decide
  · intro old
    show HRESULT.S_OK ≠ HRESULT.E_POINTER
    decide

/-- C10 (witness): with both reference codes `85` the Lawson operation at noon
returns a status, and so does the inversion for the current code `85`. -/
theorem null_output_iff_pointer_error_witness :
    (∃ s, status (CCWFGM_FWI.HourlyFFMC_Lawson 85 85 0 20 0.5 10 43200 (some 0)) = some s) ∧
    (∃ s, status (CCWFGM_FWI.HourlyFFMC_VanWagner_Previous 2020000001 85 85 0 20 0.5
      (some 0)) = some s) :=
  ⟨((null_output_iff_pointer_error 85 85 0 20 0.5 10 0 0 43200 2020000001).2.1.2 0).2
      (by norm_num) (by norm_num),
    ((null_output_iff_pointer_error 85 85 0 20 0.5 10 0 0 43200 2020000001).2.2.1.2 0).2
      (le_refl _)⟩

/-! ### The zero-elapsed step, the daily step, the derived indices and a sanity bound -/

/-- Helper: with no rain and no elapsed time the forward step converts the code
to a moisture and straight back, `ffmcOf (moistureOf in_ffmc)`: the relaxation
factor is `10 ^ 0 = 1` in every regime. -/
theorem subdaily_zero_eq (in_ffmc temperature rh ws : ℝ) (h0 : 0 ≤ in_ffmc)
    (h1 : in_ffmc ≤ 101) :
    calc_subdaily_ffmc_vanwagner 0 in_ffmc 0 temperature rh ws = ffmcOf (moistureOf in_ffmc) := by
  -- Helper: a zero time span is an exact multiple of an hour, so the factor is
  -- `147.2`.
  have factor_zero : factor 0 = 147.2 := by
    unfold factor GetTotalSeconds
    norm_num
  have hbad : ¬ (in_ffmc < 0 ∨ in_ffmc > 101 ∨ (0 : ℝ) < 0 ∨ (0 : ℝ) > 300) := by
    rintro (h | h | h | h) <;> linarith
  have hm : moistureOf in_ffmc ≤ 249.9 := (moistureOf_facts in_ffmc h0 h1).2.1
  unfold moistureOf at hm
  unfold calc_subdaily_ffmc_vanwagner ffmcOf moistureOf
  simp only []
  rw [if_neg hbad, factor_zero]
  simp only [GetTotalSeconds, Int.cast_zero, zero_div, mul_zero, Real.rpow_zero, mul_one,
    ne_eq, not_true_eq_false, if_false]
  rw [if_neg (by linarith : ¬ 147.2 * (101 - in_ffmc) / (59.5 + in_ffmc) > 250)]
  have hxm : ∀ (m a b : ℝ), (if m - a = 0 ∨ (m - b ≥ 0 ∧ m - a < 0) then m
      else (if m - a > 0 then a else b) + (if m - a > 0 then m - a else m - b)) = m := by
    intro m a b
    split_ifs <;> ring
  rw [hxm]

/-- Helper: converting a code in `[0, 101]` to a moisture and back adds
`(464.1 + 7.8 * x) / 23625.6` to it, up to the cap at `101`. -/
theorem ffmcOf_moistureOf (x : ℝ) (h0 : 0 ≤ x) :
    ffmcOf (moistureOf x) = min 101 (x + (464.1 + 7.8 * x) / 23625.6) := by
  have hc : 59.5 * (250 - moistureOf x) / (147.2 + moistureOf x) =
      x + (464.1 + 7.8 * x) / 23625.6 := by
    unfold moistureOf
    have hx : (59.5 + x) ≠ 0 := by linarith
    field_simp
    ring
  unfold ffmcOf
  simp only []
  rw [hc]
  by_cases c1 : x + (464.1 + 7.8 * x) / 23625.6 > 101
  · rw [if_pos c1, min_eq_left c1.le]
  · rw [if_neg c1, if_neg (by
      have : 0 ≤ (464.1 + 7.8 * x) / 23625.6 := by positivity
      linarith), min_eq_right (not_lt.mp c1)]

/-- C12 (counterexample): with no rain and no elapsed time the forward step
does not return `in_ffmc = 85` within `1e-6`; the result is more than `0.04`
above it. -/
theorem no_time_identity_counterexample :
    ¬ |calc_subdaily_ffmc_vanwagner 0 85 0 20 0.45 10 - 85| ≤ 0.000001 := by
  rw [subdaily_zero_eq 85 20 0.45 10 (by norm_num) (by norm_num),
    ffmcOf_moistureOf 85 (by norm_num)]
  rw [min_eq_right (by norm_num)]
  rw [abs_of_nonneg (by norm_num)]
  norm_num

/-- C12 (amended): for `in_ffmc` in `[0, 101]`, `rain = 0` and a zero time span
(any temperature, humidity and wind) the forward step returns
`min 101 (in_ffmc + (464.1 + 7.8 * in_ffmc) / 23625.6)`, the code converted to
a moisture and back; it is never below `in_ffmc` and at most `0.06` above. -/
theorem no_time_identity (in_ffmc temperature rh ws : ℝ) (h0 : 0 ≤ in_ffmc)
    (h1 : in_ffmc ≤ 101) :
    calc_subdaily_ffmc_vanwagner 0 in_ffmc 0 temperature rh ws =
        min 101 (in_ffmc + (464.1 + 7.8 * in_ffmc) / 23625.6) ∧
      in_ffmc ≤ calc_subdaily_ffmc_vanwagner 0 in_ffmc 0 temperature rh ws ∧
      |calc_subdaily_ffmc_vanwagner 0 in_ffmc 0 temperature rh ws - in_ffmc| ≤ 0.06 := by
  have he : calc_subdaily_ffmc_vanwagner 0 in_ffmc 0 temperature rh ws =
      min 101 (in_ffmc + (464.1 + 7.8 * in_ffmc) / 23625.6) := by
    rw [subdaily_zero_eq in_ffmc temperature rh ws h0 h1, ffmcOf_moistureOf in_ffmc h0]
  have hp : 0 ≤ (464.1 + 7.8 * in_ffmc) / 23625.6 := by positivity
  have hq : (464.1 + 7.8 * in_ffmc) / 23625.6 ≤ 0.06 := by
    rw [div_le_iff₀ (by norm_num)]
    linarith
  have hle : in_ffmc ≤ min 101 (in_ffmc + (464.1 + 7.8 * in_ffmc) / 23625.6) :=
    le_min h1 (by linarith)
  refine ⟨he, he ▸ hle, ?_⟩
  rw [he, abs_of_nonneg (by linarith)]
  have := min_le_right (101 : ℝ) (in_ffmc + (464.1 + 7.8 * in_ffmc) / 23625.6)
  linarith

/-- Witness for C12 (amended) at `in_ffmc = 85`, 20 degrees, 45 % humidity and
wind 10. -/
theorem no_time_identity_witness :
    calc_subdaily_ffmc_vanwagner 0 85 0 20 0.45 10 =
        min 101 (85 + (464.1 + 7.8 * 85) / 23625.6) ∧
      (85 : ℝ) ≤ calc_subdaily_ffmc_vanwagner 0 85 0 20 0.45 10 ∧
      |calc_subdaily_ffmc_vanwagner 0 85 0 20 0.45 10 - 85| ≤ 0.06 :=
  no_time_identity 85 20 0.45 10 (by norm_num) (by norm_num)

/-- C14: `calc_daily_ffmc_vanwagner` returns the sentinel `-98` if and only if
`in_ffmc` is outside `[0, 101]` or `rain` is outside `[0, 600]`; on every other
input (any temperature, humidity and wind) the result lies in `[0, 101]`. -/
theorem calc_daily_ffmc_vanwagner_domain (in_ffmc rain temperature rh ws : ℝ) :
    (calc_daily_ffmc_vanwagner in_ffmc rain temperature rh ws = -98 ↔
      (in_ffmc < 0 ∨ in_ffmc > 101 ∨ rain < 0 ∨ rain > 600)) ∧
    ((in_ffmc < 0 ∨ in_ffmc > 101 ∨ rain < 0 ∨ rain > 600) ∨
      (0 ≤ calc_daily_ffmc_vanwagner in_ffmc rain temperature rh ws ∧
        calc_daily_ffmc_vanwagner in_ffmc rain temperature rh ws ≤ 101)) := by
  -- Helper: inputs that pass the domain check of the daily step give a result
  -- in `[0, 101]`.
  have daily_in_range (in_ffmc rain temperature rh ws : ℝ)
      (h : ¬ (in_ffmc < 0 ∨ in_ffmc > 101 ∨ rain < 0 ∨ rain > 600)) :
      0 ≤ calc_daily_ffmc_vanwagner in_ffmc rain temperature rh ws ∧
        calc_daily_ffmc_vanwagner in_ffmc rain temperature rh ws ≤ 101 := by
    unfold calc_daily_ffmc_vanwagner
    rw [if_neg h]
    exact range_check_bounds _
  by_cases h : in_ffmc < 0 ∨ in_ffmc > 101 ∨ rain < 0 ∨ rain > 600
  · refine ⟨⟨fun _ => h, fun _ => ?_⟩, Or.inl h⟩
    unfold calc_daily_ffmc_vanwagner
    rw [if_pos h]
  · have hb := daily_in_range in_ffmc rain temperature rh ws h
    refine ⟨⟨fun hr => ?_, fun h2 => absurd h2 h⟩, Or.inr hb⟩
    rw [hr] at hb
    norm_num at hb

/-- C19: with a zero initial spread index the fire weather index is zero,
`calc_fwi 0 bui = 0`, for every buildup index (in particular every
`bui ≥ 0`). -/
theorem calc_fwi_isi_zero (bui : ℝ) : calc_fwi 0 bui = 0 := by
  unfold calc_fwi
  simp

/-- C20: for `ffmc` in `[0, 101]`, `ws ≥ 0`, `dc ≥ 0`, `dmc ≥ 0` and every
elapsed time the derived indices are non-negative: `calc_ff` is positive,
`calc_isi` and `calc_isi_fbp` are non-negative, `calc_bui` is non-negative,
`calc_fwi` of either spread index and that buildup index is non-negative, and
`calc_dsr` of that fire weather index is non-negative. -/
theorem derived_indices_nonneg (ts : ℤ) (ffmc ws dc dmc : ℝ) (hf0 : 0 ≤ ffmc)
    (hf1 : ffmc ≤ 101) (_hws : 0 ≤ ws) (hdc : 0 ≤ dc) (hdmc : 0 ≤ dmc) :
    0 < calc_ff ts ffmc ∧
    0 ≤ (calc_isi ts ffmc ws).1 ∧
    0 ≤ (calc_isi_fbp ts ffmc ws).1 ∧
    0 ≤ calc_bui dc dmc ∧
    0 ≤ calc_fwi (calc_isi ts ffmc ws).1 (calc_bui dc dmc) ∧
    0 ≤ calc_fwi (calc_isi_fbp ts ffmc ws).1 (calc_bui dc dmc) ∧
    0 ≤ calc_dsr (calc_fwi (calc_isi ts ffmc ws).1 (calc_bui dc dmc)) ∧
    0 ≤ calc_dsr (calc_fwi (calc_isi_fbp ts ffmc ws).1 (calc_bui dc dmc)) := by
  -- Helper: the fine fuel moisture function is positive for a code at most
  -- `101`.
  have calc_ff_pos (ts : ℤ) (ffmc : ℝ) (h0 : 0 ≤ ffmc) (h1 : ffmc ≤ 101) :
      0 < calc_ff ts ffmc := by
    unfold calc_ff
    have hf : 0 ≤ factor ts := by
      unfold factor
      simp only []
      split_ifs <;> norm_num
    have hfm : 0 ≤ factor ts * (101 - ffmc) / (59.5 + ffmc) :=
      div_nonneg (mul_nonneg hf (by linarith)) (by linarith)
    have hp : 0 ≤ (factor ts * (101 - ffmc) / (59.5 + ffmc)) ^ (5.31 : ℝ) :=
      Real.rpow_nonneg hfm _
    have he := Real.exp_pos (factor ts * (101 - ffmc) / (59.5 + ffmc) * (-0.1386))
    have h3 : 0 < 1 + (factor ts * (101 - ffmc) / (59.5 + ffmc)) ^ (5.31 : ℝ) / 49300000 := by
      positivity
    positivity
  -- Helper: the wind multiplier of the FBP spread index is positive.
  have fW_pos (ws : ℝ) : 0 < fW ws := by
    unfold fW
    split_ifs with h
    · exact Real.exp_pos _
    · have h40 : 40 < ws := not_le.mp h
      have : Real.exp (-0.0818 * (ws - 28)) < 1 := by
        have h := Real.exp_lt_exp.mpr (show -0.0818 * (ws - 28) < 0 by nlinarith)
        rwa [Real.exp_zero] at h
      linarith
  -- Helper: the buildup index is never negative when both codes are
  -- non-negative.
  have calc_bui_nonneg (dc dmc : ℝ) (hdc : 0 ≤ dc) (hdmc : 0 ≤ dmc) : 0 ≤ calc_bui dc dmc := by
    unfold calc_bui
    simp only []
    have hb : 0 ≤ (if dmc = 0 ∨ dc = 0 then (0 : ℝ) else (0.8 * dc * dmc) / (dmc + 0.4 * dc)) := by
      split_ifs
      · exact le_refl _
      · exact div_nonneg (by positivity) (by linarith)
    by_cases h1 : (if dmc = 0 ∨ dc = 0 then (0 : ℝ) else (0.8 * dc * dmc) / (dmc + 0.4 * dc)) < dmc
    · rw [if_pos h1]
      exact floor_check_nonneg _
    · rw [if_neg h1]
      exact hb
  -- Helper: the fire weather index is never negative when both of its inputs
  -- are non-negative.
  have calc_fwi_nonneg (isi bui : ℝ) (hisi : 0 ≤ isi) (hbui : 0 ≤ bui) :
      0 ≤ calc_fwi isi bui := by
    unfold calc_fwi
    simp only []
    have hbb : 0 ≤ (if bui > 80 then 0.1 * isi * (1000 / (25 + 108.64 / Real.exp (0.023 * bui)))
        else 0.1 * isi * (0.626 * bui ^ (0.809 : ℝ) + 2)) := by
      split_ifs
      · have := Real.exp_pos (0.023 * bui)
        positivity
      · have := Real.rpow_nonneg hbui (0.809 : ℝ)
        positivity
    split_ifs with h1 h2 h3
    · rw [if_pos h1] at hbb
      exact hbb
    · exact (Real.exp_pos _).le
    · rw [if_neg h1] at hbb
      exact hbb
    · exact (Real.exp_pos _).le
  have hff := calc_ff_pos ts ffmc hf0 hf1
  have hisi : 0 ≤ (calc_isi ts ffmc ws).1 := by
    unfold calc_isi
    simp only []
    have := Real.exp_pos (0.05039 * ws)
    positivity
  have hfbp : 0 ≤ (calc_isi_fbp ts ffmc ws).1 := by
    unfold calc_isi_fbp
    simp only []
    have := fW_pos ws
    positivity
  have hbui := calc_bui_nonneg dc dmc hdc hdmc
  have hfwi := calc_fwi_nonneg _ _ hisi hbui
  have hfwi2 := calc_fwi_nonneg _ _ hfbp hbui
  refine ⟨hff, hisi, hfbp, hbui, hfwi, hfwi2, ?_, ?_⟩
  · unfold calc_dsr
    have := Real.rpow_nonneg hfwi (1.77 : ℝ)
    positivity
  · unfold calc_dsr
    have := Real.rpow_nonneg hfwi2 (1.77 : ℝ)
    positivity

/-- Witness for C20 at `ffmc = 85`, `ws = 10`, `dc = 300`, `dmc = 40` after one
hour. -/
theorem derived_indices_nonneg_witness :
    0 < calc_ff 3600 85 ∧
    0 ≤ (calc_isi 3600 85 10).1 ∧
    0 ≤ (calc_isi_fbp 3600 85 10).1 ∧
    0 ≤ calc_bui 300 40 ∧
    0 ≤ calc_fwi (calc_isi 3600 85 10).1 (calc_bui 300 40) ∧
    0 ≤ calc_fwi (calc_isi_fbp 3600 85 10).1 (calc_bui 300 40) ∧
    0 ≤ calc_dsr (calc_fwi (calc_isi 3600 85 10).1 (calc_bui 300 40)) ∧
    0 ≤ calc_dsr (calc_fwi (calc_isi_fbp 3600 85 10).1 (calc_bui 300 40)) :=
  derived_indices_nonneg 3600 85 10 300 40 (by norm_num) (by norm_num) (by norm_num)
    (by norm_num) (by norm_num)

/-- Helper: at 45 % humidity and 20 degrees the drying equilibrium is above
`11.3` and the wetting equilibrium below `22`. -/
theorem equilibria_45_20 : 11.3 ≤ calc_ed 45 20 ∧ calc_ew 45 20 ≤ 22 := by
  -- Helper: `12 ≤ 45 ^ 0.679`.
  have rpow_45_lower : (12 : ℝ) ≤ (45 : ℝ) ^ (0.679 : ℝ) := by
    have h1 : (45 : ℝ) ^ ((2 : ℝ) * ((3 : ℕ) : ℝ)⁻¹) ≤ (45 : ℝ) ^ (0.679 : ℝ) :=
      Real.rpow_le_rpow_of_exponent_le (by norm_num) (by norm_num)
    have h2 : (45 : ℝ) ^ ((2 : ℝ) * ((3 : ℕ) : ℝ)⁻¹) = ((45 : ℝ) ^ (2 : ℕ)) ^ (((3 : ℕ) : ℝ)⁻¹) := by
      rw [Real.rpow_mul (by norm_num), ← Real.rpow_natCast]
      norm_num
    have h3 : ((12 : ℝ) ^ (3 : ℕ)) ^ (((3 : ℕ) : ℝ)⁻¹) ≤ ((45 : ℝ) ^ (2 : ℕ)) ^ (((3 : ℕ) : ℝ)⁻¹) :=
      Real.rpow_le_rpow (by norm_num) (by norm_num) (by norm_num)
    have h4 : ((12 : ℝ) ^ (3 : ℕ)) ^ (((3 : ℕ) : ℝ)⁻¹) = 12 :=
      Real.pow_rpow_inv_natCast (by norm_num) (by norm_num)
    rw [h2] at h1
    linarith
  -- Helper: `45 ^ 0.753 ≤ 19`.
  have rpow_45_upper : (45 : ℝ) ^ (0.753 : ℝ) ≤ 19 := by
    have h1 : (45 : ℝ) ^ (0.753 : ℝ) ≤ (45 : ℝ) ^ ((19 : ℝ) * ((25 : ℕ) : ℝ)⁻¹) :=
      Real.rpow_le_rpow_of_exponent_le (by norm_num) (by norm_num)
    have h2 : (45 : ℝ) ^ ((19 : ℝ) * ((25 : ℕ) : ℝ)⁻¹) = ((45 : ℝ) ^ (19 : ℕ)) ^ (((25 : ℕ) : ℝ)⁻¹) := by
      rw [Real.rpow_mul (by norm_num), ← Real.rpow_natCast]
      norm_num
    have h3 : ((45 : ℝ) ^ (19 : ℕ)) ^ (((25 : ℕ) : ℝ)⁻¹) ≤ ((19 : ℝ) ^ (25 : ℕ)) ^ (((25 : ℕ) : ℝ)⁻¹) :=
      Real.rpow_le_rpow (by norm_num) (by norm_num) (by norm_num)
    have h4 : ((19 : ℝ) ^ (25 : ℕ)) ^ (((25 : ℕ) : ℝ)⁻¹) = 19 :=
      Real.pow_rpow_inv_natCast (by norm_num) (by norm_num)
    rw [h2] at h1
    linarith
  unfold calc_ed calc_ew
  have e1 := Real.exp_pos (((45 : ℝ) - 100) / 10)
  have e2 := Real.exp_pos (-0.115 * (45 : ℝ))
  have e3 : Real.exp (((45 : ℝ) - 100) / 10) ≤ 1 := Real.exp_le_one_iff.mpr (by norm_num)
  have e4 : Real.exp (-0.115 * (45 : ℝ)) ≤ 1 := Real.exp_le_one_iff.mpr (by norm_num)
  have p1 := rpow_45_lower
  have p2 := rpow_45_upper
  constructor
  · nlinarith
  · nlinarith

/-- C15: one hour forward from `in_ffmc = 85` with no rain, 20 degrees, 45 %
humidity and wind 10 gives a code strictly between `80` and `90`. -/
theorem subdaily_sanity_bound :
    80 < calc_subdaily_ffmc_vanwagner 3600 85 0 20 0.45 10 ∧
      calc_subdaily_ffmc_vanwagner 3600 85 0 20 0.45 10 < 90 := by
  -- Helper: the moisture after the relaxation step lies between any bounds that
  -- enclose the starting moisture, bound the drying equilibrium from below and the
  -- wetting equilibrium from above, for relaxation factors in `[0, 1]`.
  have xmOf_between (mo ed ew kd kw lo hi : ℝ) (hkd0 : 0 ≤ kd) (hkd1 : kd ≤ 1)
      (hkw0 : 0 ≤ kw) (hkw1 : kw ≤ 1) (h1 : lo ≤ mo) (h2 : lo ≤ ed) (h3 : mo ≤ hi)
      (h4 : ew ≤ hi) : lo ≤ xmOf mo ed ew kd kw ∧ xmOf mo ed ew kd kw ≤ hi := by
    unfold xmOf
    by_cases c1 : mo - ed = 0 ∨ (mo - ew ≥ 0 ∧ mo - ed < 0)
    · rw [if_pos c1]
      exact ⟨h1, h3⟩
    · rw [if_neg c1]
      by_cases c2 : mo - ed > 0
      · rw [if_pos c2]
        constructor <;> nlinarith
      · rw [if_neg c2]
        have c3 : mo - ew < 0 := by
          by_contra hc
          apply c1
          rcases eq_or_lt_of_le (not_lt.mp c2) with h | h
          · exact Or.inl h
          · exact Or.inr ⟨not_lt.mp hc, h⟩
        constructor <;> nlinarith
  have e : (3600 : WTimeSpan) = WTimeSpan.mk4 0 1 0 0 := by
    unfold WTimeSpan.mk4
    norm_num
  rw [e, subdaily_one_hour_eq 85 0 20 0.45 10 (by norm_num) (by norm_num) (by norm_num)
    (by norm_num) (by norm_num) (by norm_num) (by norm_num) (by norm_num) (by norm_num)
    (by norm_num)]
  have hrh : (0.45 : ℝ) * 100 = 45 := by norm_num
  rw [hrh]
  have hmo : afterRain 0 (moistureOf 85) = 2355.2 / 144.5 := by
    unfold afterRain moistureOf
    norm_num
  rw [hmo]
  obtain ⟨hed, hew⟩ := equilibria_45_20
  obtain ⟨kd0, kd1⟩ := relax_factor_bounds 0.45 10 20 (by norm_num) (by norm_num)
  obtain ⟨kw0, kw1⟩ := relax_factor_bounds (1 - 0.45) 10 20 (by norm_num) (by norm_num)
  obtain ⟨lo, hi⟩ := xmOf_between (2355.2 / 144.5) (calc_ed 45 20) (calc_ew 45 20)
    ((10 : ℝ) ^ (-xkdOf 0.45 10 20 * 1)) ((10 : ℝ) ^ (-xkdOf (1 - 0.45) 10 20 * 1)) 11.3 22
    kd0 kd1 kw0 kw1 (by norm_num) hed (by norm_num) hew
  generalize xmOf (2355.2 / 144.5) (calc_ed 45 20) (calc_ew 45 20)
    ((10 : ℝ) ^ (-xkdOf 0.45 10 20 * 1)) ((10 : ℝ) ^ (-xkdOf (1 - 0.45) 10 20 * 1)) = xm at lo hi ⊢
  unfold ffmcOf
  simp only []
  have hpos : (0 : ℝ) < 147.2 + xm := by linarith
  have h80 : 80 < 59.5 * (250 - xm) / (147.2 + xm) := by
    rw [lt_div_iff₀ hpos]
    linarith
  have h90 : 59.5 * (250 - xm) / (147.2 + xm) < 90 := by
    rw [div_lt_iff₀ hpos]
    linarith
  rw [if_neg (by linarith), if_neg (by linarith)]
  exact ⟨h80, h90⟩

/-! ### The contiguous Lawson routine at a whole hour -/

/-- C16 (counterexample): at 06:00 (`ts = 21600`), both reference codes `85`,
`rh_0` = 50 % and `rh_t` = 95 %, the contiguous routine returns `73.1` (the
table of the low class, chosen by `rh_0`) and the non-contiguous one `67.4`
(the table of the high class, chosen by `rh_t`). -/
theorem lawson_contiguous_whole_hour_counterexample :
    calc_hourly_ffmc_lawson_contiguous 85 85 21600 50 95 50 true ≠
      calc_hourly_ffmc_lawson_contiguous 85 85 21600 50 95 50 false := by
  -- Helper: at 06:00 the `RHCLASS` loop selects row `1` and the class of the
  -- humidity against the thresholds of row `0` (`87` and `68`).
  have rhClassLoop_0600 (rh : ℝ) :
      rhClassLoop 6 0 rh 8 0 = (rhClassOf rh 0).bind fun c => some (1, c) := by
    obtain ⟨t0, t1, -⟩ := rhclass_times
    simp only [rhClassLoop, t0, t1, Option.some_bind]
    norm_num
  -- Helper: the column scan of the three morning tables for the code `85`
  -- stops at column `22`.
  have colScan_85 (T : List (List ℚ)) (hax : (T.headD []).drop 1 = ffmcAxis) :
      colScan T 85 = some 22 := by
    unfold colScan
    rw [hax]
    norm_num [scan, ffmcAxis]
  -- Helper: the Lawson value at 06:00 for the code `85` is `73.1` at 50 %
  -- humidity (low class) and `67.4` at 95 % (high class).
  have lawson_85_at_0600 :
      calc_hourly_ffmc_lawson 85 21600 50 = some 73.1 ∧
        calc_hourly_ffmc_lawson 85 21600 95 = some 67.4 := by
    have hn : normalizeTs 21600 = 21600 := by
      rw [normalizeTs]
      simp
    have hh : GetHours 21600 = 6 := by decide
    have hm : GetMinutes 21600 = 0 := by decide
    have h85 : (if (85 : ℝ) < 17.5 then (17.5 : ℝ) else 85) = 85 := by norm_num
    have hfl50 : (⌊(50 : ℝ) * 100 + 0.5⌋ : ℤ) = 5000 := by
      rw [Int.floor_eq_iff]
      norm_num
    have hfl95 : (⌊(95 : ℝ) * 100 + 0.5⌋ : ℤ) = 9500 := by
      rw [Int.floor_eq_iff]
      norm_num
    have hc50 : rhClassOf 50 0 = some 1 := by
      have e1 : rhclass 1 0 0 = some ((87 : ℚ) : ℝ) := rfl
      have e3 : rhclass 3 0 0 = some ((68 : ℚ) : ℝ) := rfl
      unfold rhClassOf
      rw [e1, e3]
      norm_num
    have hc95 : rhClassOf 95 0 = some 3 := by
      have e1 : rhclass 1 0 0 = some ((87 : ℚ) : ℝ) := rfl
      unfold rhClassOf
      rw [e1]
      norm_num
    have hL : LOWRH 21600 85 1 = some 73.1 := by
      have e1 : tbl L 0 21 = some ((85.0 : ℚ) : ℝ) := rfl
      have e2 : tbl L 0 22 = some ((86.0 : ℚ) : ℝ) := rfl
      have e3 : tbl L 1 21 = some ((73.1 : ℚ) : ℝ) := rfl
      have e4 : tbl L 1 22 = some ((74.1 : ℚ) : ℝ) := rfl
      have e5 : tbl L 2 21 = some ((75.0 : ℚ) : ℝ) := rfl
      have e6 : tbl L 2 22 = some ((75.9 : ℚ) : ℝ) := rfl
      unfold LOWRH lookup
      rw [colScan_85 L table_axes.1]
      unfold intrp
      simp only [Option.some_bind, Nat.add_one_sub_one, Nat.reduceAdd, Nat.reduceSub, e1, e2, e3,
        e4, e5, e6, hh, hm]
      norm_num
    have hH : HIGHRH 21600 85 1 = some 67.4 := by
      have e1 : tbl H 0 21 = some ((85.0 : ℚ) : ℝ) := rfl
      have e2 : tbl H 0 22 = some ((86.0 : ℚ) : ℝ) := rfl
      have e3 : tbl H 1 21 = some ((67.4 : ℚ) : ℝ) := rfl
      have e4 : tbl H 1 22 = some ((68.4 : ℚ) : ℝ) := rfl
      have e5 : tbl H 2 21 = some ((68.6 : ℚ) : ℝ) := rfl
      have e6 : tbl H 2 22 = some ((69.6 : ℚ) : ℝ) := rfl
      unfold HIGHRH lookup
      rw [colScan_85 H table_axes.2.2.1]
      unfold intrp
      simp only [Option.some_bind, Nat.add_one_sub_one, Nat.reduceAdd, Nat.reduceSub, e1, e2, e3,
        e4, e5, e6, hh, hm]
      norm_num
    constructor
    · unfold calc_hourly_ffmc_lawson
      simp only [hn, hh, hm]
      rw [if_neg (by norm_num), h85, if_neg (by norm_num : ¬ (50 : ℝ) < 0),
        if_neg (by norm_num : ¬ (50 : ℝ) > 100), hfl50]
      have hr : (if ((5000 : ℤ) : ℝ) * 0.01 < 1 then (95 : ℝ) else ((5000 : ℤ) : ℝ) * 0.01) = 50 := by
        norm_num
      rw [hr, if_pos (by decide), rhClassLoop_0600, hc50]
      exact hL
    · unfold calc_hourly_ffmc_lawson
      simp only [hn, hh, hm]
      rw [if_neg (by norm_num), h85, if_neg (by norm_num : ¬ (95 : ℝ) < 0),
        if_neg (by norm_num : ¬ (95 : ℝ) > 100), hfl95]
      have hr : (if ((9500 : ℤ) : ℝ) * 0.01 < 1 then (95 : ℝ) else ((9500 : ℤ) : ℝ) * 0.01) = 95 := by
        norm_num
      rw [hr, if_pos (by decide), rhClassLoop_0600, hc95]
      exact hH
  have h1 : calc_hourly_ffmc_lawson_contiguous 85 85 21600 50 95 50 true = some 73.1 := by
    unfold calc_hourly_ffmc_lawson_contiguous
    rw [if_neg (by norm_num [WTimeSpan.mk4]), if_neg (by norm_num [WTimeSpan.mk4]),
      if_neg (by norm_num [WTimeSpan.mk4])]
    have hp : PurgeToHour 21600 = 21600 := by decide
    simp only [hp, if_true]
    exact lawson_85_at_0600.1
  have h2 : calc_hourly_ffmc_lawson_contiguous 85 85 21600 50 95 50 false = some 67.4 := by
    unfold calc_hourly_ffmc_lawson_contiguous
    rw [if_neg (by norm_num [WTimeSpan.mk4]), if_neg (by norm_num [WTimeSpan.mk4]),
      if_pos (Or.inr rfl)]
    exact lawson_85_at_0600.2
  rw [h1, h2]
  intro h
  have := Option.some.inj h
  norm_num at this

/-- C16 (amended): at a whole hour (`ts` a multiple of 3600 seconds) the
contiguous routine returns what the non-contiguous one returns when, for a
time strictly between 05:00 and 12:00, `rh_0` is passed in the place of
`rh_t`; so the two agree on the same arguments whenever `rh_0 = rh_t`, and for
every humidity when `ts ≤ 05:00` or `ts ≥ 12:00`. -/
theorem lawson_contiguous_whole_hour (prev curr : ℝ) (ts : ℤ) (rh_0 rh_t rh_1 : ℝ)
    (hts : (3600 : ℤ) ∣ ts) :
    calc_hourly_ffmc_lawson_contiguous prev curr ts rh_0 rh_t rh_1 true =
        calc_hourly_ffmc_lawson_contiguous prev curr ts rh_0
          (if WTimeSpan.mk4 0 5 0 0 < ts ∧ ts < WTimeSpan.mk4 0 12 0 0 then rh_0 else rh_t)
          rh_1 false ∧
      ((rh_0 = rh_t ∨ ts ≤ WTimeSpan.mk4 0 5 0 0 ∨ ts ≥ WTimeSpan.mk4 0 12 0 0) →
        calc_hourly_ffmc_lawson_contiguous prev curr ts rh_0 rh_t rh_1 true =
          calc_hourly_ffmc_lawson_contiguous prev curr ts rh_0 rh_t rh_1 false) := by
  have hp : PurgeToHour ts = ts := by
    unfold PurgeToHour
    rw [Int.tmod_eq_zero_of_dvd hts]
    simp
  have key : ∀ r : ℝ, (r = rh_t ∨ ts ≤ WTimeSpan.mk4 0 5 0 0 ∨ ts ≥ WTimeSpan.mk4 0 12 0 0 ∨
        r = rh_0) →
      (ts ≤ WTimeSpan.mk4 0 5 0 0 ∨ ts ≥ WTimeSpan.mk4 0 12 0 0 → r = rh_t) →
      (¬ (ts ≤ WTimeSpan.mk4 0 5 0 0 ∨ ts ≥ WTimeSpan.mk4 0 12 0 0) → r = rh_0) →
      calc_hourly_ffmc_lawson_contiguous prev curr ts rh_0 rh_t rh_1 true =
        calc_hourly_ffmc_lawson_contiguous prev curr ts rh_0 r rh_1 false := by
    intro r _ hout hin
    unfold calc_hourly_ffmc_lawson_contiguous
    by_cases c0 : prev < 0 ∨ prev > 101 ∨ curr < 0 ∨ curr > 101 ∨
        ts < WTimeSpan.mk4 0 (-12) 0 0 ∨ ts ≥ WTimeSpan.mk4 1 11 0 0
    · rw [if_pos c0, if_pos c0]
    · rw [if_neg c0, if_neg c0]
      by_cases c1 : ts ≥ WTimeSpan.mk4 0 12 0 0
      · rw [if_pos c1, if_pos c1, hout (Or.inr c1)]
      · rw [if_neg c1, if_neg c1]
        by_cases c2 : ts ≤ WTimeSpan.mk4 0 5 0 0
        · rw [if_pos (Or.inl c2), if_pos (Or.inl c2), hout (Or.inl c2)]
        · rw [if_neg (by simp [c2]), if_pos (Or.inr rfl)]
          simp only [hp, if_true]
          rw [hin (by simp [c1, c2])]
  constructor
  · apply key
    · by_cases c : WTimeSpan.mk4 0 5 0 0 < ts ∧ ts < WTimeSpan.mk4 0 12 0 0
      · rw [if_pos c]
        exact Or.inr (Or.inr (Or.inr rfl))
      · rw [if_neg c]
        exact Or.inl rfl
    · intro h
      rw [if_neg]
      rintro ⟨a, b⟩
      rcases h with h | h
      · exact absurd a (not_lt.mpr h)
      · exact absurd b (not_lt.mpr h)
    · intro h
      rw [if_pos]
      push_neg at h
      exact ⟨h.1, h.2⟩
  · intro h
    by_cases c : ts ≤ WTimeSpan.mk4 0 5 0 0 ∨ ts ≥ WTimeSpan.mk4 0 12 0 0
    · exact key rh_t (Or.inl rfl) (fun _ => rfl) (fun hc => absurd c hc)
    · rcases h with h | h
      · exact key rh_t (Or.inl rfl) (fun _ => rfl) (fun _ => h.symm)
      · exact absurd h c

/-- Witness for C16 (amended) at 06:00 with both reference codes `85`. -/
theorem lawson_contiguous_whole_hour_witness :
    calc_hourly_ffmc_lawson_contiguous 85 85 21600 50 95 50 true =
        calc_hourly_ffmc_lawson_contiguous 85 85 21600 50
          (if WTimeSpan.mk4 0 5 0 0 < (21600 : ℤ) ∧ (21600 : ℤ) < WTimeSpan.mk4 0 12 0 0
            then 50 else 95) 50 false ∧
      (((50 : ℝ) = 95 ∨ (21600 : ℤ) ≤ WTimeSpan.mk4 0 5 0 0 ∨
          (21600 : ℤ) ≥ WTimeSpan.mk4 0 12 0 0) →
        calc_hourly_ffmc_lawson_contiguous 85 85 21600 50 95 50 true =
          calc_hourly_ffmc_lawson_contiguous 85 85 21600 50 95 50 false) :=
  lawson_contiguous_whole_hour 85 85 21600 50 95 50 ⟨6, by decide⟩

/-! ### Range of the Lawson values -/

/-- Helper: where the scan stops, the entry is above `x` and the entry before
it (if the scan moved) is at most `x`. -/
theorem scan_spec (x : ℝ) :
    ∀ (l : List ℚ) (i j : ℕ), scan x l i = some j →
      i ≤ j ∧ (∃ a, l.get? (j - i) = some a ∧ x < ((a : ℚ) : ℝ)) ∧
        (i < j → ∃ b, l.get? (j - i - 1) = some b ∧ ((b : ℚ) : ℝ) ≤ x) := by
  intro l
  induction l with
  | nil =>
    intro i j h
    simp [scan] at h
  | cons c rest ih =>
    intro i j h
    by_cases hc : x ≥ ((c : ℚ) : ℝ)
    · simp only [scan, if_pos hc] at h
      obtain ⟨h1, ⟨a, ha, hxa⟩, h3⟩ := ih (i + 1) j h
      refine ⟨by omega, ⟨a, ?_, hxa⟩, fun _ => ?_⟩
      · have e : j - i = (j - (i + 1)) + 1 := by omega
        rw [e, List.get?_cons_succ]
        exact ha
      · by_cases hj : i + 1 < j
        · obtain ⟨b, hb, hbx⟩ := h3 hj
          refine ⟨b, ?_, hbx⟩
          have e : j - i - 1 = (j - (i + 1) - 1) + 1 := by omega
          rw [e, List.get?_cons_succ]
          exact hb
        · have e : j - i - 1 = 0 := by omega
          rw [e]
          exact ⟨c, rfl, hc⟩
    · simp only [scan, if_neg hc] at h
      have hj : i = j := Option.some.inj h
      subst hj
      refine ⟨le_refl _, ⟨c, ?_, not_le.mp hc⟩, fun h => absurd h (lt_irrefl _)⟩
      simp

/-- Helper: the entries of row `0` from column `1` on are the entries of the
FFMC axis. -/
theorem tbl_axis (T : List (List ℚ)) (hax : (T.headD []).drop 1 = ffmcAxis) (c : ℕ) :
    tbl T 0 (c + 1) = (ffmcAxis.get? c).map fun q => ((q : ℚ) : ℝ) := by
  rw [← hax]
  cases T with
  | nil => rfl
  | cons row rest =>
    have e : ((row :: rest).headD []).drop 1 = row.drop 1 := rfl
    have e2 : (row.drop 1).get? c = row.get? (c + 1) := by
      cases row with
      | nil => rfl
      | cons a t => rfl
    have e3 : tbl (row :: rest) 0 (c + 1) =
        (row.get? (c + 1)).map fun q => ((q : ℚ) : ℝ) := by
      unfold tbl
      rw [List.get?_cons_zero]
      simp only []
      cases row.get? (c + 1) <;> rfl
    rw [e, e2, e3]

/-- Helper: for a reference code in `[0, 101)` the Lawson routine returns a
value in `[0, 101]`, at every time and humidity, from the morning tables as
well as from `MAIN`. -/
theorem calc_hourly_ffmc_lawson_range (ff : ℝ) (ts : ℤ) (rh : ℝ) (h0 : 0 ≤ ff)
    (h1 : ff < 101) : ∃ v, calc_hourly_ffmc_lawson ff ts rh = some v ∧ 0 ≤ v ∧ v ≤ 101 := by
  -- Helper: the final range check `adjffmc < 0 → 0`, `adjffmc > 101 → 101` of
  -- the Lawson routine leaves a value in `[0, 101]`.
  have range_check_bounds2 (c : ℝ) :
      0 ≤ (if c < 0 then (0 : ℝ) else if c > 101 then 101 else c) ∧
        (if c < 0 then (0 : ℝ) else if c > 101 then 101 else c) ≤ 101 := by
    by_cases h1 : c < 0
    · simp [h1]
    · by_cases h2 : c > 101
      · simp [h1, h2]
      · simp only [h1, h2, if_false]
        exact ⟨not_lt.mp h1, not_lt.mp h2⟩
  -- Helper: a point between two values of an interval stays in the interval.
  have convex_bound (a b t lo hi : ℝ) (ha0 : lo ≤ a) (ha1 : a ≤ hi) (hb0 : lo ≤ b)
      (hb1 : b ≤ hi) (ht0 : 0 ≤ t) (ht1 : t ≤ 1) :
      lo ≤ a + (b - a) * t ∧ a + (b - a) * t ≤ hi := by
    have e : a + (b - a) * t = (1 - t) * a + t * b := by ring
    rw [e]
    have h1 := mul_nonneg ht0 (sub_nonneg.mpr hb0)
    have h2 := mul_nonneg (sub_nonneg.mpr ht1) (sub_nonneg.mpr ha0)
    have h3 := mul_nonneg ht0 (sub_nonneg.mpr hb1)
    have h4 := mul_nonneg (sub_nonneg.mpr ht1) (sub_nonneg.mpr ha1)
    constructor <;> nlinarith
  -- Helper: `intrp` on four values of an interval, a column fraction in `[0, 1]`
  -- and a non-negative time stays in the interval.
  have intrp_bounds (I1 I2 I3 I4 f lo hi : ℝ) (ts : ℤ) (hts : 0 ≤ ts)
      (h1 : lo ≤ I1 ∧ I1 ≤ hi) (h2 : lo ≤ I2 ∧ I2 ≤ hi) (h3 : lo ≤ I3 ∧ I3 ≤ hi)
      (h4 : lo ≤ I4 ∧ I4 ≤ hi) (hf0 : 0 ≤ f) (hf1 : f ≤ 1) :
      lo ≤ intrp I1 I2 I3 I4 f ts ∧ intrp I1 I2 I3 I4 f ts ≤ hi := by
    obtain ⟨hm0, hm59⟩ := GetMinutes_range ts hts
    have m0 : (0 : ℝ) ≤ ((GetMinutes ts : ℤ) : ℝ) := by exact_mod_cast hm0
    have m59 : ((GetMinutes ts : ℤ) : ℝ) ≤ 59 := by exact_mod_cast hm59
    obtain ⟨a0, a1⟩ := convex_bound I1 I2 f lo hi h1.1 h1.2 h2.1 h2.2 hf0 hf1
    obtain ⟨b0, b1⟩ := convex_bound I3 I4 f lo hi h3.1 h3.2 h4.1 h4.2 hf0 hf1
    unfold intrp
    simp only []
    by_cases c : GetHours ts = 11
    · rw [if_pos c]
      have e : I1 + (I2 - I1) * f + (I3 + (I4 - I3) * f - (I1 + (I2 - I1) * f)) / 59 *
          ((GetMinutes ts : ℤ) : ℝ) = (I1 + (I2 - I1) * f) +
          ((I3 + (I4 - I3) * f) - (I1 + (I2 - I1) * f)) * (((GetMinutes ts : ℤ) : ℝ) / 59) := by
        ring
      rw [e]
      exact convex_bound _ _ _ lo hi a0 a1 b0 b1 (div_nonneg m0 (by norm_num))
        (by rw [div_le_one (by norm_num)]; exact m59)
    · rw [if_neg c]
      have e : I1 + (I2 - I1) * f + (I3 + (I4 - I3) * f - (I1 + (I2 - I1) * f)) / 60 *
          ((GetMinutes ts : ℤ) : ℝ) = (I1 + (I2 - I1) * f) +
          ((I3 + (I4 - I3) * f) - (I1 + (I2 - I1) * f)) * (((GetMinutes ts : ℤ) : ℝ) / 60) := by
        ring
      rw [e]
      exact convex_bound _ _ _ lo hi a0 a1 b0 b1 (div_nonneg m0 (by norm_num))
        (by rw [div_le_one (by norm_num)]; linarith)
  -- Helper: every entry of the rows `1..` and columns `1..` of a table whose
  -- data are in `[0, 101]` is in `[0, 101]`.
  have tbl_data_bounds (T : List (List ℚ))
      (hdata : ∀ row ∈ T.tail, ∀ q ∈ row.tail, (0 : ℚ) ≤ q ∧ q ≤ 101) (r c : ℕ) (v : ℝ)
      (h : tbl T (r + 1) (c + 1) = some v) : 0 ≤ v ∧ v ≤ 101 := by
    unfold tbl at h
    cases hrow : T.get? (r + 1) with
    | none =>
      rw [hrow] at h
      cases h
    | some row =>
      rw [hrow] at h
      simp only [] at h
      cases hq : row.get? (c + 1) with
      | none =>
        rw [hq] at h
        cases h
      | some q =>
        rw [hq] at h
        have hv : ((q : ℚ) : ℝ) = v := Option.some.inj h
        have hrmem : row ∈ T.tail := by
          cases T with
          | nil => simp at hrow
          | cons t0 rest =>
            simp only [List.get?_cons_succ] at hrow
            exact List.get?_mem hrow
        have hqmem : q ∈ row.tail := by
          cases row with
          | nil => simp at hq
          | cons q0 rest =>
            simp only [List.get?_cons_succ] at hq
            exact List.get?_mem hq
        obtain ⟨b0, b1⟩ := hdata row hrmem q hqmem
        rw [← hv]
        constructor
        · exact_mod_cast b0
        · exact_mod_cast b1
  -- Helper: the data of the three morning tables are in `[0, 101]`.
  have morning_data_bounds :
      (∀ row ∈ L.tail, ∀ q ∈ row.tail, (0 : ℚ) ≤ q ∧ q ≤ 101) ∧
      (∀ row ∈ M.tail, ∀ q ∈ row.tail, (0 : ℚ) ≤ q ∧ q ≤ 101) ∧
      (∀ row ∈ H.tail, ∀ q ∈ row.tail, (0 : ℚ) ≤ q ∧ q ≤ 101) := by
    refine ⟨?_, ?_, ?_⟩ <;> decide!
  -- Helper: in a table with 39 columns, the shared FFMC axis and data in
  -- `[0, 101]`, the lookup of a code in `[17.5, 101)` between two data rows at a
  -- non-negative time is a value in `[0, 101]`.
  have lookup_bounds (T : List (List ℚ)) (rows : ℕ)
      (hax : (T.headD []).drop 1 = ffmcAxis)
      (hlen : T.map List.length = List.replicate rows 39)
      (hdata : ∀ row ∈ T.tail, ∀ q ∈ row.tail, (0 : ℚ) ≤ q ∧ q ≤ 101)
      (ts : ℤ) (hts : 0 ≤ ts) (ff : ℝ) (h1 : 17.5 ≤ ff) (h2 : ff < 101) (t : ℕ)
      (ht : t + 1 + 1 < rows) :
      ∃ v, lookup T ts ff (t + 1) = some v ∧ 0 ≤ v ∧ v ≤ 101 := by
    obtain ⟨j, hj, hj1, hj2⟩ := colScan_stops T hax ff h1 h2
    obtain ⟨k, rfl⟩ : ∃ k, j = k + 2 := ⟨j - 2, by omega⟩
    have hscan : scan ff ffmcAxis 1 = some (k + 2) := by
      have := hj
      unfold colScan at this
      rw [hax] at this
      exact this
    obtain ⟨-, ⟨a, ha, hxa⟩, hb⟩ := scan_spec ff ffmcAxis 1 (k + 2) hscan
    obtain ⟨b, hb, hbx⟩ := hb (by omega)
    have ek1 : k + 2 - 1 = k + 1 := rfl
    have ek0 : k + 2 - 1 - 1 = k := rfl
    rw [ek1] at ha
    rw [ek0] at hb
    have ea0 : tbl T 0 (k + 1) = some ((b : ℚ) : ℝ) := by
      rw [tbl_axis T hax k, hb]
      rfl
    have ea1 : tbl T 0 (k + 1 + 1) = some ((a : ℚ) : ℝ) := by
      rw [tbl_axis T hax (k + 1), ha]
      rfl
    obtain ⟨v1, hv1⟩ := tbl_isSome T rows 39 hlen (t + 1) (k + 1) (by omega) (by omega)
    obtain ⟨v2, hv2⟩ := tbl_isSome T rows 39 hlen (t + 1) (k + 1 + 1) (by omega) (by omega)
    obtain ⟨v3, hv3⟩ := tbl_isSome T rows 39 hlen (t + 1 + 1) (k + 1) (by omega) (by omega)
    obtain ⟨v4, hv4⟩ := tbl_isSome T rows 39 hlen (t + 1 + 1) (k + 1 + 1) (by omega) (by omega)
    have b1 := tbl_data_bounds T hdata t k v1 hv1
    have b2 := tbl_data_bounds T hdata t (k + 1) v2 hv2
    have b3 := tbl_data_bounds T hdata (t + 1) k v3 hv3
    have b4 := tbl_data_bounds T hdata (t + 1) (k + 1) v4 hv4
    have hden : (0 : ℝ) < ((a : ℚ) : ℝ) - ((b : ℚ) : ℝ) := by linarith
    have hf0 : 0 ≤ (ff - ((b : ℚ) : ℝ)) / (((a : ℚ) : ℝ) - ((b : ℚ) : ℝ)) :=
      div_nonneg (by linarith) hden.le
    have hf1 : (ff - ((b : ℚ) : ℝ)) / (((a : ℚ) : ℝ) - ((b : ℚ) : ℝ)) ≤ 1 := by
      rw [div_le_one hden]
      linarith
    refine ⟨intrp v1 v2 v3 v4 ((ff - ((b : ℚ) : ℝ)) / (((a : ℚ) : ℝ) - ((b : ℚ) : ℝ))) ts, ?_,
      intrp_bounds v1 v2 v3 v4 _ 0 101 ts hts b1 b2 b3 b4 hf0 hf1⟩
    unfold lookup
    rw [hj]
    simp only [Option.some_bind, ek1, ea0, ea1, hv1, hv2, hv3, hv4]
  have hbad : ¬ (ff < 0 ∨ ff > 101) := by
    rintro (h | h) <;> linarith
  have hts := normalizeTs_nonneg ts
  have hf : 17.5 ≤ (if ff < 17.5 then (17.5 : ℝ) else ff) ∧
      (if ff < 17.5 then (17.5 : ℝ) else ff) < 101 := by
    by_cases c : ff < 17.5
    · rw [if_pos c]
      norm_num
    · rw [if_neg c]
      exact ⟨not_lt.mp c, h1⟩
  unfold calc_hourly_ffmc_lawson
  simp only []
  rw [if_neg hbad]
  by_cases hmorn : GetHours (normalizeTs ts) ≥ 6 ∧ GetHours (normalizeTs ts) ≤ 11
  · rw [if_pos hmorn]
    obtain ⟨c, hc, hc1, hc3⟩ := rhClassLoop_morning (GetHours (normalizeTs ts))
      (GetMinutes (normalizeTs ts))
      (if ((⌊(if rh < 0 then 0 else if rh > 100 then 100 else rh) * 100 + 0.5⌋ : ℤ) : ℝ) * 0.01 < 1
        then 95
        else ((⌊(if rh < 0 then 0 else if rh > 100 then 100 else rh) * 100 + 0.5⌋ : ℤ) : ℝ) * 0.01)
      hmorn.1 hmorn.2
    rw [hc]
    simp only [Option.some_bind]
    obtain ⟨t, ht⟩ : ∃ t, (GetHours (normalizeTs ts) - 5).toNat = t + 1 :=
      ⟨(GetHours (normalizeTs ts) - 5).toNat - 1, by omega⟩
    have ht2 : t + 1 + 1 < 9 := by omega
    rw [ht]
    interval_cases c
    · exact lookup_bounds L 9 table_axes.1 table_shapes.1 morning_data_bounds.1 _ hts _
        hf.1 hf.2 t ht2
    · exact lookup_bounds M 9 table_axes.2.1 table_shapes.2.1 morning_data_bounds.2.1 _ hts _
        hf.1 hf.2 t ht2
    · exact lookup_bounds H 9 table_axes.2.2.1 table_shapes.2.2.1 morning_data_bounds.2.2 _ hts _
        hf.1 hf.2 t ht2
  · rw [if_neg hmorn]
    obtain ⟨v, hv⟩ := MAINTBL_isSome (normalizeTs ts) hts _ hf.1 hf.2
    rw [hv]
    exact ⟨_, rfl, range_check_bounds2 v⟩

/-- C17: `calc_hourly_ffmc_lawson` floors low reference codes instead of
rejecting them: for `ff_ffmc` in `[0, 17.5]`, every time and every humidity the
result is the result for `17.5`, a value in `[0, 101]` and so not a (negative)
error sentinel; the routine returns `-98` exactly when `ff_ffmc < 0` or
`ff_ffmc > 101`. -/
theorem calc_hourly_ffmc_lawson_floor (ff_ffmc : ℝ) (ts : ℤ) (rh : ℝ) :
    (0 ≤ ff_ffmc → ff_ffmc ≤ 17.5 →
      calc_hourly_ffmc_lawson ff_ffmc ts rh = calc_hourly_ffmc_lawson 17.5 ts rh ∧
        ∃ v, calc_hourly_ffmc_lawson ff_ffmc ts rh = some v ∧ 0 ≤ v ∧ v ≤ 101 ∧ v ≠ -98) ∧
    (calc_hourly_ffmc_lawson ff_ffmc ts rh = some (-98) ↔ ff_ffmc < 0 ∨ ff_ffmc > 101) := by
  constructor
  · intro h0 h1
    constructor
    · have hbad : ¬ (ff_ffmc < 0 ∨ ff_ffmc > 101) := by
        rintro (h | h) <;> linarith
      have e1 : (if ff_ffmc < 17.5 then (17.5 : ℝ) else ff_ffmc) = 17.5 := by
        by_cases c : ff_ffmc < 17.5
        · rw [if_pos c]
        · rw [if_neg c]
          linarith
      have e2 : (if (17.5 : ℝ) < 17.5 then (17.5 : ℝ) else 17.5) = 17.5 := by norm_num
      unfold calc_hourly_ffmc_lawson
      simp only []
      rw [if_neg hbad, if_neg (by norm_num : ¬ ((17.5 : ℝ) < 0 ∨ (17.5 : ℝ) > 101)), e1, e2]
    · obtain ⟨v, hv, v0, v1⟩ := calc_hourly_ffmc_lawson_range ff_ffmc ts rh h0 (by linarith)
      exact ⟨v, hv, v0, v1, by linarith⟩
  · constructor
    · intro h
      by_contra hbad
      simp only [not_or, not_lt, gt_iff_lt] at hbad
      rcases eq_or_lt_of_le hbad.2 with h101 | h101
      · rw [h101, calc_hourly_ffmc_lawson_101] at h
        cases h
      · obtain ⟨v, hv, v0, -⟩ := calc_hourly_ffmc_lawson_range ff_ffmc ts rh hbad.1 h101
        rw [hv] at h
        have := Option.some.inj h
        linarith
    · intro h
      unfold calc_hourly_ffmc_lawson
      simp only []
      rw [if_pos h]

/-- Witness for C17 at the reference code `10`, noon and 50 % humidity. -/
theorem calc_hourly_ffmc_lawson_floor_witness :
    calc_hourly_ffmc_lawson 10 43200 50 = calc_hourly_ffmc_lawson 17.5 43200 50 ∧
      ∃ v, calc_hourly_ffmc_lawson 10 43200 50 = some v ∧ 0 ≤ v ∧ v ≤ 101 ∧ v ≠ -98 :=
  (calc_hourly_ffmc_lawson_floor 10 43200 50).1 (by norm_num) (by norm_num)

/-! ### Range of the Lawson values on the stored tables -/

/-- Helper: a read inside the stored table is the entry at its place. -/
theorem cell_eq_getD (past : ℕ → ℝ) (T : List (List ℚ)) (r c : ℕ)
    (h : 39 * r + c < T.flatten.length) :
    cell past T r c = ((T.flatten.getD (39 * r + c) 0 : ℚ) : ℝ) := by
  unfold cell
  rw [List.get?_eq_get h]
  simp only []
  rw [List.getD_eq_getElem _ _ h]
  rfl

/-- Helper: in a table with rows of 39 entries, the entry `T[r][c]` of a row is
the entry `39 * r + c` of the stored table. -/
theorem join_get_of_rows :
    ∀ (T : List (List ℚ)) (r c : ℕ) (row : List ℚ) (q : ℚ),
      (∀ row ∈ T, row.length = 39) → T.get? r = some row → row.get? c = some q →
        T.flatten.get? (39 * r + c) = some q := by
  intro T
  induction T with
  | nil =>
    intro r c row q _ h
    simp at h
  | cons row0 rest ih =>
    intro r c row q hlen hr hc
    cases r with
    | zero =>
      simp only [List.get?_cons_zero, Option.some.injEq] at hr
      subst hr
      have hc2 : c < row0.length := by
        rcases List.get?_eq_some.mp hc with ⟨h, -⟩
        exact h
      rw [List.flatten_cons, Nat.mul_zero, Nat.zero_add, List.get?_append hc2]
      exact hc
    | succ r =>
      simp only [List.get?_cons_succ] at hr
      have h0 : row0.length = 39 := hlen row0 (List.mem_cons_self _ _)
      have hle : row0.length ≤ 39 * (r + 1) + c := by omega
      rw [List.flatten_cons, List.get?_append_right hle]
      have e : 39 * (r + 1) + c - row0.length = 39 * r + c := by omega
      rw [e]
      exact ih r c row q (fun row hrow => hlen row (List.mem_cons_of_mem _ hrow)) hr hc

/-- Helper: an entry the strict read `tbl` finds is the entry the stored read
finds. -/
theorem cell_of_tbl (past : ℕ → ℝ) (T : List (List ℚ)) (hlen : ∀ row ∈ T, row.length = 39)
    (r c : ℕ) (v : ℝ) (h : tbl T r c = some v) : cell past T r c = v := by
  unfold tbl at h
  cases hrow : T.get? r with
  | none =>
    rw [hrow] at h
    cases h
  | some row =>
    rw [hrow] at h
    simp only [] at h
    cases hq : row.get? c with
    | none =>
      rw [hq] at h
      cases h
    | some q =>
      rw [hq] at h
      have hv : ((q : ℚ) : ℝ) = v := Option.some.inj h
      unfold cell
      rw [join_get_of_rows T r c row q hlen hrow hq]
      exact hv

/-- Helper: a strict scan that stops inside its axis is the stored scan, when
the stored doubles from `i` on are the axis entries. -/
theorem scanStored_of_scan (x : ℝ) (a : ℕ → ℝ) :
    ∀ (l : List ℚ) (i n j : ℕ), scan x l i = some j →
      (∀ k q, l.get? k = some q → a (i + k) = ((q : ℚ) : ℝ)) → l.length ≤ n →
        scanStored x a n i = some j := by
  intro l
  induction l with
  | nil =>
    intro i n j h
    simp [scan] at h
  | cons b rest ih =>
    intro i n j h hlink hn
    cases n with
    | zero => simp at hn
    | succ n =>
      have ha : a i = ((b : ℚ) : ℝ) := hlink 0 b rfl
      rw [scanStored, ha]
      by_cases hb : x ≥ ((b : ℚ) : ℝ)
      · rw [if_pos hb]
        simp only [scan, if_pos hb] at h
        refine ih (i + 1) n j h (fun k q hk => ?_) (by simpa using hn)
        have := hlink (k + 1) q (by rw [List.get?_cons_succ]; exact hk)
        rw [← this]
        congr 1
        omega
      · rw [if_neg hb]
        simp only [scan, if_neg hb] at h
        exact h

/-- Helper: a stored scan over `d` doubles that are at most `x` stops at the
next double when that one is above `x`. -/
theorem scanStored_run (x : ℝ) (a : ℕ → ℝ) :
    ∀ (d n i : ℕ), (∀ k, i ≤ k → k < i + d → a k ≤ x) → x < a (i + d) → d < n →
      scanStored x a n i = some (i + d) := by
  intro d
  induction d with
  | zero =>
    intro n i _ hgt hn
    cases n with
    | zero => omega
    | succ n =>
      rw [scanStored, if_neg (by simpa using hgt)]
      rfl
  | succ d ih =>
    intro n i hle hgt hn
    cases n with
    | zero => omega
    | succ n =>
      have h0 : x ≥ a i := hle i (le_refl _) (by omega)
      rw [scanStored, if_pos h0]
      have e : i + (d + 1) = i + 1 + d := by omega
      rw [e] at hgt ⊢
      exact ih n (i + 1) (fun k hk1 hk2 => hle k (by omega) (by omega)) hgt (by omega)

/-- Helper: a strict lookup that reads only entries of its rows is the lookup
on the stored table. -/
theorem lookupStored_of_lookup (past : ℕ → ℝ) (T : List (List ℚ)) (rows : ℕ)
    (hax : (T.headD []).drop 1 = ffmcAxis)
    (hlen : T.map List.length = List.replicate rows 39) (hn : 38 ≤ T.flatten.length - 1)
    (ts : ℤ) (ff : ℝ) (t : ℕ) (v : ℝ) (h : lookup T ts ff t = some v) :
    lookupStored past T ts ff t = some v := by
  have hrows : ∀ row ∈ T, row.length = 39 := by
    intro row hrow
    have hmem : row.length ∈ T.map List.length := List.mem_map_of_mem _ hrow
    rw [hlen] at hmem
    exact (List.mem_replicate.mp hmem).2
  unfold lookup at h
  simp only [Option.bind_eq_some] at h
  obtain ⟨i0, hs, a0, h0, a1, h1, I1, h2, I2, h3, I3, h4, I4, h5, hv⟩ := h
  have hscan : scanStored ff (cell past T 0) (T.flatten.length - 1) 1 = some i0 := by
    unfold colScan at hs
    rw [hax] at hs
    refine scanStored_of_scan ff (cell past T 0) ffmcAxis 1 _ i0 hs (fun k q hk => ?_) hn
    rw [Nat.add_comm 1 k]
    refine cell_of_tbl past T hrows 0 (k + 1) _ ?_
    rw [tbl_axis T hax k, hk]
    rfl
  unfold lookupStored
  rw [hscan]
  simp only [Option.some_bind]
  rw [cell_of_tbl past T hrows _ _ _ h0, cell_of_tbl past T hrows _ _ _ h1,
    cell_of_tbl past T hrows _ _ _ h2, cell_of_tbl past T hrows _ _ _ h3,
    cell_of_tbl past T hrows _ _ _ h4, cell_of_tbl past T hrows _ _ _ h5]
  exact hv

/-- Helper: a strict `MAINTBL` that reads only entries of its rows is
`MAINTBL` on the stored table. -/
theorem MAINTBL_stored_of (past : ℕ → ℝ) (ts : ℤ) (ff v : ℝ) (h : MAINTBL ts ff = some v) :
    MAINTBL_stored past ts ff = some v := by
  have hcol0 : ∀ k < 21, MAIN.flatten.get? (39 * (1 + k) + 0) = mainHours.get? k := by
    decide!
  have hlink : ∀ k q, mainHours.get? k = some q →
      (fun i => cell past MAIN i 0) (1 + k) = ((q : ℚ) : ℝ) := by
    intro k q hk
    have hk21 : k < 21 := by
      rcases List.get?_eq_some.mp hk with ⟨hlt, -⟩
      exact hlt
    show cell past MAIN (1 + k) 0 = ((q : ℚ) : ℝ)
    unfold cell
    rw [hcol0 k hk21, hk]
  unfold MAINTBL at h
  simp only [Option.bind_eq_some] at h
  obtain ⟨i, hs, hl⟩ := h
  rw [MAIN_hours] at hs
  have hscan := scanStored_of_scan _ (fun i => cell past MAIN i 0) mainHours 1
    (MAIN.length - 1) i hs hlink (by decide!)
  unfold MAINTBL_stored
  simp only []
  rw [hscan]
  simp only [Option.some_bind]
  exact lookupStored_of_lookup past MAIN 22 table_axes.2.2.2 table_shapes.2.2.2 (by decide!)
    ts ff _ v hl

/-- Helper: where the strict reading of `calc_hourly_ffmc_lawson` has a value,
the routine on the stored tables has the same value. -/
theorem calc_hourly_ffmc_lawson_stored_of (past : ℕ → ℝ) (ff : ℝ) (ts : ℤ) (rh v : ℝ)
    (h : calc_hourly_ffmc_lawson ff ts rh = some v) :
    calc_hourly_ffmc_lawson_stored past ff ts rh = some v := by
  unfold calc_hourly_ffmc_lawson at h
  unfold calc_hourly_ffmc_lawson_stored
  simp only [] at h ⊢
  by_cases hbad : ff < 0 ∨ ff > 101
  · rw [if_pos hbad] at h ⊢
    exact h
  · rw [if_neg hbad] at h ⊢
    by_cases hmorn : GetHours (normalizeTs ts) ≥ 6 ∧ GetHours (normalizeTs ts) ≤ 11
    · rw [if_pos hmorn] at h ⊢
      generalize (if ff < 17.5 then (17.5 : ℝ) else ff) = f at h ⊢
      simp only [Option.bind_eq_some] at h ⊢
      obtain ⟨⟨t, c⟩, hsel, hl⟩ := h
      refine ⟨(t, c), hsel, ?_⟩
      have hL := lookupStored_of_lookup past L 9 table_axes.1 table_shapes.1 (by decide!)
        (normalizeTs ts) f t v
      have hM := lookupStored_of_lookup past M 9 table_axes.2.1 table_shapes.2.1 (by decide!)
        (normalizeTs ts) f t v
      have hH := lookupStored_of_lookup past H 9 table_axes.2.2.1 table_shapes.2.2.1 (by decide!)
        (normalizeTs ts) f t v
      rcases c with _ | _ | _ | c
      · exact hH hl
      · exact hL hl
      · exact hM hl
      · exact hH hl
    · rw [if_neg hmorn] at h ⊢
      simp only [Option.bind_eq_some] at h ⊢
      obtain ⟨adj, hadj, hv⟩ := h
      exact ⟨adj, MAINTBL_stored_of past _ _ adj hadj, hv⟩

/-- Helper: with the column fraction `0`, `intrp` on two values of `[0, 101]`
in the first column and a non-negative time stays in `[0, 101]`. -/
theorem intrp_zero_bounds (I1 I2 I3 I4 : ℝ) (ts : ℤ) (hts : 0 ≤ ts) (h1 : 0 ≤ I1 ∧ I1 ≤ 101)
    (h3 : 0 ≤ I3 ∧ I3 ≤ 101) :
    0 ≤ intrp I1 I2 I3 I4 0 ts ∧ intrp I1 I2 I3 I4 0 ts ≤ 101 := by
  obtain ⟨hm0, hm59⟩ := GetMinutes_range ts hts
  have m0 : (0 : ℝ) ≤ ((GetMinutes ts : ℤ) : ℝ) := by exact_mod_cast hm0
  have m59 : ((GetMinutes ts : ℤ) : ℝ) ≤ 59 := by exact_mod_cast hm59
  have key : ∀ m d : ℝ, 0 ≤ m → m ≤ 59 → 59 ≤ d →
      0 ≤ I1 + (I3 - I1) / d * m ∧ I1 + (I3 - I1) / d * m ≤ 101 := by
    intro m d hm0 hm1 hd
    have hd0 : (0 : ℝ) < d := by linarith
    have e : I1 + (I3 - I1) / d * m = (1 - m / d) * I1 + m / d * I3 := by
      field_simp
      ring
    have t0 : 0 ≤ m / d := div_nonneg hm0 hd0.le
    have t1 : m / d ≤ 1 := by
      rw [div_le_one hd0]
      linarith
    rw [e]
    have a1 := mul_nonneg t0 h3.1
    have a2 := mul_nonneg (sub_nonneg.mpr t1) h1.1
    have a3 := mul_nonneg t0 (sub_nonneg.mpr h3.2)
    have a4 := mul_nonneg (sub_nonneg.mpr t1) (sub_nonneg.mpr h1.2)
    constructor <;> nlinarith
  unfold intrp
  simp only [mul_zero, add_zero]
  by_cases c : GetHours ts = 11
  · rw [if_pos c]
    exact key _ 59 m0 m59 (le_refl _)
  · rw [if_neg c]
    exact key _ 60 m0 m59 (by norm_num)

/-- Helper: on a stored morning table the column scan for the code `101` runs
past the last axis entry `T[0][38] = 101` and stops on the time label
`T[0][39] = T[1][0]`, so that the column is `38` and the fraction `0`. -/
theorem lookupStored_101_morning (past : ℕ → ℝ) (T : List (List ℚ))
    (hT : T.flatten.length = 351 ∧ (∀ k < 39, 1 ≤ k → T.flatten.getD (39 * 0 + k) 0 ≤ 101) ∧
      T.flatten.getD (39 * 0 + 38) 0 = 101 ∧ 101 < T.flatten.getD (39 * 0 + 39) 0)
    (ts : ℤ) (t : ℕ) :
    lookupStored past T ts 101 t =
      some (intrp (cell past T t 38) (cell past T t 39) (cell past T (t + 1) 38)
        (cell past T (t + 1) 39) 0 ts) := by
  obtain ⟨hlen, hrow, h38, h39⟩ := hT
  have hscan : scanStored 101 (cell past T 0) (T.flatten.length - 1) 1 = some (1 + 38) := by
    refine scanStored_run 101 (cell past T 0) 38 _ 1 (fun k hk1 hk2 => ?_) ?_ (by omega)
    · rw [cell_eq_getD past T 0 k (by omega)]
      exact_mod_cast hrow k (by omega) hk1
    · rw [cell_eq_getD past T 0 (1 + 38) (by omega)]
      exact_mod_cast h39
  have c38 : cell past T 0 38 = 101 := by
    rw [cell_eq_getD past T 0 38 (by omega), h38]
    norm_num
  unfold lookupStored
  rw [hscan]
  simp only [Option.some_bind]
  have e38 : 1 + 38 - 1 = 38 := rfl
  rw [e38, c38, sub_self, zero_div]

/-- Helper: on the stored `MAIN` table the routine has a value for the code
`101` at every non-negative time: the column scan passes the row of 01:00 and
stops on the time label `MAIN[2][0] = 200`. -/
theorem MAINTBL_stored_101 (past : ℕ → ℝ) (ts : ℤ) (hts : 0 ≤ ts) :
    ∃ v, MAINTBL_stored past ts 101 = some v := by
  have hM : MAIN.flatten.length = 858 ∧ (∀ k < 78, 1 ≤ k → MAIN.flatten.getD (39 * 0 + k) 0 ≤ 101) ∧
      101 < MAIN.flatten.getD (39 * 0 + 78) 0 := by
    decide!
  obtain ⟨hlen, hrow, h78⟩ := hM
  have hscan : scanStored 101 (cell past MAIN 0) (MAIN.flatten.length - 1) 1 = some (1 + 77) := by
    refine scanStored_run 101 (cell past MAIN 0) 77 _ 1 (fun k hk1 hk2 => ?_) ?_ (by omega)
    · rw [cell_eq_getD past MAIN 0 k (by omega)]
      exact_mod_cast hrow k (by omega) hk1
    · rw [cell_eq_getD past MAIN 0 (1 + 77) (by omega)]
      exact_mod_cast h78
  obtain ⟨w, hw⟩ := MAINTBL_isSome ts hts 50 (by norm_num) (by norm_num)
  obtain ⟨w2, hw2⟩ : ∃ w2, MAINTBL_stored past ts 50 = some w2 :=
    ⟨w, MAINTBL_stored_of past ts 50 w hw⟩
  unfold MAINTBL_stored at hw2 ⊢
  simp only [Option.bind_eq_some] at hw2 ⊢
  obtain ⟨i, hi, -⟩ := hw2
  unfold lookupStored
  rw [hscan]
  exact ⟨_, i, hi, rfl⟩

/-- C18: for every reference code in `[0, 101]`, every time of day and every
humidity, `calc_hourly_ffmc_lawson` returns a value in `[0, 101]`, from the
morning tables as well as from `MAIN`. The value is that of the routine on the
stored tables, which for a code below `101` is the value of the strict
reading; at the code `101` the column scan runs on into the next row of the
table and stops on its time label, with column `38` and fraction `0` in the
morning tables, and the `MAIN` value is range-checked, whatever lies behind
the table. -/
theorem calc_hourly_ffmc_lawson_value_range (past : ℕ → ℝ) (ff_ffmc : ℝ) (ts : ℤ) (rh : ℝ)
    (h0 : 0 ≤ ff_ffmc) (h1 : ff_ffmc ≤ 101) :
    (∃ v, calc_hourly_ffmc_lawson_stored past ff_ffmc ts rh = some v ∧ 0 ≤ v ∧ v ≤ 101) ∧
      (ff_ffmc < 101 →
        calc_hourly_ffmc_lawson_stored past ff_ffmc ts rh =
          calc_hourly_ffmc_lawson ff_ffmc ts rh) := by
  by_cases hlt : ff_ffmc < 101
  · obtain ⟨v, hv, b0, b1⟩ := calc_hourly_ffmc_lawson_range ff_ffmc ts rh h0 hlt
    have hs := calc_hourly_ffmc_lawson_stored_of past ff_ffmc ts rh v hv
    exact ⟨⟨v, hs, b0, b1⟩, fun _ => by rw [hs, hv]⟩
  · have e : ff_ffmc = 101 := le_antisymm h1 (not_lt.mp hlt)
    subst e
    refine ⟨?_, fun h => absurd h hlt⟩
    have hts := normalizeTs_nonneg ts
    have hf : (if (101 : ℝ) < 17.5 then (17.5 : ℝ) else 101) = 101 := by norm_num
    unfold calc_hourly_ffmc_lawson_stored
    simp only []
    rw [if_neg (by norm_num), hf]
    by_cases hmorn : GetHours (normalizeTs ts) ≥ 6 ∧ GetHours (normalizeTs ts) ≤ 11
    · rw [if_pos hmorn]
      obtain ⟨c, hc, hc1, hc3⟩ := rhClassLoop_morning (GetHours (normalizeTs ts))
        (GetMinutes (normalizeTs ts))
        (if ((⌊(if rh < 0 then 0 else if rh > 100 then 100 else rh) * 100 + 0.5⌋ : ℤ) : ℝ) * 0.01 < 1
          then 95
          else ((⌊(if rh < 0 then 0 else if rh > 100 then 100 else rh) * 100 + 0.5⌋ : ℤ) : ℝ) * 0.01)
        hmorn.1 hmorn.2
      rw [hc]
      simp only [Option.some_bind]
      have ht1 : 1 ≤ (GetHours (normalizeTs ts) - 5).toNat := by omega
      have ht6 : (GetHours (normalizeTs ts) - 5).toNat ≤ 6 := by omega
      have hcol : ∀ (T : List (List ℚ)) (t : ℕ), T.flatten.length = 351 →
          (∀ r < 8, 1 ≤ r →
            0 ≤ T.flatten.getD (39 * r + 38) 0 ∧ T.flatten.getD (39 * r + 38) 0 ≤ 101) →
          1 ≤ t → t ≤ 7 → 0 ≤ cell past T t 38 ∧ cell past T t 38 ≤ 101 := by
        intro T t hlen hdata h1 h7
        rw [cell_eq_getD past T t 38 (by omega)]
        obtain ⟨a, b⟩ := hdata t (by omega) h1
        exact ⟨by exact_mod_cast a, by exact_mod_cast b⟩
      interval_cases c
      · rw [lookupStored_101_morning past L (by decide!)]
        exact ⟨_, rfl, intrp_zero_bounds _ _ _ _ _ hts
          (hcol L _ (by decide!) (by decide!) ht1 (by omega))
          (hcol L _ (by decide!) (by decide!) (by omega) (by omega))⟩
      · rw [lookupStored_101_morning past M (by decide!)]
        exact ⟨_, rfl, intrp_zero_bounds _ _ _ _ _ hts
          (hcol M _ (by decide!) (by decide!) ht1 (by omega))
          (hcol M _ (by decide!) (by decide!) (by omega) (by omega))⟩
      · rw [lookupStored_101_morning past H (by decide!)]
        exact ⟨_, rfl, intrp_zero_bounds _ _ _ _ _ hts
          (hcol H _ (by decide!) (by decide!) ht1 (by omega))
          (hcol H _ (by decide!) (by decide!) (by omega) (by omega))⟩
    · rw [if_neg hmorn]
      obtain ⟨v, hv⟩ := MAINTBL_stored_101 past (normalizeTs ts) hts
      rw [hv]
      refine ⟨_, rfl, ?_⟩
      by_cases c1 : v < 0
      · simp [c1]
      · by_cases c2 : v > 101
        · simp [c1, c2]
        · simp only [c1, c2, if_false]
          exact ⟨not_lt.mp c1, not_lt.mp c2⟩

/-- Witness for C18 at the reference code `101`, 09:00 and 50 % humidity: the
value is the entry `M[4][38] = 94.4` of the medium-humidity table. -/
theorem calc_hourly_ffmc_lawson_value_range_witness :
    (∃ v, calc_hourly_ffmc_lawson_stored (fun _ => 0) 101 32400 50 = some v ∧ 0 ≤ v ∧ v ≤ 101) ∧
      calc_hourly_ffmc_lawson_stored (fun _ => 0) 101 32400 50 = some 94.4 := by
  refine ⟨(calc_hourly_ffmc_lawson_value_range (fun _ => 0) 101 32400 50 (by norm_num)
    (by norm_num)).1, ?_⟩
  have hn : normalizeTs 32400 = 32400 := by
    rw [normalizeTs]
    simp
  have hh : GetHours 32400 = 9 := by decide
  have hm : GetMinutes 32400 = 0 := by decide
  have h101 : (if (101 : ℝ) < 17.5 then (17.5 : ℝ) else 101) = 101 := by norm_num
  have hfl50 : (⌊(50 : ℝ) * 100 + 0.5⌋ : ℤ) = 5000 := by
    rw [Int.floor_eq_iff]
    norm_num
  have hr : (if ((5000 : ℤ) : ℝ) * 0.01 < 1 then (95 : ℝ) else ((5000 : ℤ) : ℝ) * 0.01) = 50 := by
    norm_num
  have hc50 : rhClassOf 50 3 = some 2 := by
    have e1 : rhclass 1 3 0 = some ((62 : ℚ) : ℝ) := rfl
    have e3 : rhclass 3 3 0 = some ((43 : ℚ) : ℝ) := rfl
    unfold rhClassOf
    rw [e1, e3]
    norm_num
  have hloop : rhClassLoop 9 0 50 8 0 = some (4, 2) := by
    obtain ⟨t0, t1, t2, t3, t4, -⟩ := rhclass_times
    simp only [rhClassLoop, t0, t1, t2, t3, t4, Option.some_bind]
    norm_num
    rw [hc50]
    rfl
  have hcell : cell (fun _ => 0) M 4 38 = 94.4 := by
    rw [cell_eq_getD _ M 4 38 (by decide!)]
    have e : M.flatten.getD (39 * 4 + 38) 0 = 94.4 := by decide!
    rw [e]
    norm_num
  unfold calc_hourly_ffmc_lawson_stored
  simp only [hn, hh, hm]
  rw [if_neg (by norm_num), h101, if_neg (by norm_num : ¬ (50 : ℝ) < 0),
    if_neg (by norm_num : ¬ (50 : ℝ) > 100), hfl50, hr, if_pos (by decide), hloop]
  simp only [Option.some_bind]
  rw [lookupStored_101_morning _ M (by decide!)]
  unfold intrp
  simp only [hh, hm, hcell]
  norm_num

/-! ### Round trip of the inversion -/

/-- Helper: a span of 3600 seconds is the span `WTimeSpan(0, 1, 0, 0)`. -/
theorem one_hour_eq : (3600 : WTimeSpan) = WTimeSpan.mk4 0 1 0 0 := by
  unfold WTimeSpan.mk4
  norm_num

/-- Helper: after 300 mm of rain the moisture of a code in `[20, 21]` is capped
at `250`. -/
theorem afterRain_300_capped (x : ℝ) (h0 : 20 ≤ x) (h1 : x ≤ 21) :
    afterRain 300 (moistureOf x) = 250 := by
  -- Helper: the rain gain of 300 mm on a moisture of at most `150` is above
  -- `105`.
  have rain_gain_300 (mo : ℝ) (h1 : mo ≤ 150) :
      105 ≤ (300 : ℝ) * 42.5 * Real.exp (-100 / (251 - mo)) * (1 - Real.exp (-6.93 / 300)) := by
    have hden : (0 : ℝ) < 251 - mo := by linarith
    have harg : (-1 : ℝ) ≤ -100 / (251 - mo) := by
      rw [le_div_iff₀ hden]
      linarith
    have he1 : Real.exp (-1) ≤ Real.exp (-100 / (251 - mo)) := Real.exp_le_exp.mpr harg
    have he2 : (0.3678 : ℝ) ≤ Real.exp (-1) := by
      rw [Real.exp_neg]
      have h := Real.exp_one_lt_d9
      have hp := Real.exp_pos 1
      rw [le_inv_comm₀ (by norm_num) hp]
      norm_num
      linarith
    have he3 : Real.exp (-6.93 / 300) ≤ 1 / (1 + 6.93 / 300) := by
      have e : (-6.93 / 300 : ℝ) = -(6.93 / 300) := by ring
      rw [e, Real.exp_neg, ← one_div]
      apply one_div_le_one_div_of_le (by norm_num)
      have := Real.add_one_le_exp (6.93 / 300 : ℝ)
      linarith
    have he4 : (0.0225 : ℝ) ≤ 1 - Real.exp (-6.93 / 300) := by
      have : (1 : ℝ) / (1 + 6.93 / 300) ≤ 0.9775 := by norm_num
      linarith
    have hA : (0.3678 : ℝ) ≤ Real.exp (-100 / (251 - mo)) := le_trans he2 he1
    have hprod : (0.3678 : ℝ) * 0.0225 ≤
        Real.exp (-100 / (251 - mo)) * (1 - Real.exp (-6.93 / 300)) :=
      mul_le_mul hA he4 (by norm_num) (le_trans (by norm_num) hA)
    have e : (300 : ℝ) * 42.5 * Real.exp (-100 / (251 - mo)) * (1 - Real.exp (-6.93 / 300)) =
        12750 * (Real.exp (-100 / (251 - mo)) * (1 - Real.exp (-6.93 / 300))) := by ring
    rw [e]
    linarith
  have hm0 : 146 ≤ moistureOf x := by
    unfold moistureOf
    rw [le_div_iff₀ (by linarith)]
    linarith
  have hm1 : moistureOf x ≤ 150 := by
    unfold moistureOf
    rw [div_le_iff₀ (by linarith)]
    linarith
  have hg := rain_gain_300 (moistureOf x) hm1
  unfold afterRain
  simp only []
  rw [if_pos (show (300 : ℝ) ≠ 0 by norm_num), if_pos (show _ > (250 : ℝ) by linarith)]

/-- Helper: at 45 % humidity and 20 degrees the drying equilibrium is at most
`14.6`. -/
theorem calc_ed_45_20_upper : calc_ed 45 20 ≤ 14.6 := by
  -- Helper: `45 ^ 0.679 ≤ 13.4`.
  have rpow_45_upper_ed : (45 : ℝ) ^ (0.679 : ℝ) ≤ 13.4 := by
    have h1 : (45 : ℝ) ^ (0.679 : ℝ) ≤ (45 : ℝ) ^ ((17 : ℝ) * ((25 : ℕ) : ℝ)⁻¹) :=
      Real.rpow_le_rpow_of_exponent_le (by norm_num) (by norm_num)
    have h2 : (45 : ℝ) ^ ((17 : ℝ) * ((25 : ℕ) : ℝ)⁻¹) = ((45 : ℝ) ^ (17 : ℕ)) ^ (((25 : ℕ) : ℝ)⁻¹) := by
      rw [Real.rpow_mul (by norm_num), ← Real.rpow_natCast]
      norm_num
    have h3 : ((45 : ℝ) ^ (17 : ℕ)) ^ (((25 : ℕ) : ℝ)⁻¹) ≤ ((13.4 : ℝ) ^ (25 : ℕ)) ^ (((25 : ℕ) : ℝ)⁻¹) :=
      Real.rpow_le_rpow (by norm_num) (by norm_num) (by norm_num)
    have h4 : ((13.4 : ℝ) ^ (25 : ℕ)) ^ (((25 : ℕ) : ℝ)⁻¹) = 13.4 :=
      Real.pow_rpow_inv_natCast (by norm_num) (by norm_num)
    rw [h2] at h1
    linarith
  unfold calc_ed
  have e1 : Real.exp (((45 : ℝ) - 100) / 10) ≤ 1 / 6.5 := by
    have e : (((45 : ℝ) - 100) / 10) = -(5.5) := by norm_num
    rw [e, Real.exp_neg, ← one_div]
    apply one_div_le_one_div_of_le (by norm_num)
    have := Real.add_one_le_exp (5.5 : ℝ)
    linarith
  have e2 := Real.exp_pos (-0.115 * (45 : ℝ))
  have p1 := rpow_45_upper_ed
  have e3 : (1 : ℝ) / 6.5 ≤ 0.154 := by norm_num
  nlinarith

/-- Helper: at 20 degrees, 45 % humidity and wind 10 the drying relaxation
factor of one hour is at least `0.74`. -/
theorem relax_factor_witness_lower : (0.74 : ℝ) ≤ (10 : ℝ) ^ (-xkdOf 0.45 10 20 * 1) := by
  -- Helper: `0.74 ≤ 10 ^ (-1/8)`.
  have rpow_10_eighth : (0.74 : ℝ) ≤ (10 : ℝ) ^ (-(((8 : ℕ) : ℝ)⁻¹)) := by
    have h3 : ((10 : ℝ)) ^ (((8 : ℕ) : ℝ)⁻¹) ≤ ((1.35 : ℝ) ^ (8 : ℕ)) ^ (((8 : ℕ) : ℝ)⁻¹) :=
      Real.rpow_le_rpow (by norm_num) (by norm_num) (by norm_num)
    have h4 : ((1.35 : ℝ) ^ (8 : ℕ)) ^ (((8 : ℕ) : ℝ)⁻¹) = 1.35 :=
      Real.pow_rpow_inv_natCast (by norm_num) (by norm_num)
    rw [h4] at h3
    have hp : (0 : ℝ) < (10 : ℝ) ^ (((8 : ℕ) : ℝ)⁻¹) := Real.rpow_pos_of_pos (by norm_num) _
    rw [Real.rpow_neg (by norm_num), le_inv_comm₀ (by norm_num) hp]
    have h5 : ((0.74 : ℝ))⁻¹ ≥ 1.35 := by norm_num
    linarith only [h5, h3]
  have hx : xkdOf 0.45 10 20 ≤ ((8 : ℕ) : ℝ)⁻¹ := by
    unfold xkdOf
    have p1 : (0 : ℝ) ≤ (0.45 : ℝ) ^ (1.7 : ℝ) := Real.rpow_nonneg (by norm_num) _
    have p2 : (0 : ℝ) ≤ (0.45 : ℝ) ^ (8 : ℝ) := Real.rpow_nonneg (by norm_num) _
    have p1' : (0.45 : ℝ) ^ (1.7 : ℝ) ≤ 1 := Real.rpow_le_one (by norm_num) (by norm_num) (by norm_num)
    have p2' : (0.45 : ℝ) ^ (8 : ℝ) ≤ 1 := Real.rpow_le_one (by norm_num) (by norm_num) (by norm_num)
    have s0 : 0 ≤ Real.sqrt 10 := Real.sqrt_nonneg _
    have s1 : Real.sqrt 10 ≤ 3.17 := Real.sqrt_le_iff.mpr ⟨by norm_num, by norm_num⟩
    have e0 := Real.exp_pos (0.0365 * (20 : ℝ))
    have e1 : Real.exp (0.0365 * (20 : ℝ)) ≤ 2.72 := by
      have h := Real.exp_le_exp.mpr (show (0.0365 * (20 : ℝ)) ≤ 1 by norm_num)
      have h9 := Real.exp_one_lt_d9
      linarith only [h, h9]
    have t1 : 0.424 * (1 - (0.45 : ℝ) ^ (1.7 : ℝ)) ≤ 0.424 := by linarith only [p1]
    have t2 : 0.0694 * Real.sqrt 10 * (1 - (0.45 : ℝ) ^ (8 : ℝ)) ≤ 0.0694 * 3.17 := by
      have h6 : 0.0694 * Real.sqrt 10 * (1 - (0.45 : ℝ) ^ (8 : ℝ)) ≤ 0.0694 * Real.sqrt 10 * 1 :=
        mul_le_mul_of_nonneg_left (by linarith only [p2]) (by positivity)
      linarith only [h6, s1]
    have t0 : 0 ≤ 0.424 * (1 - (0.45 : ℝ) ^ (1.7 : ℝ)) +
        0.0694 * Real.sqrt 10 * (1 - (0.45 : ℝ) ^ (8 : ℝ)) := by
      have a : 0 ≤ 0.424 * (1 - (0.45 : ℝ) ^ (1.7 : ℝ)) := mul_nonneg (by norm_num) (by linarith only [p1'])
      have b : 0 ≤ 0.0694 * Real.sqrt 10 * (1 - (0.45 : ℝ) ^ (8 : ℝ)) :=
        mul_nonneg (by positivity) (by linarith only [p2'])
      linarith only [a, b]
    have t3 : (0.424 * (1 - (0.45 : ℝ) ^ (1.7 : ℝ)) +
        0.0694 * Real.sqrt 10 * (1 - (0.45 : ℝ) ^ (8 : ℝ))) * 0.0579 ≤ 0.0373 := by
      linarith only [t1, t2]
    have t4 : 0 ≤ (0.424 * (1 - (0.45 : ℝ) ^ (1.7 : ℝ)) +
        0.0694 * Real.sqrt 10 * (1 - (0.45 : ℝ) ^ (8 : ℝ))) * 0.0579 := by positivity
    have t5 : (0.424 * (1 - (0.45 : ℝ) ^ (1.7 : ℝ)) +
        0.0694 * Real.sqrt 10 * (1 - (0.45 : ℝ) ^ (8 : ℝ))) * 0.0579 *
        Real.exp (0.0365 * (20 : ℝ)) ≤ 0.0373 * 2.72 :=
      mul_le_mul t3 e1 e0.le (by norm_num)
    have h7 : (0.0373 : ℝ) * 2.72 ≤ ((8 : ℕ) : ℝ)⁻¹ := by norm_num
    linarith only [t5, h7]
  have hmono : (10 : ℝ) ^ (-(((8 : ℕ) : ℝ)⁻¹)) ≤ (10 : ℝ) ^ (-xkdOf 0.45 10 20 * 1) :=
    Real.rpow_le_rpow_of_exponent_le (by norm_num) (by linarith only [hx])
  exact le_trans rpow_10_eighth hmono

/-- Helper: on inputs inside all the ranges the inversion is its solver loop
started at the current code. -/
theorem calc_previous_inrange_eq (n : ℕ) (cur rain temperature rh ws : ℝ) (hc0 : 0 ≤ cur)
    (hc1 : cur ≤ 101) (hr0 : 0 ≤ rain) (hr1 : rain ≤ 300) (ht0 : -50 ≤ temperature)
    (ht1 : temperature ≤ 60) (hh0 : 0 ≤ rh) (hh1 : rh ≤ 1) (hw0 : 0 ≤ ws) (hw1 : ws ≤ 200) :
    calc_previous_hourly_ffmc_vanwagner n cur rain temperature rh ws =
      previous_loop cur rain temperature rh ws n cur
        (calc_subdaily_ffmc_vanwagner (WTimeSpan.mk4 0 1 0 0) cur rain temperature rh ws)
        |calc_subdaily_ffmc_vanwagner (WTimeSpan.mk4 0 1 0 0) cur rain temperature rh ws - cur| := by
  have hbad : ¬ (cur < 0 ∨ cur > 101 ∨ rain < 0 ∨ rain > 300) := by
    rintro (h | h | h | h) <;> linarith
  have hT : (if temperature < -50 then (-50 : ℝ) else if temperature > 60 then 60
      else temperature) = temperature := by
    rw [if_neg (by linarith), if_neg (by linarith)]
  have hR : (if rh < 0 then (0 : ℝ) else if rh > 1 then 1 else rh) = rh := by
    rw [if_neg (by linarith), if_neg (by linarith)]
  have hW : (if ws > 200 then (200 : ℝ) else if ws < 0 then 0 else ws) = ws := by
    rw [if_neg (by linarith), if_neg (by linarith)]
  unfold calc_previous_hourly_ffmc_vanwagner
  rw [if_neg hbad]
  simp only []
  rw [hT, hR, hW]

/-- C11 (counterexample): with 300 mm of rain, 20 degrees, 45 % humidity and
wind 10 the one-hour forward step from `prev = 20` caps the moisture at `250`
and gives the least code `cur` the step can give, at most `12`; the inversion
of `cur` under the same weather returns a value of at most `cur`, more than
`1e-6` away from `20`. -/
theorem inversion_round_trip_counterexample :
    ∃ v, calc_previous_hourly_ffmc_vanwagner 2020000001
        (calc_subdaily_ffmc_vanwagner 3600 20 300 20 0.45 10) 300 20 0.45 10 = some v ∧
      0.000001 < |v - 20| := by
  -- Helper: the moisture after the relaxation step is at most the moisture the
  -- step gives at a cap `M` of the starting moisture, when the drying equilibrium
  -- is below the cap.
  have xmOf_le_cap (t ed ew kd kw M : ℝ) (hew : ew ≤ ed) (hkd0 : 0 ≤ kd) (hkw0 : 0 ≤ kw)
      (ht : t ≤ M) (hed : ed ≤ M) : xmOf t ed ew kd kw ≤ ed + (M - ed) * kd := by
    have hcap : 0 ≤ (M - ed) * kd := mul_nonneg (by linarith) hkd0
    by_cases c1 : t ≤ ew
    · rw [xmOf_wet t ed ew kd kw hew c1]
      have := mul_nonneg (sub_nonneg.mpr c1) hkw0
      nlinarith
    · push_neg at c1
      by_cases c2 : t ≤ ed
      · rw [xmOf_id t ed ew kd kw c1.le c2]
        linarith
      · push_neg at c2
        rw [xmOf_dry t ed ew kd kw c2.le]
        have := mul_le_mul_of_nonneg_right (show t - ed ≤ M - ed by linarith) hkd0
        linarith
  -- Helper: the code of a moisture falls as the moisture rises.
  have ffmcOf_antitone (x1 x2 : ℝ) (h1 : -7.2 ≤ x1) (h12 : x1 ≤ x2) :
      ffmcOf x2 ≤ ffmcOf x1 := by
    have h := ffmcOf_gap x1 x2 0 h1 (by linarith) (le_refl _) (by
      rw [zero_div, sub_nonpos]
      exact one_div_le_one_div_of_le (by linarith) (by linarith))
    linarith
  -- Helper: with 300 mm of rain, 20 degrees, 45 % humidity and wind 10 the
  -- forward value of the code `20` is the forward value of the capped moisture
  -- `250`; it is the least forward value of all codes, and it is in `[0, 12]`.
  have subdaily_rain_300_least :
      (∀ x : ℝ, 0 ≤ x → x ≤ 101 →
        calc_subdaily_ffmc_vanwagner (WTimeSpan.mk4 0 1 0 0) 20 300 20 0.45 10 ≤
          calc_subdaily_ffmc_vanwagner (WTimeSpan.mk4 0 1 0 0) x 300 20 0.45 10) ∧
        0 ≤ calc_subdaily_ffmc_vanwagner (WTimeSpan.mk4 0 1 0 0) 20 300 20 0.45 10 ∧
        calc_subdaily_ffmc_vanwagner (WTimeSpan.mk4 0 1 0 0) 20 300 20 0.45 10 ≤ 12 := by
    have hE0 := equilibria_45_20.1
    have hE1 := calc_ed_45_20_upper
    have hW := calc_ew_le_calc_ed 45 20 (by norm_num) (by norm_num)
    have hk0 := relax_factor_witness_lower
    obtain ⟨hw0, hw1⟩ := relax_factor_bounds (1 - 0.45) 10 20 (by norm_num) (by norm_num)
    have hrh : (0.45 : ℝ) * 100 = 45 := by norm_num
    have h20 : calc_subdaily_ffmc_vanwagner (WTimeSpan.mk4 0 1 0 0) 20 300 20 0.45 10 =
        ffmcOf (calc_ed 45 20 + (250 - calc_ed 45 20) * (10 : ℝ) ^ (-xkdOf 0.45 10 20 * 1)) := by
      rw [subdaily_one_hour_eq 20 300 20 0.45 10 (by norm_num) (by norm_num) (by norm_num)
        (by norm_num) (by norm_num) (by norm_num) (by norm_num) (by norm_num) (by norm_num)
        (by norm_num), afterRain_300_capped 20 (le_refl _) (by norm_num), hrh,
        xmOf_dry _ _ _ _ _ (by linarith)]
    refine ⟨?_, ?_, ?_⟩
    · intro x hx0 hx1
      obtain ⟨m0, m1, -⟩ := moistureOf_facts x hx0 hx1
      obtain ⟨a0, a1⟩ := afterRain_bounds 300 (moistureOf x) (by norm_num) (by linarith)
      rw [h20, subdaily_one_hour_eq x 300 20 0.45 10 hx0 hx1 (by norm_num) (by norm_num)
        (by norm_num) (by norm_num) (by norm_num) (by norm_num) (by norm_num) (by norm_num), hrh]
      apply ffmcOf_antitone
      · exact xmOf_lower _ _ _ _ _ hW (by linarith) (by linarith) hw1 (by linarith)
      · exact xmOf_le_cap _ _ _ _ _ 250 hW (by linarith) hw0 a1 (by linarith)
    · rw [h20]
      unfold ffmcOf
      exact (range_check_bounds _).1
    · rw [h20]
      generalize (10 : ℝ) ^ (-xkdOf 0.45 10 20 * 1) = k at hk0
      generalize calc_ed 45 20 = E at hE0 hE1
      have hx : 185 ≤ E + (250 - E) * k := by
        have := mul_nonneg (show (0 : ℝ) ≤ 250 - E by linarith) (show (0 : ℝ) ≤ k - 0.74 by linarith)
        nlinarith
      generalize E + (250 - E) * k = xm at hx
      have hpos : (0 : ℝ) < 147.2 + xm := by linarith
      have hc : 59.5 * (250 - xm) / (147.2 + xm) ≤ 12 := by
        rw [div_le_iff₀ hpos]
        linarith
      unfold ffmcOf
      simp only []
      rw [if_neg (by linarith)]
      by_cases c : 59.5 * (250 - xm) / (147.2 + xm) < 0
      · rw [if_pos c]
        norm_num
      · rw [if_neg c]
        exact hc
  -- Helper: when `cur` is the least forward value of all codes, the solver loop
  -- started at a guess of at most `cur` never returns more than `cur`: the guess
  -- only walks down, and the divergence reset returns `cur` itself.
  have previous_loop_below (cur rain temperature rh ws : ℝ)
      (hmin : ∀ x : ℝ, 0 ≤ x → x ≤ 101 →
        cur ≤ calc_subdaily_ffmc_vanwagner (WTimeSpan.mk4 0 1 0 0) x rain temperature rh ws)
      (hc1 : cur ≤ 101) :
      ∀ (n : ℕ) (x : ℝ), 0 ≤ x → x ≤ cur → ∀ v : ℝ,
        previous_loop cur rain temperature rh ws n x
          (calc_subdaily_ffmc_vanwagner (WTimeSpan.mk4 0 1 0 0) x rain temperature rh ws)
          |calc_subdaily_ffmc_vanwagner (WTimeSpan.mk4 0 1 0 0) x rain temperature rh ws - cur| =
            some v →
        v ≤ cur := by
    intro n
    induction n with
    | zero =>
      intro x hx0 hx1 v h
      rw [previous_loop] at h
      by_cases hd : |calc_subdaily_ffmc_vanwagner (WTimeSpan.mk4 0 1 0 0) x rain temperature rh
          ws - cur| > TOLERANCE
      · rw [if_pos hd] at h
        cases h
      · rw [if_neg hd] at h
        rw [← Option.some.inj h]
        exact hx1
    | succ n ih =>
      intro x hx0 hx1 v h
      have hF := hmin x hx0 (le_trans hx1 hc1)
      have habs : |calc_subdaily_ffmc_vanwagner (WTimeSpan.mk4 0 1 0 0) x rain temperature rh ws -
          cur| = calc_subdaily_ffmc_vanwagner (WTimeSpan.mk4 0 1 0 0) x rain temperature rh ws -
          cur := abs_of_nonneg (by linarith)
      rw [previous_loop] at h
      by_cases hd : |calc_subdaily_ffmc_vanwagner (WTimeSpan.mk4 0 1 0 0) x rain temperature rh
          ws - cur| > TOLERANCE
      · rw [if_pos hd] at h
        simp only [] at h
        have hpos := TOLERANCE_pos
        have hgt : calc_subdaily_ffmc_vanwagner (WTimeSpan.mk4 0 1 0 0) x rain temperature rh ws >
            cur := by
          rw [habs] at hd
          linarith
        rw [if_pos hgt, habs] at h
        have hx'le : x - (calc_subdaily_ffmc_vanwagner (WTimeSpan.mk4 0 1 0 0) x rain
            temperature rh ws - cur) / 2 ≤ x := by linarith
        by_cases hb : calc_subdaily_ffmc_vanwagner (WTimeSpan.mk4 0 1 0 0)
              (x - (calc_subdaily_ffmc_vanwagner (WTimeSpan.mk4 0 1 0 0) x rain temperature rh
                ws - cur) / 2) rain temperature rh ws < 0 ∨
            calc_subdaily_ffmc_vanwagner (WTimeSpan.mk4 0 1 0 0)
              (x - (calc_subdaily_ffmc_vanwagner (WTimeSpan.mk4 0 1 0 0) x rain temperature rh
                ws - cur) / 2) rain temperature rh ws > 101
        · rw [if_pos hb] at h
          rw [← Option.some.inj h]
        · rw [if_neg hb] at h
          have hx'0 : 0 ≤ x - (calc_subdaily_ffmc_vanwagner (WTimeSpan.mk4 0 1 0 0) x rain
              temperature rh ws - cur) / 2 := by
            by_contra hneg
            have h98 := (subdaily_sentinel_iff (WTimeSpan.mk4 0 1 0 0) _ rain temperature rh
              ws).2 (Or.inl (not_le.mp hneg))
            apply hb
            left
            rw [h98]
            norm_num
          by_cases hs : |calc_subdaily_ffmc_vanwagner (WTimeSpan.mk4 0 1 0 0)
              (x - (calc_subdaily_ffmc_vanwagner (WTimeSpan.mk4 0 1 0 0) x rain temperature rh
                ws - cur) / 2) rain temperature rh ws -
              calc_subdaily_ffmc_vanwagner (WTimeSpan.mk4 0 1 0 0) x rain temperature rh ws| <
              TOLERANCE
          · rw [if_pos hs] at h
            rw [← Option.some.inj h]
            linarith
          · rw [if_neg hs] at h
            exact ih _ hx'0 (le_trans hx'le hx1) v h
      · rw [if_neg hd] at h
        rw [← Option.some.inj h]
        exact hx1
  obtain ⟨hmin, hc0, hc1⟩ := subdaily_rain_300_least
  obtain ⟨v, hv⟩ := calc_previous_terminates 2020000001 (le_refl _)
    (calc_subdaily_ffmc_vanwagner 3600 20 300 20 0.45 10) 300 20 0.45 10
  refine ⟨v, hv, ?_⟩
  rw [one_hour_eq] at hv
  rw [calc_previous_inrange_eq 2020000001 _ 300 20 0.45 10 hc0 (by linarith) (by norm_num)
    (by norm_num) (by norm_num) (by norm_num) (by norm_num) (by norm_num) (by norm_num)
    (by norm_num)] at hv
  have hle := previous_loop_below _ 300 20 0.45 10 hmin (by linarith) 2020000001 _ hc0
    (le_refl _) v hv
  rw [abs_of_neg (by linarith)]
  linarith

set_option maxHeartbeats 1000000 in
/-- C11 (amended): the round trip holds at the scenario of the specification.
With `cur` the forward value one hour from `prev = 85` at no rain, 20 degrees,
45 % humidity and wind 10, the inversion of `cur` under the same weather ends
(within `2020000001` iterations of its loop) and returns a value within `1e-6`
of `85`. -/
theorem inversion_round_trip (n : ℕ) (hn : 2020000001 ≤ n) :
    ∃ v, calc_previous_hourly_ffmc_vanwagner n
        (calc_subdaily_ffmc_vanwagner 3600 85 0 20 0.45 10) 0 20 0.45 10 = some v ∧
      |v - 85| ≤ 0.000001 := by
  -- Helper: for a moisture in `[11.3, 16.3]` the final range check of the
  -- forward step is not active.
  have ffmcOf_unclamped (xm : ℝ) (h0 : 11.3 ≤ xm) (h1 : xm ≤ 16.3) :
      ffmcOf xm = 23633.4 / (147.2 + xm) - 59.5 := by
    have hpos : (0 : ℝ) < 147.2 + xm := by linarith only [h0]
    have e : 59.5 * (250 - xm) / (147.2 + xm) = 23633.4 / (147.2 + xm) - 59.5 := by
      field_simp
      ring
    have hlo : (85 : ℝ) ≤ 23633.4 / (147.2 + xm) - 59.5 := by
      have h2 : (144.5 : ℝ) ≤ 23633.4 / (147.2 + xm) := by
        rw [le_div_iff₀ hpos]
        linarith only [h1]
      linarith only [h2]
    have hhi : 23633.4 / (147.2 + xm) - 59.5 ≤ 90 := by
      have h3 : 23633.4 / (147.2 + xm) ≤ (149.5 : ℝ) := by
        rw [div_le_iff₀ hpos]
        linarith only [h0]
      linarith only [h3]
    unfold ffmcOf
    simp only []
    rw [e, if_neg (by linarith only [hhi]), if_neg (by linarith only [hlo])]
  -- Helper: the moisture of a code in `[85, 86.5]` is in `[14.6, 16.3]`, and it
  -- falls at least `1.1` times as fast as the code rises.
  have moistureOf_window (a b : ℝ) (ha : 85 ≤ a) (hab : a ≤ b) (hb : b ≤ 86.5) :
      14.6 ≤ moistureOf b ∧ moistureOf a ≤ 16.3 ∧
        1.1 * (b - a) ≤ moistureOf a - moistureOf b := by
    have pa : (0 : ℝ) < 59.5 + a := by linarith only [ha]
    have pb : (0 : ℝ) < 59.5 + b := by linarith only [ha, hab]
    have ea : moistureOf a = 23625.6 / (59.5 + a) - 147.2 := by
      unfold moistureOf
      field_simp
      ring
    have eb : moistureOf b = 23625.6 / (59.5 + b) - 147.2 := by
      unfold moistureOf
      field_simp
      ring
    refine ⟨?_, ?_, ?_⟩
    · rw [eb]
      have h2 : (161.8 : ℝ) ≤ 23625.6 / (59.5 + b) := by
        rw [le_div_iff₀ pb]
        linarith only [hb]
      linarith only [h2]
    · rw [ea]
      have h3 : 23625.6 / (59.5 + a) ≤ (163.5 : ℝ) := by
        rw [div_le_iff₀ pa]
        linarith only [ha]
      linarith only [h3]
    · have e : moistureOf a - moistureOf b =
          23625.6 * (b - a) / ((59.5 + a) * (59.5 + b)) := by
        rw [ea, eb]
        field_simp
        ring
      rw [e, le_div_iff₀ (mul_pos pa pb)]
      have h1 : (59.5 + a) * (59.5 + b) ≤ 146 * 146 :=
        mul_le_mul (by linarith only [hab, hb]) (by linarith only [hb]) pb.le (by norm_num)
      have h2 : 0 ≤ b - a := by linarith only [hab]
      have h3 := mul_le_mul_of_nonneg_left h1 h2
      linarith only [h3, h2]
  -- Helper: in the drying regime, for an equilibrium in `[11.3, 14.6]`, a
  -- relaxation factor in `[0.74, 1]` and two moistures in `[14.6, 16.3]` that are
  -- at least `1.1 * d` apart, the codes after the step are at least `d / 2`
  -- apart.
  have dry_slope_core (E k ma mb d : ℝ) (hE0 : 11.3 ≤ E) (hE1 : E ≤ 14.6) (hk0 : 0.74 ≤ k)
      (hk1 : k ≤ 1) (hmb0 : 14.6 ≤ mb) (hma1 : ma ≤ 16.3) (hd : 0 ≤ d)
      (hgap : 1.1 * d ≤ ma - mb) :
      d / 2 ≤ ffmcOf (E + (mb - E) * k) - ffmcOf (E + (ma - E) * k) := by
    have hk : (0 : ℝ) ≤ k := by linarith only [hk0]
    have hk' : (0 : ℝ) ≤ 1 - k := by linarith only [hk1]
    have a1 : 0 ≤ (ma - E) * k := mul_nonneg (by linarith only [hgap, hd, hmb0, hE1]) hk
    have a2 : 0 ≤ (ma - E) * (1 - k) := mul_nonneg (by linarith only [hgap, hd, hmb0, hE1]) hk'
    have b1 : 0 ≤ (mb - E) * k := mul_nonneg (by linarith only [hmb0, hE1]) hk
    have b2 : 0 ≤ (mb - E) * (1 - k) := mul_nonneg (by linarith only [hmb0, hE1]) hk'
    have xa0 : 11.3 ≤ E + (ma - E) * k := by linarith only [a1, hE0]
    have xa1 : E + (ma - E) * k ≤ 16.3 := by linarith only [a2, hma1]
    have xb0 : 11.3 ≤ E + (mb - E) * k := by linarith only [b1, hE0]
    have xb1 : E + (mb - E) * k ≤ 16.3 := by linarith only [b2, hgap, hd, hma1]
    rw [ffmcOf_unclamped _ xa0 xa1, ffmcOf_unclamped _ xb0 xb1]
    have hx : 0.814 * d ≤ (E + (ma - E) * k) - (E + (mb - E) * k) := by
      have e : (E + (ma - E) * k) - (E + (mb - E) * k) = k * (ma - mb) := by ring
      rw [e]
      have h2 : (0.74 : ℝ) * (1.1 * d) ≤ k * (ma - mb) :=
        mul_le_mul hk0 hgap (by linarith only [hd]) hk
      linarith only [h2]
    generalize E + (ma - E) * k = xa at xa0 xa1 hx ⊢
    generalize E + (mb - E) * k = xb at xb0 xb1 hx ⊢
    have pa : (0 : ℝ) < 147.2 + xa := by linarith only [xa0]
    have pb : (0 : ℝ) < 147.2 + xb := by linarith only [xb0]
    have e : 23633.4 / (147.2 + xb) - 59.5 - (23633.4 / (147.2 + xa) - 59.5) =
        23633.4 * (xa - xb) / ((147.2 + xb) * (147.2 + xa)) := by
      field_simp
      ring
    rw [e, le_div_iff₀ (mul_pos pb pa)]
    have hprod : (147.2 + xb) * (147.2 + xa) ≤ 163.5 * 163.5 :=
      mul_le_mul (by linarith only [xb1]) (by linarith only [xa1]) pa.le (by norm_num)
    have h3 : d / 2 * ((147.2 + xb) * (147.2 + xa)) ≤ d / 2 * (163.5 * 163.5) :=
      mul_le_mul_of_nonneg_left hprod (by linarith only [hd])
    linarith only [h3, hx, hd]
  -- Helper: in the drying regime, for an equilibrium in `[11.3, 14.6]` and a
  -- relaxation factor in `[0.74, 1]`, the code after the step rises at least half
  -- as fast as the starting code on `[85, 86.5]`.
  have dry_slope (E k a b : ℝ) (hE0 : 11.3 ≤ E) (hE1 : E ≤ 14.6) (hk0 : 0.74 ≤ k)
      (hk1 : k ≤ 1) (ha : 85 ≤ a) (hab : a ≤ b) (hb : b ≤ 86.5) :
      (b - a) / 2 ≤ ffmcOf (E + (moistureOf b - E) * k) - ffmcOf (E + (moistureOf a - E) * k) := by
    obtain ⟨mb0, ma1, hgap⟩ := moistureOf_window a b ha hab hb
    exact dry_slope_core E k (moistureOf a) (moistureOf b) (b - a) hE0 hE1 hk0 hk1 mb0 ma1
      (by linarith only [hab]) hgap
  -- Helper: accuracy of the solver loop on a window `[p, hi]` of guesses on
  -- which the one-hour forward step rises at least half as fast as the guess: when
  -- `cur` is the forward value of `p`, a loop started at a guess of the window
  -- stays in the window and whatever it returns is at most `1e-6` above `p`.
  have previous_loop_accurate (cur rain temperature rh ws p hi : ℝ) (hp0 : 0 ≤ p)
      (hhi : hi ≤ 101) (hr0 : 0 ≤ rain) (hr1 : rain ≤ 300)
      (hF : calc_subdaily_ffmc_vanwagner (WTimeSpan.mk4 0 1 0 0) p rain temperature rh ws = cur)
      (hlow : ∀ a b : ℝ, p ≤ a → a ≤ b → b ≤ hi →
        (b - a) / 2 ≤
          calc_subdaily_ffmc_vanwagner (WTimeSpan.mk4 0 1 0 0) b rain temperature rh ws -
            calc_subdaily_ffmc_vanwagner (WTimeSpan.mk4 0 1 0 0) a rain temperature rh ws) :
      ∀ (n : ℕ) (x : ℝ), p ≤ x → x ≤ hi → ∀ v : ℝ,
        previous_loop cur rain temperature rh ws n x
          (calc_subdaily_ffmc_vanwagner (WTimeSpan.mk4 0 1 0 0) x rain temperature rh ws)
          |calc_subdaily_ffmc_vanwagner (WTimeSpan.mk4 0 1 0 0) x rain temperature rh ws - cur| =
            some v →
        p ≤ v ∧ v - p ≤ 0.000001 := by
    have hbase : ∀ x : ℝ, p ≤ x → x ≤ hi →
        (x - p) / 2 ≤
            calc_subdaily_ffmc_vanwagner (WTimeSpan.mk4 0 1 0 0) x rain temperature rh ws - cur ∧
          calc_subdaily_ffmc_vanwagner (WTimeSpan.mk4 0 1 0 0) x rain temperature rh ws - cur ≤
            2 * (x - p) := by
      intro x hx0 hx1
      have h1 := hlow p x (le_refl _) hx0 hx1
      have h2 := forward_one_sided p x rain temperature rh ws hp0 hx0 (le_trans hx1 hhi) hr0 hr1
      rw [hF] at h1 h2
      exact ⟨h1, by linarith only [h2]⟩
    intro n
    induction n with
    | zero =>
      intro x hx0 hx1 v h
      obtain ⟨hb1, hb2⟩ := hbase x hx0 hx1
      have habs : |calc_subdaily_ffmc_vanwagner (WTimeSpan.mk4 0 1 0 0) x rain temperature rh ws -
          cur| = calc_subdaily_ffmc_vanwagner (WTimeSpan.mk4 0 1 0 0) x rain temperature rh ws -
          cur := abs_of_nonneg (by linarith only [hb1, hx0])
      rw [previous_loop] at h
      by_cases hd : |calc_subdaily_ffmc_vanwagner (WTimeSpan.mk4 0 1 0 0) x rain temperature rh
          ws - cur| > TOLERANCE
      · rw [if_pos hd] at h
        cases h
      · rw [if_neg hd] at h
        have hv : x = v := Option.some.inj h
        rw [habs] at hd
        unfold TOLERANCE at hd
        rw [← hv]
        exact ⟨hx0, by linarith only [hd, hb1]⟩
    | succ n ih =>
      intro x hx0 hx1 v h
      obtain ⟨hb1, hb2⟩ := hbase x hx0 hx1
      have habs : |calc_subdaily_ffmc_vanwagner (WTimeSpan.mk4 0 1 0 0) x rain temperature rh ws -
          cur| = calc_subdaily_ffmc_vanwagner (WTimeSpan.mk4 0 1 0 0) x rain temperature rh ws -
          cur := abs_of_nonneg (by linarith only [hb1, hx0])
      rw [previous_loop] at h
      by_cases hd : |calc_subdaily_ffmc_vanwagner (WTimeSpan.mk4 0 1 0 0) x rain temperature rh
          ws - cur| > TOLERANCE
      · rw [if_pos hd] at h
        simp only [] at h
        have hpos := TOLERANCE_pos
        have hgt : calc_subdaily_ffmc_vanwagner (WTimeSpan.mk4 0 1 0 0) x rain temperature rh ws >
            cur := by
          rw [habs] at hd
          linarith only [hd, hpos]
        rw [if_pos hgt, habs] at h
        have hx'0 : p ≤ x - (calc_subdaily_ffmc_vanwagner (WTimeSpan.mk4 0 1 0 0) x rain
            temperature rh ws - cur) / 2 := by linarith only [hb2]
        have hx'le : x - (calc_subdaily_ffmc_vanwagner (WTimeSpan.mk4 0 1 0 0) x rain
            temperature rh ws - cur) / 2 ≤ x := by linarith only [hb1, hx0]
        have hin : ¬ (x - (calc_subdaily_ffmc_vanwagner (WTimeSpan.mk4 0 1 0 0) x rain
              temperature rh ws - cur) / 2 < 0 ∨
            x - (calc_subdaily_ffmc_vanwagner (WTimeSpan.mk4 0 1 0 0) x rain
              temperature rh ws - cur) / 2 > 101 ∨ rain < 0 ∨ rain > 300) := by
          rintro (hc | hc | hc | hc) <;> linarith only [hc, hx'0, hp0, hx'le, hx1, hhi, hr0, hr1]
        have hrange := subdaily_in_range (WTimeSpan.mk4 0 1 0 0) _ rain temperature rh ws hin
        rw [if_neg (by
          rintro (hc | hc)
          · exact absurd hrange.1 (not_le.mpr hc)
          · exact absurd hrange.2 (not_le.mpr hc))] at h
        have hstep := hlow _ x hx'0 hx'le hx1
        by_cases hs : |calc_subdaily_ffmc_vanwagner (WTimeSpan.mk4 0 1 0 0)
            (x - (calc_subdaily_ffmc_vanwagner (WTimeSpan.mk4 0 1 0 0) x rain temperature rh
              ws - cur) / 2) rain temperature rh ws -
            calc_subdaily_ffmc_vanwagner (WTimeSpan.mk4 0 1 0 0) x rain temperature rh ws| <
            TOLERANCE
        · rw [if_pos hs] at h
          have hv := Option.some.inj h
          have hs2 := (abs_lt.mp hs).1
          unfold TOLERANCE at hs2
          rw [← hv]
          exact ⟨hx'0, by linarith only [hs2, hstep, hb1]⟩
        · rw [if_neg hs] at h
          exact ih _ hx'0 (le_trans hx'le hx1) v h
      · rw [if_neg hd] at h
        have hv : x = v := Option.some.inj h
        rw [habs] at hd
        unfold TOLERANCE at hd
        rw [← hv]
        exact ⟨hx0, by linarith only [hd, hb1]⟩
  -- Helper: at no rain, 20 degrees, 45 % humidity and wind 10 the one-hour
  -- forward step of a code in `[85, 86.5]` is in the drying regime.
  have subdaily_witness_window (x : ℝ) (h0 : 85 ≤ x) (h1 : x ≤ 86.5) :
      calc_subdaily_ffmc_vanwagner (WTimeSpan.mk4 0 1 0 0) x 0 20 0.45 10 =
        ffmcOf (calc_ed 45 20 + (moistureOf x - calc_ed 45 20) *
          (10 : ℝ) ^ (-xkdOf 0.45 10 20 * 1)) := by
    obtain ⟨m0, m1, -⟩ := moistureOf_window x x h0 (le_refl _) h1
    have hE := calc_ed_45_20_upper
    rw [subdaily_one_hour_eq x 0 20 0.45 10 (by linarith only [h0]) (by linarith only [h1]) (by norm_num)
      (by norm_num) (by norm_num) (by norm_num) (by norm_num) (by norm_num) (by norm_num)
      (by norm_num)]
    have hrh : (0.45 : ℝ) * 100 = 45 := by norm_num
    have hmo : afterRain 0 (moistureOf x) = moistureOf x := by
      unfold afterRain
      simp only [ne_eq, not_true_eq_false, if_false]
      rw [if_neg (by linarith only [m1])]
    rw [hrh, hmo, xmOf_dry _ _ _ _ _ (by linarith only [hE, m0])]
  -- Helper: the forward value of the scenario, one hour from the code `85` at
  -- no rain, 20 degrees, 45 % humidity and wind 10, is in `[85, 86.5]`.
  have subdaily_witness_value :
      85 ≤ calc_subdaily_ffmc_vanwagner (WTimeSpan.mk4 0 1 0 0) 85 0 20 0.45 10 ∧
        calc_subdaily_ffmc_vanwagner (WTimeSpan.mk4 0 1 0 0) 85 0 20 0.45 10 ≤ 86.5 := by
    obtain ⟨m0, m1, -⟩ := moistureOf_window 85 85 (le_refl _) (le_refl _) (by norm_num)
    have m2 : 16.29 ≤ moistureOf 85 := by
      unfold moistureOf
      norm_num
    have hE0 := equilibria_45_20.1
    have hE1 := calc_ed_45_20_upper
    have hk0 := relax_factor_witness_lower
    have hk1 := (relax_factor_bounds 0.45 10 20 (by norm_num) (by norm_num)).2
    rw [subdaily_witness_window 85 (le_refl _) (by norm_num)]
    generalize (10 : ℝ) ^ (-xkdOf 0.45 10 20 * 1) = k at hk0 hk1
    generalize calc_ed 45 20 = E at hE0 hE1
    generalize moistureOf 85 = m at m0 m1 m2
    have a1 : 0 ≤ (m - E) * (1 - k) := mul_nonneg (by linarith only [m0, hE1]) (by linarith only [hk1])
    have a2 : 0 ≤ (m - E) * (k - 0.74) := mul_nonneg (by linarith only [m0, hE1]) (by linarith only [hk0])
    have x0 : 14.9 ≤ E + (m - E) * k := by linarith only [a2, hE0, m2]
    have x1 : E + (m - E) * k ≤ 16.3 := by linarith only [a1, m1]
    rw [ffmcOf_unclamped _ (by linarith only [x0]) x1]
    have hpos : (0 : ℝ) < 147.2 + (E + (m - E) * k) := by linarith only [x0]
    constructor
    · have h2 : (144.5 : ℝ) ≤ 23633.4 / (147.2 + (E + (m - E) * k)) := by
        rw [le_div_iff₀ hpos]
        linarith only [x1]
      linarith only [h2]
    · have h3 : 23633.4 / (147.2 + (E + (m - E) * k)) ≤ (146 : ℝ) := by
        rw [div_le_iff₀ hpos]
        linarith only [x0]
      linarith only [h3]
  obtain ⟨hc0, hc1⟩ := subdaily_witness_value
  obtain ⟨v, hv⟩ := calc_previous_terminates n hn
    (calc_subdaily_ffmc_vanwagner 3600 85 0 20 0.45 10) 0 20 0.45 10
  refine ⟨v, hv, ?_⟩
  rw [one_hour_eq] at hv
  rw [calc_previous_inrange_eq n _ 0 20 0.45 10 (by linarith only [hc0]) (by linarith only [hc1]) (by norm_num)
    (by norm_num) (by norm_num) (by norm_num) (by norm_num) (by norm_num) (by norm_num)
    (by norm_num)] at hv
  have hE0 := equilibria_45_20.1
  have hE1 := calc_ed_45_20_upper
  have hk0 := relax_factor_witness_lower
  have hk1 := (relax_factor_bounds 0.45 10 20 (by norm_num) (by norm_num)).2
  have hlow : ∀ a b : ℝ, 85 ≤ a → a ≤ b → b ≤ 86.5 →
      (b - a) / 2 ≤
        calc_subdaily_ffmc_vanwagner (WTimeSpan.mk4 0 1 0 0) b 0 20 0.45 10 -
          calc_subdaily_ffmc_vanwagner (WTimeSpan.mk4 0 1 0 0) a 0 20 0.45 10 := by
    intro a b ha hab hb
    rw [subdaily_witness_window a ha (le_trans hab hb),
      subdaily_witness_window b (le_trans ha hab) hb]
    exact dry_slope _ _ a b hE0 hE1 hk0 hk1 ha hab hb
  obtain ⟨v0, v1⟩ := previous_loop_accurate
    (calc_subdaily_ffmc_vanwagner (WTimeSpan.mk4 0 1 0 0) 85 0 20 0.45 10) 0 20 0.45 10 85 86.5
    (by norm_num) (by norm_num) (by norm_num) (by norm_num) rfl hlow n _ hc0 hc1 v hv
  rw [abs_of_nonneg (by linarith only [v0])]
  exact v1

/-- Witness for C11 (amended) with `2020000001` iterations. -/
theorem inversion_round_trip_witness :
    ∃ v, calc_previous_hourly_ffmc_vanwagner 2020000001
        (calc_subdaily_ffmc_vanwagner 3600 85 0 20 0.45 10) 0 20 0.45 10 = some v ∧
      |v - 85| ≤ 0.000001 :=
  inversion_round_trip 2020000001 (le_refl _)

/-! ### The iteration count of the inversion -/

/-- C13 (counterexample): the loop of `calc_previous_hourly_ffmc_vanwagner` has
no exit on an iteration count. At `current_ffmc = 85`, no rain, 0 degrees, 0 %
humidity and no wind, one pass through the loop body takes none of the three
exits of the source (the forward value `85.44` of the new guess `84.58` is
inside `[0, 101]`, it differs from the former forward value `85.84`, and it is
still more than `TOLERANCE` away from `85`), so with one iteration allowed the
routine has not returned; in particular it has not returned `current_ffmc`. -/
theorem calc_previous_ceiling_counterexample :
    calc_previous_hourly_ffmc_vanwagner 1 85 0 0 0 0 = none := by
  have hE : calc_ed 0 0 = 11 * Real.exp (-10) := by
    unfold calc_ed
    norm_num [Real.zero_rpow]
  have hx : xkdOf 0 0 0 = 0.0245496 := by
    unfold xkdOf
    norm_num [Real.zero_rpow]
  -- the equilibrium is in `[0, 0.011]`
  have hE0 : 0 ≤ calc_ed 0 0 := by
    rw [hE]
    positivity
  have hE1 : calc_ed 0 0 ≤ 0.011 := by
    rw [hE]
    have h2 : (2 : ℝ) ≤ Real.exp 1 := by
      have h0 := Real.add_one_le_exp (1 : ℝ)
      linarith only [h0]
    have h10 : Real.exp 10 = Real.exp 1 ^ 10 := by
      rw [← Real.exp_nat_mul]
      norm_num
    have h1024 : (1024 : ℝ) ≤ Real.exp 10 := by
      rw [h10]
      calc (1024 : ℝ) = 2 ^ 10 := by norm_num
        _ ≤ Real.exp 1 ^ 10 := pow_le_pow_left (by norm_num) h2 10
    have hinv : Real.exp (-10) ≤ 1 / 1024 := by
      rw [Real.exp_neg, inv_eq_one_div]
      exact one_div_le_one_div_of_le (by norm_num) h1024
    linarith only [hinv]
  -- the relaxation factor is in `[0.94, 0.95]`
  have hK0 : (0.94 : ℝ) ≤ (10 : ℝ) ^ (-xkdOf 0 0 0 * 1) := by
    have h3 : ((10 : ℝ)) ^ (((40 : ℕ) : ℝ)⁻¹) ≤ (((0.94 : ℝ)⁻¹) ^ (40 : ℕ)) ^ (((40 : ℕ) : ℝ)⁻¹) :=
      Real.rpow_le_rpow (by norm_num) (by norm_num) (by norm_num)
    have h4 : (((0.94 : ℝ)⁻¹) ^ (40 : ℕ)) ^ (((40 : ℕ) : ℝ)⁻¹) = (0.94 : ℝ)⁻¹ :=
      Real.pow_rpow_inv_natCast (by norm_num) (by norm_num)
    rw [h4] at h3
    have hp : (0 : ℝ) < (10 : ℝ) ^ (((40 : ℕ) : ℝ)⁻¹) := Real.rpow_pos_of_pos (by norm_num) _
    have h5 : (0.94 : ℝ) ≤ (10 : ℝ) ^ (-(((40 : ℕ) : ℝ)⁻¹)) := by
      rw [Real.rpow_neg (by norm_num), le_inv_comm₀ (by norm_num) hp]
      exact h3
    have hmono : (10 : ℝ) ^ (-(((40 : ℕ) : ℝ)⁻¹)) ≤ (10 : ℝ) ^ (-xkdOf 0 0 0 * 1) :=
      Real.rpow_le_rpow_of_exponent_le (by norm_num) (by rw [hx]; norm_num)
    exact le_trans h5 hmono
  have hK1 : (10 : ℝ) ^ (-xkdOf 0 0 0 * 1) ≤ 0.95 := by
    have h3 : (((0.95 : ℝ)⁻¹) ^ (41 : ℕ)) ^ (((41 : ℕ) : ℝ)⁻¹) ≤ ((10 : ℝ)) ^ (((41 : ℕ) : ℝ)⁻¹) :=
      Real.rpow_le_rpow (by norm_num) (by norm_num) (by norm_num)
    have h4 : (((0.95 : ℝ)⁻¹) ^ (41 : ℕ)) ^ (((41 : ℕ) : ℝ)⁻¹) = (0.95 : ℝ)⁻¹ :=
      Real.pow_rpow_inv_natCast (by norm_num) (by norm_num)
    rw [h4] at h3
    have hp : (0 : ℝ) < (10 : ℝ) ^ (((41 : ℕ) : ℝ)⁻¹) := Real.rpow_pos_of_pos (by norm_num) _
    have h5 : (10 : ℝ) ^ (-(((41 : ℕ) : ℝ)⁻¹)) ≤ 0.95 := by
      rw [Real.rpow_neg (by norm_num), inv_le_comm₀ hp (by norm_num)]
      exact h3
    have hmono : (10 : ℝ) ^ (-xkdOf 0 0 0 * 1) ≤ (10 : ℝ) ^ (-(((41 : ℕ) : ℝ)⁻¹)) :=
      Real.rpow_le_rpow_of_exponent_le (by norm_num) (by rw [hx]; norm_num)
    exact le_trans hmono h5
  -- the forward step of a code in `[84, 86]` whose moisture after relaxation
  -- lies in `[a, b]`
  have step (x a b : ℝ) (hx0 : 84 ≤ x) (hx1 : x ≤ 86) (ha : 15 ≤ a) (hb : b ≤ 17)
      (hma : a ≤ 0.94 * moistureOf x) (hmb : 0.95 * moistureOf x + 0.011 ≤ b) :
      59.5 * (250 - b) / (147.2 + b) ≤
          calc_subdaily_ffmc_vanwagner (WTimeSpan.mk4 0 1 0 0) x 0 0 0 0 ∧
        calc_subdaily_ffmc_vanwagner (WTimeSpan.mk4 0 1 0 0) x 0 0 0 0 ≤
          59.5 * (250 - a) / (147.2 + a) := by
    clear hE hx
    have hmo0 : 15 ≤ moistureOf x := by linarith only [ha, hma]
    have hmo1 : moistureOf x ≤ 18 := by linarith only [hb, hmb]
    have hrain : afterRain 0 (moistureOf x) = moistureOf x := by
      unfold afterRain
      simp only [ne_eq, not_true_eq_false, if_false]
      rw [if_neg (by linarith only [hmo1])]
    rw [subdaily_one_hour_eq x 0 0 0 0 (by linarith only [hx0]) (by linarith only [hx1]) (le_refl _) (by norm_num)
      (by norm_num) (by norm_num) (le_refl _) (by norm_num) (le_refl _) (by norm_num), hrain,
      zero_mul, xmOf_dry _ _ _ _ _ (by linarith only [hE1, hmo0])]
    generalize calc_ed 0 0 = E at hE0 hE1 ⊢
    generalize (10 : ℝ) ^ (-xkdOf 0 0 0 * 1) = K at hK0 hK1 ⊢
    generalize moistureOf x = mo at hmo0 hmo1 hma hmb ⊢
    have hd : 0 ≤ mo - E := by linarith only [hE1, hmo0]
    have p1 := mul_le_mul_of_nonneg_left hK0 hd
    have p2 := mul_le_mul_of_nonneg_left hK1 hd
    have h1 : a ≤ E + (mo - E) * K := by linarith only [p1, hE0, hma]
    have h2 : E + (mo - E) * K ≤ b := by linarith only [p2, hE0, hE1, hmb, hK0]
    clear p1 p2 hd
    generalize E + (mo - E) * K = m at h1 h2 ⊢
    have hpm : (0 : ℝ) < 147.2 + m := by linarith only [h1, ha]
    have hpa : (0 : ℝ) < 147.2 + a := by linarith only [ha]
    have hpb : (0 : ℝ) < 147.2 + b := by linarith only [h1, h2, ha]
    have e : ffmcOf m = 59.5 * (250 - m) / (147.2 + m) := by
      unfold ffmcOf
      simp only []
      rw [if_neg, if_neg]
      · rw [not_lt]
        exact div_nonneg (by linarith only [h2, hb]) hpm.le
      · rw [gt_iff_lt, not_lt, div_le_iff₀ hpm]
        linarith only [h1, ha]
    rw [e]
    constructor
    · rw [div_le_div_iff hpb hpm]
      linarith only [h2]
    · rw [div_le_div_iff hpm hpa]
      linarith only [h1]
  clear hE hx hE0 hE1 hK0 hK1
  -- the moisture of a code between `lo` and `hi`
  have moist (x lo hi : ℝ) (h0 : 84 ≤ lo) (hlo : lo ≤ x) (hhi : x ≤ hi) :
      147.2 * (101 - hi) / (59.5 + hi) ≤ moistureOf x ∧
        moistureOf x ≤ 147.2 * (101 - lo) / (59.5 + lo) := by
    have p1 : (0 : ℝ) < 59.5 + x := by linarith only [h0, hlo]
    have p2 : (0 : ℝ) < 59.5 + lo := by linarith only [h0]
    have p3 : (0 : ℝ) < 59.5 + hi := by linarith only [h0, hlo, hhi]
    unfold moistureOf
    constructor
    · rw [div_le_div_iff p3 p1]
      linarith only [hhi]
    · rw [div_le_div_iff p1 p2]
      linarith only [hlo]
  -- first forward value, at the code `85`
  obtain ⟨m85a, m85b⟩ := moist 85 85 85 (by norm_num) (le_refl _) (le_refl _)
  obtain ⟨o0a, o0b⟩ := step 85 15.32 15.4951 (by norm_num) (by norm_num) (by norm_num)
    (by norm_num) (by norm_num at m85a ⊢; linarith only [m85a]) (by norm_num at m85b ⊢; linarith only [m85b])
  have o0lo : (85.76 : ℝ) ≤ calc_subdaily_ffmc_vanwagner (WTimeSpan.mk4 0 1 0 0) 85 0 0 0 0 := by
    refine le_trans ?_ o0a
    norm_num
  have o0hi : calc_subdaily_ffmc_vanwagner (WTimeSpan.mk4 0 1 0 0) 85 0 0 0 0 ≤ 85.92 := by
    refine le_trans o0b ?_
    norm_num
  clear m85a m85b o0a o0b
  have htol : TOLERANCE < 0.1 := by
    unfold TOLERANCE
    norm_num
  rw [calc_previous_inrange_eq 1 85 0 0 0 0 (by norm_num) (by norm_num) (le_refl _)
    (by norm_num) (by norm_num) (by norm_num) (le_refl _) (by norm_num) (le_refl _)
    (by norm_num)]
  generalize calc_subdaily_ffmc_vanwagner (WTimeSpan.mk4 0 1 0 0) 85 0 0 0 0 = out0
    at o0lo o0hi ⊢
  rw [abs_of_nonneg (by linarith only [o0lo] : (0 : ℝ) ≤ out0 - 85), previous_loop,
    if_pos (by linarith only [o0lo, htol] : out0 - 85 > TOLERANCE)]
  simp only []
  rw [if_pos (by linarith only [o0lo] : out0 > 85)]
  -- second forward value, at the new guess
  obtain ⟨m1a, m1b⟩ := moist (85 - (out0 - 85) / 2) 84.54 84.62 (by norm_num) (by linarith only [o0hi])
    (by linarith only [o0lo])
  obtain ⟨o1a, o1b⟩ := step (85 - (out0 - 85) / 2) 15.72 16 (by linarith only [o0hi]) (by linarith only [o0lo])
    (by norm_num) (by norm_num) (by norm_num at m1a ⊢; linarith only [m1a]) (by norm_num at m1b ⊢; linarith only [m1b])
  have o1lo : (85.31 : ℝ) ≤
      calc_subdaily_ffmc_vanwagner (WTimeSpan.mk4 0 1 0 0) (85 - (out0 - 85) / 2) 0 0 0 0 := by
    refine le_trans ?_ o1a
    norm_num
  have o1hi : calc_subdaily_ffmc_vanwagner (WTimeSpan.mk4 0 1 0 0) (85 - (out0 - 85) / 2) 0 0 0 0 ≤
      85.57 := by
    refine le_trans o1b ?_
    norm_num
  clear m1a m1b o1a o1b step moist
  generalize calc_subdaily_ffmc_vanwagner (WTimeSpan.mk4 0 1 0 0) (85 - (out0 - 85) / 2) 0 0 0 0
    = out1 at o1lo o1hi ⊢
  have hrange : ¬ (out1 < 0 ∨ out1 > 101) := by
    rintro (h | h) <;> linarith only [h, o1lo, o1hi]
  have hplateau : ¬ |out1 - out0| < TOLERANCE := by
    rw [abs_sub_comm, abs_of_nonneg (by linarith only [o0lo, o1hi] : (0 : ℝ) ≤ out0 - out1)]
    linarith only [o0lo, o1hi, htol]
  rw [if_neg hrange, if_neg hplateau, previous_loop, abs_of_nonneg (by linarith only [o1lo] : (0 : ℝ) ≤ out1 - 85),
    if_pos (by linarith only [o1lo, htol] : out1 - 85 > TOLERANCE)]

/-- C13 (amended): `calc_previous_hourly_ffmc_vanwagner` terminates on every
input without an iteration ceiling. The loop of the source has no iteration
counter; over the reals it ends by one of its own exits (convergence, plateau,
forward value outside `[0, 101]`) within `2020000001` iterations, so the
routine has one result `v`, returned whenever that many iterations or more are
allowed. -/
theorem calc_previous_within_ceiling (current_ffmc rain temperature rh ws : ℝ) :
    ∃ v, ∀ n, 2020000001 ≤ n →
      calc_previous_hourly_ffmc_vanwagner n current_ffmc rain temperature rh ws = some v := by
  -- Helper: a solver loop that has ended within `n` iterations returns the same
  -- value when more iterations are allowed.
  have previous_loop_mono (cur rain temperature rh ws : ℝ) :
      ∀ (n : ℕ) (x out d v : ℝ), previous_loop cur rain temperature rh ws n x out d = some v →
        previous_loop cur rain temperature rh ws (n + 1) x out d = some v := by
    intro n
    induction n with
    | zero =>
      intro x out d v h
      rw [previous_loop] at h
      by_cases hd : d > TOLERANCE
      · rw [if_pos hd] at h
        cases h
      · rw [if_neg hd] at h
        rw [previous_loop, if_neg hd]
        exact h
    | succ n ih =>
      intro x out d v h
      rw [previous_loop] at h
      rw [previous_loop]
      by_cases hd : d > TOLERANCE
      · rw [if_pos hd] at h ⊢
        simp only [] at h ⊢
        by_cases hb : calc_subdaily_ffmc_vanwagner (WTimeSpan.mk4 0 1 0 0)
              (if out > cur then x - d / 2 else x + d / 2) rain temperature rh ws < 0 ∨
            calc_subdaily_ffmc_vanwagner (WTimeSpan.mk4 0 1 0 0)
              (if out > cur then x - d / 2 else x + d / 2) rain temperature rh ws > 101
        · rw [if_pos hb] at h ⊢
          exact h
        · rw [if_neg hb] at h ⊢
          by_cases hs : |calc_subdaily_ffmc_vanwagner (WTimeSpan.mk4 0 1 0 0)
              (if out > cur then x - d / 2 else x + d / 2) rain temperature rh ws - out| <
              TOLERANCE
          · rw [if_pos hs] at h ⊢
            exact h
          · rw [if_neg hs] at h ⊢
            exact ih _ _ _ v h
      · rw [if_neg hd] at h ⊢
        exact h
  -- Helper: a result of the inversion does not change when more iterations are
  -- allowed.
  have calc_previous_mono (cur rain temperature rh ws v : ℝ) (n : ℕ)
      (h : calc_previous_hourly_ffmc_vanwagner n cur rain temperature rh ws = some v) :
      ∀ m, n ≤ m → calc_previous_hourly_ffmc_vanwagner m cur rain temperature rh ws = some v := by
    have step : ∀ k, calc_previous_hourly_ffmc_vanwagner (n + k) cur rain temperature rh ws =
        some v := by
      intro k
      induction k with
      | zero => exact h
      | succ k ih =>
        unfold calc_previous_hourly_ffmc_vanwagner at ih ⊢
        by_cases hbad : cur < 0 ∨ cur > 101 ∨ rain < 0 ∨ rain > 300
        · rw [if_pos hbad] at ih ⊢
          exact ih
        · rw [if_neg hbad] at ih ⊢
          exact previous_loop_mono _ _ _ _ _ (n + k) _ _ _ v ih
    intro m hm
    obtain ⟨k, rfl⟩ := Nat.exists_eq_add_of_le hm
    exact step k
  obtain ⟨v, hv⟩ := calc_previous_terminates 2020000001 (le_refl _) current_ffmc rain
    temperature rh ws
  exact ⟨v, calc_previous_mono current_ffmc rain temperature rh ws v 2020000001 hv⟩

/-! ### Monotonicity of the drying equilibrium -/

/-- C21 (counterexample): at 60 degrees the drying equilibrium is not monotone
in the humidity: it is positive at `rh = 0` and negative at `rh = 0.1`. -/
theorem calc_ed_monotone_counterexample :
    ¬ calc_ed (0 * 100) 60 ≤ calc_ed (0.1 * 100) 60 := by
  -- Helper: `10 ^ 0.679 ≤ 4.8`.
  have rpow_10_upper : (10 : ℝ) ^ (0.679 : ℝ) ≤ 4.8 := by
    have h1 : (10 : ℝ) ^ (0.679 : ℝ) ≤ (10 : ℝ) ^ ((17 : ℝ) * ((25 : ℕ) : ℝ)⁻¹) :=
      Real.rpow_le_rpow_of_exponent_le (by norm_num) (by norm_num)
    have h2 : (10 : ℝ) ^ ((17 : ℝ) * ((25 : ℕ) : ℝ)⁻¹) = ((10 : ℝ) ^ (17 : ℕ)) ^ (((25 : ℕ) : ℝ)⁻¹) := by
      rw [Real.rpow_mul (by norm_num), ← Real.rpow_natCast]
      norm_num
    have h3 : ((10 : ℝ) ^ (17 : ℕ)) ^ (((25 : ℕ) : ℝ)⁻¹) ≤ ((4.8 : ℝ) ^ (25 : ℕ)) ^ (((25 : ℕ) : ℝ)⁻¹) :=
      Real.rpow_le_rpow (by norm_num) (by norm_num) (by norm_num)
    have h4 : ((4.8 : ℝ) ^ (25 : ℕ)) ^ (((25 : ℕ) : ℝ)⁻¹) = 4.8 :=
      Real.pow_rpow_inv_natCast (by norm_num) (by norm_num)
    rw [h2] at h1
    linarith
  have e0 : (0 : ℝ) * 100 = 0 := by norm_num
  have e1 : (0.1 : ℝ) * 100 = 10 := by norm_num
  rw [e0, e1]
  have h0 : 0 < calc_ed 0 60 := by
    unfold calc_ed
    have := Real.exp_pos (((0 : ℝ) - 100) / 10)
    rw [Real.zero_rpow (by norm_num)]
    norm_num
    positivity
  have h10 : calc_ed 10 60 < 0 := by
    unfold calc_ed
    have p := rpow_10_upper
    have e3 : Real.exp (-3 : ℝ) ≤ 1 / 4 := by
      rw [Real.exp_neg, ← one_div]
      apply one_div_le_one_div_of_le (by norm_num)
      have := Real.add_one_le_exp (3 : ℝ)
      linarith
    have e3p := Real.exp_pos (-3 : ℝ)
    have e9 : Real.exp (((10 : ℝ) - 100) / 10) ≤ 1 / 64 := by
      have e : (((10 : ℝ) - 100) / 10) = -3 + (-3 + -3) := by norm_num
      rw [e, Real.exp_add, Real.exp_add]
      have h2 : Real.exp (-3 : ℝ) * Real.exp (-3 : ℝ) ≤ 1 / 4 * (1 / 4) :=
        mul_le_mul e3 e3 e3p.le (by norm_num)
      have h3 : Real.exp (-3 : ℝ) * (Real.exp (-3 : ℝ) * Real.exp (-3 : ℝ)) ≤
          1 / 4 * (1 / 4 * (1 / 4)) :=
        mul_le_mul e3 h2 (by positivity) (by norm_num)
      linarith
    have e115 : Real.exp (-0.115 * (10 : ℝ)) ≤ 0.32 := by
      have e : (-0.115 * (10 : ℝ)) = -(1 + 0.15) := by norm_num
      rw [e, Real.exp_neg, Real.exp_add]
      have h1 := Real.exp_one_gt_d9
      have h2 := Real.add_one_le_exp (0.15 : ℝ)
      have h3 : (2.7182818283 : ℝ) * 1.15 ≤ Real.exp 1 * Real.exp 0.15 :=
        mul_le_mul h1.le (by linarith) (by norm_num) (Real.exp_pos 1).le
      rw [inv_le_comm₀ (by positivity) (by norm_num)]
      have : ((0.32 : ℝ))⁻¹ ≤ 2.7182818283 * 1.15 := by norm_num
      linarith
    nlinarith
  linarith

/-- C21 (amended): monotonicity of the drying equilibrium for a temperature of
at most `51.6` degrees. For every such temperature and every `rh1 ≤ rh2` in
`[0, 1]`, the equilibrium moisture `calc_ed (100 rh) temperature` of the
Van Wagner routines satisfies `ed(rh1) ≤ ed(rh2)`. -/
theorem calc_ed_monotone_in_rh (temperature rh1 rh2 : ℝ) (ht : temperature ≤ 51.6)
    (h0 : 0 ≤ rh1) (h12 : rh1 ≤ rh2) (_h1 : rh2 ≤ 1) :
    calc_ed (rh1 * 100) temperature ≤ calc_ed (rh2 * 100) temperature ∧
      calc_ed (rh1 * 100) temperature =
        0.942 * (rh1 * 100) ^ (0.679 : ℝ) + 11 * Real.exp ((rh1 * 100 - 100) / 10) +
          0.18 * (21.1 - temperature) * (1 - Real.exp (-0.115 * (rh1 * 100))) := by
  -- Helper: `exp(-0.115 r) ≤ 1.01 * r ^ (-0.321)` for every positive `r`.
  have exp_le_rpow_neg (r : ℝ) (hr : 0 < r) :
      Real.exp (-0.115 * r) ≤ 1.01 * r ^ (-0.321 : ℝ) := by
    have hlog28 : Real.log 2.8 ≤ 1.03 := by
      rw [Real.log_le_iff_le_exp (by norm_num)]
      have h1 : Real.exp (1.03 : ℝ) = Real.exp 1 * Real.exp 0.03 := by
        rw [← Real.exp_add]
        norm_num
      have h2 := Real.exp_one_gt_d9
      have h3 := Real.quadratic_le_exp_of_nonneg (show (0 : ℝ) ≤ 0.03 by norm_num)
      have h4 : (1.03045 : ℝ) ≤ Real.exp 0.03 := by
        have : (1 : ℝ) + 0.03 + 0.03 ^ 2 / 2 = 1.03045 := by norm_num
        linarith
      have h5 : (2.7182818283 : ℝ) * 1.03045 ≤ Real.exp 1 * Real.exp 0.03 :=
        mul_le_mul h2.le h4 (by norm_num) (Real.exp_pos 1).le
      rw [h1]
      have : (2.8 : ℝ) ≤ 2.7182818283 * 1.03045 := by norm_num
      linarith
    have hlog : Real.log r ≤ r / 2.8 + 0.03 := by
      have h1 := Real.log_le_sub_one_of_pos (show 0 < r / 2.8 by positivity)
      rw [Real.log_div hr.ne' (by norm_num)] at h1
      linarith
    have ht : -0.115 * r ≤ 0.0097 + Real.log r * (-0.321) := by
      have h1 : r / 2.8 ≤ r * 0.358 := by
        rw [div_le_iff₀ (by norm_num)]
        nlinarith
      linarith
    have he : Real.exp (0.0097 : ℝ) ≤ 1.01 := by
      have hm := Real.add_one_le_exp (-0.0097 : ℝ)
      have hp := Real.exp_pos (0.0097 : ℝ)
      have hinv : Real.exp (-0.0097 : ℝ) * Real.exp 0.0097 = 1 := by
        rw [← Real.exp_add]
        norm_num
      nlinarith
    rw [Real.rpow_def_of_pos hr]
    calc Real.exp (-0.115 * r) ≤ Real.exp (0.0097 + Real.log r * (-0.321)) :=
          Real.exp_le_exp.mpr ht
      _ = Real.exp 0.0097 * Real.exp (Real.log r * (-0.321)) := Real.exp_add _ _
      _ ≤ 1.01 * Real.exp (Real.log r * (-0.321)) :=
          mul_le_mul_of_nonneg_right he (Real.exp_pos _).le
  -- Helper: the sum of the first and third terms of the drying equilibrium is
  -- monotone in the percent humidity when the coefficient of the third term is at
  -- least `-5.49`.
  have ed_core_monotone (k : ℝ) (hk : -5.49 ≤ k) :
      MonotoneOn (fun r : ℝ => 0.942 * r ^ (0.679 : ℝ) + k * (1 - Real.exp (-0.115 * r)))
        (Set.Ici 0) := by
    have hder : ∀ x : ℝ, 0 < x →
        HasDerivAt (fun r : ℝ => 0.942 * r ^ (0.679 : ℝ) + k * (1 - Real.exp (-0.115 * r)))
          (0.942 * (0.679 * x ^ ((0.679 : ℝ) - 1)) +
            k * (0 - Real.exp (-0.115 * x) * (-0.115))) x := by
      intro x hx
      have h1 := (Real.hasDerivAt_rpow_const (p := 0.679) (Or.inl hx.ne')).const_mul (0.942 : ℝ)
      have h2 : HasDerivAt (fun y : ℝ => -0.115 * y) (-0.115) x := by
        simpa using (hasDerivAt_id x).const_mul (-0.115 : ℝ)
      have h4 := ((hasDerivAt_const x (1 : ℝ)).sub h2.exp).const_mul k
      exact h1.add h4
    apply monotoneOn_of_deriv_nonneg (convex_Ici 0)
    · have := Real.continuous_rpow_const (q := 0.679) (by norm_num)
      exact Continuous.continuousOn (by fun_prop)
    · rw [interior_Ici]
      intro x hx
      exact (hder x hx).differentiableAt.differentiableWithinAt
    · rw [interior_Ici]
      intro x hx
      have hx0 : (0 : ℝ) < x := hx
      rw [(hder x hx0).deriv]
      have e : ((0.679 : ℝ) - 1) = -0.321 := by norm_num
      rw [e]
      have hA := exp_le_rpow_neg x hx0
      have hp : 0 < x ^ (-0.321 : ℝ) := Real.rpow_pos_of_pos hx0 _
      have hE := Real.exp_pos (-0.115 * x)
      by_cases hk0 : 0 ≤ k
      · have := mul_nonneg hk0 hE.le
        nlinarith
      · push_neg at hk0
        have h1 : (k + 5.49) * Real.exp (-0.115 * x) ≥ 0 := mul_nonneg (by linarith) hE.le
        nlinarith
  -- Helper: the drying equilibrium is monotone in the percent humidity for a
  -- temperature of at most `51.6`.
  have calc_ed_monotone (r1 r2 temperature : ℝ) (ht : temperature ≤ 51.6) (h0 : 0 ≤ r1)
      (h12 : r1 ≤ r2) : calc_ed r1 temperature ≤ calc_ed r2 temperature := by
    have hcore := ed_core_monotone (0.18 * (21.1 - temperature)) (by linarith)
      (Set.mem_Ici.mpr h0) (Set.mem_Ici.mpr (le_trans h0 h12)) h12
    simp only [] at hcore
    have hexp : Real.exp ((r1 - 100) / 10) ≤ Real.exp ((r2 - 100) / 10) :=
      Real.exp_le_exp.mpr (by linarith)
    unfold calc_ed
    linarith
  exact
    ⟨calc_ed_monotone (rh1 * 100) (rh2 * 100) temperature ht (by linarith) (by linarith), rfl⟩

/-- Witness for C21 (amended) at 20 degrees and the humidities 0.3 and 0.45. -/
theorem calc_ed_monotone_in_rh_witness :
    calc_ed (0.3 * 100) 20 ≤ calc_ed (0.45 * 100) 20 :=
  (calc_ed_monotone_in_rh 20 0.3 0.45 (by norm_num) (by norm_num) (by norm_num)
    (by norm_num)).1

/-! ### The moisture-scale constant, the interpolation, the hemispheres and the wind cap -/

/-- Helper: the constant chosen at the top of `calc_subdaily_ffmc_vanwagner`
and of `calc_ff` is `147.2` on the exact multiples of an hour and `147.27723`
on every other whole number of seconds. -/
theorem factor_eq (ts : ℤ) :
    factor ts = if (3600 : ℤ) ∣ ts then 147.2 else 147.27723 := by
  have hts : ts = 3600 * (ts / 3600) + ts % 3600 := (Int.ediv_add_emod ts 3600).symm
  have hr0 : 0 ≤ ts % 3600 := Int.emod_nonneg ts (by norm_num)
  have hr1 : ts % 3600 < 3600 := Int.emod_lt_of_pos ts (by norm_num)
  have hx : ((ts : ℤ) : ℝ) / 60 / 60 =
      (((ts / 3600 : ℤ) : ℤ) : ℝ) + (((ts % 3600 : ℤ) : ℤ) : ℝ) / 3600 := by
    have h := congrArg (fun z : ℤ => ((z : ℤ) : ℝ)) hts
    simp only [Int.cast_add, Int.cast_mul, Int.cast_ofNat] at h
    rw [h]
    ring
  have hr0' : (0 : ℝ) ≤ (((ts % 3600 : ℤ) : ℤ) : ℝ) := by exact_mod_cast hr0
  have hr1' : (((ts % 3600 : ℤ) : ℤ) : ℝ) < 3600 := by exact_mod_cast hr1
  have hfl : ⌊((ts : ℤ) : ℝ) / 60 / 60⌋ = ts / 3600 := by
    rw [Int.floor_eq_iff, hx]
    constructor
    · have : 0 ≤ (((ts % 3600 : ℤ) : ℤ) : ℝ) / 3600 := div_nonneg hr0' (by norm_num)
      linarith
    · have : (((ts % 3600 : ℤ) : ℤ) : ℝ) / 3600 < 1 := by
        rw [div_lt_one (by norm_num)]
        exact hr1'
      linarith
  unfold factor GetTotalSeconds
  simp only []
  rw [hfl, hx]
  by_cases hd : (3600 : ℤ) ∣ ts
  · have hz : ts % 3600 = 0 := Int.emod_eq_zero_of_dvd hd
    rw [if_pos hd, hz, if_neg]
    norm_num
  · have hz : 1 ≤ ts % 3600 := by
      by_contra h
      exact hd (Int.dvd_of_emod_eq_zero (by omega))
    have hz' : (1 : ℝ) ≤ (((ts % 3600 : ℤ) : ℤ) : ℝ) := by exact_mod_cast hz
    rw [if_neg hd, if_pos]
    have : (1 : ℝ) / 3600 ≤ (((ts % 3600 : ℤ) : ℤ) : ℝ) / 3600 :=
      div_le_div_of_nonneg_right hz' (by norm_num)
    have h2 : (1e-4 : ℝ) < 1 / 3600 := by norm_num
    linarith

/-- C22: choice of the moisture-scale constant. For every whole number of
seconds `ts`, the constant of `calc_ff` and of `calc_subdaily_ffmc_vanwagner`
is `147.2` if and only if `ts` is an exact multiple of 3600 and `147.27723`
otherwise: both routines are their source bodies with that constant in the
place of the one selected by the test `frac(seconds / 3600) > 1e-4`. -/
theorem moisture_scale_constant (ts : ℤ) (ffmc in_ffmc rain temperature rh ws : ℝ) :
    (factor ts = 147.2 ↔ (3600 : ℤ) ∣ ts) ∧
    (factor ts = 147.27723 ↔ ¬ (3600 : ℤ) ∣ ts) ∧
    calc_ff ts ffmc =
      (let c : ℝ := if (3600 : ℤ) ∣ ts then 147.2 else 147.27723
       let fm : ℝ := c * (101 - ffmc) / (59.5 + ffmc)
       91.9 * Real.exp (fm * (-0.1386)) * (1 + fm ^ (5.31 : ℝ) / 49300000)) ∧
    calc_subdaily_ffmc_vanwagner ts in_ffmc rain temperature rh ws =
      (let c : ℝ := if (3600 : ℤ) ∣ ts then 147.2 else 147.27723
       if in_ffmc < 0 ∨ in_ffmc > 101 ∨ rain < 0 ∨ rain > 300 then -98
       else
         let temperature : ℝ :=
           if temperature < -50 then -50 else if temperature > 60 then 60 else temperature
         let rh : ℝ := if rh < 0 then 0 else if rh > 1 then 1 else rh
         let ws : ℝ := if ws > 200 then 200 else if ws < 0 then 0 else ws
         let hour_frac : ℝ := ((ts : ℤ) : ℝ) / 60 / 60
         let rhp : ℝ := rh * 100
         let mo0 : ℝ := c * (101 - in_ffmc) / (59.5 + in_ffmc)
         let mo1 : ℝ :=
           if rain ≠ 0 then
             mo0 + rain * 42.5 * Real.exp (-100 / (251 - mo0)) * (1 - Real.exp (-6.93 / rain))
           else mo0
         let mo : ℝ := if mo1 > 250 then 250 else mo1
         let ed : ℝ := calc_ed rhp temperature
         let moed : ℝ := mo - ed
         let ew : ℝ := calc_ew rhp temperature
         let moew : ℝ := mo - ew
         let xm : ℝ :=
           if moed = 0 ∨ (moew ≥ 0 ∧ moed < 0) then mo
           else
             let a1 : ℝ := if moed > 0 then rh else 1 - rh
             let e : ℝ := if moed > 0 then ed else ew
             let moe : ℝ := if moed > 0 then moed else moew
             let xkd0 : ℝ :=
               0.424 * (1 - a1 ^ (1.7 : ℝ)) + (0.0694 * Real.sqrt ws * (1 - a1 ^ (8 : ℝ)))
             let xkd : ℝ := xkd0 * 0.0579 * Real.exp (0.0365 * temperature)
             e + moe * (10 : ℝ) ^ (-xkd * hour_frac)
         let c_f : ℝ := 59.5 * (250 - xm) / (c + xm)
         if c_f > 101 then 101 else if c_f < 0 then 0 else c_f) := by
  have hf := factor_eq ts
  refine ⟨?_, ?_, ?_, ?_⟩
  · rw [hf]
    by_cases hd : (3600 : ℤ) ∣ ts
    · simp [hd]
    · simp only [hd, if_false, iff_false]
      norm_num
  · rw [hf]
    by_cases hd : (3600 : ℤ) ∣ ts
    · simp only [hd, if_true, not_true_eq_false, iff_false]
      norm_num
    · simp [hd]
  · unfold calc_ff
    rw [hf]
  · unfold calc_subdaily_ffmc_vanwagner GetTotalSeconds
    rw [hf]

/-- C25: bilinear interpolation with the 11:00 asymmetry. With
`I12 = I1 + (I2 - I1) * f`, `I34 = I3 + (I4 - I3) * f` and `m` the minute
component of `ts`, `intrp` returns `I12 + (I34 - I12) * m / 59` when the hour
component of `ts` is 11 and `I12 + (I34 - I12) * m / 60` otherwise; at 11:59
the result is `I34`. -/
theorem intrp_formula (I1 I2 I3 I4 f : ℝ) (ts : ℤ) :
    intrp I1 I2 I3 I4 f ts =
      (if GetHours ts = 11 then
        (I1 + (I2 - I1) * f) +
          ((I3 + (I4 - I3) * f) - (I1 + (I2 - I1) * f)) * ((GetMinutes ts : ℤ) : ℝ) / 59
      else
        (I1 + (I2 - I1) * f) +
          ((I3 + (I4 - I3) * f) - (I1 + (I2 - I1) * f)) * ((GetMinutes ts : ℤ) : ℝ) / 60) ∧
    (GetHours ts = 11 → GetMinutes ts = 59 → intrp I1 I2 I3 I4 f ts = I3 + (I4 - I3) * f) := by
  constructor
  · unfold intrp
    simp only []
    split_ifs <;> ring
  · intro hh hm
    unfold intrp
    simp only []
    rw [if_pos hh, hm]
    push_cast
    ring

/-- Witness for C25 at 11:59 (`ts = 43140`). -/
theorem intrp_formula_witness :
    intrp 70 71 72 74 0.5 43140 = 72 + (74 - 72) * 0.5 :=
  (intrp_formula 70 71 72 74 0.5 43140).2 (by decide) (by decide)

/-- C28: hemispheric symmetry of the drought code. For a latitude `lat` of at
least 10 degrees (in radians), `calc_dc` at the latitude `-lat` and month `m`
is `calc_dc` at the latitude `lat` and the month six months later,
`(m + 6) mod 12`: the southern day-length table is the northern one shifted by
six months. -/
theorem calc_dc_hemispheric (in_dc rain temperature lat lon : ℝ) (m : Fin 12)
    (hlat : DEGREE_TO_RADIAN 10 ≤ lat) :
    calc_dc in_dc rain temperature (-lat) lon m = calc_dc in_dc rain temperature lat lon (m + 6) := by
  have hpos : 0 < DEGREE_TO_RADIAN 10 := by
    unfold DEGREE_TO_RADIAN
    have := Real.pi_pos
    positivity
  have hneg : DEGREE_TO_RADIAN (-10) = -DEGREE_TO_RADIAN 10 := by
    unfold DEGREE_TO_RADIAN
    ring
  have hfl : FL_NZ m = FL (m + 6) := by
    fin_cases m <;> rfl
  unfold calc_dc
  simp only []
  rw [if_neg (show ¬ (-lat ≥ DEGREE_TO_RADIAN 10) by
      intro h
      linarith),
    if_pos (show -lat ≤ DEGREE_TO_RADIAN (-10) by
      rw [hneg]
      linarith),
    if_pos (show lat ≥ DEGREE_TO_RADIAN 10 from hlat), hfl]

/-- Witness for C28 at the latitude `0.5` radians and the month index `9`. -/
theorem calc_dc_hemispheric_witness :
    calc_dc 300 5 20 (-0.5) 0 9 = calc_dc 300 5 20 0.5 0 (9 + 6) :=
  calc_dc_hemispheric 300 5 20 0.5 0 9 (by
    unfold DEGREE_TO_RADIAN
    have := Real.pi_le_four
    linarith)

/-- C29: the wind multiplier of the FBP spread index is capped. The multiplier
`fW` is `exp(0.05039 * ws)` for `ws ≤ 40` and
`12 * (1 - exp(-0.0818 * (ws - 28)))` above, it stays below `12` for every wind
speed, so `calc_isi_fbp1 ws sf ≤ 0.208 * 12 * sf` for every `sf ≥ 0`; for
`ws ≤ 40` the FBP index is the plain one, `calc_isi1 ws sf`. -/
theorem fbp_wind_multiplier_capped (ws sf : ℝ) (hsf : 0 ≤ sf) :
    calc_isi_fbp1 ws sf ≤ 0.208 * 12 * sf ∧
    calc_isi_fbp1 ws sf =
      0.208 * (if ws ≤ 40 then Real.exp (0.05039 * ws)
        else 12 * (1 - Real.exp (-0.0818 * (ws - 28)))) * sf ∧
    (if ws ≤ 40 then Real.exp (0.05039 * ws)
        else 12 * (1 - Real.exp (-0.0818 * (ws - 28)))) < 12 ∧
    (ws ≤ 40 → calc_isi_fbp1 ws sf = calc_isi1 ws sf) := by
  -- Helper: the wind multiplier of the FBP spread index is below `12`.
  have fW_lt_12 (ws : ℝ) : fW ws < 12 := by
    unfold fW
    by_cases h : ws ≤ 40
    · rw [if_pos h]
      have h1 : Real.exp (0.05039 * ws) ≤ Real.exp (2 + 0.02) :=
        Real.exp_le_exp.mpr (by linarith)
      have h2 : Real.exp (2 + 0.02) = Real.exp 1 * Real.exp 1 * Real.exp 0.02 := by
        rw [← Real.exp_add, ← Real.exp_add]
        norm_num
      have h3 := Real.exp_one_lt_d9
      have h4 : Real.exp 0.02 ≤ 1.03 := by
        have hm := Real.add_one_le_exp (-0.02 : ℝ)
        have hp := Real.exp_pos (0.02 : ℝ)
        have hinv : Real.exp (-0.02 : ℝ) * Real.exp 0.02 = 1 := by
          rw [← Real.exp_add]
          norm_num
        nlinarith
      have hp1 := Real.exp_pos 1
      have hp2 := Real.exp_pos (0.02 : ℝ)
      have h5 : Real.exp 1 * Real.exp 1 ≤ 2.72 * 2.72 :=
        mul_le_mul (by linarith) (by linarith) hp1.le (by norm_num)
      have h6 : Real.exp 1 * Real.exp 1 * Real.exp 0.02 ≤ 2.72 * 2.72 * 1.03 :=
        mul_le_mul h5 h4 hp2.le (by norm_num)
      rw [h2] at h1
      have : (2.72 : ℝ) * 2.72 * 1.03 < 12 := by norm_num
      linarith
    · rw [if_neg h]
      have := Real.exp_pos (-0.0818 * (ws - 28))
      linarith
  have h12 := fW_lt_12 ws
  refine ⟨?_, rfl, h12, ?_⟩
  · unfold calc_isi_fbp1
    have := mul_le_mul_of_nonneg_right h12.le hsf
    nlinarith
  · intro h
    unfold calc_isi_fbp1 calc_isi1 fW
    rw [if_pos h]
    ring

/-- Witness for C29 at a wind of 50 and `sf = 3`. -/
theorem fbp_wind_multiplier_capped_witness :
    calc_isi_fbp1 50 3 ≤ 0.208 * 12 * 3 :=
  (fbp_wind_multiplier_capped 50 3 (by norm_num)).1

/-! ### Divergence policy of the inversion and index safety of the Lawson lookup -/

/-- C23: divergence policy of the inversion. For `current_ffmc` in `[0, 101]`
and a rain in `[0, 300]`: whatever the number of iterations allowed, a value
returned by `calc_previous_hourly_ffmc_vanwagner` lies in `[0, 101]`; a forward
evaluation falls outside `[0, 101]` exactly when the guess it starts from is
outside `[0, 101]`; and a loop iteration whose forward evaluation falls outside
`[0, 101]` returns `current_ffmc` itself. -/
theorem inversion_divergence_policy (current_ffmc rain temperature rh ws : ℝ)
    (hc0 : 0 ≤ current_ffmc) (hc1 : current_ffmc ≤ 101) (hr0 : 0 ≤ rain) (hr1 : rain ≤ 300) :
    (∀ (n : ℕ) (v : ℝ),
      calc_previous_hourly_ffmc_vanwagner n current_ffmc rain temperature rh ws = some v →
        0 ≤ v ∧ v ≤ 101) ∧
    (∀ guess : ℝ,
      (calc_subdaily_ffmc_vanwagner (WTimeSpan.mk4 0 1 0 0) guess rain temperature rh ws < 0 ∨
        calc_subdaily_ffmc_vanwagner (WTimeSpan.mk4 0 1 0 0) guess rain temperature rh ws > 101) ↔
        (guess < 0 ∨ guess > 101)) ∧
    (∀ (n : ℕ) (in_ffmc out_ffmc diff_mc : ℝ), diff_mc > TOLERANCE →
      (calc_subdaily_ffmc_vanwagner (WTimeSpan.mk4 0 1 0 0)
          (if out_ffmc > current_ffmc then in_ffmc - diff_mc / 2 else in_ffmc + diff_mc / 2)
          rain temperature rh ws < 0 ∨
        calc_subdaily_ffmc_vanwagner (WTimeSpan.mk4 0 1 0 0)
          (if out_ffmc > current_ffmc then in_ffmc - diff_mc / 2 else in_ffmc + diff_mc / 2)
          rain temperature rh ws > 101) →
      previous_loop current_ffmc rain temperature rh ws (n + 1) in_ffmc out_ffmc diff_mc =
        some current_ffmc) := by
  -- Helper: the one-hour forward step is outside `[0, 101]` exactly when its
  -- starting code is, for a rain in `[0, 300]`.
  have subdaily_outside_iff (x rain temperature rh ws : ℝ) (hr0 : 0 ≤ rain)
      (hr1 : rain ≤ 300) :
      (calc_subdaily_ffmc_vanwagner (WTimeSpan.mk4 0 1 0 0) x rain temperature rh ws < 0 ∨
        calc_subdaily_ffmc_vanwagner (WTimeSpan.mk4 0 1 0 0) x rain temperature rh ws > 101) ↔
        (x < 0 ∨ x > 101) := by
    constructor
    · intro h
      by_contra hx
      have hin : ¬ (x < 0 ∨ x > 101 ∨ rain < 0 ∨ rain > 300) := by
        rintro (h1 | h1 | h1 | h1)
        · exact hx (Or.inl h1)
        · exact hx (Or.inr h1)
        · linarith
        · linarith
      obtain ⟨b0, b1⟩ := subdaily_in_range (WTimeSpan.mk4 0 1 0 0) x rain temperature rh ws hin
      rcases h with h | h <;> linarith
    · intro h
      have hbad : x < 0 ∨ x > 101 ∨ rain < 0 ∨ rain > 300 := by
        rcases h with h | h
        · exact Or.inl h
        · exact Or.inr (Or.inl h)
      rw [(subdaily_sentinel_iff (WTimeSpan.mk4 0 1 0 0) x rain temperature rh ws).2 hbad]
      left
      norm_num
  -- Helper: a solver loop whose target and guess are in `[0, 101]` returns a
  -- value of `[0, 101]`, whatever the forward value and the difference it is
  -- entered with.
  have previous_loop_range (cur rain temperature rh ws : ℝ) (hc0 : 0 ≤ cur)
      (hc1 : cur ≤ 101) (hr0 : 0 ≤ rain) (hr1 : rain ≤ 300) :
      ∀ (n : ℕ) (x out d : ℝ), 0 ≤ x → x ≤ 101 → ∀ v : ℝ,
        previous_loop cur rain temperature rh ws n x out d = some v → 0 ≤ v ∧ v ≤ 101 := by
    intro n
    induction n with
    | zero =>
      intro x out d hx0 hx1 v h
      rw [previous_loop] at h
      by_cases hd : d > TOLERANCE
      · rw [if_pos hd] at h
        cases h
      · rw [if_neg hd] at h
        rw [← Option.some.inj h]
        exact ⟨hx0, hx1⟩
    | succ n ih =>
      intro x out d hx0 hx1 v h
      rw [previous_loop] at h
      by_cases hd : d > TOLERANCE
      · rw [if_pos hd] at h
        simp only [] at h
        by_cases hb : calc_subdaily_ffmc_vanwagner (WTimeSpan.mk4 0 1 0 0)
              (if out > cur then x - d / 2 else x + d / 2) rain temperature rh ws < 0 ∨
            calc_subdaily_ffmc_vanwagner (WTimeSpan.mk4 0 1 0 0)
              (if out > cur then x - d / 2 else x + d / 2) rain temperature rh ws > 101
        · rw [if_pos hb] at h
          rw [← Option.some.inj h]
          exact ⟨hc0, hc1⟩
        · rw [if_neg hb] at h
          have hx' : 0 ≤ (if out > cur then x - d / 2 else x + d / 2) ∧
              (if out > cur then x - d / 2 else x + d / 2) ≤ 101 := by
            have := (subdaily_outside_iff (if out > cur then x - d / 2 else x + d / 2) rain
              temperature rh ws hr0 hr1).not.mp hb
            simp only [not_or, not_lt, gt_iff_lt] at this
            exact this
          by_cases hs : |calc_subdaily_ffmc_vanwagner (WTimeSpan.mk4 0 1 0 0)
              (if out > cur then x - d / 2 else x + d / 2) rain temperature rh ws - out| <
              TOLERANCE
          · rw [if_pos hs] at h
            rw [← Option.some.inj h]
            exact hx'
          · rw [if_neg hs] at h
            exact ih _ _ _ hx'.1 hx'.2 v h
      · rw [if_neg hd] at h
        rw [← Option.some.inj h]
        exact ⟨hx0, hx1⟩
  refine ⟨?_, ?_, ?_⟩
  · intro n v h
    have hbad : ¬ (current_ffmc < 0 ∨ current_ffmc > 101 ∨ rain < 0 ∨ rain > 300) := by
      rintro (h1 | h1 | h1 | h1) <;> linarith
    unfold calc_previous_hourly_ffmc_vanwagner at h
    rw [if_neg hbad] at h
    exact previous_loop_range current_ffmc rain _ _ _ hc0 hc1 hr0 hr1 n _ _ _ hc0 hc1 v h
  · intro guess
    exact subdaily_outside_iff guess rain temperature rh ws hr0 hr1
  · intro n in_ffmc out_ffmc diff_mc hd hb
    rw [previous_loop, if_pos hd]
    simp only []
    rw [if_pos hb]

/-- Witness for C23: at the target `85` with no rain, a loop iteration from the
guess `0.1` with the forward value `90` and the difference `1` moves the guess
to `-0.4`, the forward evaluation is the sentinel, and `85` is returned. -/
theorem inversion_divergence_policy_witness :
    previous_loop 85 0 20 0.45 10 (0 + 1) 0.1 90 1 = some 85 :=
  (inversion_divergence_policy 85 0 20 0.45 10 (by norm_num) (by norm_num) (by norm_num)
    (by norm_num)).2.2 0 0.1 90 1 (by unfold TOLERANCE; norm_num)
    (((inversion_divergence_policy 85 0 20 0.45 10 (by norm_num) (by norm_num) (by norm_num)
      (by norm_num)).2.1 _).2 (Or.inl (by norm_num)))

/-- C30 (the code at the failing input): index safety of the Lawson lookup
fails at the reference code `101` exactly. There the column scan
`while (ff_ffmc >= T[0][i]) i++` of `LOWRH`, `MEDRH`, `HIGHRH` and `MAINTBL`
runs past the last axis entry `T[0][38] = 101.0` and reads outside the row.
For every code in `[0, 101)`, floored at `17.5`, the scan of each of the four
tables stops at `i + 1` with `1 ≤ i` and `i + 1 ≤ 38` between two adjacent axis
entries that enclose the code (so the denominator of the column fraction is
positive); the morning row index satisfies `1 ≤ tindex` and `tindex + 1 ≤ 8`,
and the `MAIN` row index `1 ≤ tindex` and `tindex + 1 ≤ 21`. -/
theorem lawson_index_safety (ts : ℤ) (r : ℝ) :
    (colScan L 101 = none ∧ colScan M 101 = none ∧ colScan H 101 = none ∧
      colScan MAIN 101 = none) ∧
    (∀ (ff_ffmc : ℝ) (T : List (List ℚ)), 0 ≤ ff_ffmc → ff_ffmc < 101 →
      (T = L ∨ T = M ∨ T = H ∨ T = MAIN) →
      ∃ (i : ℕ) (a0 a1 : ℝ),
        colScan T (if ff_ffmc < 17.5 then 17.5 else ff_ffmc) = some (i + 1) ∧
        1 ≤ i ∧ i + 1 ≤ 38 ∧ tbl T 0 i = some a0 ∧ tbl T 0 (i + 1) = some a1 ∧
        a0 ≤ (if ff_ffmc < 17.5 then 17.5 else ff_ffmc) ∧
        (if ff_ffmc < 17.5 then 17.5 else ff_ffmc) < a1 ∧ 0 < a1 - a0) ∧
    (6 ≤ GetHours (normalizeTs ts) → GetHours (normalizeTs ts) ≤ 11 →
      ∃ tindex classidx : ℕ,
        rhClassLoop (GetHours (normalizeTs ts)) (GetMinutes (normalizeTs ts)) r 8 0 =
          some (tindex, classidx) ∧ 1 ≤ tindex ∧ tindex + 1 ≤ 8) ∧
    (∃ j : ℕ, scan (((if GetHours (normalizeTs ts) * 100 + GetMinutes (normalizeTs ts) < 100
          then GetHours (normalizeTs ts) * 100 + GetMinutes (normalizeTs ts) + 2400
          else GetHours (normalizeTs ts) * 100 + GetMinutes (normalizeTs ts) : ℤ) : ℤ) : ℝ)
        ((MAIN.map fun row => row.headD 0).drop 1) 1 = some j ∧
      1 ≤ j - 1 ∧ j - 1 + 1 ≤ 21) := by
  -- Helper: the row scan of `MAINTBL` stops at a row in `2..21` for every
  -- non-negative time.
  have rowScan_MAIN_stops (ts : ℤ) (hts : 0 ≤ ts) :
      ∃ j, scan (((if GetHours ts * 100 + GetMinutes ts < 100
            then GetHours ts * 100 + GetMinutes ts + 2400
            else GetHours ts * 100 + GetMinutes ts : ℤ) : ℤ) : ℝ)
          ((MAIN.map fun row => row.headD 0).drop 1) 1 = some j ∧ 2 ≤ j ∧ j ≤ 21 := by
    obtain ⟨hh0, hh23⟩ := GetHours_range ts hts
    obtain ⟨hm0, hm59⟩ := GetMinutes_range ts hts
    have hlo : 100 ≤ (if GetHours ts * 100 + GetMinutes ts < 100
        then GetHours ts * 100 + GetMinutes ts + 2400
        else GetHours ts * 100 + GetMinutes ts : ℤ) := by
      split_ifs <;> omega
    have hhi : (if GetHours ts * 100 + GetMinutes ts < 100
        then GetHours ts * 100 + GetMinutes ts + 2400
        else GetHours ts * 100 + GetMinutes ts : ℤ) < 2500 := by
      split_ifs <;> omega
    generalize (if GetHours ts * 100 + GetMinutes ts < 100
        then GetHours ts * 100 + GetMinutes ts + 2400
        else GetHours ts * 100 + GetMinutes ts : ℤ) = hv at hlo hhi
    have hmem : ∃ a ∈ mainHours.tail, ((hv : ℤ) : ℝ) < ((a : ℚ) : ℝ) := by
      refine ⟨2500, by simp [mainHours], ?_⟩
      have : ((hv : ℤ) : ℝ) < 2500 := by exact_mod_cast hhi
      simpa using this
    have hhead : (((100 : ℚ) : ℚ) : ℝ) ≤ ((hv : ℤ) : ℝ) := by
      have : (100 : ℝ) ≤ ((hv : ℤ) : ℝ) := by exact_mod_cast hlo
      simpa using this
    obtain ⟨j, hj, hj1, hj2⟩ := scan_skips_head ((hv : ℤ) : ℝ) 100 mainHours.tail 1 hhead hmem
    have hl : mainHours.tail.length = 20 := by decide
    exact ⟨j, by rw [MAIN_hours]; exact hj, by omega, by omega⟩
  -- Helper: in a table with the shared FFMC axis, the column scan of a code in
  -- `[17.5, 101)` stops at `i + 1` with `1 ≤ i` and `i + 1 ≤ 38`, between two
  -- adjacent axis entries that enclose the code.
  have colScan_safe (T : List (List ℚ)) (hax : (T.headD []).drop 1 = ffmcAxis) (ff : ℝ)
      (h1 : 17.5 ≤ ff) (h2 : ff < 101) :
      ∃ (i : ℕ) (a0 a1 : ℝ), colScan T ff = some (i + 1) ∧ 1 ≤ i ∧ i + 1 ≤ 38 ∧
        tbl T 0 i = some a0 ∧ tbl T 0 (i + 1) = some a1 ∧ a0 ≤ ff ∧ ff < a1 ∧ 0 < a1 - a0 := by
    obtain ⟨j, hj, hj1, hj2⟩ := colScan_stops T hax ff h1 h2
    obtain ⟨k, rfl⟩ : ∃ k, j = k + 2 := ⟨j - 2, by omega⟩
    have hscan : scan ff ffmcAxis 1 = some (k + 2) := by
      have := hj
      unfold colScan at this
      rw [hax] at this
      exact this
    obtain ⟨-, ⟨a, ha, hxa⟩, hb⟩ := scan_spec ff ffmcAxis 1 (k + 2) hscan
    obtain ⟨b, hb, hbx⟩ := hb (by omega)
    have ek1 : k + 2 - 1 = k + 1 := rfl
    have ek0 : k + 2 - 1 - 1 = k := rfl
    rw [ek1] at ha
    rw [ek0] at hb
    refine ⟨k + 1, ((b : ℚ) : ℝ), ((a : ℚ) : ℝ), hj, by omega, by omega, ?_, ?_, hbx, hxa,
      by linarith⟩
    · rw [tbl_axis T hax k, hb]
      rfl
    · rw [tbl_axis T hax (k + 1), ha]
      rfl
  have h101 : ∀ T : List (List ℚ), (T.headD []).drop 1 = ffmcAxis → colScan T 101 = none := by
    intro T hax
    unfold colScan
    rw [hax]
    exact scan_axis_101
  refine ⟨⟨h101 L table_axes.1, h101 M table_axes.2.1, h101 H table_axes.2.2.1,
    h101 MAIN table_axes.2.2.2⟩, ?_, ?_, ?_⟩
  · intro ff_ffmc T h0 h1 hT
    have hf : 17.5 ≤ (if ff_ffmc < 17.5 then (17.5 : ℝ) else ff_ffmc) ∧
        (if ff_ffmc < 17.5 then (17.5 : ℝ) else ff_ffmc) < 101 := by
      by_cases c : ff_ffmc < 17.5
      · rw [if_pos c]
        norm_num
      · rw [if_neg c]
        exact ⟨not_lt.mp c, h1⟩
    have hax : (T.headD []).drop 1 = ffmcAxis := by
      rcases hT with rfl | rfl | rfl | rfl
      · exact table_axes.1
      · exact table_axes.2.1
      · exact table_axes.2.2.1
      · exact table_axes.2.2.2
    exact colScan_safe T hax _ hf.1 hf.2
  · intro h6 h11
    obtain ⟨c, hc, -, -⟩ := rhClassLoop_morning (GetHours (normalizeTs ts))
      (GetMinutes (normalizeTs ts)) r h6 h11
    exact ⟨_, c, hc, by omega, by omega⟩
  · obtain ⟨j, hj, hj1, hj2⟩ := rowScan_MAIN_stops (normalizeTs ts) (normalizeTs_nonneg ts)
    exact ⟨j, hj, by omega, by omega⟩

/-- Witness for C30 at the reference code `85` in the table `MAIN`. -/
theorem lawson_index_safety_witness :
    ∃ (i : ℕ) (a0 a1 : ℝ),
      colScan MAIN (if (85 : ℝ) < 17.5 then 17.5 else 85) = some (i + 1) ∧
      1 ≤ i ∧ i + 1 ≤ 38 ∧ tbl MAIN 0 i = some a0 ∧ tbl MAIN 0 (i + 1) = some a1 ∧
      a0 ≤ (if (85 : ℝ) < 17.5 then 17.5 else 85) ∧
      (if (85 : ℝ) < 17.5 then 17.5 else 85) < a1 ∧ 0 < a1 - a0 :=
  (lawson_index_safety 43200 50).2.1 85 MAIN (by norm_num) (by norm_num)
    (Or.inr (Or.inr (Or.inr rfl)))

/-! ### Reference day and blend of the contiguous Lawson routine -/

/-- C24: outside the 06:00-11:59 window the relative humidity has no effect on
the Lawson value. For a time whose hour of day is in `0..5` or `12..23` the
result is the same for every two humidities, and for a reference code in
`[0, 101)` it is the `MAIN`-table interpolation of the code (floored at `17.5`)
clamped to `[0, 101]`. -/
theorem lawson_outside_window (ff_ffmc : ℝ) (ts : ℤ) (rh1 rh2 : ℝ)
    (hwin : GetHours (normalizeTs ts) ≤ 5 ∨ 12 ≤ GetHours (normalizeTs ts)) :
    calc_hourly_ffmc_lawson ff_ffmc ts rh1 = calc_hourly_ffmc_lawson ff_ffmc ts rh2 ∧
    (0 ≤ ff_ffmc → ff_ffmc < 101 →
      ∃ m, MAINTBL (normalizeTs ts) (if ff_ffmc < 17.5 then 17.5 else ff_ffmc) = some m ∧
        calc_hourly_ffmc_lawson ff_ffmc ts rh1 =
          some (if m < 0 then 0 else if m > 101 then 101 else m) ∧
        (if m < 0 then 0 else if m > 101 then 101 else m) = clamp m 0 101) := by
  have hmorn : ¬ (GetHours (normalizeTs ts) ≥ 6 ∧ GetHours (normalizeTs ts) ≤ 11) := by
    rintro ⟨h6, h11⟩
    rcases hwin with h | h <;> omega
  constructor
  · unfold calc_hourly_ffmc_lawson
    simp only []
    rw [if_neg hmorn, if_neg hmorn]
  · intro h0 h1
    have hbad : ¬ (ff_ffmc < 0 ∨ ff_ffmc > 101) := by
      rintro (h | h) <;> linarith
    have hf : 17.5 ≤ (if ff_ffmc < 17.5 then (17.5 : ℝ) else ff_ffmc) ∧
        (if ff_ffmc < 17.5 then (17.5 : ℝ) else ff_ffmc) < 101 := by
      by_cases c : ff_ffmc < 17.5
      · rw [if_pos c]
        norm_num
      · rw [if_neg c]
        exact ⟨not_lt.mp c, h1⟩
    obtain ⟨m, hm⟩ := MAINTBL_isSome (normalizeTs ts) (normalizeTs_nonneg ts) _ hf.1 hf.2
    refine ⟨m, hm, ?_, ?_⟩
    · unfold calc_hourly_ffmc_lawson
      simp only []
      rw [if_neg hbad, if_neg hmorn, hm]
      rfl
    · unfold clamp
      by_cases c1 : m < 0
      · rw [if_pos c1, min_eq_left (by linarith), max_eq_left c1.le]
      · rw [if_neg c1]
        by_cases c2 : m > 101
        · rw [if_pos c2, min_eq_right c2.le, max_eq_right (by norm_num)]
        · rw [if_neg c2, min_eq_left (not_lt.mp c2), max_eq_right (not_lt.mp c1)]

/-- Witness for C24 at noon (`ts = 43200`) and the reference code `85`. -/
theorem lawson_outside_window_witness :
    calc_hourly_ffmc_lawson 85 43200 20 = calc_hourly_ffmc_lawson 85 43200 95 :=
  (lawson_outside_window 85 43200 20 95 (Or.inr (by
    have hn : normalizeTs 43200 = 43200 := by
      rw [normalizeTs]
      simp
    rw [hn]
    decide))).1

/-- C26: reference-day selection of the contiguous Lawson model. For reference
codes in `[0, 101]` and an accepted time (`-12 h ≤ ts < 35 h`): at `ts ≤ 05:00`
the result is `calc_hourly_ffmc_lawson ff_ffmc_prev ts rh_t`, whatever the
current-day code; at `ts ≥ 12:00` it is
`calc_hourly_ffmc_lawson ff_ffmc_curr ts rh_t`, whatever the previous-day code;
in both cases it does not depend on `rh_0`, `rh_1` or the flag. -/
theorem lawson_contiguous_reference_day (ff_ffmc_prev ff_ffmc_curr : ℝ) (ts : ℤ)
    (rh_0 rh_t rh_1 : ℝ) (contiguous : Bool)
    (hp0 : 0 ≤ ff_ffmc_prev) (hp1 : ff_ffmc_prev ≤ 101)
    (hc0 : 0 ≤ ff_ffmc_curr) (hc1 : ff_ffmc_curr ≤ 101)
    (hlo : WTimeSpan.mk4 0 (-12) 0 0 ≤ ts) (hhi : ts < WTimeSpan.mk4 1 11 0 0) :
    (ts ≤ WTimeSpan.mk4 0 5 0 0 →
      calc_hourly_ffmc_lawson_contiguous ff_ffmc_prev ff_ffmc_curr ts rh_0 rh_t rh_1
          contiguous = calc_hourly_ffmc_lawson ff_ffmc_prev ts rh_t ∧
        ∀ (curr2 rh_02 rh_12 : ℝ) (contiguous2 : Bool), 0 ≤ curr2 → curr2 ≤ 101 →
          calc_hourly_ffmc_lawson_contiguous ff_ffmc_prev curr2 ts rh_02 rh_t rh_12
              contiguous2 =
            calc_hourly_ffmc_lawson_contiguous ff_ffmc_prev ff_ffmc_curr ts rh_0 rh_t rh_1
              contiguous) ∧
    (ts ≥ WTimeSpan.mk4 0 12 0 0 →
      calc_hourly_ffmc_lawson_contiguous ff_ffmc_prev ff_ffmc_curr ts rh_0 rh_t rh_1
          contiguous = calc_hourly_ffmc_lawson ff_ffmc_curr ts rh_t ∧
        ∀ (prev2 rh_02 rh_12 : ℝ) (contiguous2 : Bool), 0 ≤ prev2 → prev2 ≤ 101 →
          calc_hourly_ffmc_lawson_contiguous prev2 ff_ffmc_curr ts rh_02 rh_t rh_12
              contiguous2 =
            calc_hourly_ffmc_lawson_contiguous ff_ffmc_prev ff_ffmc_curr ts rh_0 rh_t rh_1
              contiguous) := by
  have key : ∀ (p c r0 r1 : ℝ) (b : Bool), 0 ≤ p → p ≤ 101 → 0 ≤ c → c ≤ 101 →
      (ts ≤ WTimeSpan.mk4 0 5 0 0 →
        calc_hourly_ffmc_lawson_contiguous p c ts r0 rh_t r1 b =
          calc_hourly_ffmc_lawson p ts rh_t) ∧
      (ts ≥ WTimeSpan.mk4 0 12 0 0 →
        calc_hourly_ffmc_lawson_contiguous p c ts r0 rh_t r1 b =
          calc_hourly_ffmc_lawson c ts rh_t) := by
    intro p c r0 r1 b p0 p1 c0 c1
    have hbad : ¬ (p < 0 ∨ p > 101 ∨ c < 0 ∨ c > 101 ∨
        ts < WTimeSpan.mk4 0 (-12) 0 0 ∨ ts ≥ WTimeSpan.mk4 1 11 0 0) := by
      rintro (h | h | h | h | h | h)
      · linarith
      · linarith
      · linarith
      · linarith
      · exact absurd hlo (not_le.mpr h)
      · exact absurd hhi (not_lt.mpr h)
    constructor
    · intro h5
      have h12 : ¬ ts ≥ WTimeSpan.mk4 0 12 0 0 := by
        intro h
        have h5' : ts ≤ 18000 := by
          simpa [WTimeSpan.mk4] using h5
        have h12' : (43200 : ℤ) ≤ ts := by
          simpa [WTimeSpan.mk4] using h
        omega
      unfold calc_hourly_ffmc_lawson_contiguous
      rw [if_neg hbad, if_neg h12, if_pos (Or.inl h5)]
    · intro h12
      unfold calc_hourly_ffmc_lawson_contiguous
      rw [if_neg hbad, if_pos h12]
  obtain ⟨k1, k2⟩ := key ff_ffmc_prev ff_ffmc_curr rh_0 rh_1 contiguous hp0 hp1 hc0 hc1
  constructor
  · intro h5
    refine ⟨k1 h5, ?_⟩
    intro curr2 rh_02 rh_12 contiguous2 h0 h1
    rw [k1 h5, (key ff_ffmc_prev curr2 rh_02 rh_12 contiguous2 hp0 hp1 h0 h1).1 h5]
  · intro h12
    refine ⟨k2 h12, ?_⟩
    intro prev2 rh_02 rh_12 contiguous2 h0 h1
    rw [k2 h12, (key prev2 ff_ffmc_curr rh_02 rh_12 contiguous2 h0 h1 hc0 hc1).2 h12]

/-- Witness for C26 at 03:00 (`ts = 10800`) with the reference codes `85` and
`80`. -/
theorem lawson_contiguous_reference_day_witness :
    calc_hourly_ffmc_lawson_contiguous 85 80 10800 40 50 60 true =
      calc_hourly_ffmc_lawson 85 10800 50 :=
  ((lawson_contiguous_reference_day 85 80 10800 40 50 60 true (by norm_num) (by norm_num)
    (by norm_num) (by norm_num) (by decide) (by decide)).1 (by decide)).1

/-- C27: the contiguous blend. For `contiguous = true`, reference codes in
`[0, 101]` and a time strictly between 05:00 and 12:00 that is not a whole
hour, with `h0 = 3600 * (ts / 3600)` the whole hour below `ts`,
`h1 = h0 + 3600` and `s = ts % 3600`, the result is
`((3600 - s) * A + s * B) / 3600` where `A` is the Lawson value of the
previous-day code at `h0` under `rh_0` and `B` the Lawson value at `h1` under
`rh_1` of the current-day code when `h1` is 12:00 and of the previous-day code
otherwise; the result lies between `min A B` and `max A B`. -/
theorem lawson_contiguous_blend (ff_ffmc_prev ff_ffmc_curr : ℝ) (ts : ℤ)
    (rh_0 rh_t rh_1 A B : ℝ)
    (hp0 : 0 ≤ ff_ffmc_prev) (hp1 : ff_ffmc_prev ≤ 101)
    (hc0 : 0 ≤ ff_ffmc_curr) (hc1 : ff_ffmc_curr ≤ 101)
    (h5 : 18000 < ts) (h12 : ts < 43200) (hfrac : ¬ (3600 : ℤ) ∣ ts)
    (hA : calc_hourly_ffmc_lawson ff_ffmc_prev (3600 * (ts / 3600)) rh_0 = some A)
    (hB : calc_hourly_ffmc_lawson
      (if 3600 * (ts / 3600) + 3600 = 43200 then ff_ffmc_curr else ff_ffmc_prev)
      (3600 * (ts / 3600) + 3600) rh_1 = some B) :
    calc_hourly_ffmc_lawson_contiguous ff_ffmc_prev ff_ffmc_curr ts rh_0 rh_t rh_1 true =
        some (((3600 - (((ts % 3600 : ℤ) : ℤ) : ℝ)) * A + (((ts % 3600 : ℤ) : ℤ) : ℝ) * B) /
          3600) ∧
      min A B ≤ ((3600 - (((ts % 3600 : ℤ) : ℤ) : ℝ)) * A + (((ts % 3600 : ℤ) : ℤ) : ℝ) * B) /
          3600 ∧
      ((3600 - (((ts % 3600 : ℤ) : ℤ) : ℝ)) * A + (((ts % 3600 : ℤ) : ℤ) : ℝ) * B) / 3600 ≤
        max A B := by
  have hr0 : 0 ≤ ts % 3600 := Int.emod_nonneg ts (by norm_num)
  have hr1 : ts % 3600 < 3600 := Int.emod_lt_of_pos ts (by norm_num)
  have hs0 : (0 : ℝ) ≤ (((ts % 3600 : ℤ) : ℤ) : ℝ) := by exact_mod_cast hr0
  have hs1 : (((ts % 3600 : ℤ) : ℤ) : ℝ) ≤ 3600 := by exact_mod_cast hr1.le
  have htm : Int.tmod ts 3600 = ts % 3600 := Int.tmod_eq_emod (by omega) (by norm_num)
  have hpurge : PurgeToHour ts = 3600 * (ts / 3600) := by
    unfold PurgeToHour
    rw [htm]
    have := Int.ediv_add_emod ts 3600
    show (ts - ts % 3600 : ℤ) = 3600 * (ts / 3600)
    omega
  have hne : ¬ (3600 * (ts / 3600) = ts) := by
    intro h
    exact hfrac ⟨ts / 3600, h.symm⟩
  have hbad : ¬ (ff_ffmc_prev < 0 ∨ ff_ffmc_prev > 101 ∨ ff_ffmc_curr < 0 ∨
      ff_ffmc_curr > 101 ∨ ts < WTimeSpan.mk4 0 (-12) 0 0 ∨ ts ≥ WTimeSpan.mk4 1 11 0 0) := by
    rintro (h | h | h | h | h | h)
    · linarith
    · linarith
    · linarith
    · linarith
    · have h' : ts < -43200 := by
        simpa [WTimeSpan.mk4] using h
      omega
    · have h' : (126000 : ℤ) ≤ ts := by
        simpa [WTimeSpan.mk4] using h
      omega
  have hn12 : ¬ ts ≥ WTimeSpan.mk4 0 12 0 0 := by
    intro h
    have h' : (43200 : ℤ) ≤ ts := by
      simpa [WTimeSpan.mk4] using h
    omega
  have hn5 : ¬ (ts ≤ WTimeSpan.mk4 0 5 0 0 ∨ true = false) := by
    rintro (h | h)
    · have h' : ts ≤ 18000 := by
        simpa [WTimeSpan.mk4] using h
      omega
    · cases h
  refine ⟨?_, ?_, ?_⟩
  · unfold calc_hourly_ffmc_lawson_contiguous
    rw [if_neg hbad, if_neg hn12, if_neg hn5]
    have htm2 : Int.tmod ts (60 * 60) = ts % 3600 := by
      rw [← htm]
      norm_num
    simp only [hpurge, GetTotalSeconds, htm2]
    rw [if_neg hne]
    have e1 : (3600 * (ts / 3600) + (60 * 60 : ℤ)) = 3600 * (ts / 3600) + 3600 := by norm_num
    have e2 : ((12 * 60 * 60 : ℤ)) = 43200 := by norm_num
    rw [e1, e2, hA]
    simp only [Option.some_bind]
    by_cases c : 3600 * (ts / 3600) + 3600 = 43200
    · rw [if_pos c] at hB ⊢
      rw [hB]
      simp only [Option.some_bind]
      congr 1
      ring
    · rw [if_neg c] at hB ⊢
      rw [hB]
      simp only [Option.some_bind]
      congr 1
      ring
  · rw [le_div_iff₀ (by norm_num)]
    have ha := min_le_left A B
    have hb := min_le_right A B
    have h1 := mul_le_mul_of_nonneg_left ha (sub_nonneg.mpr hs1)
    have h2 := mul_le_mul_of_nonneg_left hb hs0
    nlinarith
  · rw [div_le_iff₀ (by norm_num)]
    have ha := le_max_left A B
    have hb := le_max_right A B
    have h1 := mul_le_mul_of_nonneg_left ha (sub_nonneg.mpr hs1)
    have h2 := mul_le_mul_of_nonneg_left hb hs0
    nlinarith

/-- Witness for C27 at 06:30 (`ts = 23400`) with the reference codes `85` and
`80` and 50 % humidity throughout. -/
theorem lawson_contiguous_blend_witness :
    ∃ A B : ℝ,
      calc_hourly_ffmc_lawson 85 (3600 * (23400 / 3600)) 50 = some A ∧
      calc_hourly_ffmc_lawson (if 3600 * ((23400 : ℤ) / 3600) + 3600 = 43200 then 80 else 85)
        (3600 * (23400 / 3600) + 3600) 50 = some B ∧
      calc_hourly_ffmc_lawson_contiguous 85 80 23400 50 50 50 true =
        some (((3600 - ((((23400 : ℤ) % 3600 : ℤ) : ℤ) : ℝ)) * A +
          ((((23400 : ℤ) % 3600 : ℤ) : ℤ) : ℝ) * B) / 3600) := by
  obtain ⟨A, hA⟩ := calc_hourly_ffmc_lawson_isSome 85 (3600 * (23400 / 3600)) 50 (by norm_num)
  obtain ⟨B, hB⟩ := calc_hourly_ffmc_lawson_isSome
    (if 3600 * ((23400 : ℤ) / 3600) + 3600 = 43200 then 80 else 85)
    (3600 * (23400 / 3600) + 3600) 50 (by norm_num)
  exact ⟨A, B, hA, hB, (lawson_contiguous_blend 85 80 23400 50 50 50 A B (by norm_num)
    (by norm_num) (by norm_num) (by norm_num) (by decide) (by decide) (by decide) hA hB).1⟩

/-! ### Humidity below one percent in the Lawson model -/

/-- C32: exact form of the zero-elapsed-time step. For `in_ffmc` in `[0, 101]`,
no rain and `ts = 0`, whatever the weather, `calc_subdaily_ffmc_vanwagner`
returns `min 101 (in_ffmc + 7.8 / (147.2 + mo))` with
`mo = 147.2 * (101 - in_ffmc) / (59.5 + in_ffmc)`; hence
`in_ffmc ≤ result < in_ffmc + 0.06`, and the result is above `in_ffmc`
whenever `in_ffmc < 101`. -/
theorem zero_step_exact_form (in_ffmc temperature rh ws : ℝ) (h0 : 0 ≤ in_ffmc)
    (h1 : in_ffmc ≤ 101) :
    calc_subdaily_ffmc_vanwagner 0 in_ffmc 0 temperature rh ws =
        min 101 (in_ffmc + 7.8 / (147.2 + 147.2 * (101 - in_ffmc) / (59.5 + in_ffmc))) ∧
      in_ffmc ≤ calc_subdaily_ffmc_vanwagner 0 in_ffmc 0 temperature rh ws ∧
      calc_subdaily_ffmc_vanwagner 0 in_ffmc 0 temperature rh ws < in_ffmc + 0.06 ∧
      (in_ffmc < 101 → in_ffmc < calc_subdaily_ffmc_vanwagner 0 in_ffmc 0 temperature rh ws) := by
  have hinv := (moistureOf_facts in_ffmc h0 h1).2.2
  unfold moistureOf at hinv
  have hgain : 7.8 / (147.2 + 147.2 * (101 - in_ffmc) / (59.5 + in_ffmc)) =
      (464.1 + 7.8 * in_ffmc) / 23625.6 := by
    rw [div_eq_mul_one_div, hinv]
    ring
  have hpos : 0 < (464.1 + 7.8 * in_ffmc) / 23625.6 := by positivity
  have hsmall : (464.1 + 7.8 * in_ffmc) / 23625.6 < 0.06 := by
    rw [div_lt_iff₀ (by norm_num)]
    linarith
  rw [subdaily_zero_eq in_ffmc temperature rh ws h0 h1, ffmcOf_moistureOf in_ffmc h0, hgain]
  refine ⟨rfl, le_min h1 (by linarith), ?_, ?_⟩
  · exact lt_of_le_of_lt (min_le_right _ _) (by linarith)
  · intro hlt
    exact lt_min hlt (by linarith)

/-- Witness for C32 at the code `85`. -/
theorem zero_step_exact_form_witness :
    85 < calc_subdaily_ffmc_vanwagner 0 85 0 20 0.45 10 ∧
      calc_subdaily_ffmc_vanwagner 0 85 0 20 0.45 10 < 85 + 0.06 :=
  ⟨(zero_step_exact_form 85 20 0.45 10 (by norm_num) (by norm_num)).2.2.2 (by norm_num),
    (zero_step_exact_form 85 20 0.45 10 (by norm_num) (by norm_num)).2.2.1⟩

/-- C36: `calc_bui` agrees with the two-case definition of the buildup index.
For `dc > 0` and `dmc > 0` the test `bui < dmc` of the code on the first value
`0.8 * dc * dmc / (dmc + 0.4 * dc)` is equivalent to `dmc > 0.4 * dc`; for
`dmc ≤ 0.4 * dc` the result is the first value, and otherwise it is
`max 0 (dmc - (1 - 0.8 * dc / (dmc + 0.4 * dc)) * (0.92 + (0.0114 * dmc) ^ 1.7))`. -/
theorem calc_bui_two_case (dc dmc : ℝ) (hdc : 0 < dc) (hdmc : 0 < dmc) :
    ((0.8 * dc * dmc) / (dmc + 0.4 * dc) < dmc ↔ 0.4 * dc < dmc) ∧
    (dmc ≤ 0.4 * dc → calc_bui dc dmc = 0.8 * dc * dmc / (dmc + 0.4 * dc)) ∧
    (0.4 * dc < dmc → calc_bui dc dmc =
      max 0 (dmc - (1 - 0.8 * dc / (dmc + 0.4 * dc)) * (0.92 + (0.0114 * dmc) ^ (1.7 : ℝ)))) := by
  have hden : 0 < dmc + 0.4 * dc := by positivity
  have hiff : (0.8 * dc * dmc) / (dmc + 0.4 * dc) < dmc ↔ 0.4 * dc < dmc := by
    rw [div_lt_iff₀ hden]
    constructor
    · intro h
      by_contra hc
      push_neg at hc
      nlinarith
    · intro h
      nlinarith
  have hz : ¬ (dmc = 0 ∨ dc = 0) := by
    rintro (h | h)
    · exact hdmc.ne' h
    · exact hdc.ne' h
  refine ⟨hiff, ?_, ?_⟩
  · intro h
    unfold calc_bui
    simp only []
    rw [if_neg hz, if_neg (fun hlt => absurd (hiff.mp hlt) (not_lt.mpr h))]
  · intro h
    have hp : (dmc - 0.8 * dc * dmc / (dmc + 0.4 * dc)) / dmc =
        1 - 0.8 * dc / (dmc + 0.4 * dc) := by
      field_simp
      ring
    unfold calc_bui
    simp only []
    rw [if_neg hz, if_pos (hiff.mpr h), hp]
    have hcomm : (0.92 + (0.0114 * dmc) ^ (1.7 : ℝ)) * (1 - 0.8 * dc / (dmc + 0.4 * dc)) =
        (1 - 0.8 * dc / (dmc + 0.4 * dc)) * (0.92 + (0.0114 * dmc) ^ (1.7 : ℝ)) := mul_comm _ _
    rw [hcomm]
    by_cases c : dmc - (1 - 0.8 * dc / (dmc + 0.4 * dc)) * (0.92 + (0.0114 * dmc) ^ (1.7 : ℝ)) < 0
    · rw [if_pos c, max_eq_left c.le]
    · rw [if_neg c, max_eq_right (not_lt.mp c)]

/-- Witness for C36 at `dc = 100`, `dmc = 20`, where `dmc ≤ 0.4 * dc`. -/
theorem calc_bui_two_case_witness :
    calc_bui 100 20 = 0.8 * 100 * 20 / (20 + 0.4 * 100) :=
  (calc_bui_two_case 100 20 (by norm_num) (by norm_num)).2.1 (by norm_num)

/-- C35 (counterexample): a cold January day without rain lowers the drought
code. At `in_dc = 10`, no rain, `-10` degrees, the latitude `0.5` radians and
the month index `0`, the increment is `(0.36 * 0 - 1.6) / 2 = -0.8` and
`calc_dc` returns `9.2`. -/
theorem calc_dc_no_rain_counterexample :
    calc_dc 10 0 (-10) 0.5 0 0 = 9.2 ∧ ¬ (calc_dc 10 0 (-10) 0.5 0 0 ≥ 10) := by
  have hlat : (0.5 : ℝ) ≥ DEGREE_TO_RADIAN 10 := by
    unfold DEGREE_TO_RADIAN
    have := Real.pi_le_four
    linarith
  have hv : calc_dc 10 0 (-10) 0.5 0 0 = 9.2 := by
    unfold calc_dc
    simp only []
    rw [if_neg (by norm_num), if_pos hlat]
    have hfl : FL 0 = -1.6 := rfl
    rw [hfl]
    norm_num
  rw [hv]
  exact ⟨rfl, by norm_num⟩

/-- C35 (amended): a day without effective rain lowers the drought code by at
most `0.8`, and not at all from `1.65` degrees upwards. For `in_dc ≥ 0` and a
rain in `[0, 2.8]`, `calc_dc` is `in_dc` plus the increment
`pe = (0.36 * (max temperature (-2.8) + 2.8) + fl[mm]) / 2`, floored at zero;
`pe ≥ -0.8` because every day-length entry is at least `-1.6`, and `pe ≥ 0`
when the temperature is at least `1.65`. -/
theorem calc_dc_no_rain (in_dc rain temperature latitude lon : ℝ) (mm : Fin 12)
    (h0 : 0 ≤ in_dc) (hr0 : 0 ≤ rain) (hr1 : rain ≤ 2.8) :
    in_dc - 0.8 ≤ calc_dc in_dc rain temperature latitude lon mm ∧
      (1.65 ≤ temperature → in_dc ≤ calc_dc in_dc rain temperature latitude lon mm) := by
  -- Helper: every entry of the three day-length tables of `calc_dc` is at
  -- least `-1.6`.
  have fl_lower (mm : Fin 12) : -1.6 ≤ FL mm ∧ -1.6 ≤ FL_NZ mm ∧ -1.6 ≤ FL_EQ mm := by
    have h : ∀ m : Fin 12, -1.6 ≤ FL m ∧ -1.6 ≤ FL_NZ m ∧ -1.6 ≤ FL_EQ m := by
      unfold FL FL_NZ FL_EQ
      simp only [Fin.forall_fin_succ, Matrix.cons_val_zero, Matrix.cons_val_succ]
      norm_num
    exact h mm
  have hbad : ¬ (in_dc < 0 ∨ rain < 0 ∨ rain > 600) := by
    rintro (h | h | h) <;> linarith
  obtain ⟨f1, f2, f3⟩ := fl_lower mm
  have hfl : -1.6 ≤ (if latitude ≥ DEGREE_TO_RADIAN 10 then FL
      else if latitude ≤ DEGREE_TO_RADIAN (-10) then FL_NZ else FL_EQ) mm := by
    split_ifs
    · exact f1
    · exact f2
    · exact f3
  have hT : -2.8 ≤ (if (if temperature < -50 then (-50 : ℝ) else if temperature > 60 then 60
        else temperature) < -2.8 then (-2.8 : ℝ)
      else (if temperature < -50 then (-50 : ℝ) else if temperature > 60 then 60
        else temperature)) := by
    split_ifs <;> linarith
  have hT2 : 1.65 ≤ temperature →
      1.65 ≤ (if (if temperature < -50 then (-50 : ℝ) else if temperature > 60 then 60
          else temperature) < -2.8 then (-2.8 : ℝ)
        else (if temperature < -50 then (-50 : ℝ) else if temperature > 60 then 60
          else temperature)) := by
    intro h
    split_ifs <;> linarith
  unfold calc_dc
  simp only []
  rw [if_neg hbad, if_pos hr1]
  generalize (if (if temperature < -50 then (-50 : ℝ) else if temperature > 60 then 60
        else temperature) < -2.8 then (-2.8 : ℝ)
      else (if temperature < -50 then (-50 : ℝ) else if temperature > 60 then 60
        else temperature)) = t at hT hT2 ⊢
  generalize (if latitude ≥ DEGREE_TO_RADIAN 10 then FL
      else if latitude ≤ DEGREE_TO_RADIAN (-10) then FL_NZ else FL_EQ) mm = f at hfl ⊢
  constructor
  · split_ifs <;> linarith
  · intro h
    have := hT2 h
    split_ifs <;> linarith

/-- Witness for C35 (amended) at `in_dc = 300`, 20 degrees and no rain. -/
theorem calc_dc_no_rain_witness : (300 : ℝ) ≤ calc_dc 300 0 20 0.9 0 6 :=
  (calc_dc_no_rain 300 0 20 0.9 0 6 (by norm_num) (by norm_num) (by norm_num)).2 (by norm_num)

/-! ### Monotonicity of the forward step in the starting code -/

/-- C33 (counterexample): after 300 mm of rain the one-hour forward step is not
monotone in the starting code. At 20 degrees, 45 % humidity and a wind of 10,
the code `5` gives a moisture below the cap `250` after the rain and the code
`20` gives the cap itself, so the step from `5` ends above the step from `20`. -/
theorem forward_monotone_counterexample :
    ¬ (calc_subdaily_ffmc_vanwagner (WTimeSpan.mk4 0 1 0 0) 5 300 20 0.45 10 ≤
      calc_subdaily_ffmc_vanwagner (WTimeSpan.mk4 0 1 0 0) 20 300 20 0.45 10) := by
  have e45 : (0.45 : ℝ) * 100 = 45 := by norm_num
  rw [subdaily_one_hour_eq 5 300 20 0.45 10 (by norm_num) (by norm_num) (by norm_num)
      (by norm_num) (by norm_num) (by norm_num) (by norm_num) (by norm_num) (by norm_num)
      (by norm_num),
    subdaily_one_hour_eq 20 300 20 0.45 10 (by norm_num) (by norm_num) (by norm_num)
      (by norm_num) (by norm_num) (by norm_num) (by norm_num) (by norm_num) (by norm_num)
      (by norm_num),
    afterRain_300_capped 20 (by norm_num) (by norm_num), e45]
  have hed := calc_ed_45_20_upper
  have hed0 := equilibria_45_20.1
  have hk := relax_factor_witness_lower
  have hk1 := (relax_factor_bounds 0.45 10 20 (by norm_num) (by norm_num)).2
  have hm5 : moistureOf 5 = 147.2 * 96 / 64.5 := by
    unfold moistureOf
    norm_num
  have hlo : (219 : ℝ) ≤ afterRain 300 (moistureOf 5) := by
    have := (afterRain_bounds 300 (moistureOf 5) (by norm_num) (by rw [hm5]; norm_num)).1
    rw [hm5] at this ⊢
    have h219 : (219 : ℝ) ≤ 147.2 * 96 / 64.5 := by norm_num
    linarith
  have hhi : afterRain 300 (moistureOf 5) ≤ 234 := by
    have h3 : Real.exp (-100 / (251 - moistureOf 5)) ≤ 1 / 20 := by
      have h31 : -100 / (251 - moistureOf 5) ≤ -3 := by
        rw [hm5, div_le_iff₀ (by norm_num)]
        norm_num
      have h32 : Real.exp (-3 : ℝ) ≤ 1 / 20 := by
        rw [Real.exp_neg, ← one_div]
        apply one_div_le_one_div_of_le (by norm_num)
        have e : Real.exp 3 = Real.exp 1 * Real.exp 1 * Real.exp 1 := by
          rw [← Real.exp_add, ← Real.exp_add]
          norm_num
        have g1 := Real.exp_one_gt_d9
        have g2 : (2.718 : ℝ) * 2.718 ≤ Real.exp 1 * Real.exp 1 :=
          mul_le_mul (by linarith) (by linarith) (by norm_num) (Real.exp_pos 1).le
        have g3 : (2.718 : ℝ) * 2.718 * 2.718 ≤ Real.exp 1 * Real.exp 1 * Real.exp 1 :=
          mul_le_mul g2 (by linarith) (by norm_num) (by positivity)
        rw [e]
        have : (20 : ℝ) ≤ 2.718 * 2.718 * 2.718 := by norm_num
        linarith
      exact le_trans (Real.exp_le_exp.mpr h31) h32
    have h4 : 1 - Real.exp (-6.93 / 300) ≤ 0.0231 := by
      have := Real.add_one_le_exp (-6.93 / 300 : ℝ)
      have e : (-6.93 / 300 : ℝ) + 1 = 1 - 0.0231 := by norm_num
      linarith
    have h5 : 0 ≤ 1 - Real.exp (-6.93 / 300) := by
      have : Real.exp (-6.93 / 300) ≤ 1 := Real.exp_le_one_iff.mpr (by norm_num)
      linarith
    have h6 := Real.exp_pos (-100 / (251 - moistureOf 5))
    have hg : (300 : ℝ) * 42.5 * Real.exp (-100 / (251 - moistureOf 5)) *
        (1 - Real.exp (-6.93 / 300)) ≤ 300 * 42.5 * (1 / 20) * 0.0231 := by
      have a1 : (300 : ℝ) * 42.5 * Real.exp (-100 / (251 - moistureOf 5)) ≤
          300 * 42.5 * (1 / 20) := mul_le_mul_of_nonneg_left h3 (by norm_num)
      exact mul_le_mul a1 h4 h5 (by norm_num)
    have hm5' : moistureOf 5 ≤ 219.1 := by
      rw [hm5]
      norm_num
    unfold afterRain
    simp only []
    have hn : (300 : ℝ) * 42.5 * (1 / 20) * 0.0231 ≤ 14.8 := by norm_num
    rw [if_pos (show (300 : ℝ) ≠ 0 by norm_num), if_neg (by linarith)]
    linarith
  generalize afterRain 300 (moistureOf 5) = m5 at hlo hhi
  generalize calc_ed 45 20 = ed at hed hed0
  generalize calc_ew 45 20 = ew
  generalize (10 : ℝ) ^ (-xkdOf 0.45 10 20 * 1) = kd at hk hk1
  generalize (10 : ℝ) ^ (-xkdOf (1 - 0.45) 10 20 * 1) = kw
  rw [xmOf_dry m5 ed ew kd kw (by linarith), xmOf_dry 250 ed ew kd kw (by linarith), not_le]
  have hx5lo : 11.3 ≤ ed + (m5 - ed) * kd := by nlinarith
  have hlt : ed + (m5 - ed) * kd < ed + (250 - ed) * kd := by nlinarith
  have hx20 : ed + (250 - ed) * kd ≤ 250 := by nlinarith
  generalize ed + (m5 - ed) * kd = a at hx5lo hlt
  generalize ed + (250 - ed) * kd = b at hlt hx20
  have hval : ∀ x : ℝ, 11.3 ≤ x → x ≤ 250 → ffmcOf x = 59.5 * (250 - x) / (147.2 + x) := by
    intro x h1 h2
    unfold ffmcOf
    simp only []
    have hp : (0 : ℝ) < 147.2 + x := by linarith
    rw [if_neg, if_neg]
    · rw [not_lt]
      exact div_nonneg (by linarith) hp.le
    · rw [gt_iff_lt, not_lt, div_le_iff₀ hp]
      linarith
  rw [hval a hx5lo (by linarith), hval b (by linarith) hx20,
    div_lt_div_iff₀ (by linarith) (by linarith)]
  nlinarith

set_option maxHeartbeats 1000000 in
/-- C33 (amended): the forward Van Wagner step is monotone in the starting code
for a rain of at most 4 mm. For `ts ≥ 0`, a rain in `[0, 4]`, every weather and
`f1 ≤ f2` in `[0, 101]`,
`calc_subdaily_ffmc_vanwagner ts f1 … ≤ calc_subdaily_ffmc_vanwagner ts f2 …`. -/
theorem forward_monotone_light_rain (ts : ℤ) (f1 f2 rain temperature rh ws : ℝ) (hts : 0 ≤ ts)
    (hr0 : 0 ≤ rain) (hr1 : rain ≤ 4) (h0 : 0 ≤ f1) (h12 : f1 ≤ f2) (h2 : f2 ≤ 101) :
    calc_subdaily_ffmc_vanwagner ts f1 rain temperature rh ws ≤
      calc_subdaily_ffmc_vanwagner ts f2 rain temperature rh ws := by
  -- Helper: the body of `calc_subdaily_ffmc_vanwagner` on accepted inputs, in
  -- terms of the rain step `afterRain`, the relaxation step `xmOf` and the final
  -- range check, for the clamped weather `cT`, `crh`, `cws`.
  have subdaily_decompose (ts : ℤ) (x rain temperature rh ws cT crh cws : ℝ)
      (hin : ¬ (x < 0 ∨ x > 101 ∨ rain < 0 ∨ rain > 300))
      (hT : cT = if temperature < -50 then -50 else if temperature > 60 then 60 else temperature)
      (hR : crh = if rh < 0 then 0 else if rh > 1 then 1 else rh)
      (hW : cws = if ws > 200 then 200 else if ws < 0 then 0 else ws) :
      calc_subdaily_ffmc_vanwagner ts x rain temperature rh ws =
        (if 59.5 * (250 - xmOf (afterRain rain (factor ts * (101 - x) / (59.5 + x)))
              (calc_ed (crh * 100) cT) (calc_ew (crh * 100) cT)
              ((10 : ℝ) ^ (-xkdOf crh cws cT * (((GetTotalSeconds ts : ℤ) : ℝ) / 60 / 60)))
              ((10 : ℝ) ^ (-xkdOf (1 - crh) cws cT * (((GetTotalSeconds ts : ℤ) : ℝ) / 60 / 60)))) /
            (factor ts + xmOf (afterRain rain (factor ts * (101 - x) / (59.5 + x)))
              (calc_ed (crh * 100) cT) (calc_ew (crh * 100) cT)
              ((10 : ℝ) ^ (-xkdOf crh cws cT * (((GetTotalSeconds ts : ℤ) : ℝ) / 60 / 60)))
              ((10 : ℝ) ^ (-xkdOf (1 - crh) cws cT * (((GetTotalSeconds ts : ℤ) : ℝ) / 60 / 60)))) >
            101 then 101
        else if 59.5 * (250 - xmOf (afterRain rain (factor ts * (101 - x) / (59.5 + x)))
              (calc_ed (crh * 100) cT) (calc_ew (crh * 100) cT)
              ((10 : ℝ) ^ (-xkdOf crh cws cT * (((GetTotalSeconds ts : ℤ) : ℝ) / 60 / 60)))
              ((10 : ℝ) ^ (-xkdOf (1 - crh) cws cT * (((GetTotalSeconds ts : ℤ) : ℝ) / 60 / 60)))) /
            (factor ts + xmOf (afterRain rain (factor ts * (101 - x) / (59.5 + x)))
              (calc_ed (crh * 100) cT) (calc_ew (crh * 100) cT)
              ((10 : ℝ) ^ (-xkdOf crh cws cT * (((GetTotalSeconds ts : ℤ) : ℝ) / 60 / 60)))
              ((10 : ℝ) ^ (-xkdOf (1 - crh) cws cT * (((GetTotalSeconds ts : ℤ) : ℝ) / 60 / 60)))) <
            0 then 0
        else 59.5 * (250 - xmOf (afterRain rain (factor ts * (101 - x) / (59.5 + x)))
              (calc_ed (crh * 100) cT) (calc_ew (crh * 100) cT)
              ((10 : ℝ) ^ (-xkdOf crh cws cT * (((GetTotalSeconds ts : ℤ) : ℝ) / 60 / 60)))
              ((10 : ℝ) ^ (-xkdOf (1 - crh) cws cT * (((GetTotalSeconds ts : ℤ) : ℝ) / 60 / 60)))) /
            (factor ts + xmOf (afterRain rain (factor ts * (101 - x) / (59.5 + x)))
              (calc_ed (crh * 100) cT) (calc_ew (crh * 100) cT)
              ((10 : ℝ) ^ (-xkdOf crh cws cT * (((GetTotalSeconds ts : ℤ) : ℝ) / 60 / 60)))
              ((10 : ℝ) ^ (-xkdOf (1 - crh) cws cT * (((GetTotalSeconds ts : ℤ) : ℝ) / 60 / 60))))) := by
    have hxm : ∀ (m ed ew a w T h : ℝ),
        (if m - ed = 0 ∨ (m - ew ≥ 0 ∧ m - ed < 0) then m
          else
            (if m - ed > 0 then ed else ew) +
              (if m - ed > 0 then m - ed else m - ew) *
                (10 : ℝ) ^ (-((0.424 * (1 - (if m - ed > 0 then a else 1 - a) ^ (1.7 : ℝ)) +
                  0.0694 * Real.sqrt w * (1 - (if m - ed > 0 then a else 1 - a) ^ (8 : ℝ))) *
                  0.0579 * Real.exp (0.0365 * T)) * h)) =
          xmOf m ed ew ((10 : ℝ) ^ (-xkdOf a w T * h)) ((10 : ℝ) ^ (-xkdOf (1 - a) w T * h)) := by
      intro m ed ew a w T h
      unfold xmOf xkdOf
      by_cases c1 : m - ed = 0 ∨ (m - ew ≥ 0 ∧ m - ed < 0)
      · rw [if_pos c1, if_pos c1]
      · rw [if_neg c1, if_neg c1]
        by_cases c2 : m - ed > 0
        · simp only [if_pos c2]
        · simp only [if_neg c2]
    subst hT hR hW
    unfold calc_subdaily_ffmc_vanwagner
    simp only []
    rw [if_neg hin, hxm]
    rfl
  -- Helper: for a coefficient `R` in `[0, 184]` the rain step
  -- `m + R * exp (-100 / (251 - m))` is monotone in the moisture `m` up to `250.5`.
  have rain_step_monotone (R : ℝ) (hR0 : 0 ≤ R) (hR1 : R ≤ 184) :
      MonotoneOn (fun m : ℝ => m + R * Real.exp (-100 / (251 - m))) (Set.Iic 250.5) := by
    have hder : ∀ x : ℝ, x < 251 →
        HasDerivAt (fun m : ℝ => m + R * Real.exp (-100 / (251 - m)))
          (1 + R * (Real.exp (-100 / (251 - x)) *
            ((0 * (251 - x) - (-100) * (0 - 1)) / (251 - x) ^ 2))) x := by
      intro x hx
      have h1 : HasDerivAt (fun m : ℝ => 251 - m) (0 - 1) x :=
        (hasDerivAt_const x (251 : ℝ)).sub (hasDerivAt_id x)
      have h2 : HasDerivAt (fun m : ℝ => -100 / (251 - m))
          ((0 * (251 - x) - (-100) * (0 - 1)) / (251 - x) ^ 2) x :=
        (hasDerivAt_const x (-100 : ℝ)).div h1 (by linarith)
      exact (hasDerivAt_id x).add (h2.exp.const_mul R)
    apply monotoneOn_of_deriv_nonneg (convex_Iic _)
    · intro x hx
      have hx' : x ≤ 250.5 := hx
      exact (hder x (by linarith)).continuousAt.continuousWithinAt
    · rw [interior_Iic]
      intro x hx
      have hx' : x < 250.5 := hx
      exact (hder x (by linarith)).differentiableAt.differentiableWithinAt
    · rw [interior_Iic]
      intro x hx
      have hx' : x < 250.5 := hx
      rw [(hder x (by linarith)).deriv]
      have hu : 0 < 251 - x := by linarith
      have hv : 0 < 100 / (251 - x) := by positivity
      have e1 : (0 * (251 - x) - (-100) * (0 - 1)) / (251 - x) ^ 2 =
          -((100 / (251 - x)) ^ 2 / 100) := by
        field_simp
        ring
      have e2 : -100 / (251 - x) = -(100 / (251 - x)) := by ring
      rw [e1, e2]
      generalize 100 / (251 - x) = v at hv
      have h1 := Real.add_one_le_exp (v / 2 - 1)
      have h2 : Real.exp (v / 2 - 1) * Real.exp 1 = Real.exp (v / 2) := by
        rw [← Real.exp_add]
        congr 1
        ring
      have h3 := Real.exp_one_gt_d9
      have ha : 1.359 * v ≤ Real.exp (v / 2) := by
        rw [← h2]
        have hp := Real.exp_pos (v / 2 - 1)
        nlinarith
      have h4 : Real.exp (v / 2) * Real.exp (v / 2) = Real.exp v := by
        rw [← Real.exp_add]
        congr 1
        ring
      have h5 : Real.exp (-v) * Real.exp v = 1 := by
        rw [← Real.exp_add]
        simp
      have hE := Real.exp_pos (-v)
      have hsq : 1.846 * v ^ 2 ≤ Real.exp v := by
        rw [← h4]
        nlinarith
      have hEv : Real.exp (-v) * v ^ 2 ≤ 0.5418 := by
        have := mul_le_mul_of_nonneg_left hsq hE.le
        nlinarith
      have hnn : 0 ≤ Real.exp (-v) * v ^ 2 := by positivity
      nlinarith
  -- Helper: for a rain of at most 4 mm the rain step `afterRain` is monotone in
  -- the moisture, up to `250.5`.
  have afterRain_monotone (rain m1 m2 : ℝ) (hr0 : 0 ≤ rain) (hr1 : rain ≤ 4) (h12 : m1 ≤ m2)
      (h2 : m2 ≤ 250.5) : afterRain rain m1 ≤ afterRain rain m2 := by
    have hcap : ∀ a b : ℝ, a ≤ b →
        (if a > 250 then (250 : ℝ) else a) ≤ (if b > 250 then (250 : ℝ) else b) := by
      intro a b hab
      split_ifs <;> linarith
    unfold afterRain
    simp only []
    by_cases h0 : rain ≠ 0
    · rw [if_pos h0, if_pos h0]
      apply hcap
      have hE0 : 0 < Real.exp (-6.93 / rain) := Real.exp_pos _
      have hE1 : Real.exp (-6.93 / rain) ≤ 1 :=
        Real.exp_le_one_iff.mpr (div_nonpos_of_nonpos_of_nonneg (by norm_num) hr0)
      have hR0 : 0 ≤ rain * 42.5 * (1 - Real.exp (-6.93 / rain)) :=
        mul_nonneg (mul_nonneg hr0 (by norm_num)) (by linarith)
      have hR1 : rain * 42.5 * (1 - Real.exp (-6.93 / rain)) ≤ 184 := by
        have : rain * 42.5 * (1 - Real.exp (-6.93 / rain)) ≤ rain * 42.5 * 1 :=
          mul_le_mul_of_nonneg_left (by linarith) (mul_nonneg hr0 (by norm_num))
        linarith
      have hm := rain_step_monotone _ hR0 hR1 (Set.mem_Iic.mpr (le_trans h12 h2))
        (Set.mem_Iic.mpr h2) h12
      simp only [] at hm
      linarith
    · rw [if_neg h0, if_neg h0]
      exact hcap _ _ h12
  -- Helper: the relaxation step `xmOf` is monotone in the moisture before the
  -- step, when the wetting equilibrium is not above the drying one and the two
  -- relaxation factors are non-negative.
  have xmOf_monotone (m1 m2 ed ew kd kw : ℝ) (hew : ew ≤ ed) (hkd : 0 ≤ kd) (hkw : 0 ≤ kw)
      (h12 : m1 ≤ m2) : xmOf m1 ed ew kd kw ≤ xmOf m2 ed ew kd kw := by
    have hw : ∀ m : ℝ, m ≤ ew → xmOf m ed ew kd kw ≤ ew := by
      intro m h
      rw [xmOf_wet m ed ew kd kw hew h]
      have := mul_nonneg (sub_nonneg.mpr h) hkw
      linarith
    have hd : ∀ m : ℝ, ed ≤ m → ed ≤ xmOf m ed ew kd kw := by
      intro m h
      rw [xmOf_dry m ed ew kd kw h]
      have := mul_nonneg (sub_nonneg.mpr h) hkd
      linarith
    by_cases a1 : m1 ≤ ew
    · by_cases a2 : m2 ≤ ew
      · rw [xmOf_wet m1 ed ew kd kw hew a1, xmOf_wet m2 ed ew kd kw hew a2]
        have := mul_le_mul_of_nonneg_right (sub_le_sub_right h12 ew) hkw
        linarith
      · push_neg at a2
        by_cases b2 : m2 ≤ ed
        · rw [xmOf_id m2 ed ew kd kw a2.le b2]
          exact le_trans (hw m1 a1) a2.le
        · push_neg at b2
          exact le_trans (hw m1 a1) (le_trans hew (hd m2 b2.le))
    · push_neg at a1
      have a2 : ew ≤ m2 := by linarith
      by_cases b1 : m1 ≤ ed
      · rw [xmOf_id m1 ed ew kd kw a1.le b1]
        by_cases b2 : m2 ≤ ed
        · rw [xmOf_id m2 ed ew kd kw a2 b2]
          exact h12
        · push_neg at b2
          exact le_trans b1 (hd m2 b2.le)
      · push_neg at b1
        have b2 : ed ≤ m2 := by linarith
        rw [xmOf_dry m1 ed ew kd kw b1.le, xmOf_dry m2 ed ew kd kw b2]
        have := mul_le_mul_of_nonneg_right (sub_le_sub_right h12 ed) hkd
        linarith
  -- Helper: the code `59.5 * (250 - xm) / (c + xm)` with its range check is
  -- antitone in the moisture `xm` above `-c`.
  have code_of_moisture_antitone (c x1 x2 : ℝ) (hc : 0 < c) (h1 : -c < x1) (h12 : x1 ≤ x2) :
      (if 59.5 * (250 - x2) / (c + x2) > 101 then (101 : ℝ)
        else if 59.5 * (250 - x2) / (c + x2) < 0 then 0 else 59.5 * (250 - x2) / (c + x2)) ≤
      (if 59.5 * (250 - x1) / (c + x1) > 101 then (101 : ℝ)
        else if 59.5 * (250 - x1) / (c + x1) < 0 then 0 else 59.5 * (250 - x1) / (c + x1)) := by
    have p1 : 0 < c + x1 := by linarith
    have p2 : 0 < c + x2 := by linarith
    have h : 59.5 * (250 - x2) / (c + x2) ≤ 59.5 * (250 - x1) / (c + x1) := by
      rw [div_le_div_iff₀ p2 p1]
      nlinarith
    generalize 59.5 * (250 - x2) / (c + x2) = a at h
    generalize 59.5 * (250 - x1) / (c + x1) = b at h
    split_ifs <;> linarith
  have hin1 : ¬ (f1 < 0 ∨ f1 > 101 ∨ rain < 0 ∨ rain > 300) := by
    rintro (h | h | h | h) <;> linarith
  have hin2 : ¬ (f2 < 0 ∨ f2 > 101 ∨ rain < 0 ∨ rain > 300) := by
    rintro (h | h | h | h) <;> linarith
  rw [subdaily_decompose ts f1 rain temperature rh ws _ _ _ hin1 rfl rfl rfl,
    subdaily_decompose ts f2 rain temperature rh ws _ _ _ hin2 rfl rfl rfl]
  have hT : (if temperature < -50 then (-50 : ℝ) else if temperature > 60 then 60
      else temperature) ≤ 60 := by
    split_ifs <;> linarith
  have hR : 0 ≤ (if rh < 0 then (0 : ℝ) else if rh > 1 then 1 else rh) ∧
      (if rh < 0 then (0 : ℝ) else if rh > 1 then 1 else rh) ≤ 1 := by
    split_ifs <;> constructor <;> linarith
  generalize (if temperature < -50 then (-50 : ℝ) else if temperature > 60 then 60
      else temperature) = cT at hT
  generalize (if rh < 0 then (0 : ℝ) else if rh > 1 then 1 else rh) = crh at hR
  generalize (if ws > 200 then (200 : ℝ) else if ws < 0 then 0 else ws) = cws
  have hc : 147.2 ≤ factor ts ∧ factor ts ≤ 147.28 := by
    rw [factor_eq]
    split_ifs <;> constructor <;> norm_num
  have hhf : (0 : ℝ) ≤ ((GetTotalSeconds ts : ℤ) : ℝ) / 60 / 60 := by
    have : (0 : ℝ) ≤ ((GetTotalSeconds ts : ℤ) : ℝ) := by
      unfold GetTotalSeconds
      exact_mod_cast hts
    positivity
  generalize factor ts = c at hc
  generalize ((GetTotalSeconds ts : ℤ) : ℝ) / 60 / 60 = hf at hhf
  have hew := calc_ew_le_calc_ed (crh * 100) cT (by linarith) (by linarith)
  have hedl := calc_ed_lower (crh * 100) cT (by linarith) hT
  have hkd : 0 ≤ (10 : ℝ) ^ (-xkdOf crh cws cT * hf) := Real.rpow_nonneg (by norm_num) _
  have hkw : 0 ≤ (10 : ℝ) ^ (-xkdOf (1 - crh) cws cT * hf) := Real.rpow_nonneg (by norm_num) _
  have hkw1 : (10 : ℝ) ^ (-xkdOf (1 - crh) cws cT * hf) ≤ 1 := by
    apply Real.rpow_le_one_of_one_le_of_nonpos (by norm_num)
    have := xkdOf_nonneg (1 - crh) cws cT (by linarith) (by linarith)
    have := mul_nonneg this hhf
    linarith
  generalize calc_ed (crh * 100) cT = ed at hew hedl
  generalize calc_ew (crh * 100) cT = ew at hew
  generalize (10 : ℝ) ^ (-xkdOf crh cws cT * hf) = kd at hkd
  generalize (10 : ℝ) ^ (-xkdOf (1 - crh) cws cT * hf) = kw at hkw hkw1
  have hm0 : 0 ≤ c * (101 - f2) / (59.5 + f2) :=
    div_nonneg (mul_nonneg (by linarith) (by linarith)) (by linarith)
  have hm12 : c * (101 - f2) / (59.5 + f2) ≤ c * (101 - f1) / (59.5 + f1) := by
    rw [div_le_div_iff₀ (by linarith) (by linarith)]
    nlinarith
  have hm1 : c * (101 - f1) / (59.5 + f1) ≤ 250.5 := by
    rw [div_le_iff₀ (by linarith)]
    nlinarith
  have hA := afterRain_monotone rain _ _ hr0 hr1 hm12 hm1
  have hA0 : 0 ≤ afterRain rain (c * (101 - f2) / (59.5 + f2)) := by
    have hg := rain_gain_nonneg rain (c * (101 - f2) / (59.5 + f2)) hr0
    unfold afterRain
    simp only []
    split_ifs <;> linarith
  generalize afterRain rain (c * (101 - f2) / (59.5 + f2)) = a2 at hA hA0
  generalize afterRain rain (c * (101 - f1) / (59.5 + f1)) = a1 at hA
  have hX := xmOf_monotone a2 a1 ed ew kd kw hew hkd hkw hA
  have hXl := xmOf_lower a2 ed ew kd kw hew hedl hkd hkw1 hA0
  exact code_of_moisture_antitone c _ _ (by linarith) (by linarith) hX

/-- Witness for C33 (amended) at a step of one hour without rain, from the code
`85` to the code `90`. -/
theorem forward_monotone_light_rain_witness :
    calc_subdaily_ffmc_vanwagner 3600 85 0 20 0.45 10 ≤
      calc_subdaily_ffmc_vanwagner 3600 90 0 20 0.45 10 :=
  forward_monotone_light_rain 3600 85 90 0 20 0.45 10 (by norm_num) (by norm_num) (by norm_num)
    (by norm_num) (by norm_num) (by norm_num)

/-! ### Rain on the duff moisture code and monotonicity of the fire weather index -/

/-- C34: rain never raises the duff moisture code. For `in_dmc ≥ 0`, a
temperature of at most 60 and a rain in `(1.5, 600]`, the argument `wmr - 20`
of the logarithm of the wetting branch is positive and
`calc_dmc in_dmc rain … ≤ calc_dmc in_dmc 0 …`. -/
theorem calc_dmc_rain_never_raises (in_dmc rain temperature latitude lon rh : ℝ) (mm : Fin 12)
    (h0 : 0 ≤ in_dmc) (ht : temperature ≤ 60) (hr0 : 1.5 < rain) (hr1 : rain ≤ 600) :
    0 < 20 + Real.exp (5.6348 - in_dmc / 43.43) +
        1000 * (0.92 * rain - 1.27) /
          (48.77 + (if in_dmc ≤ 33 then 100 / (0.5 + (0.3 * in_dmc))
            else if in_dmc > 65 then 6.2 * Real.log in_dmc - 17.2
            else 14 - 1.3 * Real.log in_dmc) * (0.92 * rain - 1.27)) - 20 ∧
      calc_dmc in_dmc rain temperature latitude lon mm rh ≤
        calc_dmc in_dmc 0 temperature latitude lon mm rh := by
  -- Helper: the slope coefficient `b` of the rain phase of `calc_dmc`
  -- (equations 13a, 13b, 13c) is positive for a non-negative code.
  have dmc_b_pos (po : ℝ) (h0 : 0 ≤ po) :
      0 < (if po ≤ 33 then 100 / (0.5 + (0.3 * po))
        else if po > 65 then 6.2 * Real.log po - 17.2
        else 14 - 1.3 * Real.log po) := by
    split_ifs with c1 c2
    · exact div_pos (by norm_num) (by linarith)
    · have h3 : (3 : ℝ) ≤ Real.log po := by
        rw [Real.le_log_iff_exp_le (by linarith)]
        have e : Real.exp 3 = Real.exp 1 * Real.exp 1 * Real.exp 1 := by
          rw [← Real.exp_add, ← Real.exp_add]
          norm_num
        have h1 := Real.exp_one_lt_d9
        have hp := Real.exp_pos 1
        have h2 : Real.exp 1 * Real.exp 1 ≤ 3 * 3 :=
          mul_le_mul (by linarith) (by linarith) hp.le (by norm_num)
        have h4 : Real.exp 1 * Real.exp 1 * Real.exp 1 ≤ 3 * 3 * 3 :=
          mul_le_mul h2 (by linarith) hp.le (by norm_num)
        rw [e]
        linarith
      linarith
    · have h3 : Real.log po ≤ 10.7 := by
        rw [Real.log_le_iff_le_exp (by linarith)]
        have hq := Real.quadratic_le_exp_of_nonneg (show (0 : ℝ) ≤ 10.7 by norm_num)
        have : (65 : ℝ) ≤ 1 + 10.7 + 10.7 ^ 2 / 2 := by norm_num
        linarith
      linarith
  have key : ∀ pr po rk : ℝ, pr ≤ po →
      (if (if pr < 0 then (0 : ℝ) else pr) + rk < 0 then (0 : ℝ)
        else (if pr < 0 then (0 : ℝ) else pr) + rk) ≤
      (if (if po < 0 then (0 : ℝ) else po) + rk < 0 then (0 : ℝ)
        else (if po < 0 then (0 : ℝ) else po) + rk) := by
    intro pr po rk h
    split_ifs <;> linarith
  have hbad1 : ¬ (in_dmc < 0 ∨ temperature > 60 ∨ rain < 0 ∨ rain > 600) := by
    rintro (h | h | h | h) <;> linarith
  have hbad0 : ¬ (in_dmc < 0 ∨ temperature > 60 ∨ (0 : ℝ) < 0 ∨ (0 : ℝ) > 600) := by
    rintro (h | h | h | h) <;> linarith
  have hb := dmc_b_pos in_dmc h0
  have hrw : 0 < 0.92 * rain - 1.27 := by linarith
  have hq : 0 < 1000 * (0.92 * rain - 1.27) /
      (48.77 + (if in_dmc ≤ 33 then 100 / (0.5 + (0.3 * in_dmc))
        else if in_dmc > 65 then 6.2 * Real.log in_dmc - 17.2
        else 14 - 1.3 * Real.log in_dmc) * (0.92 * rain - 1.27)) :=
    div_pos (by linarith) (by positivity)
  have he := Real.exp_pos (5.6348 - in_dmc / 43.43)
  have hpos : 0 < 20 + Real.exp (5.6348 - in_dmc / 43.43) +
      1000 * (0.92 * rain - 1.27) /
        (48.77 + (if in_dmc ≤ 33 then 100 / (0.5 + (0.3 * in_dmc))
          else if in_dmc > 65 then 6.2 * Real.log in_dmc - 17.2
          else 14 - 1.3 * Real.log in_dmc) * (0.92 * rain - 1.27)) - 20 := by
    linarith
  have hlog : 5.6348 - in_dmc / 43.43 ≤
      Real.log (20 + Real.exp (5.6348 - in_dmc / 43.43) +
        1000 * (0.92 * rain - 1.27) /
          (48.77 + (if in_dmc ≤ 33 then 100 / (0.5 + (0.3 * in_dmc))
            else if in_dmc > 65 then 6.2 * Real.log in_dmc - 17.2
            else 14 - 1.3 * Real.log in_dmc) * (0.92 * rain - 1.27)) - 20) := by
    rw [Real.le_log_iff_exp_le hpos]
    linarith
  have hpr : 43.43 * (5.6348 -
      Real.log (20 + Real.exp (5.6348 - in_dmc / 43.43) +
        1000 * (0.92 * rain - 1.27) /
          (48.77 + (if in_dmc ≤ 33 then 100 / (0.5 + (0.3 * in_dmc))
            else if in_dmc > 65 then 6.2 * Real.log in_dmc - 17.2
            else 14 - 1.3 * Real.log in_dmc) * (0.92 * rain - 1.27)) - 20)) ≤ in_dmc := by
    have e : in_dmc = 43.43 * (in_dmc / 43.43) := by
      field_simp
    linarith
  refine ⟨hpos, ?_⟩
  unfold calc_dmc
  simp only []
  rw [if_neg hbad1, if_neg hbad0, if_pos (show rain > 1.5 from hr0),
    if_neg (show ¬ ((0 : ℝ) > 1.5) by norm_num)]
  exact key _ _ _ hpr

/-- Witness for C34 at `in_dmc = 40` with 10 mm of rain. -/
theorem calc_dmc_rain_never_raises_witness :
    calc_dmc 40 10 20 0.9 0 6 0.45 ≤ calc_dmc 40 0 20 0.9 0 6 0.45 :=
  (calc_dmc_rain_never_raises 40 10 20 0.9 0 0.45 6 (by norm_num) (by norm_num) (by norm_num)
    (by norm_num)).2

/-- Helper: the last step of `calc_fwi`, the identity up to `1` and
`exp (2.72 * (0.434 * log bb) ^ 0.647)` above, is monotone. -/
theorem fwi_tail_monotone (a b : ℝ) (hab : a ≤ b) :
    (if a ≤ 1 then a else Real.exp (2.72 * (0.434 * Real.log a) ^ (0.647 : ℝ))) ≤
      (if b ≤ 1 then b else Real.exp (2.72 * (0.434 * Real.log b) ^ (0.647 : ℝ))) := by
  by_cases ha : a ≤ 1
  · rw [if_pos ha]
    by_cases hb : b ≤ 1
    · rw [if_pos hb]
      exact hab
    · rw [if_neg hb]
      have hl : 0 ≤ Real.log b := Real.log_nonneg (by linarith)
      have hp := Real.rpow_nonneg (show 0 ≤ 0.434 * Real.log b by positivity) (0.647 : ℝ)
      have := Real.one_le_exp (show 0 ≤ 2.72 * (0.434 * Real.log b) ^ (0.647 : ℝ) by positivity)
      linarith
  · have ha1 : 1 < a := not_le.mp ha
    have hb : ¬ b ≤ 1 := by linarith
    rw [if_neg ha, if_neg hb]
    apply Real.exp_le_exp.mpr
    have hl : Real.log a ≤ Real.log b := Real.log_le_log (by linarith) hab
    have hla : 0 ≤ Real.log a := Real.log_nonneg ha1.le
    have := Real.rpow_le_rpow (show 0 ≤ 0.434 * Real.log a by positivity)
      (show 0.434 * Real.log a ≤ 0.434 * Real.log b by linarith) (show (0 : ℝ) ≤ 0.647 by norm_num)
    linarith

/-- C37: `calc_fwi` is monotone in the spread index. For `bui ≥ 0` and
`0 ≤ isi1 ≤ isi2`, `calc_fwi isi1 bui ≤ calc_fwi isi2 bui`, also across the
switch between the identity branch (`bb ≤ 1`) and the log-log branch. -/
theorem calc_fwi_monotone_isi (isi1 isi2 bui : ℝ) (hb : 0 ≤ bui) (_h1 : 0 ≤ isi1)
    (h12 : isi1 ≤ isi2) : calc_fwi isi1 bui ≤ calc_fwi isi2 bui := by
  unfold calc_fwi
  simp only []
  apply fwi_tail_monotone
  split_ifs
  · have := Real.exp_pos (0.023 * bui)
    have hK : 0 ≤ 1000 / (25 + 108.64 / Real.exp (0.023 * bui)) := by positivity
    nlinarith
  · have := Real.rpow_nonneg hb (0.809 : ℝ)
    nlinarith

/-- Witness for C37 at `bui = 60`, across the switch of branches: the spread
index `0.1` gives `bb ≤ 1` and the spread index `10` gives `bb > 1`. -/
theorem calc_fwi_monotone_isi_witness : calc_fwi 0.1 60 ≤ calc_fwi 10 60 :=
  calc_fwi_monotone_isi 0.1 10 60 (by norm_num) (by norm_num) (by norm_num)

/-- Helper: `34.63 ≤ 80 ^ 0.809 ≤ 34.75`. -/
theorem rpow_80_bounds : (34.63 : ℝ) ≤ (80 : ℝ) ^ (0.809 : ℝ) ∧ (80 : ℝ) ^ (0.809 : ℝ) ≤ 34.75 := by
  constructor
  · have h1 : (80 : ℝ) ^ ((72 : ℝ) * ((89 : ℕ) : ℝ)⁻¹) ≤ (80 : ℝ) ^ (0.809 : ℝ) :=
      Real.rpow_le_rpow_of_exponent_le (by norm_num) (by norm_num)
    have h2 : (80 : ℝ) ^ ((72 : ℝ) * ((89 : ℕ) : ℝ)⁻¹) =
        ((80 : ℝ) ^ (72 : ℕ)) ^ (((89 : ℕ) : ℝ)⁻¹) := by
      rw [Real.rpow_mul (by norm_num), ← Real.rpow_natCast]
      norm_num
    have h3 : ((34.63 : ℝ) ^ (89 : ℕ)) ^ (((89 : ℕ) : ℝ)⁻¹) ≤
        ((80 : ℝ) ^ (72 : ℕ)) ^ (((89 : ℕ) : ℝ)⁻¹) :=
      Real.rpow_le_rpow (by norm_num) (by norm_num) (by norm_num)
    have h4 : ((34.63 : ℝ) ^ (89 : ℕ)) ^ (((89 : ℕ) : ℝ)⁻¹) = 34.63 :=
      Real.pow_rpow_inv_natCast (by norm_num) (by norm_num)
    rw [h2] at h1
    linarith
  · have h1 : (80 : ℝ) ^ (0.809 : ℝ) ≤ (80 : ℝ) ^ ((17 : ℝ) * ((21 : ℕ) : ℝ)⁻¹) :=
      Real.rpow_le_rpow_of_exponent_le (by norm_num) (by norm_num)
    have h2 : (80 : ℝ) ^ ((17 : ℝ) * ((21 : ℕ) : ℝ)⁻¹) =
        ((80 : ℝ) ^ (17 : ℕ)) ^ (((21 : ℕ) : ℝ)⁻¹) := by
      rw [Real.rpow_mul (by norm_num), ← Real.rpow_natCast]
      norm_num
    have h3 : ((80 : ℝ) ^ (17 : ℕ)) ^ (((21 : ℕ) : ℝ)⁻¹) ≤
        ((34.75 : ℝ) ^ (21 : ℕ)) ^ (((21 : ℕ) : ℝ)⁻¹) :=
      Real.rpow_le_rpow (by norm_num) (by norm_num) (by norm_num)
    have h4 : ((34.75 : ℝ) ^ (21 : ℕ)) ^ (((21 : ℕ) : ℝ)⁻¹) = 34.75 :=
      Real.pow_rpow_inv_natCast (by norm_num) (by norm_num)
    rw [h2] at h1
    linarith

/-- Helper: the factor `1000 / (25 + 108.64 / exp (0.023 * bui))` of the branch
`bui > 80` is monotone in `bui` and at most `40`. -/
theorem fwi_high_branch (x y : ℝ) (hxy : x ≤ y) :
    1000 / (25 + 108.64 / Real.exp (0.023 * x)) ≤ 1000 / (25 + 108.64 / Real.exp (0.023 * y)) ∧
      1000 / (25 + 108.64 / Real.exp (0.023 * x)) ≤ 40 := by
  have hx := Real.exp_pos (0.023 * x)
  have hy := Real.exp_pos (0.023 * y)
  have hexp : Real.exp (0.023 * x) ≤ Real.exp (0.023 * y) := Real.exp_le_exp.mpr (by linarith)
  have hq : 108.64 / Real.exp (0.023 * y) ≤ 108.64 / Real.exp (0.023 * x) :=
    div_le_div_of_nonneg_left (by norm_num) hx hexp
  have hqy : 0 < 108.64 / Real.exp (0.023 * y) := by positivity
  have hqx : 0 < 108.64 / Real.exp (0.023 * x) := by positivity
  constructor
  · exact div_le_div_of_nonneg_left (by norm_num) (by linarith) (by linarith)
  · rw [div_le_iff₀ (by linarith)]
    linarith

/-- C38 (counterexample): `calc_fwi` is not monotone in the buildup index across
the switch at `bui = 80`. At the spread index `0.1` the power-law branch gives
`0.01 * (0.626 * 80 ^ 0.809 + 2)`, about `0.23686`, at `bui = 80`, and the other
branch gives `0.01 * 1000 / (25 + 108.64 / exp (0.023 * 80.01))`, about
`0.23669`, at `bui = 80.01`. -/
theorem calc_fwi_monotone_bui_counterexample : ¬ (calc_fwi 0.1 80 ≤ calc_fwi 0.1 80.01) := by
  obtain ⟨hL, hU⟩ := rpow_80_bounds
  have hE : Real.exp (0.023 * 80.01) ≤ 6.3025 := by
    have e : (0.023 * 80.01 : ℝ) = 1 + 1 + -0.15977 := by norm_num
    rw [e, Real.exp_add, Real.exp_add, Real.exp_neg, ← div_eq_mul_inv,
      div_le_iff₀ (Real.exp_pos _)]
    have h1 := Real.exp_one_lt_d9
    have hp := Real.exp_pos 1
    have hq := Real.quadratic_le_exp_of_nonneg (show (0 : ℝ) ≤ 0.15977 by norm_num)
    have h2 : Real.exp 1 * Real.exp 1 ≤ 2.7182818286 * 2.7182818286 :=
      mul_le_mul h1.le h1.le hp.le (by norm_num)
    have h3 : (2.7182818286 : ℝ) * 2.7182818286 ≤
        6.3025 * (1 + 0.15977 + 0.15977 ^ 2 / 2) := by norm_num
    nlinarith
  have hEpos := Real.exp_pos (0.023 * 80.01)
  obtain ⟨-, h40⟩ := fwi_high_branch 80.01 80.01 (le_refl _)
  have v1 : calc_fwi 0.1 80 = 0.1 * 0.1 * (0.626 * (80 : ℝ) ^ (0.809 : ℝ) + 2) := by
    unfold calc_fwi
    simp only []
    rw [if_neg (by norm_num : ¬ ((80 : ℝ) > 80)), if_pos (by nlinarith)]
  have v2 : calc_fwi 0.1 80.01 =
      0.1 * 0.1 * (1000 / (25 + 108.64 / Real.exp (0.023 * 80.01))) := by
    unfold calc_fwi
    simp only []
    rw [if_pos (by norm_num : (80.01 : ℝ) > 80), if_pos (by nlinarith)]
  rw [v1, v2, not_le]
  have hq : 108.64 / 6.3025 ≤ 108.64 / Real.exp (0.023 * 80.01) :=
    div_le_div_of_nonneg_left (by norm_num) hEpos hE
  have hden : 1000 / (25 + 108.64 / Real.exp (0.023 * 80.01)) ≤ 1000 / (25 + 108.64 / 6.3025) :=
    div_le_div_of_nonneg_left (by norm_num) (by norm_num) (by linarith)
  have hn : (1000 : ℝ) / (25 + 108.64 / 6.3025) < 0.626 * 34.63 + 2 := by norm_num
  nlinarith

/-- C38 (amended): `calc_fwi` is monotone in the buildup index on each side of
the switch at `bui = 80`, and from any `bui1 ≤ 80` to any `bui2 ≥ 81`. For
`isi ≥ 0` and `0 ≤ bui1 ≤ bui2` with `bui2 ≤ 80`, or `80 < bui1`, or
`81 ≤ bui2`, `calc_fwi isi bui1 ≤ calc_fwi isi bui2`. -/
theorem calc_fwi_monotone_bui (isi bui1 bui2 : ℝ) (hi : 0 ≤ isi) (h1 : 0 ≤ bui1)
    (h12 : bui1 ≤ bui2) (hside : bui2 ≤ 80 ∨ 80 < bui1 ∨ 81 ≤ bui2) :
    calc_fwi isi bui1 ≤ calc_fwi isi bui2 := by
  have hf : (if bui1 > 80 then 1000 / (25 + 108.64 / Real.exp (0.023 * bui1))
        else 0.626 * bui1 ^ (0.809 : ℝ) + 2) ≤
      (if bui2 > 80 then 1000 / (25 + 108.64 / Real.exp (0.023 * bui2))
        else 0.626 * bui2 ^ (0.809 : ℝ) + 2) := by
    by_cases c1 : bui1 > 80
    · rw [if_pos c1, if_pos (show bui2 > 80 by linarith)]
      exact (fwi_high_branch bui1 bui2 h12).1
    · rw [if_neg c1]
      by_cases c2 : bui2 > 80
      · rw [if_pos c2]
        have h81 : 81 ≤ bui2 := by
          rcases hside with h | h | h
          · linarith
          · exact absurd h c1
          · exact h
        have hp : bui1 ^ (0.809 : ℝ) ≤ (80 : ℝ) ^ (0.809 : ℝ) :=
          Real.rpow_le_rpow h1 (not_lt.mp c1) (by norm_num)
        have hU := rpow_80_bounds.2
        have hE : 6.36 ≤ Real.exp (0.023 * 81) := by
          have e : (0.023 * 81 : ℝ) = 1 + 1 + -0.137 := by norm_num
          rw [e, Real.exp_add, Real.exp_add]
          have g1 := Real.exp_one_gt_d9
          have g2 := Real.add_one_le_exp (-0.137 : ℝ)
          have g3 : (2.7182818283 : ℝ) * 2.7182818283 ≤ Real.exp 1 * Real.exp 1 :=
            mul_le_mul g1.le g1.le (by norm_num) (Real.exp_pos 1).le
          have g4 : (2.7182818283 : ℝ) * 2.7182818283 * (-0.137 + 1) ≤
              Real.exp 1 * Real.exp 1 * Real.exp (-0.137) :=
            mul_le_mul g3 g2 (by norm_num) (by positivity)
          have g5 : (6.36 : ℝ) ≤ 2.7182818283 * 2.7182818283 * (-0.137 + 1) := by norm_num
          linarith
        have hq : 108.64 / Real.exp (0.023 * 81) ≤ 108.64 / 6.36 :=
          div_le_div_of_nonneg_left (by norm_num) (by norm_num) hE
        have hq0 : 0 < 108.64 / Real.exp (0.023 * 81) := by
          have := Real.exp_pos (0.023 * 81)
          positivity
        have h80 : (1000 : ℝ) / (25 + 108.64 / 6.36) ≤
            1000 / (25 + 108.64 / Real.exp (0.023 * 81)) :=
          div_le_div_of_nonneg_left (by norm_num) (by linarith) (by linarith)
        have hn : (0.626 : ℝ) * 34.75 + 2 ≤ 1000 / (25 + 108.64 / 6.36) := by norm_num
        have hm := (fwi_high_branch 81 bui2 h81).1
        linarith
      · rw [if_neg c2]
        have hp : bui1 ^ (0.809 : ℝ) ≤ bui2 ^ (0.809 : ℝ) :=
          Real.rpow_le_rpow h1 h12 (by norm_num)
        linarith
  have hbb : (if bui1 > 80 then 0.1 * isi * (1000 / (25 + 108.64 / Real.exp (0.023 * bui1)))
        else 0.1 * isi * (0.626 * bui1 ^ (0.809 : ℝ) + 2)) ≤
      (if bui2 > 80 then 0.1 * isi * (1000 / (25 + 108.64 / Real.exp (0.023 * bui2)))
        else 0.1 * isi * (0.626 * bui2 ^ (0.809 : ℝ) + 2)) := by
    have e : ∀ b : ℝ, (if b > 80 then 0.1 * isi * (1000 / (25 + 108.64 / Real.exp (0.023 * b)))
          else 0.1 * isi * (0.626 * b ^ (0.809 : ℝ) + 2)) =
        0.1 * isi * (if b > 80 then 1000 / (25 + 108.64 / Real.exp (0.023 * b))
          else 0.626 * b ^ (0.809 : ℝ) + 2) := by
      intro b
      split_ifs <;> rfl
    rw [e, e]
    exact mul_le_mul_of_nonneg_left hf (by positivity)
  unfold calc_fwi
  simp only []
  exact fwi_tail_monotone _ _ hbb

/-- Witness for C38 (amended) from `bui = 40` to `bui = 120`, across the switch. -/
theorem calc_fwi_monotone_bui_witness : calc_fwi 10 40 ≤ calc_fwi 10 120 :=
  calc_fwi_monotone_bui 10 40 120 (by norm_num) (by norm_num) (by norm_num)
    (Or.inr (Or.inr (by norm_num)))
end WISE

end
